import Mathlib

/-!
# Kascade renderer: scene-graph transforms, primitive creation, mip chains, memory types,
materials, document loading, draw order, the frame loop

A shallow embedding of the parts of the Kascade sources that the properties below
are about (`GltfNode.cpp`, `GltfModel.cpp`, `GltfPrimitive.cpp`, `GltfMaterial.cpp`,
`Texture.cpp`, `Cubemap.cpp`, `Buffer.cpp`, `VertexIndexBuffers.cpp`, `Swapchain.cpp`,
`Framebuffer.cpp`, `SyncObjects.cpp`, `Application.cpp`).

Conventions of the embedding:

* `float`/`double` scalars are an arbitrary commutative ring `α` (exact arithmetic);
  `static_cast<float>` is the identity on `α`.
* A `glm::mat4` is four columns of `glm::vec4`; `m[c][r]` is `Mat4.get m c r`.
* The `mutable` world-matrix cache is made explicit: functions that touch it take the
  whole node collection and return the updated one.
* Recursion through parent links is bounded by a fuel argument; `none` means that the
  fuel ran out (the C++ recursion would not have returned within that depth).
* C++ exceptions are `Except.error` carrying the message of the `throw`.
* Answers of the Vulkan driver are fields of `Device`; the answers that one frame gets
  are fields of `FrameDriver`.
* Where a material needs the scalar 0.5 the scalars are a field.
* The frame loop logs its calls into the driver and the window system in `World.log`;
  a call that never returns (a wait that nothing ends) is `none`.
* Image layouts are a state `(layer, level) -> layout` on which recorded barriers and
  blits are run (`runLayouts`); a fence is signaled, unsignaled or pending.
-/

set_option linter.unusedSectionVars false

namespace Kascade

/-! ## glm vectors, quaternions and matrices -/

/-- The type `glm::vec3`. -/
structure Vec3 (α : Type) where
  x : α
  y : α
  z : α
deriving DecidableEq, Repr

/-- The type `glm::vec4`. -/
structure Vec4 (α : Type) where
  x : α
  y : α
  z : α
  w : α
deriving DecidableEq, Repr

/-- The type `glm::quat`, built as `glm::quat(w, x, y, z)`. -/
structure Quat (α : Type) where
  w : α
  x : α
  y : α
  z : α
deriving DecidableEq, Repr

/-- The type `glm::mat4`: four columns, `m[c]` is column `c`. -/
structure Mat4 (α : Type) where
  c0 : Vec4 α
  c1 : Vec4 α
  c2 : Vec4 α
  c3 : Vec4 α
deriving DecidableEq, Repr

section glm
variable {α : Type} [CommRing α]

/-- Component `v[r]` of a `vec4`. -/
def Vec4.get (v : Vec4 α) (r : Fin 4) : α :=
  match r with
  | 0 => v.x
  | 1 => v.y
  | 2 => v.z
  | 3 => v.w

/-- Assignment `v[r] = a`. -/
def Vec4.set (v : Vec4 α) (r : Fin 4) (a : α) : Vec4 α :=
  match r with
  | 0 => { v with x := a }
  | 1 => { v with y := a }
  | 2 => { v with z := a }
  | 3 => { v with w := a }

/-- Component-wise `vec4 + vec4`. -/
def Vec4.add (u v : Vec4 α) : Vec4 α :=
  ⟨u.x + v.x, u.y + v.y, u.z + v.z, u.w + v.w⟩

/-- Scaling `vec4 * scalar`. -/
def Vec4.smul (v : Vec4 α) (a : α) : Vec4 α :=
  ⟨v.x * a, v.y * a, v.z * a, v.w * a⟩

/-- Column `m[c]` of a `mat4`. -/
def Mat4.col (m : Mat4 α) (c : Fin 4) : Vec4 α :=
  match c with
  | 0 => m.c0
  | 1 => m.c1
  | 2 => m.c2
  | 3 => m.c3

/-- Element `m[c][r]`: column `c`, row `r`. -/
def Mat4.get (m : Mat4 α) (c r : Fin 4) : α :=
  (m.col c).get r

/-- Assignment `m[c][r] = a`. -/
def Mat4.set (m : Mat4 α) (c r : Fin 4) (a : α) : Mat4 α :=
  match c with
  | 0 => { m with c0 := m.c0.set r a }
  | 1 => { m with c1 := m.c1.set r a }
  | 2 => { m with c2 := m.c2.set r a }
  | 3 => { m with c3 := m.c3.set r a }

/-- The constructor `glm::mat4(1.0f)`: the identity matrix. -/
def Mat4.identity : Mat4 α :=
  ⟨⟨1, 0, 0, 0⟩, ⟨0, 1, 0, 0⟩, ⟨0, 0, 1, 0⟩, ⟨0, 0, 0, 1⟩⟩

/-- The product `mat4 * vec4` as glm computes it: a combination of the columns. -/
def Mat4.mulVec (m : Mat4 α) (v : Vec4 α) : Vec4 α :=
  ((((m.c0.smul v.x).add (m.c1.smul v.y)).add (m.c2.smul v.z)).add (m.c3.smul v.w))

/-- The product `mat4 * mat4` of glm: column `c` of the result is `m1 * m2[c]`. -/
def Mat4.mul (m1 m2 : Mat4 α) : Mat4 α :=
  ⟨m1.mulVec m2.c0, m1.mulVec m2.c1, m1.mulVec m2.c2, m1.mulVec m2.c3⟩

instance : Mul (Mat4 α) := ⟨Mat4.mul⟩

/-- The function `glm::translate(m, v)`: the last column becomes
`m[0]*v[0] + m[1]*v[1] + m[2]*v[2] + m[3]`. -/
def translate (m : Mat4 α) (v : Vec3 α) : Mat4 α :=
  { m with c3 := (((m.c0.smul v.x).add (m.c1.smul v.y)).add (m.c2.smul v.z)).add m.c3 }

/-- The function `glm::scale(m, v)`: the first three columns are scaled. -/
def scale (m : Mat4 α) (v : Vec3 α) : Mat4 α :=
  ⟨m.c0.smul v.x, m.c1.smul v.y, m.c2.smul v.z, m.c3⟩

/-- The function `glm::mat4_cast(q)`: the rotation matrix of a quaternion
(`mat3_cast` padded with the identity). -/
def mat4_cast (q : Quat α) : Mat4 α :=
  let qxx := q.x * q.x
  let qyy := q.y * q.y
  let qzz := q.z * q.z
  let qxz := q.x * q.z
  let qxy := q.x * q.y
  let qyz := q.y * q.z
  let qwx := q.w * q.x
  let qwy := q.w * q.y
  let qwz := q.w * q.z
  ⟨⟨1 - 2 * (qyy + qzz), 2 * (qxy + qwz), 2 * (qxz - qwy), 0⟩,
   ⟨2 * (qxy - qwz), 1 - 2 * (qxx + qzz), 2 * (qyz + qwx), 0⟩,
   ⟨2 * (qxz + qwy), 2 * (qyz - qwx), 1 - 2 * (qxx + qyy), 0⟩,
   ⟨0, 0, 0, 1⟩⟩

/-- The pure translation matrix by `t`: identity with last column `(t.x, t.y, t.z, 1)`. -/
def translationMatrix (t : Vec3 α) : Mat4 α :=
  ⟨⟨1, 0, 0, 0⟩, ⟨0, 1, 0, 0⟩, ⟨0, 0, 1, 0⟩, ⟨t.x, t.y, t.z, 1⟩⟩

end glm

/-! ## GltfNode (GltfNode.h, GltfNode.cpp) -/

/-- The class `GltfNode`, with the private `mutable` cache fields made explicit. -/
structure GltfNode (α : Type) where
  name : String
  index : Int
  meshIndex : Int
  skinIndex : Int
  cameraIndex : Int
  translation : Vec3 α
  rotation : Quat α
  scale : Vec3 α
  matrix : Mat4 α
  useTRS : Bool
  children : List Int
  parent : Int
  m_worldMatrixCache : Mat4 α
  m_worldMatrixDirty : Bool
deriving DecidableEq, Repr

section node
variable {α : Type} [CommRing α]

/-- A default-constructed `GltfNode` (the member initialisers of GltfNode.h). -/
def GltfNode.default : GltfNode α :=
  { name := "", index := -1, meshIndex := -1, skinIndex := -1, cameraIndex := -1,
    translation := ⟨0, 0, 0⟩, rotation := ⟨1, 0, 0, 0⟩, scale := ⟨1, 1, 1⟩,
    matrix := Mat4.identity, useTRS := true, children := [], parent := -1,
    m_worldMatrixCache := Mat4.identity, m_worldMatrixDirty := true }

/-- The method `GltfNode::getLocalMatrix`: `T * R * S` for a TRS node, the stored matrix
otherwise. -/
def GltfNode.getLocalMatrix (n : GltfNode α) : Mat4 α :=
  if n.useTRS then
    let T := translate Mat4.identity n.translation
    let R := mat4_cast n.rotation
    let S := Kascade.scale Mat4.identity n.scale
    T * R * S
  else
    n.matrix

/-- The assignments `m_worldMatrixCache = w; m_worldMatrixDirty = false;` on one node. -/
def GltfNode.storeWorld (w : Mat4 α) (n : GltfNode α) : GltfNode α :=
  { n with m_worldMatrixCache := w, m_worldMatrixDirty := false }

/-- The method `GltfNode::getWorldMatrix(allNodes)` called on `allNodes[i]`.
Returns the matrix and the node collection with the caches it wrote.
`none`: the fuel ran out, or `i` is not a node of the collection. -/
def GltfNode.getWorldMatrix : Nat → List (GltfNode α) → Nat → Option (Mat4 α × List (GltfNode α))
  | 0, _, _ => none
  | fuel + 1, allNodes, i =>
    match allNodes[i]? with
    | none => none
    | some self =>
      if !self.m_worldMatrixDirty then
        some (self.m_worldMatrixCache, allNodes)
      else
        let localTransform := self.getLocalMatrix
        if 0 ≤ self.parent ∧ self.parent < (allNodes.length : Int) then
          match GltfNode.getWorldMatrix fuel allNodes self.parent.toNat with
          | none => none
          | some (parentWorld, allNodes') =>
            let w := parentWorld * localTransform
            some (w, allNodes'.modify (GltfNode.storeWorld w) i)
        else
          let w := localTransform
          some (w, allNodes.modify (GltfNode.storeWorld w) i)

/-- The method `GltfNode::markDirty` on one node. -/
def GltfNode.markDirty (n : GltfNode α) : GltfNode α :=
  { n with m_worldMatrixDirty := true }

/-- The call `allNodes[i].markDirty()` as a state change of the collection. -/
def markDirtyAt (allNodes : List (GltfNode α)) (i : Nat) : List (GltfNode α) :=
  allNodes.modify GltfNode.markDirty i

/-! ## Parent links and acyclicity of the hierarchy -/

/-- The parent that `getWorldMatrix` recurses into from node `i`: `some p` exactly when
`parent` passes the test `parent >= 0 && parent < allNodes.size()`. -/
def parentLink (allNodes : List (GltfNode α)) (i : Nat) : Option Nat :=
  match allNodes[i]? with
  | none => none
  | some n =>
    if 0 ≤ n.parent ∧ n.parent < (allNodes.length : Int) then some n.parent.toNat else none

/-- Walking parent links from `i` arrives at a node without parent link after fewer than
`k` steps. -/
def reachesRoot (allNodes : List (GltfNode α)) : Nat → Nat → Bool
  | 0, _ => false
  | k + 1, i =>
    match parentLink allNodes i with
    | none => true
    | some p => reachesRoot allNodes k p

/-- The parent relation is acyclic: from every node the chain of parent links ends.
A chain without repetition visits at most `length` nodes, so `length` steps decide it
(see `acyclic_iff_noCycle`). -/
def Acyclic (allNodes : List (GltfNode α)) : Prop :=
  ∀ i, i < allNodes.length → reachesRoot allNodes allNodes.length i = true

instance (allNodes : List (GltfNode α)) : Decidable (Acyclic allNodes) := by
  unfold Acyclic; infer_instance

/-- The `k`-th ancestor of node `i` along parent links, if the chain is that long. -/
def ancestor (allNodes : List (GltfNode α)) : Nat → Nat → Option Nat
  | 0, i => some i
  | k + 1, i =>
    match parentLink allNodes i with
    | none => none
    | some p => ancestor allNodes k p

/-- No node is its own proper ancestor. -/
def NoCycle (allNodes : List (GltfNode α)) : Prop :=
  ∀ i k, 0 < k → ancestor allNodes k i ≠ some i

/-- Every node of the collection has its dirty flag set. -/
def AllDirty (allNodes : List (GltfNode α)) : Prop :=
  ∀ n ∈ allNodes, n.m_worldMatrixDirty = true

instance (allNodes : List (GltfNode α)) : Decidable (AllDirty allNodes) := by
  unfold AllDirty; infer_instance

/-! ## The loops of the transform refresh (GltfModel.cpp) -/

/-- The loop `for (i = 0; i < m_nodes.size(); ++i) worldMatrices[i] =
m_nodes[i].getWorldMatrix(m_nodes);` over the listed indices, threading the caches. -/
def worldMatricesLoop (fuel : Nat) :
    List Nat → List (GltfNode α) → Option (List (Mat4 α) × List (GltfNode α))
  | [], allNodes => some ([], allNodes)
  | i :: rest, allNodes =>
    match GltfNode.getWorldMatrix fuel allNodes i with
    | none => none
    | some (w, allNodes') =>
      match worldMatricesLoop fuel rest allNodes' with
      | none => none
      | some (ws, allNodes2) => some (w :: ws, allNodes2)

/-- The first two loops of `GltfModel::updateTransforms`: mark every node dirty, then
fill `worldMatrices` by calling `getWorldMatrix` on the nodes in index order. -/
def computeWorldMatrices (fuel : Nat) (m_nodes : List (GltfNode α)) :
    Option (List (Mat4 α) × List (GltfNode α)) :=
  worldMatricesLoop fuel (List.range m_nodes.length) (m_nodes.map GltfNode.markDirty)

/-! ## Reference semantics of the world transform (used to state and prove the cache's
correctness; not part of the program) -/

/-- A node with its cache fields reset: what remains is the hierarchy and the local
transform. -/
def GltfNode.skeleton (n : GltfNode α) : GltfNode α :=
  { n with m_worldMatrixCache := Mat4.identity, m_worldMatrixDirty := true }

/-- Two node collections differ at most in cache fields. -/
def SameShape (s t : List (GltfNode α)) : Prop :=
  s.length = t.length ∧
    ∀ j : Nat, (s[j]?).map (fun n => n.skeleton) = (t[j]?).map (fun n => n.skeleton)

/-- The local matrix of node `i` of a collection. -/
def localOf (allNodes : List (GltfNode α)) (i : Nat) : Mat4 α :=
  match allNodes[i]? with
  | some n => n.getLocalMatrix
  | none => Mat4.identity

/-- The world matrix as a pure function of hierarchy and local transforms: the product of
the local matrices along the chain of parent links, outermost ancestor first. -/
def worldSpec (allNodes : List (GltfNode α)) : Nat → Nat → Mat4 α
  | 0, _ => Mat4.identity
  | k + 1, i =>
    match parentLink allNodes i with
    | none => localOf allNodes i
    | some p => worldSpec allNodes k p * localOf allNodes i

/-- The cache invariant relative to a reference collection `s0`: same shape, and every
clean node caches the reference world matrix. -/
def CacheInv (s0 s : List (GltfNode α)) : Prop :=
  SameShape s0 s ∧
  ∀ (j : Nat) (n : GltfNode α), s[j]? = some n → n.m_worldMatrixDirty = false →
    n.m_worldMatrixCache = worldSpec s0 s0.length j

end node


/-! ## The glTF document (the parts of `tinygltf::Model` read by the node loader) -/

namespace tinygltf

/-- The struct `tinygltf::Node`. `matrix` has 16 entries (column-major) or none;
`translation`, `rotation` (x, y, z, w) and `scale` have 3, 4, 3 entries or none. -/
structure Node (α : Type) where
  name : String
  mesh : Int
  skin : Int
  camera : Int
  matrix : List α
  translation : List α
  rotation : List α
  scale : List α
  children : List Int
deriving DecidableEq, Repr

/-- The struct `tinygltf::Scene`. -/
structure Scene where
  nodes : List Int
deriving DecidableEq, Repr

/-- The struct `tinygltf::Accessor` (fields read by the loader; defaults of tinygltf). -/
structure Accessor where
  bufferView : Int := -1
  byteOffset : Nat := 0
  componentType : Int := -1
  count : Nat := 0
  type : Int := -1
deriving DecidableEq, Repr

/-- The struct `tinygltf::BufferView`. `byteStride` is 0 for tightly packed data; no
loader modelled here reads it. -/
structure BufferView where
  buffer : Int := -1
  byteOffset : Nat := 0
  byteStride : Nat := 0
deriving DecidableEq, Repr

/-- The struct `tinygltf::Buffer`: raw bytes. -/
structure Buffer where
  data : List Nat := []
deriving DecidableEq, Repr

/-- The struct `tinygltf::Primitive`; `attributes` is the `std::map` from attribute name
to accessor index, `indices` and `material` are -1 when absent. -/
structure Primitive where
  attributes : List (String × Int)
  material : Int := -1
  indices : Int := -1
deriving DecidableEq, Repr

/-- The struct `tinygltf::Mesh`. -/
structure Mesh where
  name : String
  primitives : List Primitive
deriving DecidableEq, Repr

/-- The struct `tinygltf::TextureInfo`: `index` is -1 when the material has no such
texture. -/
structure TextureInfo where
  index : Int := -1
  texCoord : Int := 0
deriving DecidableEq, Repr

/-- The struct `tinygltf::NormalTextureInfo`. -/
structure NormalTextureInfo (α : Type) where
  index : Int
  texCoord : Int
  scale : α
deriving DecidableEq, Repr

/-- The struct `tinygltf::OcclusionTextureInfo`. -/
structure OcclusionTextureInfo (α : Type) where
  index : Int
  texCoord : Int
  strength : α
deriving DecidableEq, Repr

/-- The struct `tinygltf::PbrMetallicRoughness`; `baseColorFactor` is a
`std::vector<double>` of length 4. -/
structure PbrMetallicRoughness (α : Type) where
  baseColorFactor : List α
  metallicFactor : α
  roughnessFactor : α
  baseColorTexture : TextureInfo := {}
  metallicRoughnessTexture : TextureInfo := {}
deriving DecidableEq, Repr

/-- The struct `tinygltf::Material`; `emissiveFactor` is a `std::vector<double>` of
length 3. -/
structure Material (α : Type) where
  name : String
  emissiveFactor : List α
  alphaMode : String
  alphaCutoff : α
  doubleSided : Bool
  pbrMetallicRoughness : PbrMetallicRoughness α
  normalTexture : NormalTextureInfo α
  occlusionTexture : OcclusionTextureInfo α
  emissiveTexture : TextureInfo := {}
deriving DecidableEq, Repr

/-- The struct `tinygltf::Texture` (the loader reads `source` only). -/
structure Texture where
  source : Int := -1
deriving DecidableEq, Repr

/-- The struct `tinygltf::Image`: the decoded pixels (empty when the image was not
embedded), the URI, and the size. -/
structure Image where
  image : List Nat := []
  uri : String := ""
  width : Int := -1
  height : Int := -1
deriving DecidableEq, Repr

/-- The struct `tinygltf::Sampler`. -/
structure Sampler where
  minFilter : Int := -1
  magFilter : Int := -1
  wrapS : Int := 10497
  wrapT : Int := 10497
deriving DecidableEq, Repr

/-- The struct `tinygltf::Model`, restricted to what the modelled loaders read. -/
structure Model (α : Type) where
  nodes : List (Node α)
  scenes : List Scene
  defaultScene : Int
  accessors : List Accessor := []
  bufferViews : List BufferView := []
  buffers : List Buffer := []
  meshes : List Mesh := []
  materials : List (Material α) := []
  textures : List Texture := []
  images : List Image := []
  samplers : List Sampler := []
deriving DecidableEq, Repr

def TINYGLTF_COMPONENT_TYPE_UNSIGNED_BYTE : Int := 5121
def TINYGLTF_COMPONENT_TYPE_UNSIGNED_SHORT : Int := 5123
def TINYGLTF_COMPONENT_TYPE_UNSIGNED_INT : Int := 5125
def TINYGLTF_COMPONENT_TYPE_FLOAT : Int := 5126
def TINYGLTF_TYPE_VEC3 : Int := 3
def TINYGLTF_TYPE_VEC4 : Int := 4

end tinygltf

/-! ## Device answers -/

/-- The struct `VkPhysicalDeviceMemoryProperties`: `memoryTypes[i].propertyFlags` for
`i < memoryTypeCount` (at most `VK_MAX_MEMORY_TYPES = 32`). -/
structure MemoryProperties where
  memoryTypeCount : Nat
  memoryTypes : List Nat
deriving DecidableEq, Repr

/-- What the Vulkan driver answers to the calls the program makes. -/
structure Device where
  /-- The answer of `vkGetPhysicalDeviceMemoryProperties`. -/
  memProps : MemoryProperties
  /-- Whether `vkCreateBuffer(size, usage)` returns `VK_SUCCESS`. -/
  vkCreateBuffer : Nat → Nat → Bool
  /-- The field `memoryTypeBits` of `vkGetBufferMemoryRequirements` for a buffer of the
  given size and usage. -/
  bufferMemoryTypeBits : Nat → Nat → Nat
  /-- Whether `vkAllocateMemory` with the given memory type index returns `VK_SUCCESS`. -/
  vkAllocateMemory : Nat → Bool
  /-- Whether `vkMapMemory` returns `VK_SUCCESS`. -/
  vkMapMemory : Bool
  /-- The field `optimalTilingFeatures` of `vkGetPhysicalDeviceFormatProperties(format)`. -/
  optimalTilingFeatures : Nat → Nat
  /-- Whether `createImage` of Utilities.h (width, height, mipLevels, format) returns
  without throwing. -/
  createImage : Nat → Nat → Nat → Nat → Bool
  /-- Whether `vkCreateImage` for a cube image (width, height, mipLevels, format) returns
  `VK_SUCCESS`. -/
  vkCreateImage : Nat → Nat → Nat → Nat → Bool
  /-- The field `memoryTypeBits` of `vkGetImageMemoryRequirements`. -/
  imageMemoryTypeBits : Nat
  /-- Whether `createImageView` / `vkCreateImageView` succeeds. -/
  vkCreateImageView : Bool
  /-- Whether `vkCreateSampler` returns `VK_SUCCESS`. -/
  vkCreateSampler : Bool

/-! ## Memory type lookup (Buffer.cpp) -/

/-- The `for` loop of `findMemoryTypeInternal`, at index `i` with `remaining` iterations to
go. `1u << i` is a 32-bit shift. -/
def findMemoryTypeLoop (memProps : MemoryProperties) (typeBits props : Nat) :
    Nat → Nat → Option Nat
  | 0, _ => none
  | remaining + 1, i =>
    if (typeBits &&& ((1 <<< i) % 2 ^ 32)) ≠ 0 ∧
        (memProps.memoryTypes.getD i 0 &&& props) = props then
      some i
    else
      findMemoryTypeLoop memProps typeBits props remaining (i + 1)

/-- The function `findMemoryTypeInternal(physical, typeBits, props)` of Buffer.cpp. -/
def findMemoryTypeInternal (physical : Device) (typeBits props : Nat) : Except String Nat :=
  match findMemoryTypeLoop physical.memProps typeBits props
      physical.memProps.memoryTypeCount 0 with
  | some i => .ok i
  | none => .error "Buffer::findMemoryTypeInternal: no suitable memory type"

/-- Memory type `i` satisfies both constraints of a lookup: it is one of the device's
types, bit `i` of `typeBits` is set, and its property flags include all of `props`. -/
def SuitableMemoryType (memProps : MemoryProperties) (typeBits props i : Nat) : Prop :=
  i < memProps.memoryTypeCount ∧ typeBits.testBit i = true ∧
    (memProps.memoryTypes.getD i 0 &&& props) = props

instance (memProps : MemoryProperties) (typeBits props i : Nat) :
    Decidable (SuitableMemoryType memProps typeBits props i) := by
  unfold SuitableMemoryType; infer_instance

/-! ## Vulkan constants used by the program -/

def VK_BUFFER_USAGE_TRANSFER_SRC_BIT : Nat := 0x1
def VK_BUFFER_USAGE_TRANSFER_DST_BIT : Nat := 0x2
def VK_BUFFER_USAGE_INDEX_BUFFER_BIT : Nat := 0x40
def VK_BUFFER_USAGE_VERTEX_BUFFER_BIT : Nat := 0x80
def VK_MEMORY_PROPERTY_DEVICE_LOCAL_BIT : Nat := 0x1
def VK_MEMORY_PROPERTY_HOST_VISIBLE_BIT : Nat := 0x2
def VK_MEMORY_PROPERTY_HOST_COHERENT_BIT : Nat := 0x4
def VK_FORMAT_FEATURE_SAMPLED_IMAGE_FILTER_LINEAR_BIT : Nat := 0x1000
def VK_IMAGE_LAYOUT_UNDEFINED : Nat := 0
def VK_IMAGE_LAYOUT_SHADER_READ_ONLY_OPTIMAL : Nat := 5
def VK_IMAGE_LAYOUT_TRANSFER_SRC_OPTIMAL : Nat := 6
def VK_IMAGE_LAYOUT_TRANSFER_DST_OPTIMAL : Nat := 7
def VK_FORMAT_R8G8B8A8_UNORM : Nat := 37
def VK_FORMAT_R8G8B8A8_UINT : Nat := 41
def VK_FORMAT_R8G8B8A8_SRGB : Nat := 43
def VK_FORMAT_R16G16B16A16_SFLOAT : Nat := 97

/-! ## GPU objects and recorded commands -/

/-- A `VkBuffer` together with the memory bound to it (the program allocates one memory
object per buffer and binds it at offset 0). -/
structure GpuBuffer where
  size : Nat
  usage : Nat
  /-- The memory type of the bound allocation, `none` before `vkBindBufferMemory`. -/
  memoryTypeIndex : Option Nat
  /-- False once `vkDestroyBuffer` was called. -/
  live : Bool
  /-- The bytes of the bound memory. -/
  data : List Nat
deriving DecidableEq, Repr

/-- A command recorded into a command buffer. -/
inductive Cmd where
  | copyBuffer (src dst size : Nat)
  | pipelineBarrier (baseMipLevel levelCount baseArrayLayer layerCount : Nat)
      (oldLayout newLayout : Nat)
  | copyBufferToImage (buffer image layer width height : Nat)
  | blitImage (image srcLevel dstLevel layer : Nat)
      (srcWidth srcHeight dstWidth dstHeight : Nat)
deriving DecidableEq, Repr

/-- Whether a command is a `vkCmdBlitImage`. -/
def Cmd.isBlit : Cmd → Bool
  | .blitImage .. => true
  | _ => false

/-- The device-side state: the buffers created so far (handle `h > 0` is entry `h - 1`),
the number of images created so far, and the commands submitted so far, oldest first. -/
structure Gpu where
  buffers : List GpuBuffer
  images : Nat
  commands : List Cmd
deriving DecidableEq, Repr

/-- The device state before anything was created. -/
def Gpu.empty : Gpu := ⟨[], 0, []⟩

/-- The number of buffers that exist (created and not destroyed). -/
def Gpu.liveBuffers (gpu : Gpu) : Nat :=
  (gpu.buffers.filter (fun b => b.live)).length

/-- The bytes of the buffer with handle `h` (empty for the null handle). -/
def Gpu.bufferData (gpu : Gpu) (h : Nat) : List Nat :=
  if h = 0 then [] else ((gpu.buffers[h - 1]?).map (fun b => b.data)).getD []

/-- The effect of `memcpy(dst, src, size)` / a buffer copy of `size` bytes at offset 0 on
the bytes of the buffer with handle `h`. -/
def Gpu.writeBytes (gpu : Gpu) (h : Nat) (src : List Nat) (size : Nat) : Gpu :=
  if h = 0 then gpu
  else { gpu with buffers :=
    (gpu.buffers.modify (fun b => { b with data := src.take size ++ b.data.drop size })
      (h - 1)) }

/-- The effect of `vkDestroyBuffer` and `vkFreeMemory` on the buffer with handle `h`. -/
def Gpu.destroyBuffer (gpu : Gpu) (h : Nat) : Gpu :=
  if h = 0 then gpu
  else { gpu with buffers := gpu.buffers.modify (fun b => { b with live := false }) (h - 1) }

/-- Modelled from the spec: `beginSingleTimeCommands` / `endSingleTimeCommands` of
Utilities.h, whose definitions are not among the sources. Per the spec (4.2) this is the
single-use command buffer: begin, record, submit, wait for queue idle, free; so the
commands recorded in between have been executed, in order, when it returns. Here: they
are appended to the submitted commands. -/
def Gpu.submitSingleTime (gpu : Gpu) (cmds : List Cmd) : Gpu :=
  { gpu with commands := gpu.commands ++ cmds }

/-! ## Buffer (Buffer.h, Buffer.cpp) -/

/-- The class `Buffer`. Handles are numbers, 0 is `VK_NULL_HANDLE` / `nullptr`; the memory
of a buffer carries the buffer's handle. -/
structure Buffer where
  m_buffer : Nat := 0
  m_memory : Nat := 0
  m_bufferSize : Nat := 0
  m_mappedPtr : Nat := 0
deriving DecidableEq, Repr

/-- The method `Buffer::create`. -/
def Buffer.create (device : Device) (size usage properties : Nat) (self : Buffer) (gpu : Gpu) :
    Except String Unit × Buffer × Gpu :=
  let self := { self with m_bufferSize := size }
  if !device.vkCreateBuffer size usage then
    (.error "Buffer::create: vkCreateBuffer failed", self, gpu)
  else
    let gpu := { gpu with
      buffers := gpu.buffers ++ [⟨size, usage, none, true, List.replicate size 0⟩] }
    let self := { self with m_buffer := gpu.buffers.length }
    match findMemoryTypeInternal device (device.bufferMemoryTypeBits size usage) properties with
    | .error e => (.error e, self, gpu)
    | .ok typeIndex =>
      if !device.vkAllocateMemory typeIndex then
        (.error "Buffer::create: vkAllocateMemory failed", self, gpu)
      else
        (.ok (), { self with m_memory := self.m_buffer },
          { gpu with buffers := (gpu.buffers.modify
              (fun b => { b with memoryTypeIndex := some typeIndex }) (self.m_buffer - 1)) })

/-- The method `Buffer::map`. -/
def Buffer.map (device : Device) (self : Buffer) : Except String Unit × Buffer :=
  if self.m_mappedPtr = 0 then
    if !device.vkMapMemory then (.error "Buffer::map failed", self)
    else (.ok (), { self with m_mappedPtr := self.m_memory })
  else (.ok (), self)

/-- The method `Buffer::createAndMap`. -/
def Buffer.createAndMap (device : Device) (size usage properties : Nat) (self : Buffer)
    (gpu : Gpu) : Except String Unit × Buffer × Gpu :=
  match Buffer.create device size usage properties self gpu with
  | (.error e, self, gpu) => (.error e, self, gpu)
  | (.ok (), self, gpu) =>
    match Buffer.map device self with
    | (.error e, self) => (.error e, self, gpu)
    | (.ok (), self) => (.ok (), self, gpu)

/-- The method `Buffer::unmap`. -/
def Buffer.unmap (self : Buffer) : Buffer :=
  if self.m_mappedPtr ≠ 0 then { self with m_mappedPtr := 0 } else self

/-- The method `Buffer::write(src, size)`. -/
def Buffer.write (src : List Nat) (size : Nat) (self : Buffer) (gpu : Gpu) :
    Except String Unit × Gpu :=
  if self.m_mappedPtr = 0 then (.error "Mapped memory is not available!", gpu)
  else if size > self.m_bufferSize then
    (.error "Write bytes exceeded allocated memory size!", gpu)
  else (.ok (), gpu.writeBytes self.m_mappedPtr src size)

/-- The static method `Buffer::copyBuffer(src, dst, size)`: one copy region with both
offsets 0, submitted in a single-use command buffer. -/
def Buffer.copyBuffer (src dst size : Nat) (gpu : Gpu) : Gpu :=
  (gpu.writeBytes dst (gpu.bufferData src) size).submitSingleTime [.copyBuffer src dst size]

/-- The method `Buffer::destroy`. -/
def Buffer.destroy (self : Buffer) (gpu : Gpu) : Buffer × Gpu :=
  let self := if self.m_mappedPtr ≠ 0 then { self with m_mappedPtr := 0 } else self
  let gpu := gpu.destroyBuffer self.m_buffer
  ({ self with m_buffer := 0, m_memory := 0, m_bufferSize := 0 }, gpu)

/-! ## VertexBuffer and IndexBuffer (VertexIndexBuffers.h, VertexIndexBuffers.cpp) -/

/-- The staging upload shared by `VertexBuffer::createFrom` and `IndexBuffer::createFrom`:
the two bodies differ only in the usage bit of the device-local buffer. -/
def uploadViaStaging (device : Device) (usageBit : Nat) (data : List Nat) (bytes : Nat)
    (m_gpu : Buffer) (gpu : Gpu) : Except String Unit × Buffer × Gpu :=
  let staging : Buffer := {}
  match Buffer.createAndMap device bytes VK_BUFFER_USAGE_TRANSFER_SRC_BIT
      (VK_MEMORY_PROPERTY_HOST_VISIBLE_BIT ||| VK_MEMORY_PROPERTY_HOST_COHERENT_BIT)
      staging gpu with
  | (.error e, _, gpu) => (.error e, m_gpu, gpu)
  | (.ok (), staging, gpu) =>
    match Buffer.write data bytes staging gpu with
    | (.error e, gpu) => (.error e, m_gpu, gpu)
    | (.ok (), gpu) =>
      let staging := staging.unmap
      match Buffer.create device bytes (VK_BUFFER_USAGE_TRANSFER_DST_BIT ||| usageBit)
          VK_MEMORY_PROPERTY_DEVICE_LOCAL_BIT m_gpu gpu with
      | (.error e, m_gpu, gpu) => (.error e, m_gpu, gpu)
      | (.ok (), m_gpu, gpu) =>
        let gpu := Buffer.copyBuffer staging.m_buffer m_gpu.m_buffer bytes gpu
        let (_, gpu) := staging.destroy gpu
        (.ok (), m_gpu, gpu)

/-- The class `VertexBuffer`. -/
structure VertexBuffer where
  m_gpu : Buffer := {}
deriving DecidableEq, Repr

/-- The class `IndexBuffer`. -/
structure IndexBuffer where
  m_gpu : Buffer := {}
deriving DecidableEq, Repr

/-- The method `VertexBuffer::createFrom(vertexData, bytes)`. -/
def VertexBuffer.createFrom (device : Device) (vertexData : List Nat) (bytes : Nat)
    (self : VertexBuffer) (gpu : Gpu) : Except String Unit × VertexBuffer × Gpu :=
  match uploadViaStaging device VK_BUFFER_USAGE_VERTEX_BUFFER_BIT vertexData bytes
      self.m_gpu gpu with
  | (r, m_gpu, gpu) => (r, { self with m_gpu := m_gpu }, gpu)

/-- The method `IndexBuffer::createFrom(indexData, bytes)`. -/
def IndexBuffer.createFrom (device : Device) (indexData : List Nat) (bytes : Nat)
    (self : IndexBuffer) (gpu : Gpu) : Except String Unit × IndexBuffer × Gpu :=
  match uploadViaStaging device VK_BUFFER_USAGE_INDEX_BUFFER_BIT indexData bytes
      self.m_gpu gpu with
  | (r, m_gpu, gpu) => (r, { self with m_gpu := m_gpu }, gpu)

/-- How the values of an element type lie in memory: `sizeof(T)` and the bytes of one
value. -/
structure MemoryImage (T : Type) where
  sizeOf : Nat
  bytes : T → List Nat

/-- The bytes at `vec.data()` of a `std::vector<T>`. -/
def MemoryImage.ofList {T : Type} (img : MemoryImage T) : List T → List Nat
  | [] => []
  | x :: xs => img.bytes x ++ img.ofList xs

/-- The memory image of `uint32_t`: four bytes, least significant first. -/
def uint32Image : MemoryImage Nat :=
  ⟨4, fun v => [v % 256, v / 256 % 256, v / 65536 % 256, v / 16777216 % 256]⟩

/-- The template `IndexBuffer::createFromVector<uint32_t>`. -/
def IndexBuffer.createFromVector (device : Device) (vec : List Nat) (self : IndexBuffer)
    (gpu : Gpu) : Except String Unit × IndexBuffer × Gpu :=
  self.createFrom device (uint32Image.ofList vec) (uint32Image.sizeOf * vec.length) gpu

/-! ## GltfPrimitive (GltfPrimitive.h, GltfPrimitive.cpp) -/

/-- The class `GltfPrimitive`. The morph-target members, which no method modelled here
reads or writes, are left out. -/
structure GltfPrimitive where
  vertexBuffer : VertexBuffer := {}
  indexBuffer : IndexBuffer := {}
  vertexCount : Nat := 0
  indexCount : Nat := 0
  firstIndex : Nat := 0
  vertexOffset : Int := 0
  materialIndex : Int := -1
deriving DecidableEq, Repr

/-- The method `GltfPrimitive::isValid`. -/
def GltfPrimitive.isValid (self : GltfPrimitive) : Bool :=
  decide (self.vertexCount > 0) && decide (self.indexCount > 0)

/-- The message of the guard of `GltfPrimitive::create`. -/
def emptyPrimitiveError : String :=
  "GltfPrimitive: Cannot create with empty vertex or index data"

/-- The method `GltfPrimitive::create(device, cmdPool, queue, vertices, indices)` for
vertices of a type with memory image `vimg` (`sizeof(GltfVertex)` and the vertex bytes).
The counts are `static_cast<uint32_t>` of the sizes. -/
def GltfPrimitive.create {V : Type} (device : Device) (vimg : MemoryImage V)
    (vertices : List V) (indices : List Nat) (self : GltfPrimitive) (gpu : Gpu) :
    Except String Unit × GltfPrimitive × Gpu :=
  if vertices.isEmpty || indices.isEmpty then
    (.error emptyPrimitiveError, self, gpu)
  else
    let self := { self with
      vertexCount := vertices.length % 2 ^ 32, indexCount := indices.length % 2 ^ 32 }
    let vertexBufferSize := vimg.sizeOf * vertices.length
    match self.vertexBuffer.createFrom device (vimg.ofList vertices) vertexBufferSize gpu with
    | (.error e, vertexBuffer, gpu) => (.error e, { self with vertexBuffer := vertexBuffer }, gpu)
    | (.ok (), vertexBuffer, gpu) =>
      let self := { self with vertexBuffer := vertexBuffer }
      match self.indexBuffer.createFromVector device indices gpu with
      | (r, indexBuffer, gpu) => (r, { self with indexBuffer := indexBuffer }, gpu)

/-! ## Vertex extraction and mesh loading (GltfVertex.h, GltfMesh.h, GltfModel.cpp) -/

/-- The type `glm::vec2`. -/
structure Vec2 (α : Type) where
  x : α
  y : α
deriving DecidableEq, Repr

/-- The struct `GltfVertex`. -/
structure GltfVertex (α : Type) where
  pos : Vec3 α
  normal : Vec3 α
  texCoord0 : Vec2 α
  texCoord1 : Vec2 α
  color : Vec4 α
  tangent : Vec4 α
  joints : Vec4 α
  weights : Vec4 α
deriving DecidableEq, Repr

/-- The class `GltfMesh` (the unused morph-target weights are left out). -/
structure GltfMesh where
  name : String := ""
  primitives : List GltfPrimitive := []
deriving DecidableEq, Repr

/-- The call `v.resize(n)` of a `std::vector`: truncate, or pad with value `d`. -/
def resizeList {β : Type} (v : List β) (n : Nat) (d : β) : List β :=
  v.take n ++ List.replicate (n - v.length) d

/-- A loop `for (i = 0; i < v.size(); ++i) v[i] = f(i, v[i])`, started at index `i`. -/
def updateEach {β : Type} (f : Nat → β → β) : Nat → List β → List β
  | _, [] => []
  | i, v :: vs => f i v :: updateEach f (i + 1) vs

section extract
variable {α : Type} [CommRing α]

/-- A value-initialised `GltfVertex` (what `resize` appends). -/
def GltfVertex.zero : GltfVertex α :=
  ⟨⟨0, 0, 0⟩, ⟨0, 0, 0⟩, ⟨0, 0⟩, ⟨0, 0⟩, ⟨0, 0, 0, 0⟩, ⟨0, 0, 0, 0⟩, ⟨0, 0, 0, 0⟩, ⟨0, 0, 0, 0⟩⟩

/-- The bytes from `&buffer.data[bufferView.byteOffset + accessor.byteOffset]` on, for the
accessor with the given index. -/
def accessorData (model : tinygltf.Model α) (accessorIndex : Int) :
    tinygltf.Accessor × List Nat :=
  let accessor := model.accessors.getD accessorIndex.toNat {}
  let bufferView := model.bufferViews.getD accessor.bufferView.toNat {}
  let buffer := model.buffers.getD bufferView.buffer.toNat {}
  (accessor, buffer.data.drop (bufferView.byteOffset + accessor.byteOffset))

/-- Element `k` of a `const float*`; `decode` turns the four bytes of a `float` into a
scalar. -/
def readFloat (decode : List Nat → α) (p : List Nat) (k : Nat) : α :=
  decode ((p.drop (4 * k)).take 4)

/-- Element `k` of a `const uint8_t*`. -/
def readU8 (p : List Nat) (k : Nat) : Nat := p.getD k 0

/-- Element `k` of a `const uint16_t*` (little-endian). -/
def readU16 (p : List Nat) (k : Nat) : Nat := p.getD (2 * k) 0 + 256 * p.getD (2 * k + 1) 0

/-- Element `k` of a `const uint32_t*` (little-endian). -/
def readU32 (p : List Nat) (k : Nat) : Nat :=
  p.getD (4 * k) 0 + 256 * p.getD (4 * k + 1) 0 + 65536 * p.getD (4 * k + 2) 0 +
    16777216 * p.getD (4 * k + 3) 0

/-- The method `GltfModel::extractVertexData(model, primitive, vertices, indices)`;
`vertices` and `indices` are the in/out vectors. -/
def extractVertexData (decode : List Nat → α) (model : tinygltf.Model α)
    (primitive : tinygltf.Primitive) (vertices : List (GltfVertex α)) (indices : List Nat) :
    Except String Unit × List (GltfVertex α) × List Nat :=
  match primitive.attributes.lookup "POSITION" with
  | none => (.error "glTF primitive missing required POSITION attribute", vertices, indices)
  | some posIndex =>
    let (posAccessor, positions) := accessorData model posIndex
    let vertexCount := posAccessor.count
    let vertices := resizeList vertices vertexCount GltfVertex.zero
    let vertices := updateEach (fun i v => { v with pos :=
      ⟨readFloat decode positions (i * 3 + 0), readFloat decode positions (i * 3 + 1),
       readFloat decode positions (i * 3 + 2)⟩ }) 0 vertices
    let vertices :=
      match primitive.attributes.lookup "NORMAL" with
      | some normIndex =>
        let normals := (accessorData model normIndex).2
        updateEach (fun i v => { v with normal :=
          ⟨readFloat decode normals (i * 3 + 0), readFloat decode normals (i * 3 + 1),
           readFloat decode normals (i * 3 + 2)⟩ }) 0 vertices
      | none => updateEach (fun _ v => { v with normal := ⟨0, 0, 1⟩ }) 0 vertices
    let vertices :=
      match primitive.attributes.lookup "TEXCOORD_0" with
      | some uvIndex =>
        let uvs := (accessorData model uvIndex).2
        updateEach (fun i v => { v with texCoord0 :=
          ⟨readFloat decode uvs (i * 2 + 0), readFloat decode uvs (i * 2 + 1)⟩ }) 0 vertices
      | none => updateEach (fun _ v => { v with texCoord0 := ⟨0, 0⟩ }) 0 vertices
    let vertices :=
      match primitive.attributes.lookup "TEXCOORD_1" with
      | some uvIndex =>
        let uvs := (accessorData model uvIndex).2
        updateEach (fun i v => { v with texCoord1 :=
          ⟨readFloat decode uvs (i * 2 + 0), readFloat decode uvs (i * 2 + 1)⟩ }) 0 vertices
      | none => updateEach (fun _ v => { v with texCoord1 := ⟨0, 0⟩ }) 0 vertices
    let vertices :=
      match primitive.attributes.lookup "COLOR_0" with
      | some colorIndex =>
        let (colorAccessor, colors) := accessorData model colorIndex
        if colorAccessor.type = tinygltf.TINYGLTF_TYPE_VEC4 then
          if colorAccessor.componentType = tinygltf.TINYGLTF_COMPONENT_TYPE_FLOAT then
            updateEach (fun i v => { v with color :=
              ⟨readFloat decode colors (i * 4 + 0), readFloat decode colors (i * 4 + 1),
               readFloat decode colors (i * 4 + 2), readFloat decode colors (i * 4 + 3)⟩ })
              0 vertices
          else vertices
        else if colorAccessor.type = tinygltf.TINYGLTF_TYPE_VEC3 then
          if colorAccessor.componentType = tinygltf.TINYGLTF_COMPONENT_TYPE_FLOAT then
            updateEach (fun i v => { v with color :=
              ⟨readFloat decode colors (i * 3 + 0), readFloat decode colors (i * 3 + 1),
               readFloat decode colors (i * 3 + 2), 1⟩ }) 0 vertices
          else vertices
        else vertices
      | none => updateEach (fun _ v => { v with color := ⟨1, 1, 1, 1⟩ }) 0 vertices
    let vertices :=
      match primitive.attributes.lookup "TANGENT" with
      | some tangentIndex =>
        let tangents := (accessorData model tangentIndex).2
        updateEach (fun i v => { v with tangent :=
          ⟨readFloat decode tangents (i * 4 + 0), readFloat decode tangents (i * 4 + 1),
           readFloat decode tangents (i * 4 + 2), readFloat decode tangents (i * 4 + 3)⟩ })
          0 vertices
      | none => updateEach (fun _ v => { v with tangent := ⟨1, 0, 0, 1⟩ }) 0 vertices
    let vertices :=
      match primitive.attributes.lookup "JOINTS_0", primitive.attributes.lookup "WEIGHTS_0" with
      | some jointsIndex, some weightsIndex =>
        let (jointsAccessor, joints) := accessorData model jointsIndex
        let weights := (accessorData model weightsIndex).2
        let vertices :=
          if jointsAccessor.componentType = tinygltf.TINYGLTF_COMPONENT_TYPE_UNSIGNED_SHORT then
            updateEach (fun i v => { v with joints :=
              ⟨(readU16 joints (i * 4 + 0) : α), (readU16 joints (i * 4 + 1) : α),
               (readU16 joints (i * 4 + 2) : α), (readU16 joints (i * 4 + 3) : α)⟩ }) 0 vertices
          else if jointsAccessor.componentType =
              tinygltf.TINYGLTF_COMPONENT_TYPE_UNSIGNED_BYTE then
            updateEach (fun i v => { v with joints :=
              ⟨(readU8 joints (i * 4 + 0) : α), (readU8 joints (i * 4 + 1) : α),
               (readU8 joints (i * 4 + 2) : α), (readU8 joints (i * 4 + 3) : α)⟩ }) 0 vertices
          else vertices
        updateEach (fun i v => { v with weights :=
          ⟨readFloat decode weights (i * 4 + 0), readFloat decode weights (i * 4 + 1),
           readFloat decode weights (i * 4 + 2), readFloat decode weights (i * 4 + 3)⟩ })
          0 vertices
      | _, _ =>
        updateEach (fun _ v => { v with joints := ⟨0, 0, 0, 0⟩, weights := ⟨0, 0, 0, 0⟩ })
          0 vertices
    if 0 ≤ primitive.indices then
      let (indexAccessor, dataPtr) := accessorData model primitive.indices
      let indices := resizeList indices indexAccessor.count 0
      if indexAccessor.componentType = tinygltf.TINYGLTF_COMPONENT_TYPE_UNSIGNED_SHORT then
        (.ok (), vertices, updateEach (fun i _ => readU16 dataPtr i) 0 indices)
      else if indexAccessor.componentType = tinygltf.TINYGLTF_COMPONENT_TYPE_UNSIGNED_INT then
        (.ok (), vertices, updateEach (fun i _ => readU32 dataPtr i) 0 indices)
      else
        (.error "Unsupported index component type", vertices, indices)
    else
      (.ok (), vertices, indices)

/-! The blocks of `extractVertexData`, each as a function of the vertex vector it updates
(`extractVertexData_eq_blocks` below states that the method is their composition). -/

/-- The POSITION block of `extractVertexData`: resize to the accessor's count, then copy
the positions. -/
def extractPositions (decode : List Nat → α) (model : tinygltf.Model α) (posIndex : Int)
    (vertices : List (GltfVertex α)) : List (GltfVertex α) :=
  let (posAccessor, positions) := accessorData model posIndex
  let vertexCount := posAccessor.count
  let vertices := resizeList vertices vertexCount GltfVertex.zero
  updateEach (fun i v => { v with pos :=
    ⟨readFloat decode positions (i * 3 + 0), readFloat decode positions (i * 3 + 1),
     readFloat decode positions (i * 3 + 2)⟩ }) 0 vertices

/-- The NORMAL block of `extractVertexData`. -/
def extractNormals (decode : List Nat → α) (model : tinygltf.Model α)
    (primitive : tinygltf.Primitive) (vertices : List (GltfVertex α)) : List (GltfVertex α) :=
  match primitive.attributes.lookup "NORMAL" with
  | some normIndex =>
    let normals := (accessorData model normIndex).2
    updateEach (fun i v => { v with normal :=
      ⟨readFloat decode normals (i * 3 + 0), readFloat decode normals (i * 3 + 1),
       readFloat decode normals (i * 3 + 2)⟩ }) 0 vertices
  | none => updateEach (fun _ v => { v with normal := ⟨0, 0, 1⟩ }) 0 vertices

/-- The TEXCOORD_0 block of `extractVertexData`. -/
def extractTexCoord0 (decode : List Nat → α) (model : tinygltf.Model α)
    (primitive : tinygltf.Primitive) (vertices : List (GltfVertex α)) : List (GltfVertex α) :=
  match primitive.attributes.lookup "TEXCOORD_0" with
  | some uvIndex =>
    let uvs := (accessorData model uvIndex).2
    updateEach (fun i v => { v with texCoord0 :=
      ⟨readFloat decode uvs (i * 2 + 0), readFloat decode uvs (i * 2 + 1)⟩ }) 0 vertices
  | none => updateEach (fun _ v => { v with texCoord0 := ⟨0, 0⟩ }) 0 vertices

/-- The TEXCOORD_1 block of `extractVertexData`. -/
def extractTexCoord1 (decode : List Nat → α) (model : tinygltf.Model α)
    (primitive : tinygltf.Primitive) (vertices : List (GltfVertex α)) : List (GltfVertex α) :=
  match primitive.attributes.lookup "TEXCOORD_1" with
  | some uvIndex =>
    let uvs := (accessorData model uvIndex).2
    updateEach (fun i v => { v with texCoord1 :=
      ⟨readFloat decode uvs (i * 2 + 0), readFloat decode uvs (i * 2 + 1)⟩ }) 0 vertices
  | none => updateEach (fun _ v => { v with texCoord1 := ⟨0, 0⟩ }) 0 vertices

/-- The COLOR_0 block of `extractVertexData`. -/
def extractColors (decode : List Nat → α) (model : tinygltf.Model α)
    (primitive : tinygltf.Primitive) (vertices : List (GltfVertex α)) : List (GltfVertex α) :=
  match primitive.attributes.lookup "COLOR_0" with
  | some colorIndex =>
    let (colorAccessor, colors) := accessorData model colorIndex
    if colorAccessor.type = tinygltf.TINYGLTF_TYPE_VEC4 then
      if colorAccessor.componentType = tinygltf.TINYGLTF_COMPONENT_TYPE_FLOAT then
        updateEach (fun i v => { v with color :=
          ⟨readFloat decode colors (i * 4 + 0), readFloat decode colors (i * 4 + 1),
           readFloat decode colors (i * 4 + 2), readFloat decode colors (i * 4 + 3)⟩ })
          0 vertices
      else vertices
    else if colorAccessor.type = tinygltf.TINYGLTF_TYPE_VEC3 then
      if colorAccessor.componentType = tinygltf.TINYGLTF_COMPONENT_TYPE_FLOAT then
        updateEach (fun i v => { v with color :=
          ⟨readFloat decode colors (i * 3 + 0), readFloat decode colors (i * 3 + 1),
           readFloat decode colors (i * 3 + 2), 1⟩ }) 0 vertices
      else vertices
    else vertices
  | none => updateEach (fun _ v => { v with color := ⟨1, 1, 1, 1⟩ }) 0 vertices

/-- The TANGENT block of `extractVertexData`. -/
def extractTangents (decode : List Nat → α) (model : tinygltf.Model α)
    (primitive : tinygltf.Primitive) (vertices : List (GltfVertex α)) : List (GltfVertex α) :=
  match primitive.attributes.lookup "TANGENT" with
  | some tangentIndex =>
    let tangents := (accessorData model tangentIndex).2
    updateEach (fun i v => { v with tangent :=
      ⟨readFloat decode tangents (i * 4 + 0), readFloat decode tangents (i * 4 + 1),
       readFloat decode tangents (i * 4 + 2), readFloat decode tangents (i * 4 + 3)⟩ })
      0 vertices
  | none => updateEach (fun _ v => { v with tangent := ⟨1, 0, 0, 1⟩ }) 0 vertices

/-- The JOINTS_0 / WEIGHTS_0 block of `extractVertexData`. -/
def extractSkin (decode : List Nat → α) (model : tinygltf.Model α)
    (primitive : tinygltf.Primitive) (vertices : List (GltfVertex α)) : List (GltfVertex α) :=
  match primitive.attributes.lookup "JOINTS_0", primitive.attributes.lookup "WEIGHTS_0" with
  | some jointsIndex, some weightsIndex =>
    let (jointsAccessor, joints) := accessorData model jointsIndex
    let weights := (accessorData model weightsIndex).2
    let vertices :=
      if jointsAccessor.componentType = tinygltf.TINYGLTF_COMPONENT_TYPE_UNSIGNED_SHORT then
        updateEach (fun i v => { v with joints :=
          ⟨(readU16 joints (i * 4 + 0) : α), (readU16 joints (i * 4 + 1) : α),
           (readU16 joints (i * 4 + 2) : α), (readU16 joints (i * 4 + 3) : α)⟩ }) 0 vertices
      else if jointsAccessor.componentType =
          tinygltf.TINYGLTF_COMPONENT_TYPE_UNSIGNED_BYTE then
        updateEach (fun i v => { v with joints :=
          ⟨(readU8 joints (i * 4 + 0) : α), (readU8 joints (i * 4 + 1) : α),
           (readU8 joints (i * 4 + 2) : α), (readU8 joints (i * 4 + 3) : α)⟩ }) 0 vertices
      else vertices
    updateEach (fun i v => { v with weights :=
      ⟨readFloat decode weights (i * 4 + 0), readFloat decode weights (i * 4 + 1),
       readFloat decode weights (i * 4 + 2), readFloat decode weights (i * 4 + 3)⟩ })
      0 vertices
  | _, _ =>
    updateEach (fun _ v => { v with joints := ⟨0, 0, 0, 0⟩, weights := ⟨0, 0, 0, 0⟩ })
      0 vertices

/-- The index block of `extractVertexData`, which ends the method. -/
def extractIndices (model : tinygltf.Model α) (primitive : tinygltf.Primitive)
    (vertices : List (GltfVertex α)) (indices : List Nat) :
    Except String Unit × List (GltfVertex α) × List Nat :=
  if 0 ≤ primitive.indices then
    let (indexAccessor, dataPtr) := accessorData model primitive.indices
    let indices := resizeList indices indexAccessor.count 0
    if indexAccessor.componentType = tinygltf.TINYGLTF_COMPONENT_TYPE_UNSIGNED_SHORT then
      (.ok (), vertices, updateEach (fun i _ => readU16 dataPtr i) 0 indices)
    else if indexAccessor.componentType = tinygltf.TINYGLTF_COMPONENT_TYPE_UNSIGNED_INT then
      (.ok (), vertices, updateEach (fun i _ => readU32 dataPtr i) 0 indices)
    else
      (.error "Unsupported index component type", vertices, indices)
  else
    (.ok (), vertices, indices)

/-- The body of the inner loop of `GltfModel::loadMeshes` for one primitive: extract into
fresh vectors, create the GPU buffers, set the material index. -/
def loadPrimitive (decode : List Nat → α) (vimg : MemoryImage (GltfVertex α))
    (device : Device) (model : tinygltf.Model α) (gltfPrim : tinygltf.Primitive)
    (primitive : GltfPrimitive) (gpu : Gpu) : Except String Unit × GltfPrimitive × Gpu :=
  match extractVertexData decode model gltfPrim [] [] with
  | (.error e, _, _) => (.error e, primitive, gpu)
  | (.ok (), vertices, indices) =>
    match primitive.create device vimg vertices indices gpu with
    | (.error e, primitive, gpu) => (.error e, primitive, gpu)
    | (.ok (), primitive, gpu) =>
      (.ok (), { primitive with materialIndex := gltfPrim.material }, gpu)

/-- The inner loop of `loadMeshes` over the primitives of one mesh; a throw ends it. -/
def loadPrimitives (decode : List Nat → α) (vimg : MemoryImage (GltfVertex α))
    (device : Device) (model : tinygltf.Model α) :
    List tinygltf.Primitive → List GltfPrimitive → Gpu →
      Except String Unit × List GltfPrimitive × Gpu
  | [], primitives, gpu => (.ok (), primitives, gpu)
  | _ :: _, [], gpu => (.ok (), [], gpu)
  | gltfPrim :: gs, primitive :: ps, gpu =>
    match loadPrimitive decode vimg device model gltfPrim primitive gpu with
    | (.error e, primitive, gpu) => (.error e, primitive :: ps, gpu)
    | (.ok (), primitive, gpu) =>
      match loadPrimitives decode vimg device model gs ps gpu with
      | (r, ps, gpu) => (r, primitive :: ps, gpu)

/-- The outer loop of `loadMeshes` over the meshes of the document; a throw ends it. -/
def loadMeshesLoop (decode : List Nat → α) (vimg : MemoryImage (GltfVertex α))
    (device : Device) (model : tinygltf.Model α) :
    List tinygltf.Mesh → List GltfMesh → Gpu → Except String Unit × List GltfMesh × Gpu
  | [], meshes, gpu => (.ok (), meshes, gpu)
  | _ :: _, [], gpu => (.ok (), [], gpu)
  | gltfMesh :: gs, mesh :: ms, gpu =>
    let mesh := { mesh with
      name := gltfMesh.name,
      primitives := resizeList mesh.primitives gltfMesh.primitives.length {} }
    match loadPrimitives decode vimg device model gltfMesh.primitives mesh.primitives gpu with
    | (.error e, primitives, gpu) => (.error e, { mesh with primitives := primitives } :: ms, gpu)
    | (.ok (), primitives, gpu) =>
      match loadMeshesLoop decode vimg device model gs ms gpu with
      | (r, ms, gpu) => (r, { mesh with primitives := primitives } :: ms, gpu)

/-- The method `GltfModel::loadMeshes` on the mesh vector `m_meshes`. -/
def loadMeshes (decode : List Nat → α) (vimg : MemoryImage (GltfVertex α))
    (device : Device) (model : tinygltf.Model α) (m_meshes : List GltfMesh) (gpu : Gpu) :
    Except String Unit × List GltfMesh × Gpu :=
  loadMeshesLoop decode vimg device model model.meshes
    (resizeList m_meshes model.meshes.length {}) gpu

end extract

/-! ## Texture and Cubemap (Texture.cpp, Cubemap.cpp) -/

/-- The expression `(uint32_t)std::floor(std::log2(x))` for a 32-bit unsigned `x >= 1`:
the position of the highest set bit. (For `x = 0` the C++ converts minus infinity, which is
undefined; the value here is then 0.) -/
def floorLog2 (x : Nat) : Nat := Nat.log2 x

/-- The initialiser of `m_mipLevels` in `Texture::createFromPixels` and
`Cubemap::createFromFaces`:
`generateMipmapsEnabled ? (uint32_t)std::floor(std::log2(std::max(width, height))) + 1 : 1u`. -/
def mipLevelCount (generateMipmapsEnabled : Bool) (width height : Nat) : Nat :=
  if generateMipmapsEnabled then (floorLog2 (max width height) + 1) % 2 ^ 32 else 1

/-- The class `Texture` (also the base of `Cubemap`). -/
structure Texture where
  m_mipLevels : Nat := 1
  m_image : Nat := 0
  m_memory : Nat := 0
  m_view : Nat := 0
  m_sampler : Nat := 0
deriving DecidableEq, Repr

/-- The staging block written inline in `createFromPixels` and in the face loop of
`createFromFaces` (they differ in the three messages): create a transfer-source buffer,
pick the first host-visible, host-coherent memory type, allocate, bind, map, `memcpy`,
unmap. Returns the handle of the staging buffer. -/
def createStaging (device : Device) (msgCreate msgType msgAlloc : String) (size : Nat)
    (data : List Nat) (gpu : Gpu) : Except String Nat × Gpu :=
  if !device.vkCreateBuffer size VK_BUFFER_USAGE_TRANSFER_SRC_BIT then (.error msgCreate, gpu)
  else
    let gpu := { gpu with
      buffers := gpu.buffers ++
        [⟨size, VK_BUFFER_USAGE_TRANSFER_SRC_BIT, none, true, List.replicate size 0⟩] }
    let stagingBuffer := gpu.buffers.length
    match findMemoryTypeLoop device.memProps
        (device.bufferMemoryTypeBits size VK_BUFFER_USAGE_TRANSFER_SRC_BIT)
        (VK_MEMORY_PROPERTY_HOST_VISIBLE_BIT ||| VK_MEMORY_PROPERTY_HOST_COHERENT_BIT)
        device.memProps.memoryTypeCount 0 with
    | none => (.error msgType, gpu)
    | some typeIndex =>
      if !device.vkAllocateMemory typeIndex then (.error msgAlloc, gpu)
      else
        let gpu := { gpu with buffers := (gpu.buffers.modify
          (fun b => { b with memoryTypeIndex := some typeIndex }) (stagingBuffer - 1)) }
        (.ok stagingBuffer, gpu.writeBytes stagingBuffer data size)

/-- The function `transitionImageLayout` of Texture.cpp: the command buffer is begun, then
an unsupported pair of layouts throws, otherwise one barrier over all mip levels of layer 0
is recorded and submitted. -/
def transitionImageLayout (oldLayout newLayout mipLevels : Nat) (gpu : Gpu) :
    Except String Unit × Gpu :=
  if (oldLayout = VK_IMAGE_LAYOUT_UNDEFINED ∧ newLayout = VK_IMAGE_LAYOUT_TRANSFER_DST_OPTIMAL) ∨
      (oldLayout = VK_IMAGE_LAYOUT_TRANSFER_DST_OPTIMAL ∧
        newLayout = VK_IMAGE_LAYOUT_SHADER_READ_ONLY_OPTIMAL) then
    (.ok (), gpu.submitSingleTime [.pipelineBarrier 0 mipLevels 0 1 oldLayout newLayout])
  else (.error "unsupported layout transition!", gpu)

/-- The body of the level loop shared by `Texture::generateMipmaps` and
`Cubemap::generateMipmapsCube`, from level `i` with `remaining` levels to go: barrier to
transfer-source, blit to the half-size next level, barrier to shader-read. -/
def mipChain (image layer : Nat) : Nat → Nat → Nat → Nat → List Cmd
  | 0, _, _, _ => []
  | remaining + 1, i, mipWidth, mipHeight =>
    let nextWidth := max (mipWidth / 2) 1
    let nextHeight := max (mipHeight / 2) 1
    [ .pipelineBarrier (i - 1) 1 layer 1
        VK_IMAGE_LAYOUT_TRANSFER_DST_OPTIMAL VK_IMAGE_LAYOUT_TRANSFER_SRC_OPTIMAL,
      .blitImage image (i - 1) i layer mipWidth mipHeight nextWidth nextHeight,
      .pipelineBarrier (i - 1) 1 layer 1
        VK_IMAGE_LAYOUT_TRANSFER_SRC_OPTIMAL VK_IMAGE_LAYOUT_SHADER_READ_ONLY_OPTIMAL ] ++
    mipChain image layer remaining (i + 1) nextWidth nextHeight

/-- The method `Texture::generateMipmaps(format, texWidth, texHeight)`: it never looks at
`format` or at the device's format properties. -/
def Texture.generateMipmaps (_format texWidth texHeight : Nat) (self : Texture) (gpu : Gpu) :
    Gpu :=
  gpu.submitSingleTime
    (mipChain self.m_image 0 (self.m_mipLevels - 1) 1 texWidth texHeight ++
      [.pipelineBarrier (self.m_mipLevels - 1) 1 0 1
        VK_IMAGE_LAYOUT_TRANSFER_DST_OPTIMAL VK_IMAGE_LAYOUT_SHADER_READ_ONLY_OPTIMAL])

/-- Modelled from the spec: the message of the throw of `createImage` (Utilities.h), whose
definition is not among the sources; per the spec (4.1) a creation failure propagates to
the caller. -/
def createImageError : String := "createImage failed"

/-- Modelled from the spec: the message of the throw of `createImageView` (Utilities.h),
whose definition is not among the sources. -/
def createImageViewError : String := "createImageView failed"

/-- The method `Texture::createFromPixels(device, pool, queue, pixels, width, height,
format, generateMipmapsEnabled, filter, addressMode)`. -/
def Texture.createFromPixels (device : Device) (pixels : List Nat) (width height format : Nat)
    (generateMipmapsEnabled : Bool) (self : Texture) (gpu : Gpu) :
    Except String Unit × Texture × Gpu :=
  let self := { self with m_mipLevels := mipLevelCount generateMipmapsEnabled width height }
  let imageSize := width * height * 4
  match createStaging device "Texture: create staging buffer failed"
      "Texture: no memory type for staging" "Texture: alloc staging memory failed"
      imageSize pixels gpu with
  | (.error e, gpu) => (.error e, self, gpu)
  | (.ok stagingBuffer, gpu) =>
    if !device.createImage width height self.m_mipLevels format then
      (.error createImageError, self, gpu)
    else
      let gpu := { gpu with images := gpu.images + 1 }
      let self := { self with m_image := gpu.images, m_memory := gpu.images }
      match transitionImageLayout VK_IMAGE_LAYOUT_UNDEFINED VK_IMAGE_LAYOUT_TRANSFER_DST_OPTIMAL
          self.m_mipLevels gpu with
      | (.error e, gpu) => (.error e, self, gpu)
      | (.ok (), gpu) =>
        let gpu := gpu.submitSingleTime
          [.copyBufferToImage stagingBuffer self.m_image 0 width height]
        let r : Except String Unit × Gpu :=
          if generateMipmapsEnabled then
            (.ok (), self.generateMipmaps format width height gpu)
          else
            transitionImageLayout VK_IMAGE_LAYOUT_TRANSFER_DST_OPTIMAL
              VK_IMAGE_LAYOUT_SHADER_READ_ONLY_OPTIMAL self.m_mipLevels gpu
        match r with
        | (.error e, gpu) => (.error e, self, gpu)
        | (.ok (), gpu) =>
          if !device.vkCreateImageView then (.error createImageViewError, self, gpu)
          else
            let self := { self with m_view := self.m_image }
            if !device.vkCreateSampler then
              (.error "Texture: create sampler failed", self, gpu)
            else
              (.ok (), { self with m_sampler := self.m_image },
                gpu.destroyBuffer stagingBuffer)

/-- The function `bytesPerPixel` of Cubemap.cpp. -/
def bytesPerPixel (fmt : Nat) : Except String Nat :=
  if fmt = VK_FORMAT_R8G8B8A8_UNORM ∨ fmt = VK_FORMAT_R8G8B8A8_SRGB then .ok 4
  else if fmt = VK_FORMAT_R16G16B16A16_SFLOAT then .ok 8
  else .error "Cubemap: unsupported format in bytesPerPixel"

/-- The memory type loop of `Cubemap::createImageCube`: the first type allowed by the
image whose flags have the device-local bit. -/
def findDeviceLocalLoop (memProps : MemoryProperties) (typeBits : Nat) : Nat → Nat → Option Nat
  | 0, _ => none
  | remaining + 1, i =>
    if (typeBits &&& ((1 <<< i) % 2 ^ 32)) ≠ 0 ∧
        (memProps.memoryTypes.getD i 0 &&& VK_MEMORY_PROPERTY_DEVICE_LOCAL_BIT) ≠ 0 then
      some i
    else findDeviceLocalLoop memProps typeBits remaining (i + 1)

/-- The method `Cubemap::createImageCube`. -/
def Cubemap.createImageCube (device : Device) (width height mipLevels format : Nat)
    (self : Texture) (gpu : Gpu) : Except String Unit × Texture × Gpu :=
  if !device.vkCreateImage width height mipLevels format then
    (.error "Cubemap: create image failed", self, gpu)
  else
    let gpu := { gpu with images := gpu.images + 1 }
    let self := { self with m_image := gpu.images }
    match findDeviceLocalLoop device.memProps device.imageMemoryTypeBits
        device.memProps.memoryTypeCount 0 with
    | none => (.error "Cubemap: no device local memory type", self, gpu)
    | some typeIndex =>
      if !device.vkAllocateMemory typeIndex then (.error "Cubemap: alloc memory failed", self, gpu)
      else (.ok (), { self with m_memory := self.m_image }, gpu)

/-- The method `Cubemap::transitionLayoutAll`: one barrier over all levels and six layers
(it never throws). -/
def Cubemap.transitionLayoutAll (oldLayout newLayout : Nat) (self : Texture) (gpu : Gpu) :
    Gpu :=
  gpu.submitSingleTime [.pipelineBarrier 0 self.m_mipLevels 0 6 oldLayout newLayout]

/-- The commands `generateMipmapsCube` records for the layers `layer`, `layer + 1`, ...:
the level chain of each layer, then its last-level barrier (whose `baseArrayLayer` is the
one the level loop set last, so it is 0 when there is a single level). -/
def cubeMipCmds (self : Texture) (texWidth texHeight : Nat) : Nat → Nat → List Cmd
  | 0, _ => []
  | remaining + 1, layer =>
    mipChain self.m_image layer (self.m_mipLevels - 1) 1 texWidth texHeight ++
    [.pipelineBarrier (self.m_mipLevels - 1) 1 (if 1 < self.m_mipLevels then layer else 0) 1
      VK_IMAGE_LAYOUT_TRANSFER_DST_OPTIMAL VK_IMAGE_LAYOUT_SHADER_READ_ONLY_OPTIMAL] ++
    cubeMipCmds self texWidth texHeight remaining (layer + 1)

/-- The method `Cubemap::generateMipmapsCube`: it throws, before recording anything, when
the format lacks `VK_FORMAT_FEATURE_SAMPLED_IMAGE_FILTER_LINEAR_BIT` under optimal
tiling. -/
def Cubemap.generateMipmapsCube (device : Device) (format texWidth texHeight : Nat)
    (self : Texture) (gpu : Gpu) : Except String Unit × Gpu :=
  if (device.optimalTilingFeatures format &&&
      VK_FORMAT_FEATURE_SAMPLED_IMAGE_FILTER_LINEAR_BIT) = 0 then
    (.error "Cubemap: format does not support linear blit for mipmaps", gpu)
  else
    (.ok (), gpu.submitSingleTime (cubeMipCmds self texWidth texHeight 6 0))

/-- The face loop of `createFromFaces` for the faces `f`, `f + 1`, ...: stage the face,
copy it into array layer `f`, destroy the staging buffer. -/
def uploadFaces (device : Device) (faces : List (Option (List Nat))) (width height : Nat)
    (faceSize : Nat) (image : Nat) : Nat → Nat → Gpu → Except String Unit × Gpu
  | 0, _, gpu => (.ok (), gpu)
  | remaining + 1, f, gpu =>
    match createStaging device "Cubemap: create staging buffer failed"
        "Cubemap: no staging mem type" "Cubemap: alloc staging memory failed"
        faceSize ((faces.getD f none).getD []) gpu with
    | (.error e, gpu) => (.error e, gpu)
    | (.ok stagingBuffer, gpu) =>
      let gpu := gpu.submitSingleTime [.copyBufferToImage stagingBuffer image f width height]
      let gpu := gpu.destroyBuffer stagingBuffer
      uploadFaces device faces width height faceSize image remaining (f + 1) gpu

/-- The method `Cubemap::createFromFaces(device, pool, queue, faces, width, height, format,
generateMipmapsEnabled, filter)`. `faces` is `none` for a null array, and a face is `none`
for a null pointer. -/
def Cubemap.createFromFaces (device : Device) (faces : Option (List (Option (List Nat))))
    (width height format : Nat) (generateMipmapsEnabled : Bool) (self : Texture) (gpu : Gpu) :
    Except String Unit × Texture × Gpu :=
  match faces with
  | none => (.error "Cubemap: faces null", self, gpu)
  | some faces =>
    if (faces.getD 0 none).isNone then (.error "Cubemap: faces null", self, gpu)
    else
      let self := { self with m_mipLevels := mipLevelCount generateMipmapsEnabled width height }
      match Cubemap.createImageCube device width height self.m_mipLevels format self gpu with
      | (.error e, self, gpu) => (.error e, self, gpu)
      | (.ok (), self, gpu) =>
        let gpu := Cubemap.transitionLayoutAll VK_IMAGE_LAYOUT_UNDEFINED
          VK_IMAGE_LAYOUT_TRANSFER_DST_OPTIMAL self gpu
        match bytesPerPixel format with
        | .error e => (.error e, self, gpu)
        | .ok bpp =>
          let faceSize := width * height * bpp
          match uploadFaces device faces width height faceSize self.m_image 6 0 gpu with
          | (.error e, gpu) => (.error e, self, gpu)
          | (.ok (), gpu) =>
            let r : Except String Unit × Gpu :=
              if generateMipmapsEnabled then
                Cubemap.generateMipmapsCube device format width height self gpu
              else
                (.ok (), Cubemap.transitionLayoutAll VK_IMAGE_LAYOUT_TRANSFER_DST_OPTIMAL
                  VK_IMAGE_LAYOUT_SHADER_READ_ONLY_OPTIMAL self gpu)
            match r with
            | (.error e, gpu) => (.error e, self, gpu)
            | (.ok (), gpu) =>
              if !device.vkCreateImageView then
                (.error "Cubemap: create image view failed", self, gpu)
              else
                let self := { self with m_view := self.m_image }
                if !device.vkCreateSampler then
                  (.error "Cubemap: create sampler failed", self, gpu)
                else (.ok (), { self with m_sampler := self.m_image }, gpu)

/-! ## Materials (GltfMaterial.h, GltfMaterial.cpp, GltfModel.cpp) -/

/-- The struct `MaterialData`, the record of the material storage buffer. -/
structure MaterialData (α : Type) where
  baseColorFactor : Vec4 α
  emissiveFactor : Vec4 α
  metallicFactor : α
  roughnessFactor : α
  normalScale : α
  occlusionStrength : α
  alphaCutoff : α
  alphaMode : Int
  doubleSided : Int
  padding : Int
  baseColorTextureIndex : Int
  metallicRoughnessTextureIndex : Int
  normalTextureIndex : Int
  occlusionTextureIndex : Int
  emissiveTextureIndex : Int
  baseColorTexCoord : Int
  metallicRoughnessTexCoord : Int
  normalTexCoord : Int
  occlusionTexCoord : Int
  emissiveTexCoord : Int
  padding2 : Int
  padding3 : Int
deriving DecidableEq, Repr

/-- The class `GltfMaterial`, with the default member initialisers of its CPU-side
fields. -/
structure GltfMaterial (α : Type) where
  data : MaterialData α
  baseColorTextureIndex : Int := -1
  metallicRoughnessTextureIndex : Int := -1
  normalTextureIndex : Int := -1
  occlusionTextureIndex : Int := -1
  emissiveTextureIndex : Int := -1
  baseColorTexCoord : Int := 0
  metallicRoughnessTexCoord : Int := 0
  normalTexCoord : Int := 0
  occlusionTexCoord : Int := 0
  emissiveTexCoord : Int := 0
  name : String
deriving DecidableEq, Repr

section materials
variable {α : Type} [Field α]

/-- The constructor `GltfMaterial::GltfMaterial()`. -/
def GltfMaterial.default : GltfMaterial α :=
  { data :=
      { baseColorFactor := ⟨1, 1, 1, 1⟩,
        emissiveFactor := ⟨0, 0, 0, 0⟩,
        metallicFactor := 1,
        roughnessFactor := 1,
        normalScale := 1,
        occlusionStrength := 1,
        alphaCutoff := 1 / 2,
        alphaMode := 0,
        doubleSided := 0,
        padding := 0,
        baseColorTextureIndex := -1,
        metallicRoughnessTextureIndex := -1,
        normalTextureIndex := -1,
        occlusionTextureIndex := -1,
        emissiveTextureIndex := -1,
        baseColorTexCoord := 0,
        metallicRoughnessTexCoord := 0,
        normalTexCoord := 0,
        occlusionTexCoord := 0,
        emissiveTexCoord := 0,
        padding2 := 0,
        padding3 := 0 },
    name := "default" }

/-- The method `GltfMaterial::hasBaseColorTexture`. -/
def GltfMaterial.hasBaseColorTexture (self : GltfMaterial α) : Bool :=
  decide (self.baseColorTextureIndex ≥ 0)

/-- The method `GltfMaterial::hasMetallicRoughnessTexture`. -/
def GltfMaterial.hasMetallicRoughnessTexture (self : GltfMaterial α) : Bool :=
  decide (self.metallicRoughnessTextureIndex ≥ 0)

/-- The method `GltfMaterial::hasNormalTexture`. -/
def GltfMaterial.hasNormalTexture (self : GltfMaterial α) : Bool :=
  decide (self.normalTextureIndex ≥ 0)

/-- The method `GltfMaterial::hasOcclusionTexture`. -/
def GltfMaterial.hasOcclusionTexture (self : GltfMaterial α) : Bool :=
  decide (self.occlusionTextureIndex ≥ 0)

/-- The method `GltfMaterial::hasEmissiveTexture`. -/
def GltfMaterial.hasEmissiveTexture (self : GltfMaterial α) : Bool :=
  decide (self.emissiveTextureIndex ≥ 0)

/-- The method `GltfMaterial::isOpaque`. -/
def GltfMaterial.isOpaque (self : GltfMaterial α) : Bool := decide (self.data.alphaMode = 0)

/-- The method `GltfMaterial::isDoubleSided`. -/
def GltfMaterial.isDoubleSided (self : GltfMaterial α) : Bool :=
  decide (self.data.doubleSided ≠ 0)

/-- The body of the loop of `GltfModel::loadMaterials` for one material of the document;
`static_cast<float>` of a `double` is the identity on the scalars. -/
def loadMaterial (gltfMat : tinygltf.Material α) (material : GltfMaterial α) :
    GltfMaterial α :=
  let material := { material with name := gltfMat.name }
  let pbr := gltfMat.pbrMetallicRoughness
  let material := { material with data := { material.data with
    baseColorFactor := ⟨pbr.baseColorFactor.getD 0 0, pbr.baseColorFactor.getD 1 0,
      pbr.baseColorFactor.getD 2 0, pbr.baseColorFactor.getD 3 0⟩ } }
  let material := { material with data := { material.data with
    metallicFactor := pbr.metallicFactor } }
  let material := { material with data := { material.data with
    roughnessFactor := pbr.roughnessFactor } }
  let material := { material with data := { material.data with
    emissiveFactor := ⟨gltfMat.emissiveFactor.getD 0 0, gltfMat.emissiveFactor.getD 1 0,
      gltfMat.emissiveFactor.getD 2 0, 0⟩ } }
  let material :=
    if gltfMat.alphaMode = "OPAQUE" then
      { material with data := { material.data with alphaMode := 0 } }
    else if gltfMat.alphaMode = "MASK" then
      { material with data := { material.data with alphaMode := 1 } }
    else if gltfMat.alphaMode = "BLEND" then
      { material with data := { material.data with alphaMode := 2 } }
    else material
  let material := { material with data := { material.data with
    alphaCutoff := gltfMat.alphaCutoff } }
  let material := { material with data := { material.data with
    doubleSided := if gltfMat.doubleSided then 1 else 0 } }
  let material :=
    if pbr.baseColorTexture.index ≥ 0 then
      { material with
        baseColorTextureIndex := pbr.baseColorTexture.index,
        baseColorTexCoord := pbr.baseColorTexture.texCoord,
        data := { material.data with
          baseColorTextureIndex := pbr.baseColorTexture.index,
          baseColorTexCoord := pbr.baseColorTexture.texCoord } }
    else material
  let material :=
    if pbr.metallicRoughnessTexture.index ≥ 0 then
      { material with
        metallicRoughnessTextureIndex := pbr.metallicRoughnessTexture.index,
        metallicRoughnessTexCoord := pbr.metallicRoughnessTexture.texCoord,
        data := { material.data with
          metallicRoughnessTextureIndex := pbr.metallicRoughnessTexture.index,
          metallicRoughnessTexCoord := pbr.metallicRoughnessTexture.texCoord } }
    else material
  let material :=
    if gltfMat.normalTexture.index ≥ 0 then
      { material with
        normalTextureIndex := gltfMat.normalTexture.index,
        normalTexCoord := gltfMat.normalTexture.texCoord,
        data := { material.data with
          normalTextureIndex := gltfMat.normalTexture.index,
          normalTexCoord := gltfMat.normalTexture.texCoord,
          normalScale := gltfMat.normalTexture.scale } }
    else material
  let material :=
    if gltfMat.occlusionTexture.index ≥ 0 then
      { material with
        occlusionTextureIndex := gltfMat.occlusionTexture.index,
        occlusionTexCoord := gltfMat.occlusionTexture.texCoord,
        data := { material.data with
          occlusionTextureIndex := gltfMat.occlusionTexture.index,
          occlusionTexCoord := gltfMat.occlusionTexture.texCoord,
          occlusionStrength := gltfMat.occlusionTexture.strength } }
    else material
  if gltfMat.emissiveTexture.index ≥ 0 then
    { material with
      emissiveTextureIndex := gltfMat.emissiveTexture.index,
      emissiveTexCoord := gltfMat.emissiveTexture.texCoord,
      data := { material.data with
        emissiveTextureIndex := gltfMat.emissiveTexture.index,
        emissiveTexCoord := gltfMat.emissiveTexture.texCoord } }
  else material

/-- The method `GltfModel::loadMaterials` on the material vector `m_materials`: resize
(new entries are default-constructed), run the loop body on entry `i` with material `i`
of the document, then push one default material if the vector is empty. -/
def loadMaterials (model : tinygltf.Model α) (m_materials : List (GltfMaterial α)) :
    List (GltfMaterial α) :=
  let m_materials := resizeList m_materials model.materials.length GltfMaterial.default
  let m_materials := List.zipWith loadMaterial model.materials m_materials
  if m_materials.isEmpty then m_materials ++ [GltfMaterial.default] else m_materials

end materials

/-! ## GltfModel: node loading and transform refresh (GltfModel.cpp) -/

section model
variable {α : Type} [CommRing α]

/-- The class `GltfModel`. The two storage buffers are kept as the typed records they
hold: `m_transformBuffer` (`m_materialBuffer`) is `none` while its handle is
`VK_NULL_HANDLE`, otherwise the matrices (material records) the buffer holds. Sampler
handles are numbers, 0 is `VK_NULL_HANDLE`. -/
structure GltfModel (α : Type) where
  m_nodes : List (GltfNode α)
  m_rootNodes : List Int
  m_transformBuffer : Option (List (Mat4 α))
  m_meshes : List GltfMesh := []
  m_materials : List (GltfMaterial α) := []
  m_textures : List Texture := []
  m_samplers : List Nat := []
  m_materialBuffer : Option (List (MaterialData α)) := none
  m_modelPath : String := ""

/-- The call `v.resize(n)` of a `std::vector<GltfNode>`: truncate, or pad with
default-constructed nodes. -/
def resizeNodes (v : List (GltfNode α)) (n : Nat) : List (GltfNode α) :=
  v.take n ++ List.replicate (n - v.length) GltfNode.default

/-- The two nested loops of `loadNodes` that copy the document matrix:
`for row, for col: node.matrix[col][row] = gltfNode.matrix[row * 4 + col]`. -/
def copyNodeMatrix (src : List α) (m : Mat4 α) : Mat4 α :=
  ([0, 1, 2, 3] : List (Fin 4)).foldl
    (fun m row => ([0, 1, 2, 3] : List (Fin 4)).foldl
      (fun m col => m.set col row (src.getD (row.val * 4 + col.val) 0)) m) m

/-- The body of the first pass of `GltfModel::loadNodes` for node `i`. -/
def loadNodeProperties (i : Nat) (gltfNode : tinygltf.Node α) (node : GltfNode α) :
    GltfNode α :=
  let node := { node with
    index := (i : Int), name := gltfNode.name, meshIndex := gltfNode.mesh,
    skinIndex := gltfNode.skin, cameraIndex := gltfNode.camera }
  let node :=
    if !gltfNode.matrix.isEmpty then
      { node with useTRS := false, matrix := copyNodeMatrix gltfNode.matrix node.matrix }
    else
      let node := { node with useTRS := true }
      let node :=
        if !gltfNode.translation.isEmpty then
          { node with translation :=
              ⟨gltfNode.translation.getD 0 0, gltfNode.translation.getD 1 0,
               gltfNode.translation.getD 2 0⟩ }
        else node
      let node :=
        if !gltfNode.rotation.isEmpty then
          { node with rotation :=
              ⟨gltfNode.rotation.getD 3 0, gltfNode.rotation.getD 0 0,
               gltfNode.rotation.getD 1 0, gltfNode.rotation.getD 2 0⟩ }
        else node
      if !gltfNode.scale.isEmpty then
        { node with scale :=
            ⟨gltfNode.scale.getD 0 0, gltfNode.scale.getD 1 0, gltfNode.scale.getD 2 0⟩ }
      else node
  { node with children := gltfNode.children }

/-- The first pass of `loadNodes` over all document nodes, from index `i` on. -/
def loadNodesFirstPass : Nat → List (tinygltf.Node α) → List (GltfNode α) → List (GltfNode α)
  | _, [], _ => []
  | _, _ :: _, [] => []
  | i, g :: gs, n :: ns => loadNodeProperties i g n :: loadNodesFirstPass (i + 1) gs ns

/-- The assignment `m_nodes[childIndex].parent = i`, guarded by the range test. -/
def setParent (i : Nat) (nodes : List (GltfNode α)) (childIndex : Int) : List (GltfNode α) :=
  if 0 ≤ childIndex ∧ childIndex < (nodes.length : Int) then
    nodes.modify (fun c => { c with parent := (i : Int) }) childIndex.toNat
  else nodes

/-- The second pass of `loadNodes`: every node writes itself into its children. -/
def loadNodesSecondPass (nodes : List (GltfNode α)) : List (GltfNode α) :=
  (List.range nodes.length).foldl
    (fun ns i => ((ns[i]?.map (fun n => n.children)).getD []).foldl (setParent i) ns) nodes

/-- The method `GltfModel::loadNodes`. -/
def GltfModel.loadNodes (self : GltfModel α) (model : tinygltf.Model α) : GltfModel α :=
  let nodes := resizeNodes self.m_nodes model.nodes.length
  let nodes := loadNodesFirstPass 0 model.nodes nodes
  let nodes := loadNodesSecondPass nodes
  let scene := model.scenes[(if 0 ≤ model.defaultScene then model.defaultScene else 0).toNat]?
  { self with m_nodes := nodes, m_rootNodes := (scene.map (fun sc => sc.nodes)).getD [] }

/-- The method `GltfModel::updateTransforms`. `none`: the fuel of a `getWorldMatrix` call
ran out. The upload is `memcpy` of the computed array over the start of the buffer. -/
def GltfModel.updateTransforms (fuel : Nat) (device : Device) (self : GltfModel α) :
    Option (Except String (GltfModel α)) :=
  match self.m_transformBuffer with
  | none => some (.ok self)
  | some buffer =>
    if self.m_nodes.isEmpty then some (.ok self)
    else
      match computeWorldMatrices fuel self.m_nodes with
      | none => none
      | some (worldMatrices, nodes) =>
        if !device.vkMapMemory then some (.error "Buffer::map failed")
        else some (.ok { self with
          m_nodes := nodes,
          m_transformBuffer := some (worldMatrices ++ buffer.drop worldMatrices.length) })

end model

/-! ## GltfModel: loading a document and drawing (GltfModel.cpp) -/

/-- A call of `Texture::createFromPixels` made by `loadTextures`: the index of the texture
and the format, width and height arguments. -/
structure TextureUpload where
  textureIndex : Nat
  format : Nat
  width : Nat
  height : Nat
deriving DecidableEq, Repr

/-- A command recorded into the command buffer of a frame. -/
inductive RenderCmd where
  | beginRenderPass (framebuffer width height : Nat)
  | endRenderPass
  | setViewport (width height : Nat)
  | setScissor (width height : Nat)
  | bindPipeline
  | bindDescriptorSets (frame : Nat)
  | pushConstants (nodeIndex materialIndex : Int)
  | bindVertexBuffers (buffer : Nat)
  | bindIndexBuffer (buffer : Nat)
  | drawIndexed (indexCount instanceCount firstIndex : Nat) (vertexOffset : Int)
      (firstInstance : Nat)
deriving DecidableEq, Repr

def VK_BUFFER_USAGE_STORAGE_BUFFER_BIT : Nat := 0x20

/-- The value `sizeof(MaterialData)`. -/
def sizeofMaterialData : Nat := 112

/-- The value `sizeof(glm::mat4)`. -/
def sizeofMat4 : Nat := 64

/-- The method `GltfPrimitive::draw(cmd)`: the commands it records. -/
def GltfPrimitive.draw (self : GltfPrimitive) : List RenderCmd :=
  if !self.isValid then []
  else
    [.bindVertexBuffers self.vertexBuffer.m_gpu.m_buffer,
     .bindIndexBuffer self.indexBuffer.m_gpu.m_buffer,
     .drawIndexed self.indexCount 1 self.firstIndex self.vertexOffset 0]

section load
variable {α : Type}

/-- The loop of `loadFromFile` that fills `std::vector<bool> isColorTexture`, starting
from all `false`. -/
def classifyTextures (model : tinygltf.Model α) : List Bool :=
  model.materials.foldl
    (fun isColorTexture gltfMat =>
      let isColorTexture :=
        if gltfMat.pbrMetallicRoughness.baseColorTexture.index ≥ 0 then
          isColorTexture.set gltfMat.pbrMetallicRoughness.baseColorTexture.index.toNat true
        else isColorTexture
      if gltfMat.emissiveTexture.index ≥ 0 then
        isColorTexture.set gltfMat.emissiveTexture.index.toNat true
      else isColorTexture)
    (List.replicate model.textures.length false)

/-- The body of the loop of `GltfModel::loadTextures` for texture `i`; `stbi_load` answers
for a path with the pixels, width and height, or `none` for a null pointer. The last
component lists the calls of `createFromPixels` made. An `int` width or height becomes
the `uint32_t` argument. -/
def loadTexture (stbi_load : String → Option (List Nat × Int × Int)) (device : Device)
    (model : tinygltf.Model α) (baseDir : String) (isColorTexture : List Bool) (i : Nat)
    (gltfTex : tinygltf.Texture) (texture : Texture) (gpu : Gpu) :
    Except String Unit × Texture × Gpu × List TextureUpload :=
  if gltfTex.source < 0 ∨ gltfTex.source ≥ (model.images.length : Int) then
    (.ok (), texture, gpu, [])
  else
    let gltfImage := model.images.getD gltfTex.source.toNat {}
    let format :=
      if isColorTexture.getD i false then VK_FORMAT_R8G8B8A8_SRGB else VK_FORMAT_R8G8B8A8_UNORM
    if !gltfImage.image.isEmpty then
      let width := (gltfImage.width % 2 ^ 32).toNat
      let height := (gltfImage.height % 2 ^ 32).toNat
      match texture.createFromPixels device gltfImage.image width height format true gpu with
      | (r, texture, gpu) => (r, texture, gpu, [⟨i, format, width, height⟩])
    else if !gltfImage.uri.isEmpty then
      match stbi_load (baseDir ++ gltfImage.uri) with
      | none => (.ok (), texture, gpu, [])
      | some (pixels, width, height) =>
        let width := (width % 2 ^ 32).toNat
        let height := (height % 2 ^ 32).toNat
        match texture.createFromPixels device pixels width height format true gpu with
        | (r, texture, gpu) => (r, texture, gpu, [⟨i, format, width, height⟩])
    else (.ok (), texture, gpu, [])

/-- The loop of `GltfModel::loadTextures` from texture `i` on; a throw ends it. -/
def loadTexturesLoop (stbi_load : String → Option (List Nat × Int × Int)) (device : Device)
    (model : tinygltf.Model α) (baseDir : String) (isColorTexture : List Bool) :
    Nat → List tinygltf.Texture → List Texture → Gpu →
      Except String Unit × List Texture × Gpu × List TextureUpload
  | _, [], textures, gpu => (.ok (), textures, gpu, [])
  | _, _ :: _, [], gpu => (.ok (), [], gpu, [])
  | i, gltfTex :: gs, texture :: ts, gpu =>
    match loadTexture stbi_load device model baseDir isColorTexture i gltfTex texture gpu with
    | (.error e, texture, gpu, uploads) => (.error e, texture :: ts, gpu, uploads)
    | (.ok (), texture, gpu, uploads) =>
      match loadTexturesLoop stbi_load device model baseDir isColorTexture (i + 1) gs ts gpu with
      | (r, ts, gpu, later) => (r, texture :: ts, gpu, uploads ++ later)

/-- The method `GltfModel::loadTextures` on the texture vector `m_textures`. -/
def loadTextures (stbi_load : String → Option (List Nat × Int × Int)) (device : Device)
    (model : tinygltf.Model α) (baseDir : String) (isColorTexture : List Bool)
    (m_textures : List Texture) (gpu : Gpu) :
    Except String Unit × List Texture × Gpu × List TextureUpload :=
  loadTexturesLoop stbi_load device model baseDir isColorTexture 0 model.textures
    (resizeList m_textures model.textures.length {}) gpu

/-- The loop of `GltfModel::loadSamplers` from sampler `i` on. The create info built from
the document sampler goes to the driver only; sampler `i` gets the handle `i + 1`. -/
def loadSamplersLoop (device : Device) :
    Nat → List tinygltf.Sampler → List Nat → Except String Unit × List Nat
  | _, [], samplers => (.ok (), samplers)
  | _, _ :: _, [] => (.ok (), [])
  | i, _ :: gs, sampler :: ss =>
    if !device.vkCreateSampler then (.error "Failed to create glTF sampler", sampler :: ss)
    else
      match loadSamplersLoop device (i + 1) gs ss with
      | (r, ss) => (r, (i + 1) :: ss)

/-- The method `GltfModel::loadSamplers` on the sampler vector `m_samplers`. -/
def loadSamplers (device : Device) (model : tinygltf.Model α) (m_samplers : List Nat) :
    Except String Unit × List Nat :=
  loadSamplersLoop device 0 model.samplers (resizeList m_samplers model.samplers.length 0)

/-- The outcome of `buffer.create(device, size, VK_BUFFER_USAGE_STORAGE_BUFFER_BIT,
HOST_VISIBLE | HOST_COHERENT)` followed by `buffer.map(device)` for one of the two storage
buffers of the model (their contents are kept in the model): the error, if any, and
whether the buffer handle has been set. -/
def createStorageBuffer (device : Device) (size : Nat) : Except String Unit × Bool :=
  match Buffer.create device size VK_BUFFER_USAGE_STORAGE_BUFFER_BIT
      (VK_MEMORY_PROPERTY_HOST_VISIBLE_BIT ||| VK_MEMORY_PROPERTY_HOST_COHERENT_BIT)
      {} Gpu.empty with
  | (.error e, buffer, _) => (.error e, decide (buffer.m_buffer ≠ 0))
  | (.ok (), buffer, _) => ((Buffer.map device buffer).1, true)

/-- The method `GltfModel::createMaterialBuffer`. When a call throws after the handle was
set, the buffer holds no record yet. -/
def GltfModel.createMaterialBuffer (device : Device) (self : GltfModel α) :
    Except String Unit × GltfModel α :=
  if self.m_materials.isEmpty then (.ok (), self)
  else
    let bufferSize := sizeofMaterialData * self.m_materials.length
    match createStorageBuffer device bufferSize with
    | (.error e, created) =>
      (.error e, if created then { self with m_materialBuffer := some [] } else self)
    | (.ok (), _) =>
      (.ok (), { self with m_materialBuffer := some (self.m_materials.map fun m => m.data) })

/-- The method `GltfModel::isLoaded`. -/
def GltfModel.isLoaded (self : GltfModel α) : Bool := !self.m_nodes.isEmpty

/-- The method `GltfModel::drawNode(cmd, pipelineLayout, nodeIndex)`: the commands it
records; `none` when the recursion through the children has not ended within `fuel`
nested calls. -/
def GltfModel.drawNode (self : GltfModel α) : Nat → Int → Option (List RenderCmd)
  | 0, _ => none
  | fuel + 1, nodeIndex =>
    if nodeIndex < 0 ∨ nodeIndex ≥ (self.m_nodes.length : Int) then some []
    else
      match self.m_nodes[nodeIndex.toNat]? with
      | none => some []
      | some node =>
        let meshCmds : List RenderCmd :=
          if node.meshIndex ≥ 0 ∧ node.meshIndex < (self.m_meshes.length : Int) then
            match self.m_meshes[node.meshIndex.toNat]? with
            | none => []
            | some mesh =>
              mesh.primitives.flatMap fun primitive =>
                RenderCmd.pushConstants nodeIndex primitive.materialIndex :: primitive.draw
          else []
        node.children.foldl
          (fun acc childIndex =>
            match acc with
            | none => none
            | some cmds =>
              match GltfModel.drawNode self fuel childIndex with
              | none => none
              | some childCmds => some (cmds ++ childCmds))
          (some meshCmds)

/-- The method `GltfModel::draw(cmd, pipelineLayout, currentFrame)`: the commands it
records. -/
def GltfModel.draw (fuel : Nat) (self : GltfModel α) : Option (List RenderCmd) :=
  self.m_rootNodes.foldl
    (fun acc rootIndex =>
      match acc with
      | none => none
      | some cmds =>
        if rootIndex ≥ 0 ∧ rootIndex < (self.m_nodes.length : Int) then
          match self.drawNode fuel rootIndex with
          | none => none
          | some nodeCmds => some (cmds ++ nodeCmds)
        else some cmds)
    (some [])

end load

section loadFile
variable {α : Type} [Field α]

/-- The method `GltfModel::createTransformBuffer`. When a call throws after the handle
was set, the buffer holds no matrix yet. -/
def GltfModel.createTransformBuffer (device : Device) (self : GltfModel α) :
    Except String Unit × GltfModel α :=
  if self.m_nodes.isEmpty then (.ok (), self)
  else
    let bufferSize := sizeofMat4 * self.m_nodes.length
    match createStorageBuffer device bufferSize with
    | (.error e, created) =>
      (.error e, if created then { self with m_transformBuffer := some [] } else self)
    | (.ok (), _) =>
      (.ok (), { self with
        m_transformBuffer := some (List.replicate self.m_nodes.length Mat4.identity) })

/-- The method `GltfModel::loadFromFile`. The parse by tinygltf is taken as given: `model`,
`err` and `success` are its results for `filename`, and `baseDir` is the directory part of
`filename`. First component: `none` when a `getWorldMatrix` call of `updateTransforms` has
not ended within `fuel` nested calls, else whether the method returns or throws. Last
component: the calls of `createFromPixels` made, oldest first. -/
def GltfModel.loadFromFile (fuel : Nat) (stbi_load : String → Option (List Nat × Int × Int))
    (decode : List Nat → α) (vimg : MemoryImage (GltfVertex α)) (device : Device)
    (model : tinygltf.Model α) (err : String) (success : Bool) (filename baseDir : String)
    (self : GltfModel α) (gpu : Gpu) :
    Option (Except String Unit) × GltfModel α × Gpu × List TextureUpload :=
  let self := { self with m_modelPath := filename }
  if err ≠ "" then (some (.error ("glTF Error: " ++ err)), self, gpu, [])
  else if !success then
    (some (.error ("Failed to load glTF file: " ++ filename)), self, gpu, [])
  else
    let isColorTexture := classifyTextures model
    match loadTextures stbi_load device model baseDir isColorTexture self.m_textures gpu with
    | (.error e, textures, gpu, uploads) =>
      (some (.error e), { self with m_textures := textures }, gpu, uploads)
    | (.ok (), textures, gpu, uploads) =>
      let self := { self with m_textures := textures }
      match loadSamplers device model self.m_samplers with
      | (.error e, samplers) =>
        (some (.error e), { self with m_samplers := samplers }, gpu, uploads)
      | (.ok (), samplers) =>
        let self := { self with m_samplers := samplers }
        let self := { self with m_materials := loadMaterials model self.m_materials }
        match loadMeshes decode vimg device model self.m_meshes gpu with
        | (.error e, meshes, gpu) =>
          (some (.error e), { self with m_meshes := meshes }, gpu, uploads)
        | (.ok (), meshes, gpu) =>
          let self := { self with m_meshes := meshes }
          let self := self.loadNodes model
          match self.createMaterialBuffer device with
          | (.error e, self) => (some (.error e), self, gpu, uploads)
          | (.ok (), self) =>
            match self.createTransformBuffer device with
            | (.error e, self) => (some (.error e), self, gpu, uploads)
            | (.ok (), self) =>
              match self.updateTransforms fuel device with
              | none => (none, self, gpu, uploads)
              | some (.error e) => (some (.error e), self, gpu, uploads)
              | some (.ok self) => (some (.ok ()), self, gpu, uploads)

end loadFile

/-! ## Swapchain and the frame loop (Swapchain.cpp, SyncObjects.cpp, Application.cpp) -/

def VK_SUCCESS : Int := 0
def VK_SUBOPTIMAL_KHR : Int := 1000001003
def VK_ERROR_OUT_OF_DATE_KHR : Int := -1000001004
def VK_ERROR_DEVICE_LOST : Int := -4
def VK_FORMAT_B8G8R8A8_SRGB : Nat := 50
def VK_COLOR_SPACE_SRGB_NONLINEAR_KHR : Nat := 0
def VK_PRESENT_MODE_MAILBOX_KHR : Nat := 1
def VK_PRESENT_MODE_FIFO_KHR : Nat := 2

/-- The constant `Application::kMaxFramesInFlight`. -/
def kMaxFramesInFlight : Nat := 2

/-- The value `sizeof(UniformBufferObject)`: four `mat4` and five `vec4`. -/
def sizeofUniformBufferObject : Nat := 336

/-- The struct `VkExtent2D`. -/
structure VkExtent2D where
  width : Nat
  height : Nat
deriving DecidableEq, Repr

/-- The struct `VkSurfaceFormatKHR`. -/
structure VkSurfaceFormatKHR where
  format : Nat
  colorSpace : Nat
deriving DecidableEq, Repr

/-- The struct `VkSurfaceCapabilitiesKHR` (fields read by `Swapchain::create`). -/
structure VkSurfaceCapabilitiesKHR where
  minImageCount : Nat
  maxImageCount : Nat
  currentExtent : VkExtent2D
  minImageExtent : VkExtent2D
  maxImageExtent : VkExtent2D
deriving DecidableEq, Repr

/-- The struct `SwapChainSupportDetails`. -/
structure SwapChainSupportDetails where
  capabilities : VkSurfaceCapabilitiesKHR
  formats : List VkSurfaceFormatKHR
  presentModes : List Nat
deriving DecidableEq, Repr

/-- The struct `QueueFamilyIndices`. -/
structure QueueFamilyIndices where
  graphicsFamily : Option Nat
  presentFamily : Option Nat
deriving DecidableEq, Repr

/-- The answers of the driver and of the clock during one call of `drawFrame`: the result
and image index of `vkAcquireNextImageKHR`, the bytes of the uniform block computed by
`updateUniformBuffer`, the results of the four queue and command buffer calls, and what
a swapchain creation is answered. `querySwapChainSupport` and `findQueueFamilies` of
PhysicalDevice.h, whose definitions are not among the sources, are taken as answers. -/
structure FrameDriver where
  vkAcquireNextImageKHR : Int × Nat
  ubo : List Nat
  vkBeginCommandBuffer : Int
  vkEndCommandBuffer : Int
  vkQueueSubmit : Int
  vkQueuePresentKHR : Int
  querySwapChainSupport : SwapChainSupportDetails
  findQueueFamilies : QueueFamilyIndices
  vkCreateSwapchainKHR : Int
  vkGetSwapchainImagesKHR : Nat

/-- The state of a fence; `pending`: unsignaled, with a submitted command buffer that
signals it on completion. -/
inductive FenceState where
  | signaled
  | unsignaled
  | pending
deriving DecidableEq, Repr

/-- A call into the driver or the window system made by the frame loop. -/
inductive FrameEvent where
  | waitForFences (frame : Nat)
  | acquireNextImage (frame : Nat)
  | resetFences (frame : Nat)
  | resetCommandBuffer (frame : Nat)
  | beginCommandBuffer (frame : Nat)
  | endCommandBuffer (frame : Nat)
  | queueSubmit (frame : Nat) (cmds : List RenderCmd)
  | queuePresent (imageIndex : Nat)
  | waitEvents
  | deviceWaitIdle
  | destroyImageView (view : Nat)
  | destroySwapchain (swapchain : Nat)
  | createSwapchain (swapchain : Nat) (extent : VkExtent2D)
      (minImageCount format presentMode : Nat)
  | createImageView (view image : Nat)
deriving DecidableEq, Repr

/-- The window: the framebuffer size `glfwGetFramebufferSize` reports, and what the
coming calls of `glfwWaitEvents` will process, one entry per call: `some size` is a
framebuffer resize to `size`, `none` any other event. -/
structure Window where
  framebufferSize : Int × Int
  events : List (Option (Int × Int)) := []
deriving DecidableEq, Repr

/-- Everything outside the application object that the frame loop reads or changes: the
buffers, the window, the fences of the frame slots, the next unused handle (at least 1),
and the calls made so far, oldest first. -/
structure World where
  gpu : Gpu
  window : Window
  fences : List FenceState
  nextHandle : Nat
  log : List FrameEvent := []

/-- Append a call to the log. -/
def World.emit (world : World) (e : FrameEvent) : World :=
  { world with log := world.log ++ [e] }

/-- The class `Swapchain`. -/
structure Swapchain where
  m_swapchain : Nat := 0
  m_swapchainImages : List Nat := []
  m_views : List Nat := []
  m_format : Nat := 0
  m_extent : VkExtent2D := ⟨0, 0⟩
deriving DecidableEq, Repr

/-- The function `chooseSwapSurfaceFormat`. -/
def chooseSwapSurfaceFormat (availableFormats : List VkSurfaceFormatKHR) : VkSurfaceFormatKHR :=
  match availableFormats.find? (fun f =>
      decide (f.format = VK_FORMAT_B8G8R8A8_SRGB) &&
        decide (f.colorSpace = VK_COLOR_SPACE_SRGB_NONLINEAR_KHR)) with
  | some f => f
  | none => availableFormats.getD 0 ⟨0, 0⟩

/-- The function `chooseSwapPresentMode`. -/
def chooseSwapPresentMode (availablePresentModes : List Nat) : Nat :=
  if VK_PRESENT_MODE_MAILBOX_KHR ∈ availablePresentModes then VK_PRESENT_MODE_MAILBOX_KHR
  else VK_PRESENT_MODE_FIFO_KHR

/-- The function `std::clamp(v, lo, hi)` (for `lo <= hi`). -/
def clamp (v lo hi : Nat) : Nat := if v < lo then lo else if hi < v then hi else v

/-- The function `chooseSwapExtent`; the `int` framebuffer size is cast to `uint32_t`. -/
def chooseSwapExtent (capabilities : VkSurfaceCapabilitiesKHR) (window : Window) : VkExtent2D :=
  if capabilities.currentExtent.width ≠ 2 ^ 32 - 1 then capabilities.currentExtent
  else
    let (width, height) := window.framebufferSize
    let actualExtent : VkExtent2D := ⟨(width % 2 ^ 32).toNat, (height % 2 ^ 32).toNat⟩
    ⟨clamp actualExtent.width capabilities.minImageExtent.width
        capabilities.maxImageExtent.width,
      clamp actualExtent.height capabilities.minImageExtent.height
        capabilities.maxImageExtent.height⟩

/-- Modelled from the spec: `createImageView` of Utilities.h, whose definition is not
among the sources: it creates one image view of the image or throws. -/
def createImageView (device : Device) (image : Nat) (world : World) :
    Except String Nat × World :=
  if !device.vkCreateImageView then (.error createImageViewError, world)
  else
    (.ok world.nextHandle,
      { world with nextHandle := world.nextHandle + 1 }.emit
        (.createImageView world.nextHandle image))

/-- The loop of `Swapchain::createImageViews`; a throw ends it. -/
def createImageViewsLoop (device : Device) :
    List Nat → List Nat → World → Except String Unit × List Nat × World
  | [], views, world => (.ok (), views, world)
  | _ :: _, [], world => (.ok (), [], world)
  | image :: images, view :: views, world =>
    match createImageView device image world with
    | (.error e, world) => (.error e, view :: views, world)
    | (.ok newView, world) =>
      match createImageViewsLoop device images views world with
      | (r, views, world) => (r, newView :: views, world)

/-- The method `Swapchain::createImageViews`. -/
def Swapchain.createImageViews (device : Device) (self : Swapchain) (world : World) :
    Except String Unit × Swapchain × World :=
  match createImageViewsLoop device self.m_swapchainImages
      (resizeList self.m_views self.m_swapchainImages.length 0) world with
  | (r, views, world) => (r, { self with m_views := views }, world)

/-- The method `Swapchain::destroy`. -/
def Swapchain.destroy (self : Swapchain) (world : World) : World :=
  (self.m_views.foldl (fun world imageView => world.emit (.destroyImageView imageView))
    world).emit (.destroySwapchain self.m_swapchain)

/-- The method `Swapchain::create`. A swapchain of `n` images takes the next handle and
its images the `n` handles after it. `value()` of an empty optional throws. -/
def Swapchain.create (device : Device) (driver : FrameDriver) (self : Swapchain)
    (world : World) : Except String Unit × Swapchain × World :=
  let swapChainSupport := driver.querySwapChainSupport
  let surfaceFormat := chooseSwapSurfaceFormat swapChainSupport.formats
  let presentMode := chooseSwapPresentMode swapChainSupport.presentModes
  let extent := chooseSwapExtent swapChainSupport.capabilities world.window
  let imageCount := (swapChainSupport.capabilities.minImageCount + 1) % 2 ^ 32
  let imageCount :=
    if swapChainSupport.capabilities.maxImageCount > 0 ∧
        imageCount > swapChainSupport.capabilities.maxImageCount then
      swapChainSupport.capabilities.maxImageCount
    else imageCount
  match driver.findQueueFamilies.graphicsFamily, driver.findQueueFamilies.presentFamily with
  | some _, some _ =>
    if driver.vkCreateSwapchainKHR ≠ VK_SUCCESS then
      (.error "failed to create swap chain!", self, world)
    else
      let handle := world.nextHandle
      let world := { world with nextHandle := handle + 1 + driver.vkGetSwapchainImagesKHR }.emit
        (.createSwapchain handle extent imageCount surfaceFormat.format presentMode)
      let self := { self with
        m_swapchain := handle,
        m_swapchainImages :=
          (List.range driver.vkGetSwapchainImagesKHR).map fun i => handle + 1 + i,
        m_format := surfaceFormat.format,
        m_extent := extent }
      self.createImageViews device world
  | _, _ => (.error "bad optional access", self, world)

/-- The function `glfwWaitEvents`: it returns after processing the next entry of
`events`, `none` when there is none (it never returns). The flag tells whether the
framebuffer resize callback ran. -/
def glfwWaitEvents (world : World) : Option (World × Bool) :=
  match world.window.events with
  | [] => none
  | e :: events =>
    let window : Window :=
      match e with
      | some size => ⟨size, events⟩
      | none => { world.window with events := events }
    some ({ world with window := window }.emit .waitEvents, e.isSome)

/-- The loop `while (width == 0 || height == 0)` of `Swapchain::recreate`, for at most
the given number of rounds. -/
def recreatePoll : Nat → Int → Int → World → Bool → Option (World × Bool)
  | 0, _, _, _, _ => none
  | rounds + 1, width, height, world, resized =>
    if width = 0 ∨ height = 0 then
      let (width, height) := world.window.framebufferSize
      match glfwWaitEvents world with
      | none => none
      | some (world, r) => recreatePoll rounds width height world (resized || r)
    else some (world, resized)

/-- The method `Swapchain::recreate`. `none`: it never returns, `glfwWaitEvents` waiting
for an event that does not come (every round of the loop takes one event, so the bound
on the rounds is never what ends it). The flag tells whether the framebuffer resize
callback ran meanwhile. -/
def Swapchain.recreate (device : Device) (driver : FrameDriver) (self : Swapchain)
    (world : World) : Option (Except String Unit × Swapchain × World × Bool) :=
  let (width, height) := world.window.framebufferSize
  match recreatePoll (world.window.events.length + 1) width height world false with
  | none => none
  | some (world, resized) =>
    let world := world.emit .deviceWaitIdle
    let world := self.destroy world
    match self.create device driver world with
    | (.error e, self, world) => some (.error e, self, world, resized)
    | (.ok (), self, world) =>
      match self.createImageViews device world with
      | (r, self, world) => some (r, self, world, resized)

/-- The class `Application`, restricted to what `drawFrame` reads and writes.
`m_framebuffer` lists the framebuffer handles by image index, `m_commandBuffers` what
each frame slot's command buffer holds. -/
structure Application (α : Type) where
  m_swapchain : Swapchain
  m_framebuffer : List Nat
  m_uboSet : List Buffer
  m_commandBuffers : List (List RenderCmd)
  m_gltfModel : GltfModel α
  m_framebufferResized : Bool := false
  m_currentFrame : Nat := 0

section frame
variable {α : Type} [CommRing α]

/-- The second part of `Application::drawFrame`, from `vkBeginCommandBuffer` on, given
the acquired image index. `none`: a draw recursion has not ended within `fuel`, or the
swapchain recreation never returns. -/
def Application.recordAndPresent (fuel : Nat) (device : Device) (driver : FrameDriver)
    (imageIndex : Nat) (self : Application α) (world : World) :
    Option (Except String Unit × Application α × World) :=
  let world := world.emit (.beginCommandBuffer self.m_currentFrame)
  if driver.vkBeginCommandBuffer ≠ VK_SUCCESS then
    some (.error "Failed to begin recording command buffer", self, world)
  else
    let extent := self.m_swapchain.m_extent
    let modelCmds : Option (List RenderCmd) :=
      if self.m_gltfModel.isLoaded then
        match self.m_gltfModel.draw fuel with
        | none => none
        | some cmds =>
          some ([.bindPipeline, .bindDescriptorSets self.m_currentFrame] ++ cmds)
      else some []
    match modelCmds with
    | none => none
    | some modelCmds =>
      let cmds : List RenderCmd :=
        [.beginRenderPass (self.m_framebuffer.getD imageIndex 0) extent.width extent.height,
         .setViewport extent.width extent.height,
         .setScissor extent.width extent.height] ++ modelCmds ++ [.endRenderPass]
      let self := { self with
        m_commandBuffers := self.m_commandBuffers.set self.m_currentFrame cmds }
      let world := world.emit (.endCommandBuffer self.m_currentFrame)
      if driver.vkEndCommandBuffer ≠ VK_SUCCESS then
        some (.error "Failed to record command buffer", self, world)
      else
        let world := world.emit (.queueSubmit self.m_currentFrame cmds)
        if driver.vkQueueSubmit ≠ VK_SUCCESS then
          some (.error "failed to submit draw command buffer!", self, world)
        else
          let world := { world with
            fences := world.fences.set self.m_currentFrame .pending }
          let world := world.emit (.queuePresent imageIndex)
          let result := driver.vkQueuePresentKHR
          let next : Option (Except String Unit × Application α × World) :=
            if result = VK_ERROR_OUT_OF_DATE_KHR ∨ result = VK_SUBOPTIMAL_KHR ∨
                self.m_framebufferResized = true then
              let self := { self with m_framebufferResized := false }
              match self.m_swapchain.recreate device driver world with
              | none => none
              | some (r, swapchain, world, resized) =>
                some (r, { self with
                  m_swapchain := swapchain, m_framebufferResized := resized }, world)
            else if result ≠ VK_SUCCESS then
              some (.error "failed to present swap chain image!", self, world)
            else some (.ok (), self, world)
          match next with
          | none => none
          | some (.error e, self, world) => some (.error e, self, world)
          | some (.ok (), self, world) =>
            some (.ok (), { self with
              m_currentFrame :=
                (self.m_currentFrame + 1) % 2 ^ 32 % kMaxFramesInFlight }, world)

/-- The method `Application::drawFrame`. `none`: the call never returns (the fence of the
slot is unsignaled with nothing pending, `glfwWaitEvents` waits for an event that does
not come) or a recursion over the nodes has not ended within `fuel` nested calls.
`vkWaitForFences` returns once a pending submission has completed. -/
def Application.drawFrame (fuel : Nat) (device : Device) (driver : FrameDriver)
    (self : Application α) (world : World) :
    Option (Except String Unit × Application α × World) :=
  match world.fences[self.m_currentFrame]? with
  | none => none
  | some .unsignaled => none
  | some _ =>
    let world := { world with
      fences := world.fences.set self.m_currentFrame .signaled }.emit
        (.waitForFences self.m_currentFrame)
    let (result, imageIndex) := driver.vkAcquireNextImageKHR
    let world := world.emit (.acquireNextImage self.m_currentFrame)
    if result = VK_ERROR_OUT_OF_DATE_KHR then
      match self.m_swapchain.recreate device driver world with
      | none => none
      | some (r, swapchain, world, resized) =>
        some (r, { self with
          m_swapchain := swapchain,
          m_framebufferResized := self.m_framebufferResized || resized }, world)
    else if result ≠ VK_SUCCESS ∧ result ≠ VK_SUBOPTIMAL_KHR then
      some (.error "failed to acquire swap chain image!", self, world)
    else
      let world := { world with
        fences := world.fences.set self.m_currentFrame .unsignaled }.emit
          (.resetFences self.m_currentFrame)
      match Buffer.write driver.ubo sizeofUniformBufferObject
          (self.m_uboSet.getD self.m_currentFrame {}) world.gpu with
      | (.error e, gpu) => some (.error e, self, { world with gpu := gpu })
      | (.ok (), gpu) =>
        let world := { world with gpu := gpu }
        let updated : Option (Except String (GltfModel α)) :=
          if self.m_gltfModel.isLoaded then self.m_gltfModel.updateTransforms fuel device
          else some (.ok self.m_gltfModel)
        match updated with
        | none => none
        | some (.error e) => some (.error e, self, world)
        | some (.ok gltfModel) =>
          let self := { self with m_gltfModel := gltfModel }
          let world := world.emit (.resetCommandBuffer self.m_currentFrame)
          self.recordAndPresent fuel device driver imageIndex world

end frame

/-- Whether a call belongs to the work of a frame proper: resetting the fence, recording,
submitting or presenting. -/
def FrameEvent.isFrameWork : FrameEvent → Bool
  | .resetFences _ => true
  | .resetCommandBuffer _ => true
  | .beginCommandBuffer _ => true
  | .endCommandBuffer _ => true
  | .queueSubmit _ _ => true
  | .queuePresent _ => true
  | _ => false

/-- Whether a call creates a swapchain or an image view. -/
def FrameEvent.isCreate : FrameEvent → Bool
  | .createSwapchain .. => true
  | .createImageView .. => true
  | _ => false

/-- The second world differs from the first at most by calls that create a swapchain or
an image view, appended to the log, and by the handles given out for them. -/
def World.CreatesOnly (w w2 : World) : Prop :=
  w2.gpu = w.gpu ∧ w2.window = w.window ∧ w2.fences = w.fences ∧
  ∃ new, w2.log = w.log ++ new ∧ ∀ e ∈ new, FrameEvent.isCreate e = true

/-- The messages with which a swapchain recreation can throw. -/
def recreateErrors : List String :=
  ["failed to create swap chain!", "bad optional access", createImageViewError]


/-- The image layout of every subresource `(layer, level)` of one image. -/
abbrev ImageLayouts := Nat → Nat → Nat

/-- Whether a command agrees with the layouts the image is in when the command executes:
a barrier must declare as `oldLayout` the layout of every subresource of its range, a
blit must read a level that is in transfer-source and write a level that is in
transfer-destination layout. -/
def Cmd.layoutsAgree (layouts : ImageLayouts) : Cmd → Bool
  | .pipelineBarrier baseMipLevel levelCount baseArrayLayer layerCount oldLayout _ =>
    (List.range layerCount).all fun l =>
      (List.range levelCount).all fun m =>
        decide (layouts (baseArrayLayer + l) (baseMipLevel + m) = oldLayout)
  | .blitImage _ srcLevel dstLevel layer _ _ _ _ =>
    decide (layouts layer srcLevel = VK_IMAGE_LAYOUT_TRANSFER_SRC_OPTIMAL ∧
      layouts layer dstLevel = VK_IMAGE_LAYOUT_TRANSFER_DST_OPTIMAL)
  | _ => true

/-- The layouts after a command: a barrier moves every subresource of its range to
`newLayout`, other commands change no layout. -/
def Cmd.applyLayouts (layouts : ImageLayouts) : Cmd → ImageLayouts
  | .pipelineBarrier baseMipLevel levelCount baseArrayLayer layerCount _ newLayout =>
    fun layer level =>
      if baseArrayLayer ≤ layer ∧ layer < baseArrayLayer + layerCount ∧
          baseMipLevel ≤ level ∧ level < baseMipLevel + levelCount then newLayout
      else layouts layer level
  | _ => layouts

/-- Executes recorded commands on the layouts of the image they concern: whether every
command agreed with the layouts at its point of execution, and the layouts at the end. -/
def runLayouts : ImageLayouts → List Cmd → Bool × ImageLayouts
  | layouts, [] => (true, layouts)
  | layouts, c :: cs =>
    let r := runLayouts (c.applyLayouts layouts) cs
    (c.layoutsAgree layouts && r.1, r.2)

/-- The layouts in which every subresource is in transfer-destination layout. -/
def allTransferDst : ImageLayouts := fun _ _ => VK_IMAGE_LAYOUT_TRANSFER_DST_OPTIMAL

/-- The parent index the second pass of `loadNodes` leaves in node `c` after the nodes
`0 .. k - 1` wrote themselves into their children: the last of them whose children list
names `c`, else the parent the node had before. -/
def lastParent (children : Nat → List Int) (c : Nat) (init : Int) : Nat → Int
  | 0 => init
  | k + 1 => if (c : Int) ∈ children k then (k : Int) else lastParent children c init k

section children
variable {α : Type} [CommRing α]

/-- Whether every chain of child links that starts at node `nodeIndex` ends, explored like
the recursion of `drawNode`: one unit of fuel per call, an index out of range ends the
chain. -/
def childrenEnd (nodes : List (GltfNode α)) : Nat → Int → Bool
  | 0, _ => false
  | fuel + 1, nodeIndex =>
    if nodeIndex < 0 ∨ nodeIndex ≥ (nodes.length : Int) then true
    else
      match nodes[nodeIndex.toNat]? with
      | none => true
      | some node => node.children.all (childrenEnd nodes fuel)

/-- The children lists contain no cycle: from every node every chain of child links ends.
A chain without repetition visits at most `length` nodes and then leaves the range, so
`length + 1` calls decide it. -/
def ChildrenAcyclic (nodes : List (GltfNode α)) : Prop :=
  ∀ i, i < nodes.length → childrenEnd nodes (nodes.length + 1) (i : Int) = true

instance (nodes : List (GltfNode α)) : Decidable (ChildrenAcyclic nodes) := by
  unfold ChildrenAcyclic; infer_instance

/-- Every parent link of the collection points to a node that lists the node as child. -/
def ParentsListed (nodes : List (GltfNode α)) : Prop :=
  ∀ x p, parentLink nodes x = some p →
    ∃ node, nodes[p]? = some node ∧ (x : Int) ∈ node.children

end children

section drawOrder
variable {α : Type} [CommRing α]

/-- Specification side of the draw order: the nodes visited from `nodeIndex` in depth-first
pre-order, a node before its children, the children in list order, an index out of range
visits nothing. Chains of more than `depth` nodes are cut. -/
def preorder (nodes : List (GltfNode α)) : Nat → Int → List Nat
  | 0, _ => []
  | depth + 1, nodeIndex =>
    if 0 ≤ nodeIndex ∧ nodeIndex < (nodes.length : Int) then
      nodeIndex.toNat ::
        (((nodes[nodeIndex.toNat]?).map fun n => n.children).getD []).flatMap
          (preorder nodes depth)
    else []

/-- Specification side of the draw order: the commands of one visited node. When its mesh
index is in range: for each primitive of that mesh in order, the push constant with the
node's index and the primitive's material index, then, if the primitive is valid, the
binding of its two buffers and one indexed draw of its `indexCount` indices. -/
def nodeCommands (self : GltfModel α) (i : Nat) : List RenderCmd :=
  match self.m_nodes[i]? with
  | none => []
  | some node =>
    if 0 ≤ node.meshIndex ∧ node.meshIndex < (self.m_meshes.length : Int) then
      (((self.m_meshes[node.meshIndex.toNat]?).map fun m => m.primitives).getD []).flatMap
        fun primitive =>
          RenderCmd.pushConstants (i : Int) primitive.materialIndex ::
            (if primitive.isValid then
              [.bindVertexBuffers primitive.vertexBuffer.m_gpu.m_buffer,
               .bindIndexBuffer primitive.indexBuffer.m_gpu.m_buffer,
               .drawIndexed primitive.indexCount 1 primitive.firstIndex
                 primitive.vertexOffset 0]
            else [])
    else []

/-- Node `c` is listed in the children list of node `p`. -/
def IsChild (nodes : List (GltfNode α)) (p c : Nat) : Prop :=
  ∃ node, nodes[p]? = some node ∧ (c : Int) ∈ node.children

/-- Node `i` is a root of the model or can be reached from one through children lists. -/
def ReachableFromRoots (self : GltfModel α) (i : Nat) : Prop :=
  ∃ root ∈ self.m_rootNodes, 0 ≤ root ∧
    Relation.ReflTransGen (IsChild self.m_nodes) root.toNat i

end drawOrder

/-- The framebuffer loop of `Framebuffer::create` over the image views of the swapchain:
one `vkCreateFramebuffer` per view; a failure throws. The result pairs each new
framebuffer handle with the swapchain image view it was created with (its third
attachment, fixed for the lifetime of the framebuffer). The colour and depth attachments,
which all framebuffers share, are left out. -/
def Framebuffer.createLoop (vkCreateFramebuffer : Bool) :
    List Nat → World → Except String Unit × List (Nat × Nat) × World
  | [], world => (.ok (), [], world)
  | view :: views, world =>
    if !vkCreateFramebuffer then (.error "failed to create framebuffer!", [], world)
    else
      match Framebuffer.createLoop vkCreateFramebuffer views
          { world with nextHandle := world.nextHandle + 1 } with
      | (r, framebuffers, world2) => (r, (world.nextHandle, view) :: framebuffers, world2)

/-- The calls a returning swapchain recreation makes: polls, wait for device idle,
destruction of the old views and swapchain, creation calls. -/
def recreateCalls (self : Swapchain) (k : Nat) (creates : List FrameEvent) : List FrameEvent :=
  List.replicate k FrameEvent.waitEvents ++ [.deviceWaitIdle] ++
    self.m_views.map FrameEvent.destroyImageView ++ [.destroySwapchain self.m_swapchain] ++
    creates

section frameLoop
variable {α : Type} [CommRing α]

end frameLoop

/-- The method `SyncObjects::create(device, maxFramesInFlight)`, restricted to the fences:
for every slot two semaphores and one fence, created signaled; `created i` tells whether
the three creation calls of slot `i` succeed, a failure throws. -/
def SyncObjects.create (created : Nat → Bool) (maxFramesInFlight : Nat) :
    Except String (List FenceState) :=
  if (List.range maxFramesInFlight).all created then
    .ok (List.replicate maxFramesInFlight .signaled)
  else .error "failed to create synchronization objects for a frame!"

/-- The device completes a pending submission: a pending fence becomes signaled, nothing
else changes in the fences. -/
def FenceState.mayBecome (s t : FenceState) : Prop :=
  t = s ∨ (s = .pending ∧ t = .signaled)

section frameLoopWorld
variable {α : Type} [CommRing α]

/-- The pairs of application state and world at the start of a tick of the main loop,
from `init` in `world0`: a call of `drawFrame` that returns without raising leads to the
next pair; between two calls the device may complete pending submissions, the window
may change, and the resize callback may run. -/
inductive FrameLoop (init : Application α) (world0 : World) : Application α → World → Prop
  | start : FrameLoop init world0 init world0
  | drawFrame {app : Application α} {world : World} (fuel : Nat) (device : Device)
      (driver : FrameDriver) (app2 : Application α) (world2 : World) :
      FrameLoop init world0 app world →
      app.drawFrame fuel device driver world = some (.ok (), app2, world2) →
      FrameLoop init world0 app2 world2
  | environment {app : Application α} {world : World} (world2 : World) (resized : Bool) :
      FrameLoop init world0 app world →
      List.Forall₂ FenceState.mayBecome world.fences world2.fences →
      FrameLoop init world0
        { app with m_framebufferResized := app.m_framebufferResized || resized } world2

/-- Every slot has a fence, and no fence is unsignaled without a pending submission. -/
def FencesReady (world : World) : Prop :=
  world.fences.length = kMaxFramesInFlight ∧ ∀ s ∈ world.fences, s ≠ FenceState.unsignaled

end frameLoopWorld

section strideSpec
variable {α : Type} [CommRing α]

/-- Specification side of the element addressing: component `k` (a 4-byte float) of
element `i` of an accessor as glTF locates it. Element `i` starts at byte
`bufferView.byteOffset + accessor.byteOffset + i * stride`, where `stride` is the
`byteStride` of the buffer view, or the element size when `byteStride` is 0. -/
def strideElementFloat (decode : List Nat → α) (model : tinygltf.Model α)
    (accessorIndex : Int) (elementSize i k : Nat) : α :=
  let accessor := model.accessors.getD accessorIndex.toNat {}
  let bufferView := model.bufferViews.getD accessor.bufferView.toNat {}
  let buffer := model.buffers.getD bufferView.buffer.toNat {}
  let stride := if bufferView.byteStride = 0 then elementSize else bufferView.byteStride
  decode ((buffer.data.drop
    (bufferView.byteOffset + accessor.byteOffset + i * stride + 4 * k)).take 4)

/-- The `byteStride` of the buffer view of an accessor. -/
def accessorStride (model : tinygltf.Model α) (accessorIndex : Int) : Nat :=
  (model.bufferViews.getD (model.accessors.getD accessorIndex.toNat {}).bufferView.toNat
    {}).byteStride

end strideSpec

/-! ## Example scenes (integer scalars) -/

/-- A TRS node with the given translation and parent, everything else default. -/
def trsNode (t : Vec3 Int) (parent : Int) : GltfNode Int :=
  { (GltfNode.default : GltfNode Int) with translation := t, parent := parent }

/-- A chain of three freshly loaded nodes: node 0 is the root, node 1 its child, node 2 the
child of node 1. -/
def chainScene : List (GltfNode Int) :=
  [trsNode ⟨5, 0, 0⟩ (-1), trsNode ⟨0, 7, 0⟩ 0, trsNode ⟨0, 0, 9⟩ 1]

/-- A model over `chainScene` whose transform buffer holds three identity matrices. -/
def chainModel : GltfModel Int :=
  { m_nodes := chainScene, m_rootNodes := [0],
    m_transformBuffer := some (List.replicate 3 Mat4.identity) }

/-- A document node whose matrix is the translation by (1, 2, 3) in glTF's column-major
order: the translation sits in entries 12, 13, 14. -/
def translationDocNode : tinygltf.Node Int :=
  { name := "n", mesh := -1, skin := -1, camera := -1,
    matrix := [1, 0, 0, 0, 0, 1, 0, 0, 0, 0, 1, 0, 1, 2, 3, 1],
    translation := [], rotation := [], scale := [], children := [] }

/-- A document with `translationDocNode` as its only node and root. -/
def translationDoc : tinygltf.Model Int :=
  { nodes := [translationDocNode], scenes := [⟨[0]⟩], defaultScene := 0 }

/-- A device on which every driver call succeeds: three memory types (device-local;
host-visible and host-coherent; all three), every buffer may use any of them. -/
def okDevice : Device :=
  { memProps := ⟨3, [1, 6, 7]⟩,
    vkCreateBuffer := fun _ _ => true,
    bufferMemoryTypeBits := fun _ _ => 7,
    vkAllocateMemory := fun _ => true,
    vkMapMemory := true,
    optimalTilingFeatures := fun _ => 0x1000,
    createImage := fun _ _ _ _ => true,
    vkCreateImage := fun _ _ _ _ => true,
    imageMemoryTypeBits := 7,
    vkCreateImageView := true,
    vkCreateSampler := true }

/-- A device like `okDevice`, except that no format supports linear filtering under
optimal tiling. -/
def noLinearFilterDevice : Device :=
  { okDevice with optimalTilingFeatures := fun _ => 0 }

/-- Sixteen bytes: the RGBA8 pixels of a 2x2 image. -/
def pixels2x2 : List Nat := List.replicate 16 255

/-- The messages of the throws that a buffer upload (`Buffer::create`, `map`, `write`) can
raise. -/
def bufferErrors : List String :=
  ["Buffer::create: vkCreateBuffer failed",
   "Buffer::findMemoryTypeInternal: no suitable memory type",
   "Buffer::create: vkAllocateMemory failed",
   "Buffer::map failed",
   "Mapped memory is not available!",
   "Write bytes exceeded allocated memory size!"]

/-- Every driver call of a buffer upload succeeds on this device: buffers can be created,
a memory type exists for the two property sets the uploads ask for, allocation and mapping
succeed. -/
def Device.BuffersSucceed (device : Device) : Prop :=
  (∀ size usage, device.vkCreateBuffer size usage = true) ∧
  (∀ size usage, ∃ i, findMemoryTypeInternal device (device.bufferMemoryTypeBits size usage)
    (VK_MEMORY_PROPERTY_HOST_VISIBLE_BIT ||| VK_MEMORY_PROPERTY_HOST_COHERENT_BIT) = .ok i) ∧
  (∀ size usage, ∃ i, findMemoryTypeInternal device (device.bufferMemoryTypeBits size usage)
    VK_MEMORY_PROPERTY_DEVICE_LOCAL_BIT = .ok i) ∧
  (∀ i, device.vkAllocateMemory i = true) ∧
  device.vkMapMemory = true

/-- A device on which `vkCreateBuffer` always fails. -/
def noBufferDevice : Device :=
  { okDevice with vkCreateBuffer := fun _ _ => false }

/-- A two-byte memory image for vertices that are single numbers. -/
def pairImage : MemoryImage Nat := ⟨2, fun v => [v % 256, v / 256 % 256]⟩

/-- A document with one mesh of one primitive that has positions (accessor 0: three
`vec3` of zero bytes) but no index accessor. -/
def nonIndexedDoc : tinygltf.Model Int :=
  { nodes := [], scenes := [⟨[]⟩], defaultScene := 0,
    accessors := [{ bufferView := 0, componentType := 5126, count := 3, type := 3 }],
    bufferViews := [{ buffer := 0 }],
    buffers := [{ data := List.replicate 36 0 }],
    meshes := [{ name := "m", primitives := [{ attributes := [("POSITION", 0)] }] }] }

/-- A vertex list of 2^32 elements. -/
def hugeVertexList : List Nat := List.replicate (2 ^ 32) 0

/-- A model before any load. -/
def emptyModel : GltfModel Int :=
  { m_nodes := [], m_rootNodes := [], m_transformBuffer := none }

/-- A document with one triangle: three positions (36 bytes), then the indices 0, 1, 258
as 16-bit values, then the indices 7, 256 as 32-bit values. The accessors are: the
positions, the 16-bit indices, the 32-bit indices, and the first six bytes of the index
data as 8-bit indices. -/
def indexedDoc : tinygltf.Model Int :=
  { nodes := [], scenes := [⟨[]⟩], defaultScene := 0,
    accessors :=
      [{ bufferView := 0, componentType := 5126, count := 3, type := 3 },
       { bufferView := 1, componentType := 5123, count := 3, type := 65 },
       { bufferView := 1, byteOffset := 6, componentType := 5125, count := 2, type := 65 },
       { bufferView := 1, componentType := 5121, count := 6, type := 65 }],
    bufferViews := [{ buffer := 0 }, { buffer := 0, byteOffset := 36 }],
    buffers := [{ data := List.replicate 36 0 ++ [0, 0, 1, 0, 2, 1] ++ [7, 0, 0, 0, 0, 1, 0, 0] }],
    meshes := [] }

/-- A primitive with positions only. -/
def positionOnly : tinygltf.Primitive := { attributes := [("POSITION", 0)] }

/-- A primitive without positions. -/
def normalOnly : tinygltf.Primitive := { attributes := [("NORMAL", 0)], indices := 1 }

/-- A primitive with positions and 16-bit indices. -/
def shortIndexed : tinygltf.Primitive := { attributes := [("POSITION", 0)], indices := 1 }

/-- A decoder of `float` bytes for the examples (the sum of the four bytes). -/
def sumDecode (bytes : List Nat) : Int := (bytes.sum : Nat)

/-- A document material (rational scalars) with the given name and base-color and
emissive texture references, everything else as tinygltf fills it in. -/
def docMaterial (name : String) (baseColor emissive : Int) : tinygltf.Material ℚ :=
  { name := name, emissiveFactor := [0, 0, 0], alphaMode := "OPAQUE", alphaCutoff := 1 / 2,
    doubleSided := false,
    pbrMetallicRoughness :=
      { baseColorFactor := [1, 1, 1, 1], metallicFactor := 1, roughnessFactor := 1,
        baseColorTexture := { index := baseColor } },
    normalTexture := ⟨-1, 0, 1⟩, occlusionTexture := ⟨-1, 0, 1⟩,
    emissiveTexture := { index := emissive } }

/-- A document with two materials and nothing else. -/
def twoMaterialDoc : tinygltf.Model ℚ :=
  { nodes := [], scenes := [⟨[]⟩], defaultScene := 0,
    materials := [docMaterial "first" (-1) (-1), docMaterial "second" (-1) (-1)] }

/-- A document without materials. -/
def noMaterialDoc : tinygltf.Model ℚ :=
  { nodes := [], scenes := [⟨[]⟩], defaultScene := 0 }

/-- A document with three textures over two embedded 1x1 images and two materials: the
first names texture 1 as its normal texture only, the second names texture 0 as its base
color and texture 2 as its emissive texture. -/
def texturedDoc : tinygltf.Model ℚ :=
  { nodes := [], scenes := [⟨[]⟩], defaultScene := 0,
    materials :=
      [{ docMaterial "data" (-1) (-1) with normalTexture := ⟨1, 0, 1⟩ },
       docMaterial "color" 0 2],
    textures := [{ source := 0 }, { source := 1 }, { source := 0 }],
    images :=
      [{ image := [255, 0, 0, 255], width := 1, height := 1 },
       { image := [128, 128, 255, 255], width := 1, height := 1 }] }

/-- A decoder of `float` bytes for the rational examples. -/
def zeroDecode (_ : List Nat) : ℚ := 0

/-- A memory image of `GltfVertex` for the rational examples: 104 bytes per vertex. -/
def zeroVertexImage : MemoryImage (GltfVertex ℚ) := ⟨104, fun _ => List.replicate 104 0⟩

/-- No external image file can be read. -/
def noFiles (_ : String) : Option (List Nat × Int × Int) := none

/-- A model object before any load. -/
def freshModel : GltfModel ℚ :=
  { m_nodes := [], m_rootNodes := [], m_transformBuffer := none }

/-- A document with one node carrying one mesh of one indexed triangle; the primitive
declares no material and the document has no materials. -/
def unmaterialedDoc : tinygltf.Model ℚ :=
  { nodes := [⟨"node", 0, -1, -1, [], [], [], [], []⟩], scenes := [⟨[0]⟩], defaultScene := 0,
    accessors :=
      [{ bufferView := 0, componentType := 5126, count := 3, type := 3 },
       { bufferView := 1, componentType := 5123, count := 3, type := 65 }],
    bufferViews := [{ buffer := 0 }, { buffer := 0, byteOffset := 36 }],
    buffers := [{ data := List.replicate 36 0 ++ [0, 0, 1, 0, 2, 0] }],
    meshes := [{ name := "triangle",
                 primitives := [{ attributes := [("POSITION", 0)], indices := 1 }] }] }

/-- A document with two materials and one mesh of two indexed triangles: the first
primitive declares material 1, the second declares none. -/
def texturedTriangleDoc : tinygltf.Model ℚ :=
  { unmaterialedDoc with
    materials := [docMaterial "first" (-1) (-1), docMaterial "second" (-1) (-1)],
    meshes :=
      [{ name := "triangles",
         primitives :=
           [{ attributes := [("POSITION", 0)], material := 1, indices := 1 },
            { attributes := [("POSITION", 0)], indices := 1 }] }] }

/-- A surface without a fixed extent (the window decides), two to three images, extents
from 1x1 to 4096x4096. -/
def exampleSupport : SwapChainSupportDetails :=
  { capabilities :=
      { minImageCount := 2, maxImageCount := 3, currentExtent := ⟨2 ^ 32 - 1, 2 ^ 32 - 1⟩,
        minImageExtent := ⟨1, 1⟩, maxImageExtent := ⟨4096, 4096⟩ },
    formats := [⟨VK_FORMAT_B8G8R8A8_SRGB, VK_COLOR_SPACE_SRGB_NONLINEAR_KHR⟩],
    presentModes := [VK_PRESENT_MODE_FIFO_KHR] }

/-- A driver for one frame: the given results for acquire, submit, present and swapchain
creation, image index 0, everything else succeeds. -/
def exampleDriver (acquire submit present createSwapchain : Int) : FrameDriver :=
  { vkAcquireNextImageKHR := (acquire, 0),
    ubo := List.replicate 336 0,
    vkBeginCommandBuffer := VK_SUCCESS,
    vkEndCommandBuffer := VK_SUCCESS,
    vkQueueSubmit := submit,
    vkQueuePresentKHR := present,
    querySwapChainSupport := exampleSupport,
    findQueueFamilies := ⟨some 0, some 0⟩,
    vkCreateSwapchainKHR := createSwapchain,
    vkGetSwapchainImagesKHR := 3 }

/-- An application after initialisation, without a model: swapchain 1 with images 2, 3, 4
and views 5, 6, 7 at 800x600, framebuffers 8, 9, 10, the uniform buffers 1 and 2 mapped,
empty command buffers, frame slot 0. -/
def exampleApp (resized : Bool) : Application Int :=
  { m_swapchain :=
      { m_swapchain := 1, m_swapchainImages := [2, 3, 4], m_views := [5, 6, 7],
        m_format := VK_FORMAT_B8G8R8A8_SRGB, m_extent := ⟨800, 600⟩ },
    m_framebuffer := [8, 9, 10],
    m_uboSet := [⟨1, 1, 336, 1⟩, ⟨2, 2, 336, 2⟩],
    m_commandBuffers := [[], []],
    m_gltfModel := emptyModel,
    m_framebufferResized := resized }

/-- The world of `exampleApp`: the two uniform buffers, a window of 800x600 without
pending events, both fences signaled. -/
def exampleWorld : World :=
  { gpu :=
      { Gpu.empty with
        buffers := [⟨336, 0x10, some 1, true, List.replicate 336 0⟩,
                    ⟨336, 0x10, some 1, true, List.replicate 336 0⟩] },
    window := { framebufferSize := (800, 600) },
    fences := [.signaled, .signaled],
    nextHandle := 11 }

/-- A cubemap of 1 x 1 faces with mipmaps enabled: `createFromFaces` gives it one level. -/
def oneLevelCube : Texture := { m_mipLevels := 1, m_image := 1 }

/-- Six barriers of level 0 of array layer 0 from transfer-destination to shader-read. -/
def sixLayerZeroBarriers : List Cmd :=
  List.replicate 6 (.pipelineBarrier 0 1 0 1
    VK_IMAGE_LAYOUT_TRANSFER_DST_OPTIMAL VK_IMAGE_LAYOUT_SHADER_READ_ONLY_OPTIMAL)

/-- A document node without mesh and transform that lists the given children. -/
def docNode (children : List Int) : tinygltf.Node Int :=
  { name := "", mesh := -1, skin := -1, camera := -1, matrix := [], translation := [],
    rotation := [], scale := [], children := children }

/-- A document of three nodes: node 0 is the root and lists nodes 1 and 2. -/
def familyDoc : tinygltf.Model Int :=
  { nodes := [docNode [1, 2], docNode [], docNode []], scenes := [⟨[0]⟩], defaultScene := 0 }

/-- A document of two nodes that list each other as child; the scene root is node 0. -/
def cyclicDoc : tinygltf.Model Int :=
  { nodes := [docNode [1], docNode [0]], scenes := [⟨[0]⟩], defaultScene := 0 }

/-- The two nodes `loadNodes` makes of `cyclicDoc`: each is the parent of the other. -/
def cycleNodes : List (GltfNode Int) :=
  [{ (GltfNode.default : GltfNode Int) with index := 0, children := [1], parent := 1 },
   { (GltfNode.default : GltfNode Int) with index := 1, children := [0], parent := 0 }]

/-- A scene node with the given mesh and children, everything else default. -/
def meshNode (index meshIndex : Int) (children : List Int) : GltfNode Int :=
  { (GltfNode.default : GltfNode Int) with
    index := index, meshIndex := meshIndex, children := children }

/-- A primitive with the given buffer handles, counts and material. -/
def examplePrimitive (vertexBuffer indexBuffer vertexCount indexCount : Nat)
    (materialIndex : Int) : GltfPrimitive :=
  { vertexBuffer := ⟨{ m_buffer := vertexBuffer }⟩, indexBuffer := ⟨{ m_buffer := indexBuffer }⟩,
    vertexCount := vertexCount, indexCount := indexCount, materialIndex := materialIndex }

/-- A model of five nodes and two meshes. Node 0 (mesh 0) lists the children 2, 7 (out of
range) and 1; node 1 has mesh 1; node 2 has no mesh and lists node 3 (mesh 0); node 4
(mesh 1) is listed nowhere. The roots are 0 and 9 (out of range). Mesh 0 has a valid
primitive of 3 indices and an invalid one, mesh 1 a valid primitive of 6 indices. -/
def drawExample : GltfModel Int :=
  { m_nodes := [meshNode 0 0 [2, 7, 1], meshNode 1 1 [], meshNode 2 (-1) [3],
      meshNode 3 0 [], meshNode 4 1 []],
    m_rootNodes := [0, 9],
    m_transformBuffer := none,
    m_meshes := [⟨"a", [examplePrimitive 1 2 3 3 0, examplePrimitive 0 0 0 0 (-1)]⟩,
      ⟨"b", [examplePrimitive 3 4 4 6 1]⟩] }

/-- The driver of a frame whose acquire is answered out-of-date. -/
def outOfDateDriver : FrameDriver :=
  exampleDriver VK_ERROR_OUT_OF_DATE_KHR VK_SUCCESS VK_SUCCESS VK_SUCCESS

/-- The driver of a frame whose present is answered out-of-date. -/
def presentOutOfDateDriver : FrameDriver :=
  exampleDriver VK_SUCCESS VK_SUCCESS VK_ERROR_OUT_OF_DATE_KHR VK_SUCCESS

/-- The driver of a frame in which every call succeeds. -/
def successDriver : FrameDriver :=
  exampleDriver VK_SUCCESS VK_SUCCESS VK_SUCCESS VK_SUCCESS

/-- The result of the first frame of `exampleApp` when every call succeeds. -/
def firstFrame : Except String Unit × Application Int × World :=
  ((exampleApp false).drawFrame 8 okDevice successDriver exampleWorld).getD
    (.ok (), exampleApp false, exampleWorld)

/-- A document whose positions and normals are interleaved in one buffer view of stride
24: vertex 0 has the position (1, 2, 3) and the normal (4, 5, 6), vertex 1 the position
(7, 8, 9) and the normal (10, 11, 12), each float written as one byte with that value
followed by three zero bytes (what `sumDecode` turns back into the value). -/
def interleavedDoc : tinygltf.Model Int :=
  { nodes := [], scenes := [⟨[]⟩], defaultScene := 0,
    accessors :=
      [{ bufferView := 0, componentType := 5126, count := 2, type := 3 },
       { bufferView := 0, byteOffset := 12, componentType := 5126, count := 2, type := 3 }],
    bufferViews := [{ buffer := 0, byteStride := 24 }],
    buffers := [{ data := (List.range 12).flatMap fun j => [j + 1, 0, 0, 0] }] }

/-- A primitive with positions (accessor 0) and normals (accessor 1). -/
def positionNormal : tinygltf.Primitive := { attributes := [("POSITION", 0), ("NORMAL", 1)] }

/-- A document with two vertices whose COLOR_0 accessor holds opaque red as four
normalized unsigned bytes (255, 0, 0, 255) per vertex, after 24 bytes of positions. -/
def byteColorDoc : tinygltf.Model Int :=
  { nodes := [], scenes := [⟨[]⟩], defaultScene := 0,
    accessors :=
      [{ bufferView := 0, componentType := 5126, count := 2, type := 3 },
       { bufferView := 1, componentType := 5121, count := 2, type := 4 }],
    bufferViews := [{ buffer := 0 }, { buffer := 0, byteOffset := 24 }],
    buffers := [{ data := List.replicate 24 0 ++ [255, 0, 0, 255, 255, 0, 0, 255] }] }

/-- A primitive with positions (accessor 0) and vertex colours (accessor 1). -/
def positionColor : tinygltf.Primitive := { attributes := [("POSITION", 0), ("COLOR_0", 1)] }

/-- A document of three nodes, none of which lists a child; the scene root is node 0. -/
def flatDoc : tinygltf.Model Int :=
  { nodes := [docNode [], docNode [], docNode []], scenes := [⟨[0]⟩], defaultScene := 0 }

/-- A model that holds one node, a root, from an earlier load. -/
def rootModel : GltfModel Int :=
  { m_nodes := [trsNode ⟨5, 0, 0⟩ (-1)], m_rootNodes := [0], m_transformBuffer := none }

end Kascade

/-! # Theorems -/

namespace Kascade

section nodeLemmas
variable {α : Type} [CommRing α]

theorem skeleton_storeWorld (w : Mat4 α) (n : GltfNode α) :
    (GltfNode.storeWorld w n).skeleton = n.skeleton := rfl

theorem skeleton_markDirty (n : GltfNode α) :
    (GltfNode.markDirty n).skeleton = n.skeleton := rfl

theorem skeleton_parent (n : GltfNode α) : n.skeleton.parent = n.parent := rfl

theorem skeleton_getLocalMatrix (n : GltfNode α) :
    n.skeleton.getLocalMatrix = n.getLocalMatrix := rfl

theorem SameShape.refl (s : List (GltfNode α)) : SameShape s s := ⟨rfl, fun _ => rfl⟩

theorem SameShape.symm {s t : List (GltfNode α)} (h : SameShape s t) : SameShape t s :=
  ⟨h.1.symm, fun j => (h.2 j).symm⟩

theorem SameShape.trans {s t u : List (GltfNode α)} (h1 : SameShape s t)
    (h2 : SameShape t u) : SameShape s u :=
  ⟨h1.1.trans h2.1, fun j => (h1.2 j).trans (h2.2 j)⟩

theorem sameShape_modify_storeWorld (s : List (GltfNode α)) (w : Mat4 α) (i : Nat) :
    SameShape s (s.modify (GltfNode.storeWorld w) i) := by
  refine ⟨by simp, fun j => ?_⟩
  rw [List.getElem?_modify]
  cases h : s[j]? with
  | none => simp
  | some a =>
    by_cases hij : i = j
    · simp [hij, skeleton_storeWorld]
    · simp [hij]

theorem sameShape_map_markDirty (s : List (GltfNode α)) :
    SameShape s (s.map GltfNode.markDirty) := by
  refine ⟨by simp, fun j => ?_⟩
  rw [List.getElem?_map]
  cases h : s[j]? with
  | none => simp
  | some a => simp [skeleton_markDirty]

theorem SameShape.parent_eq {s t : List (GltfNode α)} (h : SameShape s t) {j : Nat}
    {a b : GltfNode α} (ha : s[j]? = some a) (hb : t[j]? = some b) :
    a.parent = b.parent ∧ a.getLocalMatrix = b.getLocalMatrix := by
  have := h.2 j
  rw [ha, hb] at this
  simp only [Option.map_some', Option.some.injEq] at this
  constructor
  · rw [← skeleton_parent a, this, skeleton_parent]
  · rw [← skeleton_getLocalMatrix a, this, skeleton_getLocalMatrix]

theorem SameShape.getElem?_isSome {s t : List (GltfNode α)} (h : SameShape s t) (j : Nat) :
    s[j]? = none ↔ t[j]? = none := by
  simp [List.getElem?_eq_none_iff, h.1]

theorem SameShape.parentLink_eq {s t : List (GltfNode α)} (h : SameShape s t) (j : Nat) :
    parentLink s j = parentLink t j := by
  unfold parentLink
  cases ha : s[j]? with
  | none =>
    have := (h.getElem?_isSome j).1 ha
    simp [this]
  | some a =>
    cases hb : t[j]? with
    | none =>
      have := (h.getElem?_isSome j).2 hb
      rw [ha] at this; cases this
    | some b =>
      have hp := (h.parent_eq ha hb).1
      simp only [hp, h.1]

theorem SameShape.localOf_eq {s t : List (GltfNode α)} (h : SameShape s t) (j : Nat) :
    localOf s j = localOf t j := by
  unfold localOf
  cases ha : s[j]? with
  | none =>
    have := (h.getElem?_isSome j).1 ha
    simp [this]
  | some a =>
    cases hb : t[j]? with
    | none =>
      have := (h.getElem?_isSome j).2 hb
      rw [ha] at this; cases this
    | some b =>
      exact (h.parent_eq ha hb).2

theorem SameShape.reachesRoot_eq {s t : List (GltfNode α)} (h : SameShape s t) :
    ∀ k j, reachesRoot s k j = reachesRoot t k j
  | 0, _ => rfl
  | k + 1, j => by
    simp only [reachesRoot, h.parentLink_eq j]
    cases parentLink t j with
    | none => rfl
    | some p => exact h.reachesRoot_eq k p

theorem SameShape.worldSpec_eq {s t : List (GltfNode α)} (h : SameShape s t) :
    ∀ k j, worldSpec s k j = worldSpec t k j
  | 0, _ => rfl
  | k + 1, j => by
    simp only [worldSpec, h.parentLink_eq j, h.localOf_eq j]
    cases parentLink t j with
    | none => rfl
    | some p => simp only [h.worldSpec_eq k p]

theorem SameShape.acyclic {s t : List (GltfNode α)} (h : SameShape s t) (hs : Acyclic s) :
    Acyclic t := by
  intro i hi
  rw [← h.reachesRoot_eq, ← h.1]
  exact hs i (h.1 ▸ hi)

theorem reachesRoot_mono (s : List (GltfNode α)) :
    ∀ k k' i, k ≤ k' → reachesRoot s k i = true → reachesRoot s k' i = true
  | 0, _, _, _, h => by simp [reachesRoot] at h
  | _ + 1, 0, _, hk, _ => by omega
  | k + 1, k' + 1, i, hk, h => by
    simp only [reachesRoot] at h ⊢
    cases hp : parentLink s i with
    | none => rfl
    | some p =>
      rw [hp] at h
      exact reachesRoot_mono s k k' p (by omega) h

theorem worldSpec_fuel (s : List (GltfNode α)) :
    ∀ k k' i, k ≤ k' → reachesRoot s k i = true → worldSpec s k' i = worldSpec s k i
  | 0, _, _, _, h => by simp [reachesRoot] at h
  | _ + 1, 0, _, hk, _ => by omega
  | k + 1, k' + 1, i, hk, h => by
    simp only [reachesRoot] at h
    simp only [worldSpec]
    cases hp : parentLink s i with
    | none => rfl
    | some p =>
      rw [hp] at h
      simp only [worldSpec_fuel s k k' p (by omega) h]

theorem parentLink_of_getElem? {s : List (GltfNode α)} {i : Nat} {n : GltfNode α}
    (h : s[i]? = some n) :
    parentLink s i =
      if 0 ≤ n.parent ∧ n.parent < (s.length : Int) then some n.parent.toNat else none := by
  simp [parentLink, h]

theorem parentLink_lt {s : List (GltfNode α)} {i p : Nat} (h : parentLink s i = some p) :
    p < s.length := by
  unfold parentLink at h
  cases hn : s[i]? with
  | none => simp [hn] at h
  | some n =>
    simp only [hn] at h
    split at h
    · rename_i hc
      cases h
      omega
    · cases h

theorem worldSpec_root {s : List (GltfNode α)} {i : Nat} (hi : i < s.length)
    (hp : parentLink s i = none) : worldSpec s s.length i = localOf s i := by
  obtain ⟨m, hm⟩ : ∃ m, s.length = m + 1 := ⟨s.length - 1, by omega⟩
  rw [hm]
  simp [worldSpec, hp]

theorem worldSpec_child {s : List (GltfNode α)} (hs : Acyclic s) {i p : Nat}
    (hi : i < s.length) (hp : parentLink s i = some p) :
    worldSpec s s.length i = worldSpec s s.length p * localOf s i := by
  have hr := hs i hi
  obtain ⟨m, hm⟩ : ∃ m, s.length = m + 1 := ⟨s.length - 1, by omega⟩
  rw [hm] at hr ⊢
  simp only [reachesRoot, hp] at hr
  have := worldSpec_fuel s m (m + 1) p (by omega) hr
  rw [this]
  simp [worldSpec, hp]

theorem cacheInv_store {s0 s : List (GltfNode α)} (h : CacheInv s0 s) (i : Nat) :
    CacheInv s0 (s.modify (GltfNode.storeWorld (worldSpec s0 s0.length i)) i) := by
  refine ⟨h.1.trans (sameShape_modify_storeWorld s _ i), ?_⟩
  intro j n hj hclean
  rw [List.getElem?_modify] at hj
  cases hsj : s[j]? with
  | none => simp [hsj] at hj
  | some a =>
    simp only [hsj, Option.map_eq_map, Option.map_some', Option.some.injEq] at hj
    by_cases hij : i = j
    · simp only [hij, if_true] at hj
      subst hj
      simp [GltfNode.storeWorld, hij]
    · simp only [hij, if_false] at hj
      subst hj
      exact h.2 j a hsj hclean

theorem getWorldMatrix_correct (s0 : List (GltfNode α)) (hs0 : Acyclic s0) :
    ∀ k i s fuel, reachesRoot s0 k i = true → i < s0.length → CacheInv s0 s → k ≤ fuel →
      ∃ s', GltfNode.getWorldMatrix fuel s i = some (worldSpec s0 s0.length i, s') ∧
        CacheInv s0 s' ∧ ∃ n, s'[i]? = some n ∧ n.m_worldMatrixDirty = false
  | 0, _, _, _, h, _, _, _ => by simp [reachesRoot] at h
  | _ + 1, _, _, 0, _, _, _, hk => by omega
  | k + 1, i, s, fuel + 1, hr, hi, hinv, hk => by
    have hlen : s0.length = s.length := hinv.1.1
    have hi' : i < s.length := hlen ▸ hi
    obtain ⟨self, hself⟩ : ∃ self, s[i]? = some self :=
      ⟨s[i], List.getElem?_eq_getElem hi'⟩
    have hlink : parentLink s0 i = parentLink s i := hinv.1.parentLink_eq i
    have hloc : localOf s0 i = self.getLocalMatrix := by
      rw [hinv.1.localOf_eq i]; simp [localOf, hself]
    simp only [GltfNode.getWorldMatrix, hself]
    cases hd : self.m_worldMatrixDirty with
    | false =>
      refine ⟨s, ?_, hinv, self, hself, hd⟩
      simp [hinv.2 i self hself hd]
    | true =>
      simp only [Bool.not_true, Bool.false_eq_true, if_false]
      rw [parentLink_of_getElem? hself] at hlink
      by_cases hc : 0 ≤ self.parent ∧ self.parent < (s.length : Int)
      · simp only [hc, and_self, if_true] at hlink ⊢
        simp only [reachesRoot, hlink] at hr
        have hp : self.parent.toNat < s0.length := parentLink_lt hlink
        obtain ⟨s1, h1, hinv1, _⟩ :=
          getWorldMatrix_correct s0 hs0 k self.parent.toNat s fuel hr hp hinv (by omega)
        rw [h1]
        have hw : worldSpec s0 s0.length self.parent.toNat * self.getLocalMatrix
            = worldSpec s0 s0.length i := by
          rw [worldSpec_child hs0 hi hlink, hloc]
        simp only [hw]
        refine ⟨_, rfl, cacheInv_store hinv1 i, ?_⟩
        have hi1 : i < s1.length := by rw [← hinv1.1.1]; exact hi
        refine ⟨GltfNode.storeWorld (worldSpec s0 s0.length i) s1[i], ?_, rfl⟩
        simp [List.getElem?_eq_getElem hi1]
      · simp only [hc, if_false] at hlink ⊢
        have hw : self.getLocalMatrix = worldSpec s0 s0.length i := by
          rw [worldSpec_root hi hlink, hloc]
        simp only [hw]
        refine ⟨_, rfl, cacheInv_store hinv i, ?_⟩
        refine ⟨GltfNode.storeWorld (worldSpec s0 s0.length i) self, ?_, rfl⟩
        simp [hself]

theorem getWorldMatrix_frame :
    ∀ (fuel : Nat) (s : List (GltfNode α)) (i : Nat) (w : Mat4 α) (s' : List (GltfNode α)),
      GltfNode.getWorldMatrix fuel s i = some (w, s') →
      SameShape s s' ∧
      (∀ (j : Nat) (n : GltfNode α), s[j]? = some n → n.m_worldMatrixDirty = false →
        s'[j]? = some n) ∧
      ∃ n', s'[i]? = some n' ∧ n'.m_worldMatrixCache = w ∧ n'.m_worldMatrixDirty = false
  | 0, _, _, _, _, h => by simp [GltfNode.getWorldMatrix] at h
  | fuel + 1, s, i, w, s', h => by
    simp only [GltfNode.getWorldMatrix] at h
    cases hself : s[i]? with
    | none => simp [hself] at h
    | some self =>
      simp only [hself] at h
      cases hd : self.m_worldMatrixDirty with
      | false =>
        simp only [hd, Bool.not_false, if_true, Option.some.injEq, Prod.mk.injEq] at h
        obtain ⟨hw, hs⟩ := h
        subst hs
        exact ⟨SameShape.refl s, fun _ _ hj _ => hj, self, hself, hw, hd⟩
      | true =>
        simp only [hd, Bool.not_true, Bool.false_eq_true, if_false] at h
        have hi : i < s.length := (List.getElem?_eq_some_iff.1 hself).1
        split at h
        · cases h1 : GltfNode.getWorldMatrix fuel s self.parent.toNat with
          | none => simp [h1] at h
          | some r =>
            obtain ⟨pw, s1⟩ := r
            simp only [h1, Option.some.injEq, Prod.mk.injEq] at h
            obtain ⟨hw, hs⟩ := h
            obtain ⟨hshape, hclean, _⟩ := getWorldMatrix_frame fuel s _ pw s1 h1
            subst hs
            have hi1 : i < s1.length := hshape.1 ▸ hi
            refine ⟨hshape.trans (sameShape_modify_storeWorld s1 _ i), ?_, ?_⟩
            · intro j n hj hn
              have hji : i ≠ j := by
                rintro rfl
                rw [hself] at hj
                cases hj
                rw [hd] at hn
                cases hn
              rw [List.getElem?_modify_ne _ _ hji]
              exact hclean j n hj hn
            · refine ⟨GltfNode.storeWorld w s1[i], ?_, ?_, rfl⟩
              · simp [List.getElem?_eq_getElem hi1, hw]
              · simp [GltfNode.storeWorld]
        · simp only [Option.some.injEq, Prod.mk.injEq] at h
          obtain ⟨hw, hs⟩ := h
          subst hs
          refine ⟨sameShape_modify_storeWorld s _ i, ?_, ?_⟩
          · intro j n hj hn
            have hji : i ≠ j := by
              rintro rfl
              rw [hself] at hj
              cases hj
              rw [hd] at hn
              cases hn
            rw [List.getElem?_modify_ne _ _ hji]
            exact hj
          · refine ⟨GltfNode.storeWorld w self, ?_, ?_, rfl⟩
            · simp [hself, hw]
            · simp [GltfNode.storeWorld]

theorem worldMatricesLoop_correct (s0 : List (GltfNode α)) (hs0 : Acyclic s0) (fuel : Nat)
    (hfuel : s0.length ≤ fuel) :
    ∀ (idxs : List Nat) (s : List (GltfNode α)), (∀ i ∈ idxs, i < s0.length) → CacheInv s0 s →
      ∃ s', worldMatricesLoop fuel idxs s = some (idxs.map (worldSpec s0 s0.length), s') ∧
        CacheInv s0 s'
  | [], s, _, hinv => ⟨s, rfl, hinv⟩
  | i :: rest, s, hidx, hinv => by
    have hi : i < s0.length := hidx i (List.mem_cons_self _ _)
    obtain ⟨s1, h1, hinv1, _⟩ :=
      getWorldMatrix_correct s0 hs0 s0.length i s fuel (hs0 i hi) hi hinv hfuel
    obtain ⟨s2, h2, hinv2⟩ := worldMatricesLoop_correct s0 hs0 fuel hfuel rest s1
      (fun j hj => hidx j (List.mem_cons_of_mem _ hj)) hinv1
    exact ⟨s2, by simp [worldMatricesLoop, h1, h2], hinv2⟩

theorem cacheInv_of_allDirty {s0 s : List (GltfNode α)} (hshape : SameShape s0 s)
    (hd : AllDirty s) : CacheInv s0 s := by
  refine ⟨hshape, fun j n hj hn => ?_⟩
  have := hd n (List.getElem?_mem hj)
  rw [this] at hn
  cases hn

theorem allDirty_map_markDirty (s : List (GltfNode α)) : AllDirty (s.map GltfNode.markDirty) := by
  intro n hn
  obtain ⟨a, _, rfl⟩ := List.mem_map.1 hn
  rfl

theorem computeWorldMatrices_correct (s : List (GltfNode α)) (hs : Acyclic s) (fuel : Nat)
    (hfuel : s.length ≤ fuel) :
    ∃ s', computeWorldMatrices fuel s =
        some ((List.range s.length).map (worldSpec s s.length), s') ∧ CacheInv s s' := by
  unfold computeWorldMatrices
  exact worldMatricesLoop_correct s hs fuel hfuel _ _ (fun i hi => List.mem_range.1 hi)
    (cacheInv_of_allDirty (sameShape_map_markDirty s) (allDirty_map_markDirty s))

/-! ### The bounded walk decides acyclicity -/

theorem reachesRoot_eq_isNone (s : List (GltfNode α)) :
    ∀ k i, reachesRoot s k i = (ancestor s k i).isNone
  | 0, _ => rfl
  | k + 1, i => by
    simp only [reachesRoot, ancestor]
    cases parentLink s i with
    | none => rfl
    | some p => exact reachesRoot_eq_isNone s k p

theorem ancestor_add (s : List (GltfNode α)) :
    ∀ a b i, ancestor s (a + b) i = (ancestor s a i).bind (ancestor s b)
  | 0, b, i => by simp [ancestor]
  | a + 1, b, i => by
    rw [show a + 1 + b = (a + b) + 1 by omega]
    simp only [ancestor]
    cases parentLink s i with
    | none => rfl
    | some p => exact ancestor_add s a b p

theorem parentLink_none_of_le {s : List (GltfNode α)} {i : Nat} (h : s.length ≤ i) :
    parentLink s i = none := by
  simp [parentLink, List.getElem?_eq_none h]

theorem ancestor_lt (s : List (GltfNode α)) :
    ∀ k i x, i < s.length → ancestor s k i = some x → x < s.length
  | 0, i, x, hi, h => by
    simp only [ancestor, Option.some.injEq] at h
    omega
  | k + 1, i, x, _, h => by
    simp only [ancestor] at h
    cases hp : parentLink s i with
    | none => rw [hp] at h; cases h
    | some p =>
      rw [hp] at h
      exact ancestor_lt s k p x (parentLink_lt hp) h

theorem ancestor_initial {s : List (GltfNode α)} {k i x : Nat} (h : ancestor s k i = some x)
    {j : Nat} (hj : j ≤ k) : ∃ y, ancestor s j i = some y := by
  have := ancestor_add s j (k - j) i
  rw [show j + (k - j) = k by omega, h] at this
  cases hy : ancestor s j i with
  | none => rw [hy] at this; cases this
  | some y => exact ⟨y, rfl⟩

theorem ancestor_cycle_iterate {s : List (GltfNode α)} {k i : Nat}
    (h : ancestor s k i = some i) : ∀ m, ancestor s (m * k) i = some i
  | 0 => by simp [ancestor]
  | m + 1 => by
    rw [show (m + 1) * k = m * k + k by ring, ancestor_add, ancestor_cycle_iterate h m]
    exact h

/-- The bounded walk of `Acyclic` is acyclicity: it succeeds from every node exactly when no
node is its own proper ancestor along parent links. -/
theorem acyclic_iff_noCycle (s : List (GltfNode α)) : Acyclic s ↔ NoCycle s := by
  constructor
  · intro hac i k hk hcyc
    have hi : i < s.length := by
      by_contra hge
      obtain ⟨k', rfl⟩ : ∃ k', k = k' + 1 := ⟨k - 1, by omega⟩
      simp [ancestor, parentLink_none_of_le (not_lt.1 hge)] at hcyc
    have hit := ancestor_cycle_iterate hcyc s.length
    obtain ⟨y, hy⟩ := ancestor_initial hit (j := s.length) (Nat.le_mul_of_pos_right _ hk)
    have := hac i hi
    rw [reachesRoot_eq_isNone, hy] at this
    cases this
  · intro hno i hi
    by_contra hr
    have hsome : ∃ x, ancestor s s.length i = some x := by
      rw [reachesRoot_eq_isNone] at hr
      cases hx : ancestor s s.length i with
      | none => rw [hx] at hr; exact absurd rfl hr
      | some x => exact ⟨x, rfl⟩
    obtain ⟨x, hx⟩ := hsome
    -- the walk visits `length + 1` nodes, all below `length`: two of them coincide
    have hval : ∀ j : Fin (s.length + 1), ∃ y, ancestor s j.val i = some y :=
      fun j => ancestor_initial hx (Nat.le_of_lt_succ j.isLt)
    let f : Fin (s.length + 1) → Fin s.length := fun j =>
      ⟨(ancestor s j.val i).getD 0, by
        obtain ⟨y, hy⟩ := hval j
        rw [hy]
        exact ancestor_lt s j.val i y hi hy⟩
    obtain ⟨a, b, hab, hfab⟩ := Fintype.exists_ne_map_eq_of_card_lt f (by simp)
    have key : ∀ a b : Fin (s.length + 1), a.val < b.val → f a = f b → False := by
      intro a b hlt hf
      obtain ⟨ya, hya⟩ := hval a
      obtain ⟨yb, hyb⟩ := hval b
      have hyy : ya = yb := by
        have := congrArg Fin.val hf
        simpa [f, hya, hyb] using this
      have hadd := ancestor_add s a.val (b.val - a.val) i
      rw [show a.val + (b.val - a.val) = b.val by omega, hyb, hya] at hadd
      simp only [Option.some_bind] at hadd
      exact hno ya (b.val - a.val) (by omega) (by rw [← hadd, hyy])
    rcases Nat.lt_trichotomy a.val b.val with h | h | h
    · exact key a b h hfab
    · exact hab (Fin.ext h)
    · exact key b a h hfab.symm

end nodeLemmas

section nodeClaims
variable {α : Type} [CommRing α]

theorem Mat4.mul_def (a b : Mat4 α) : a * b = Mat4.mul a b := rfl

theorem Mat4.identity_mul (m : Mat4 α) : (Mat4.identity : Mat4 α) * m = m := by
  obtain ⟨⟨a0, a1, a2, a3⟩, ⟨b0, b1, b2, b3⟩, ⟨c0, c1, c2, c3⟩, ⟨d0, d1, d2, d3⟩⟩ := m
  simp [Mat4.mul_def, Mat4.mul, Mat4.mulVec, Vec4.smul, Vec4.add, Mat4.identity]

theorem Mat4.mul_identity (m : Mat4 α) : m * (Mat4.identity : Mat4 α) = m := by
  obtain ⟨⟨a0, a1, a2, a3⟩, ⟨b0, b1, b2, b3⟩, ⟨c0, c1, c2, c3⟩, ⟨d0, d1, d2, d3⟩⟩ := m
  simp [Mat4.mul_def, Mat4.mul, Mat4.mulVec, Vec4.smul, Vec4.add, Mat4.identity]

theorem getLocalMatrix_translation (n : GltfNode α) (hTRS : n.useTRS = true)
    (hr : n.rotation = ⟨1, 0, 0, 0⟩) (hs : n.scale = ⟨1, 1, 1⟩) :
    n.getLocalMatrix = translationMatrix n.translation := by
  simp [GltfNode.getLocalMatrix, hTRS, hr, hs, translate, mat4_cast, Kascade.scale,
    Mat4.mul_def, Mat4.mul, Mat4.mulVec, Vec4.smul, Vec4.add, Mat4.identity, translationMatrix]

theorem translationMatrix_zero : translationMatrix (⟨0, 0, 0⟩ : Vec3 α) = Mat4.identity := rfl

/-- C1: in an acyclic node collection (parent links of any depth) in which every node is
dirty, `getWorldMatrix` on a node `N` with parent `P` returns (with any fuel of at least
the number of nodes), and its result is `getWorldMatrix(P) * getLocalMatrix(N)`, parent on
the left; this holds for `getWorldMatrix(P)` asked in the same starting state, asked again
after the call on `N`, and for the entries `N` and `P` of the array that the refresh of
`updateTransforms` (mark all dirty, then query in index order) computes. -/
theorem getWorldMatrix_eq_parent_mul_local (allNodes : List (GltfNode α)) (N P : Nat)
    (node : GltfNode α) (fuel : Nat)
    (hacyclic : Acyclic allNodes) (hdirty : AllDirty allNodes)
    (hN : allNodes[N]? = some node) (hparent : node.parent = (P : Int))
    (hP : P < allNodes.length) (hfuel : allNodes.length ≤ fuel) :
    ∃ wN sN wP sP,
      GltfNode.getWorldMatrix fuel allNodes N = some (wN, sN) ∧
      GltfNode.getWorldMatrix fuel allNodes P = some (wP, sP) ∧
      wN = wP * node.getLocalMatrix ∧
      GltfNode.getWorldMatrix fuel sN P = some (wP, sN) ∧
      ∃ ws s', computeWorldMatrices fuel allNodes = some (ws, s') ∧
        ws[N]? = some wN ∧ ws[P]? = some wP := by
  have hNlt : N < allNodes.length := (List.getElem?_eq_some_iff.1 hN).1
  have hinv : CacheInv allNodes allNodes := cacheInv_of_allDirty (SameShape.refl _) hdirty
  obtain ⟨sN, hgN, hinvN, _⟩ := getWorldMatrix_correct allNodes hacyclic allNodes.length N
    allNodes fuel (hacyclic N hNlt) hNlt hinv hfuel
  obtain ⟨sP, hgP, _, _⟩ := getWorldMatrix_correct allNodes hacyclic allNodes.length P
    allNodes fuel (hacyclic P hP) hP hinv hfuel
  obtain ⟨sP', hgP', hinvP', _⟩ := getWorldMatrix_correct allNodes hacyclic allNodes.length P
    sN fuel (hacyclic P hP) hP hinvN hfuel
  have hlink : parentLink allNodes N = some P := by
    rw [parentLink_of_getElem? hN, hparent]
    simp [hP]
  have hloc : localOf allNodes N = node.getLocalMatrix := by simp [localOf, hN]
  obtain ⟨s', hc, _⟩ := computeWorldMatrices_correct allNodes hacyclic fuel hfuel
  refine ⟨_, sN, _, sP, hgN, hgP, ?_, ?_, _, s', hc, ?_, ?_⟩
  · rw [worldSpec_child hacyclic hNlt hlink, hloc]
  · have hframe := getWorldMatrix_frame fuel allNodes N _ sN hgN
    obtain ⟨nN, hnN, hcache, hclean⟩ := hframe.2.2
    have hPlt : P < sN.length := hinvN.1.1 ▸ hP
    obtain ⟨f, rfl⟩ : ∃ f, fuel = f + 1 := ⟨fuel - 1, by omega⟩
    have hPc : ∃ nP, sN[P]? = some nP ∧ nP.m_worldMatrixDirty = false := by
      obtain ⟨x, hx⟩ := getWorldMatrix_correct allNodes hacyclic allNodes.length P
        allNodes (f + 1) (hacyclic P hP) hP hinv hfuel
      by_cases hNP : N = P
      · subst hNP
        exact ⟨nN, hnN, hclean⟩
      · -- the call on `N` resolved `P` first and left it clean
        simp only [GltfNode.getWorldMatrix, hN] at hgN
        have hd : node.m_worldMatrixDirty = true := hdirty node (List.getElem?_mem hN)
        have hc2 : 0 ≤ node.parent ∧ node.parent < (allNodes.length : Int) := by
          rw [hparent]; exact ⟨Int.natCast_nonneg _, by exact_mod_cast hP⟩
        simp only [hd, Bool.not_true, Bool.false_eq_true, if_false, hc2, and_self,
          if_true] at hgN
        cases h1 : GltfNode.getWorldMatrix f allNodes node.parent.toNat with
        | none => simp [h1] at hgN
        | some r =>
          obtain ⟨pw, s1⟩ := r
          simp only [h1, Option.some.injEq, Prod.mk.injEq] at hgN
          obtain ⟨_, hs1⟩ := hgN
          have hPnat : node.parent.toNat = P := by rw [hparent]; simp
          rw [hPnat] at h1
          obtain ⟨_, _, nP, hnP, _, hPclean⟩ := getWorldMatrix_frame f allNodes P pw s1 h1
          refine ⟨nP, ?_, hPclean⟩
          rw [← hs1, List.getElem?_modify_ne _ _ hNP]
          exact hnP
    obtain ⟨nP, hnP, hPclean⟩ := hPc
    simp only [GltfNode.getWorldMatrix, hnP, hPclean, Bool.not_false, if_true]
    rw [hinvN.2 P nP hnP hPclean]
  · rw [List.getElem?_map, List.getElem?_range hNlt]; rfl
  · rw [List.getElem?_map, List.getElem?_range hP]; rfl

/-- Witness for C1 on the chain of three nodes: node 2 with parent 1. -/
theorem getWorldMatrix_eq_parent_mul_local_witness :
    ∃ wN sN wP sP,
      GltfNode.getWorldMatrix 3 chainScene 2 = some (wN, sN) ∧
      GltfNode.getWorldMatrix 3 chainScene 1 = some (wP, sP) ∧
      wN = wP * (trsNode ⟨0, 0, 9⟩ 1).getLocalMatrix ∧
      GltfNode.getWorldMatrix 3 sN 1 = some (wP, sN) ∧
      ∃ ws s', computeWorldMatrices 3 chainScene = some (ws, s') ∧
        ws[2]? = some wN ∧ ws[1]? = some wP :=
  getWorldMatrix_eq_parent_mul_local chainScene 2 1 (trsNode ⟨0, 0, 9⟩ 1) 3
    (by decide) (by decide) rfl rfl (by decide) (by decide)

/-- C2: on a dirty node without parent (`parent == -1`) `getWorldMatrix` returns exactly
`getLocalMatrix` of that node (no product is formed), stores it in the node's cache and
clears its dirty flag. -/
theorem getWorldMatrix_root (allNodes : List (GltfNode α)) (N : Nat) (node : GltfNode α)
    (fuel : Nat) (hN : allNodes[N]? = some node)
    (hdirty : node.m_worldMatrixDirty = true) (hroot : node.parent = -1) :
    GltfNode.getWorldMatrix (fuel + 1) allNodes N =
      some (node.getLocalMatrix,
        allNodes.modify (GltfNode.storeWorld node.getLocalMatrix) N) := by
  simp [GltfNode.getWorldMatrix, hN, hdirty, hroot]

/-- Witness for C2: the root of the chain scene. -/
theorem getWorldMatrix_root_witness :
    GltfNode.getWorldMatrix (0 + 1) chainScene 0 =
      some ((trsNode ⟨5, 0, 0⟩ (-1)).getLocalMatrix,
        chainScene.modify (GltfNode.storeWorld (trsNode ⟨5, 0, 0⟩ (-1)).getLocalMatrix) 0) :=
  getWorldMatrix_root chainScene 0 (trsNode ⟨5, 0, 0⟩ (-1)) 0 rfl rfl rfl

/-- The matrix loops of `loadNodes` store document entry `4 * r + c` at column `c`, row `r`:
the document's column-major array is read as if it were row-major. -/
theorem copyNodeMatrix_get (src : List α) (m : Mat4 α) (c r : Fin 4) :
    (copyNodeMatrix src m).get c r = src.getD (r.val * 4 + c.val) 0 := by
  fin_cases c <;> fin_cases r <;> rfl

/-- What the first pass of `loadNodes` does with a document node that has a matrix: the
node gets `useTRS == false`, and its local matrix has document entry `4 * r + c` at
column `c`, row `r`, the transpose of the column-major document matrix. -/
theorem loadNodeProperties_matrix (i : Nat) (gltfNode : tinygltf.Node α) (node : GltfNode α)
    (hm : gltfNode.matrix ≠ []) (c r : Fin 4) :
    (loadNodeProperties i gltfNode node).useTRS = false ∧
    (loadNodeProperties i gltfNode node).getLocalMatrix.get c r =
      gltfNode.matrix.getD (r.val * 4 + c.val) 0 := by
  have he : gltfNode.matrix.isEmpty = false := by
    cases h : gltfNode.matrix with
    | nil => exact absurd h hm
    | cons a l => rfl
  simp only [loadNodeProperties, he, Bool.not_false, if_true, GltfNode.getLocalMatrix,
    Bool.false_eq_true, if_false]
  exact ⟨trivial, copyNodeMatrix_get _ _ c r⟩

/-- C3, the code at a failing input: loading the document whose only node carries the
column-major translation matrix by (1, 2, 3) gives a node with `useTRS == false` whose
local matrix is the transpose of the document matrix: its translation column (column 3)
is (0, 0, 0, 1) and (1, 2, 3) sits in row 3, so the element at column 3, row 0 is 0 while
the document entry `m[4*3 + 0]` is 1. -/
theorem loadNodes_matrix_transposed :
    (GltfModel.loadNodes emptyModel translationDoc).m_nodes.map
        (fun n => (n.useTRS, n.getLocalMatrix)) =
      [(false, ⟨⟨1, 0, 0, 1⟩, ⟨0, 1, 0, 2⟩, ⟨0, 0, 1, 3⟩, ⟨0, 0, 0, 1⟩⟩)] ∧
    ((GltfModel.loadNodes emptyModel translationDoc).m_nodes.map
        (fun n => n.getLocalMatrix.get 3 0)) = [0] ∧
    translationDocNode.matrix.getD (4 * 3 + 0) 0 = 1 := by
  decide

/-- C4: a TRS node with identity rotation and unit scale has the pure translation matrix by
its translation as local matrix, which is the identity matrix when the translation is
(0, 0, 0); and for a dirty root with identity TRS and a dirty child of it with translation
`t`, the root's world matrix is the identity and the child's world matrix is the
translation by `t`. -/
theorem getLocalMatrix_identity_TRS (n : GltfNode α) (hTRS : n.useTRS = true)
    (hrot : n.rotation = ⟨1, 0, 0, 0⟩) (hscale : n.scale = ⟨1, 1, 1⟩) :
    n.getLocalMatrix = translationMatrix n.translation ∧
    (n.translation = ⟨0, 0, 0⟩ → n.getLocalMatrix = Mat4.identity) ∧
    ∀ (root : GltfNode α) (fuel : Nat), root.useTRS = true → root.translation = ⟨0, 0, 0⟩ →
      root.rotation = ⟨1, 0, 0, 0⟩ → root.scale = ⟨1, 1, 1⟩ → root.parent = -1 →
      root.m_worldMatrixDirty = true → n.parent = 0 → n.m_worldMatrixDirty = true →
      (∃ s', GltfNode.getWorldMatrix (fuel + 1) [root, n] 0 = some (Mat4.identity, s')) ∧
      ∃ s', GltfNode.getWorldMatrix (fuel + 2) [root, n] 1 =
        some (translationMatrix n.translation, s') := by
  have hloc := getLocalMatrix_translation n hTRS hrot hscale
  refine ⟨hloc, ?_, ?_⟩
  · intro ht
    rw [hloc, ht]
    rfl
  · intro root fuel h1 h2 h3 h4 h5 h6 h7 h8
    have hroot : root.getLocalMatrix = Mat4.identity := by
      rw [getLocalMatrix_translation root h1 h3 h4, h2]; rfl
    constructor
    · simp [GltfNode.getWorldMatrix, h5, h6, hroot]
    · simp [GltfNode.getWorldMatrix, h5, h6, h7, h8, hroot, hloc, Mat4.identity_mul]

/-- Witness for C4, the scenario of the spec: a root with identity TRS and a child
translated by (1, 0, 0); the child's local and world matrices are the translation by
(1, 0, 0), the root's world matrix is the identity. -/
theorem getLocalMatrix_identity_TRS_witness :
    (trsNode ⟨1, 0, 0⟩ 0).getLocalMatrix = translationMatrix ⟨1, 0, 0⟩ ∧
    (∃ s', GltfNode.getWorldMatrix 1 [trsNode ⟨0, 0, 0⟩ (-1), trsNode ⟨1, 0, 0⟩ 0] 0 =
      some (Mat4.identity, s')) ∧
    ∃ s', GltfNode.getWorldMatrix 2 [trsNode ⟨0, 0, 0⟩ (-1), trsNode ⟨1, 0, 0⟩ 0] 1 =
      some (translationMatrix ⟨1, 0, 0⟩, s') :=
  ⟨(getLocalMatrix_identity_TRS (trsNode ⟨1, 0, 0⟩ 0) rfl rfl rfl).1,
    (getLocalMatrix_identity_TRS (trsNode ⟨1, 0, 0⟩ 0) rfl rfl rfl).2.2
      (trsNode ⟨0, 0, 0⟩ (-1)) 0 rfl rfl rfl rfl rfl rfl rfl rfl⟩

/-- C5: the cache protocol of `getWorldMatrix` on node `i`. On a clean node it returns the
stored cache and the collection is unchanged. On a dirty node with a parent link it first
resolves the parent (and does not return if the parent call does not), then stores
`parentWorld * local` in the cache of node `i`, clears its flag and returns that value;
without a parent link it does the same with the local matrix alone.
Whenever a call returns, the returned matrix is the cache of node `i`, which is clean, no
node changed in anything but its cache fields, and nodes that were clean are untouched.
`markDirty` on node `i` sets the dirty flag of that node only: its other fields, and every
other node, are unchanged. -/
theorem getWorldMatrix_cache_protocol (allNodes : List (GltfNode α)) (i : Nat)
    (node : GltfNode α) (fuel : Nat) (hi : allNodes[i]? = some node) :
    (node.m_worldMatrixDirty = false →
      GltfNode.getWorldMatrix (fuel + 1) allNodes i =
        some (node.m_worldMatrixCache, allNodes)) ∧
    (node.m_worldMatrixDirty = true →
      0 ≤ node.parent ∧ node.parent < (allNodes.length : Int) →
      (∀ pw s1, GltfNode.getWorldMatrix fuel allNodes node.parent.toNat = some (pw, s1) →
        GltfNode.getWorldMatrix (fuel + 1) allNodes i =
          some (pw * node.getLocalMatrix,
            s1.modify (GltfNode.storeWorld (pw * node.getLocalMatrix)) i)) ∧
      (GltfNode.getWorldMatrix fuel allNodes node.parent.toNat = none →
        GltfNode.getWorldMatrix (fuel + 1) allNodes i = none)) ∧
    (node.m_worldMatrixDirty = true →
      ¬ (0 ≤ node.parent ∧ node.parent < (allNodes.length : Int)) →
      GltfNode.getWorldMatrix (fuel + 1) allNodes i =
        some (node.getLocalMatrix,
          allNodes.modify (GltfNode.storeWorld node.getLocalMatrix) i)) ∧
    (∀ w s', GltfNode.getWorldMatrix fuel allNodes i = some (w, s') →
      SameShape allNodes s' ∧
      (∀ (j : Nat) (n : GltfNode α), allNodes[j]? = some n → n.m_worldMatrixDirty = false →
        s'[j]? = some n) ∧
      ∃ n', s'[i]? = some n' ∧ n'.m_worldMatrixCache = w ∧ n'.m_worldMatrixDirty = false) ∧
    (markDirtyAt allNodes i)[i]? = some { node with m_worldMatrixDirty := true } ∧
    ∀ j, j ≠ i → (markDirtyAt allNodes i)[j]? = allNodes[j]? := by
  refine ⟨?_, ?_, ?_, ?_, ?_, ?_⟩
  · intro hclean
    simp [GltfNode.getWorldMatrix, hi, hclean]
  · intro hd hc
    constructor
    · intro pw s1 h1
      simp [GltfNode.getWorldMatrix, hi, hd, hc, h1]
    · intro h1
      simp [GltfNode.getWorldMatrix, hi, hd, hc, h1]
  · intro hd hc
    simp only [GltfNode.getWorldMatrix, hi, hd, Bool.not_true, Bool.false_eq_true, if_false,
      hc]
  · intro w s' h
    exact getWorldMatrix_frame fuel allNodes i w s' h
  · simp [markDirtyAt, hi, GltfNode.markDirty]
  · intro j hj
    simp [markDirtyAt, List.getElem?_modify_ne _ _ (Ne.symm hj)]

/-- Witness for C5: node 1 of the chain scene is dirty with parent 0; the call resolves
node 0 first and then stores and returns the product. -/
theorem getWorldMatrix_cache_protocol_witness :
    GltfNode.getWorldMatrix (1 + 1) chainScene 1 =
      some ((trsNode ⟨5, 0, 0⟩ (-1)).getLocalMatrix * (trsNode ⟨0, 7, 0⟩ 0).getLocalMatrix,
        (chainScene.modify
          (GltfNode.storeWorld (trsNode ⟨5, 0, 0⟩ (-1)).getLocalMatrix) 0).modify
          (GltfNode.storeWorld ((trsNode ⟨5, 0, 0⟩ (-1)).getLocalMatrix *
            (trsNode ⟨0, 7, 0⟩ 0).getLocalMatrix)) 1) :=
  ((getWorldMatrix_cache_protocol chainScene 1 (trsNode ⟨0, 7, 0⟩ 0) 1 rfl).2.1 rfl
    (by decide)).1 _ _ rfl

/-- C6: for a model with an acyclic hierarchy, two successive transform refreshes (the
second on the node state the first one left, nothing else changed) compute the same
world-matrix array, one entry per node; and when the buffer can be mapped, both
`updateTransforms` calls return and leave the same contents in the transform buffer, the
computed array written over its start. -/
theorem updateTransforms_idempotent (self : GltfModel α) (device : Device) (fuel : Nat)
    (hacyclic : Acyclic self.m_nodes) (hfuel : self.m_nodes.length ≤ fuel) :
    ∃ ws s1 s2,
      computeWorldMatrices fuel self.m_nodes = some (ws, s1) ∧
      computeWorldMatrices fuel s1 = some (ws, s2) ∧
      ws.length = self.m_nodes.length ∧
      (device.vkMapMemory = true →
        ∃ m1 m2,
          GltfModel.updateTransforms fuel device self = some (.ok m1) ∧
          GltfModel.updateTransforms fuel device m1 = some (.ok m2) ∧
          m2.m_transformBuffer = m1.m_transformBuffer ∧
          ∀ buffer, self.m_transformBuffer = some buffer → self.m_nodes ≠ [] →
            m1.m_transformBuffer = some (ws ++ buffer.drop ws.length)) := by
  obtain ⟨s1, h1, hinv1⟩ := computeWorldMatrices_correct self.m_nodes hacyclic fuel hfuel
  have hshape : SameShape self.m_nodes s1 := hinv1.1
  have hlen : self.m_nodes.length = s1.length := hshape.1
  obtain ⟨s2, h2, _⟩ := computeWorldMatrices_correct s1 (hshape.acyclic hacyclic) fuel
    (hlen ▸ hfuel)
  have hws : (List.range s1.length).map (worldSpec s1 s1.length)
      = (List.range self.m_nodes.length).map (worldSpec self.m_nodes self.m_nodes.length) := by
    rw [← hlen]
    congr 1
    funext j
    exact (hshape.worldSpec_eq _ j).symm
  rw [hws] at h2
  have hwlen : ((List.range self.m_nodes.length).map
      (worldSpec self.m_nodes self.m_nodes.length)).length = self.m_nodes.length := by simp
  generalize (List.range self.m_nodes.length).map
    (worldSpec self.m_nodes self.m_nodes.length) = ws at h1 h2 hwlen
  refine ⟨ws, s1, s2, h1, h2, hwlen, ?_⟩
  intro hmap
  cases hb : self.m_transformBuffer with
  | none =>
    exact ⟨self, self, by simp [GltfModel.updateTransforms, hb],
      by simp [GltfModel.updateTransforms, hb], rfl, by intro b h; cases h⟩
  | some buffer =>
    by_cases hempty : self.m_nodes = []
    · exact ⟨self, self, by simp [GltfModel.updateTransforms, hb, hempty],
        by simp [GltfModel.updateTransforms, hb, hempty], rfl,
        fun _ _ hne => absurd hempty hne⟩
    · have hs1 : s1 ≠ [] := by
        intro h
        apply hempty
        apply List.eq_nil_of_length_eq_zero
        rw [hlen, h]; rfl
      refine ⟨{ self with m_nodes := s1,
                          m_transformBuffer := some (ws ++ buffer.drop ws.length) },
        { self with m_nodes := s2,
                    m_transformBuffer :=
                      some (ws ++ (ws ++ buffer.drop ws.length).drop ws.length) },
        by simp [GltfModel.updateTransforms, hb, hempty, h1, hmap],
        by simp [GltfModel.updateTransforms, hs1, h2, hmap], ?_, ?_⟩
      · simp
      · intro b hbb _
        cases hbb
        rfl

/-- Witness for C6: the chain model, refreshed twice on a device whose calls all succeed. -/
theorem updateTransforms_idempotent_witness :
    ∃ ws s1 s2 m1 m2,
      computeWorldMatrices 3 chainModel.m_nodes = some (ws, s1) ∧
      computeWorldMatrices 3 s1 = some (ws, s2) ∧
      ws.length = chainModel.m_nodes.length ∧
      GltfModel.updateTransforms 3 okDevice chainModel = some (.ok m1) ∧
      GltfModel.updateTransforms 3 okDevice m1 = some (.ok m2) ∧
      m2.m_transformBuffer = m1.m_transformBuffer ∧
      m1.m_transformBuffer = some ws := by
  obtain ⟨ws, s1, s2, h1, h2, h3, h4⟩ :=
    updateTransforms_idempotent chainModel okDevice 3 (by decide) (by decide)
  obtain ⟨m1, m2, h5, h6, h7, h8⟩ := h4 rfl
  refine ⟨ws, s1, s2, m1, m2, h1, h2, h3, h5, h6, h7, ?_⟩
  have h9 := h8 (List.replicate 3 Mat4.identity) rfl (by decide)
  rw [h9]
  have hl : ws.length = 3 := h3
  simp [hl]

end nodeClaims

/-! ## Memory type lookup -/

theorem and_two_pow_ne_zero_iff (x i : Nat) : x &&& 2 ^ i ≠ 0 ↔ x.testBit i = true := by
  constructor
  · intro h
    by_contra hb
    apply h
    apply Nat.eq_of_testBit_eq
    intro j
    rw [Nat.testBit_and, Nat.testBit_two_pow, Nat.zero_testBit]
    by_cases hij : i = j
    · subst hij
      simp [hb]
    · simp [hij]
  · intro hb h
    have := congrArg (fun y => Nat.testBit y i) h
    simp [Nat.testBit_and, Nat.testBit_two_pow, hb] at this

theorem shift_bit_test (typeBits i : Nat) (hi : i < 32) :
    (typeBits &&& ((1 <<< i) % 2 ^ 32)) ≠ 0 ↔ typeBits.testBit i = true := by
  rw [Nat.one_shiftLeft, Nat.mod_eq_of_lt (Nat.pow_lt_pow_right (by decide) hi)]
  exact and_two_pow_ne_zero_iff typeBits i

theorem findMemoryTypeLoop_some (memProps : MemoryProperties) (typeBits props : Nat) :
    ∀ (remaining i r : Nat), i + remaining ≤ 32 →
      findMemoryTypeLoop memProps typeBits props remaining i = some r →
      (i ≤ r ∧ r < i + remaining ∧ typeBits.testBit r = true ∧
        (memProps.memoryTypes.getD r 0 &&& props) = props) ∧
      ∀ j, i ≤ j → j < r →
        ¬ (typeBits.testBit j = true ∧ (memProps.memoryTypes.getD j 0 &&& props) = props)
  | 0, _, _, _, h => by simp [findMemoryTypeLoop] at h
  | remaining + 1, i, r, hb, h => by
    simp only [findMemoryTypeLoop] at h
    split at h
    · rename_i hc
      cases h
      rw [shift_bit_test typeBits i (by omega)] at hc
      exact ⟨⟨le_refl _, by omega, hc.1, hc.2⟩, fun j h1 h2 => by omega⟩
    · rename_i hc
      rw [shift_bit_test typeBits i (by omega)] at hc
      obtain ⟨⟨h1, h2, h3, h4⟩, h5⟩ :=
        findMemoryTypeLoop_some memProps typeBits props remaining (i + 1) r (by omega) h
      refine ⟨⟨by omega, by omega, h3, h4⟩, fun j hj1 hj2 => ?_⟩
      by_cases hji : j = i
      · subst hji; exact hc
      · exact h5 j (by omega) hj2

theorem findMemoryTypeLoop_none (memProps : MemoryProperties) (typeBits props : Nat) :
    ∀ (remaining i : Nat), i + remaining ≤ 32 →
      findMemoryTypeLoop memProps typeBits props remaining i = none →
      ∀ j, i ≤ j → j < i + remaining →
        ¬ (typeBits.testBit j = true ∧ (memProps.memoryTypes.getD j 0 &&& props) = props)
  | 0, _, _, _, j, h1, h2 => by omega
  | remaining + 1, i, hb, h, j, h1, h2 => by
    simp only [findMemoryTypeLoop] at h
    split at h
    · cases h
    · rename_i hc
      rw [shift_bit_test typeBits i (by omega)] at hc
      by_cases hji : j = i
      · subst hji; exact hc
      · exact findMemoryTypeLoop_none memProps typeBits props remaining (i + 1) (by omega) h j
          (by omega) (by omega)

/-- C10: on a device with at most `VK_MAX_MEMORY_TYPES = 32` memory types,
`findMemoryTypeInternal(typeBits, props)` returns index `i` exactly when `i` is the
smallest index below `memoryTypeCount` whose bit is set in `typeBits` and whose property
flags contain `props`; and it raises its error exactly when no index satisfies both
constraints. -/
theorem findMemoryTypeInternal_spec (physical : Device) (typeBits props : Nat)
    (hcount : physical.memProps.memoryTypeCount ≤ 32) :
    (∀ i, findMemoryTypeInternal physical typeBits props = .ok i ↔
      (SuitableMemoryType physical.memProps typeBits props i ∧
        ∀ j, j < i → ¬ SuitableMemoryType physical.memProps typeBits props j)) ∧
    ((∃ e, findMemoryTypeInternal physical typeBits props = .error e) ↔
      ¬ ∃ i, SuitableMemoryType physical.memProps typeBits props i) := by
  unfold findMemoryTypeInternal
  cases h : findMemoryTypeLoop physical.memProps typeBits props
      physical.memProps.memoryTypeCount 0 with
  | some r =>
    obtain ⟨⟨_, h2, h3, h4⟩, h5⟩ := findMemoryTypeLoop_some physical.memProps typeBits props
      physical.memProps.memoryTypeCount 0 r (by omega) h
    have hr : SuitableMemoryType physical.memProps typeBits props r :=
      ⟨by omega, h3, h4⟩
    constructor
    · intro i
      constructor
      · intro hi
        simp only [Except.ok.injEq] at hi
        subst hi
        exact ⟨hr, fun j hj hs => h5 j (Nat.zero_le _) hj ⟨hs.2.1, hs.2.2⟩⟩
      · rintro ⟨hs, hmin⟩
        simp only [Except.ok.injEq]
        rcases Nat.lt_trichotomy r i with hlt | heq | hgt
        · exact absurd hr (hmin r hlt)
        · exact heq
        · exact absurd ⟨hs.2.1, hs.2.2⟩ (h5 i (Nat.zero_le _) hgt)
    · constructor
      · rintro ⟨e, he⟩
        cases he
      · intro hno
        exact absurd ⟨r, hr⟩ hno
  | none =>
    have hn := findMemoryTypeLoop_none physical.memProps typeBits props
      physical.memProps.memoryTypeCount 0 (by omega) h
    constructor
    · intro i
      constructor
      · intro hi
        cases hi
      · rintro ⟨hs, _⟩
        exact absurd ⟨hs.2.1, hs.2.2⟩ (hn i (Nat.zero_le _) (by simpa using hs.1))
    · constructor
      · rintro _ ⟨i, hs⟩
        exact hn i (Nat.zero_le _) (by simpa using hs.1) ⟨hs.2.1, hs.2.2⟩
      · intro _
        exact ⟨_, rfl⟩

/-- Witness for C10: on the three-type example device, a request for host-visible and
host-coherent memory among types 1 and 2 is answered with type 1. -/
theorem findMemoryTypeInternal_spec_witness :
    findMemoryTypeInternal okDevice 6 6 = .ok 1 :=
  ((findMemoryTypeInternal_spec okDevice 6 6 (by decide)).1 1).2 (by decide)

/-! ## Mip levels and mipmap generation -/

theorem floorLog2_eq_log (x : Nat) : floorLog2 x = Nat.log 2 x := by
  unfold floorLog2
  exact Nat.log2_eq_log_two

theorem floorLog2_lt_32 (x : Nat) (hx : x < 2 ^ 32) : floorLog2 x < 32 := by
  rw [floorLog2_eq_log]
  by_cases h0 : x = 0
  · subst h0; simp
  · exact Nat.log_lt_of_lt_pow h0 hx

theorem mipLevelCount_eq (gen : Bool) (width height : Nat) (hw : width < 2 ^ 32)
    (hh : height < 2 ^ 32) :
    mipLevelCount gen width height = if gen then Nat.log 2 (max width height) + 1 else 1 := by
  unfold mipLevelCount
  cases gen
  · rfl
  · have hm : max width height < 2 ^ 32 := max_lt hw hh
    have := floorLog2_lt_32 _ hm
    rw [if_pos rfl, if_pos rfl, Nat.mod_eq_of_lt (by omega), floorLog2_eq_log]

theorem createFromPixels_mipLevels (device : Device) (pixels : List Nat)
    (width height format : Nat) (gen : Bool) (self : Texture) (gpu : Gpu) :
    (Texture.createFromPixels device pixels width height format gen self gpu).2.1.m_mipLevels =
      mipLevelCount gen width height := by
  unfold Texture.createFromPixels
  simp only []
  repeat' split
  all_goals rfl

theorem createImageCube_mipLevels (device : Device) (width height mipLevels format : Nat)
    (self : Texture) (gpu : Gpu) :
    (Cubemap.createImageCube device width height mipLevels format self gpu).2.1.m_mipLevels =
      self.m_mipLevels := by
  unfold Cubemap.createImageCube
  simp only []
  repeat' split
  all_goals rfl

theorem createFromFaces_mipLevels (device : Device) (fs : List (Option (List Nat)))
    (width height format : Nat) (gen : Bool) (self : Texture) (gpu : Gpu)
    (hface : (fs.getD 0 none).isSome = true) :
    (Cubemap.createFromFaces device (some fs) width height format gen self gpu).2.1.m_mipLevels
      = mipLevelCount gen width height := by
  have h := createImageCube_mipLevels device width height (mipLevelCount gen width height)
    format { self with m_mipLevels := mipLevelCount gen width height } gpu
  have hf : (fs.getD 0 none).isNone = false := by
    cases h0 : fs.getD 0 none <;> simp_all
  unfold Cubemap.createFromFaces
  simp only [hf]
  generalize Cubemap.createImageCube device width height _ format _ gpu = r at h ⊢
  obtain ⟨r1, t, g⟩ := r
  simp only at h
  cases r1 with
  | error e => exact h
  | ok u =>
    simp only [Bool.false_eq_true, if_false]
    repeat' split
    all_goals exact h

/-- C8: for every 32-bit width and height of at least 1, the texture left by
`Texture::createFromPixels`, and the one left by `Cubemap::createFromFaces` once its
null-face guard has passed, has mip level count `floor(log2(max(width, height))) + 1` when
mipmap generation is requested and 1 otherwise; that count `L` is the one with
`2^(L-1) <= max(width, height) < 2^L`; and a mipmapped 100x50 image gets 7 levels. -/
theorem mipLevels_eq_floor_log2_succ (device : Device) (pixels : List Nat)
    (faces : List (Option (List Nat))) (width height format : Nat) (gen : Bool)
    (self : Texture) (gpu : Gpu)
    (hw : 1 ≤ width) (_hh : 1 ≤ height) (hw32 : width < 2 ^ 32) (hh32 : height < 2 ^ 32)
    (hface : (faces.getD 0 none).isSome = true) :
    (Texture.createFromPixels device pixels width height format gen self gpu).2.1.m_mipLevels =
      (if gen then Nat.log 2 (max width height) + 1 else 1) ∧
    (Cubemap.createFromFaces device (some faces) width height format gen self
        gpu).2.1.m_mipLevels =
      (if gen then Nat.log 2 (max width height) + 1 else 1) ∧
    2 ^ Nat.log 2 (max width height) ≤ max width height ∧
    max width height < 2 ^ (Nat.log 2 (max width height) + 1) ∧
    mipLevelCount true 100 50 = 7 := by
  have hm : max width height ≠ 0 := by
    have : 1 ≤ max width height := le_trans hw (le_max_left _ _)
    omega
  refine ⟨?_, ?_, Nat.pow_log_le_self 2 hm, Nat.lt_pow_succ_log_self (by decide) _, ?_⟩
  · rw [createFromPixels_mipLevels, mipLevelCount_eq gen width height hw32 hh32]
  · rw [createFromFaces_mipLevels _ _ _ _ _ _ _ _ hface,
      mipLevelCount_eq gen width height hw32 hh32]
  · rw [mipLevelCount_eq true 100 50 (by decide) (by decide)]
    simp [Nat.log]

/-- Witness for C8: the 100x50 image of the spec's scenario, mipmaps requested. -/
theorem mipLevels_eq_floor_log2_succ_witness :
    (Texture.createFromPixels okDevice [] 100 50 VK_FORMAT_R8G8B8A8_SRGB true {}
        Gpu.empty).2.1.m_mipLevels =
      (if true then Nat.log 2 (max 100 50) + 1 else 1) ∧
    (Cubemap.createFromFaces okDevice (some [some []]) 100 50 VK_FORMAT_R8G8B8A8_SRGB true {}
        Gpu.empty).2.1.m_mipLevels =
      (if true then Nat.log 2 (max 100 50) + 1 else 1) ∧
    2 ^ Nat.log 2 (max 100 50) ≤ max 100 50 ∧
    max 100 50 < 2 ^ (Nat.log 2 (max 100 50) + 1) ∧
    mipLevelCount true 100 50 = 7 :=
  mipLevels_eq_floor_log2_succ okDevice [] [some []] 100 50 VK_FORMAT_R8G8B8A8_SRGB true {}
    Gpu.empty (by decide) (by decide) (by decide) (by decide) rfl

/-- C9, the code at a failing input: on a device that reports no linear-filter support
(all other calls succeed), `Texture::createFromPixels` of a 2x2 image in the integer
format `VK_FORMAT_R8G8B8A8_UINT` with mipmaps requested returns normally and has submitted
a `vkCmdBlitImage`; whereas `Cubemap::createFromFaces` of 2x2 faces on such a device
throws in `generateMipmapsCube` and has submitted no blit. -/
theorem createFromPixels_blits_without_linear_filter :
    (noLinearFilterDevice.optimalTilingFeatures VK_FORMAT_R8G8B8A8_UINT &&&
      VK_FORMAT_FEATURE_SAMPLED_IMAGE_FILTER_LINEAR_BIT) = 0 ∧
    (Texture.createFromPixels noLinearFilterDevice pixels2x2 2 2 VK_FORMAT_R8G8B8A8_UINT true {}
      Gpu.empty).1 = .ok () ∧
    (Texture.createFromPixels noLinearFilterDevice pixels2x2 2 2 VK_FORMAT_R8G8B8A8_UINT true {}
      Gpu.empty).2.2.commands.any Cmd.isBlit = true ∧
    (Cubemap.createFromFaces noLinearFilterDevice (some (List.replicate 6 (some pixels2x2)))
      2 2 VK_FORMAT_R8G8B8A8_SRGB true {} Gpu.empty).1 =
        .error "Cubemap: format does not support linear blit for mipmaps" ∧
    (Cubemap.createFromFaces noLinearFilterDevice (some (List.replicate 6 (some pixels2x2)))
      2 2 VK_FORMAT_R8G8B8A8_SRGB true {} Gpu.empty).2.2.commands.any Cmd.isBlit = false := by
  have hmip : mipLevelCount true 2 2 = 2 := by
    rw [mipLevelCount_eq true 2 2 (by decide) (by decide)]
    simp [Nat.log]
  refine ⟨by decide, ?_, ?_, ?_, ?_⟩
  · rfl
  · unfold Texture.createFromPixels
    simp only [hmip]
    rfl
  · unfold Cubemap.createFromFaces
    simp only [hmip]
    rfl
  · unfold Cubemap.createFromFaces
    simp only [hmip]
    rfl

/-! ## Primitive creation -/

theorem findMemoryTypeInternal_error {device : Device} {typeBits props : Nat} {e : String}
    (h : findMemoryTypeInternal device typeBits props = .error e) :
    e = "Buffer::findMemoryTypeInternal: no suitable memory type" := by
  unfold findMemoryTypeInternal at h
  split at h
  · cases h
  · cases h; rfl

theorem Buffer.create_error {device : Device} {size usage properties : Nat} {self : Buffer}
    {gpu : Gpu} {e : String}
    (h : (Buffer.create device size usage properties self gpu).1 = .error e) :
    e ∈ bufferErrors := by
  unfold Buffer.create at h
  simp only [] at h
  split at h
  · cases h; simp [bufferErrors]
  · split at h
    · rename_i e' he'
      cases h
      rw [findMemoryTypeInternal_error he']
      simp [bufferErrors]
    · split at h
      · cases h; simp [bufferErrors]
      · cases h

theorem Buffer.map_error {device : Device} {self : Buffer} {e : String}
    (h : (Buffer.map device self).1 = .error e) : e ∈ bufferErrors := by
  unfold Buffer.map at h
  split at h
  · split at h
    · cases h; simp [bufferErrors]
    · cases h
  · cases h

theorem Buffer.createAndMap_error {device : Device} {size usage properties : Nat}
    {self : Buffer} {gpu : Gpu} {e : String}
    (h : (Buffer.createAndMap device size usage properties self gpu).1 = .error e) :
    e ∈ bufferErrors := by
  unfold Buffer.createAndMap at h
  split at h
  · rename_i e' _ _ hc
    cases h
    exact Buffer.create_error (by rw [hc])
  · split at h
    · rename_i e' _ hm
      cases h
      exact Buffer.map_error (by rw [hm])
    · cases h

theorem Buffer.write_error {src : List Nat} {size : Nat} {self : Buffer} {gpu : Gpu}
    {e : String} (h : (Buffer.write src size self gpu).1 = .error e) : e ∈ bufferErrors := by
  unfold Buffer.write at h
  split at h
  · cases h; simp [bufferErrors]
  · split at h
    · cases h; simp [bufferErrors]
    · cases h

theorem uploadViaStaging_error {device : Device} {usageBit : Nat} {data : List Nat}
    {bytes : Nat} {m_gpu : Buffer} {gpu : Gpu} {e : String}
    (h : (uploadViaStaging device usageBit data bytes m_gpu gpu).1 = .error e) :
    e ∈ bufferErrors := by
  unfold uploadViaStaging at h
  simp only [] at h
  split at h
  · rename_i e' _ _ hc
    cases h
    exact Buffer.createAndMap_error (by rw [hc])
  · split at h
    · rename_i e' _ hw
      cases h
      exact Buffer.write_error (by rw [hw])
    · split at h
      · rename_i e' _ _ hc
        cases h
        exact Buffer.create_error (by rw [hc])
      · cases h

theorem Buffer.create_ok {device : Device} (hdev : device.BuffersSucceed)
    (size usage properties : Nat)
    (hp : properties = (VK_MEMORY_PROPERTY_HOST_VISIBLE_BIT ||| VK_MEMORY_PROPERTY_HOST_COHERENT_BIT)
      ∨ properties = VK_MEMORY_PROPERTY_DEVICE_LOCAL_BIT)
    (self : Buffer) (gpu : Gpu) :
    ∃ b g, Buffer.create device size usage properties self gpu = (.ok (), b, g) ∧
      b.m_bufferSize = size ∧ b.m_memory ≠ 0 ∧ b.m_mappedPtr = self.m_mappedPtr := by
  obtain ⟨h1, h2, h3, h4, _⟩ := hdev
  obtain ⟨i, hi⟩ : ∃ i, findMemoryTypeInternal device (device.bufferMemoryTypeBits size usage)
      properties = .ok i := by
    rcases hp with rfl | rfl
    · exact h2 size usage
    · exact h3 size usage
  unfold Buffer.create
  simp only [h1, hi, h4, Bool.not_true, Bool.false_eq_true, if_false]
  exact ⟨_, _, rfl, rfl, by simp, rfl⟩

theorem uploadViaStaging_ok {device : Device} (hdev : device.BuffersSucceed)
    (usageBit : Nat) (data : List Nat) (bytes : Nat) (m_gpu : Buffer) (gpu : Gpu) :
    (uploadViaStaging device usageBit data bytes m_gpu gpu).1 = .ok () := by
  obtain ⟨s1, g1, hc1, hsize, hmem, hmapped⟩ := Buffer.create_ok hdev bytes
    VK_BUFFER_USAGE_TRANSFER_SRC_BIT _ (Or.inl rfl) {} gpu
  have hmap : device.vkMapMemory = true := hdev.2.2.2.2
  unfold uploadViaStaging
  simp only [Buffer.createAndMap, hc1]
  have hm0 : s1.m_mappedPtr = 0 := hmapped
  simp only [Buffer.map, hm0, hmap, if_true, Bool.not_true, Bool.false_eq_true, if_false]
  simp only [Buffer.write, hmem, if_false, hsize, gt_iff_lt, lt_irrefl]
  obtain ⟨s2, g2, hc2, _⟩ := Buffer.create_ok hdev bytes
    (VK_BUFFER_USAGE_TRANSFER_DST_BIT ||| usageBit) _ (Or.inr rfl) m_gpu
    (g1.writeBytes s1.m_memory data bytes)
  simp only [hc2]

theorem create_counts {V : Type} (device : Device) (vimg : MemoryImage V) (vertices : List V)
    (indices : List Nat) (self : GltfPrimitive) (gpu : Gpu)
    (hne : (vertices.isEmpty || indices.isEmpty) = false) :
    (self.create device vimg vertices indices gpu).2.1.vertexCount = vertices.length % 2 ^ 32 ∧
    (self.create device vimg vertices indices gpu).2.1.indexCount = indices.length % 2 ^ 32 := by
  unfold GltfPrimitive.create
  simp only [hne, Bool.false_eq_true, if_false]
  split
  · exact ⟨rfl, rfl⟩
  · exact ⟨rfl, rfl⟩

theorem create_error_mem {V : Type} (device : Device) (vimg : MemoryImage V)
    (vertices : List V) (indices : List Nat) (self : GltfPrimitive) (gpu : Gpu) (e : String)
    (hne : (vertices.isEmpty || indices.isEmpty) = false)
    (h : (self.create device vimg vertices indices gpu).1 = .error e) : e ∈ bufferErrors := by
  unfold GltfPrimitive.create at h
  simp only [hne, Bool.false_eq_true, if_false] at h
  split at h
  · rename_i e' _ _ hc
    cases h
    unfold VertexBuffer.createFrom at hc
    exact uploadViaStaging_error (congrArg Prod.fst hc)
  · simp only [IndexBuffer.createFromVector, IndexBuffer.createFrom] at h
    exact uploadViaStaging_error h

theorem create_ok_of_buffersSucceed {V : Type} (device : Device) (hdev : device.BuffersSucceed)
    (vimg : MemoryImage V) (vertices : List V) (indices : List Nat) (self : GltfPrimitive)
    (gpu : Gpu) (hne : (vertices.isEmpty || indices.isEmpty) = false) :
    (self.create device vimg vertices indices gpu).1 = .ok () := by
  unfold GltfPrimitive.create
  simp only [hne, Bool.false_eq_true, if_false]
  have hv := uploadViaStaging_ok hdev VK_BUFFER_USAGE_VERTEX_BUFFER_BIT (vimg.ofList vertices)
    (vimg.sizeOf * vertices.length) self.vertexBuffer.m_gpu gpu
  split
  · rename_i e' _ _ hc
    unfold VertexBuffer.createFrom at hc
    have := congrArg Prod.fst hc
    simp only [] at this
    rw [hv] at this
    cases this
  · simp only [IndexBuffer.createFromVector, IndexBuffer.createFrom]
    exact uploadViaStaging_ok hdev _ _ _ _ _

theorem length_resizeList {β : Type} (v : List β) (n : Nat) (d : β) :
    (resizeList v n d).length = n := by
  simp [resizeList]
  omega

section meshLemmas
variable {α : Type} [CommRing α]

theorem extractVertexData_no_indices (decode : List Nat → α) (model : tinygltf.Model α)
    (primitive : tinygltf.Primitive) (vertices : List (GltfVertex α)) (indices : List Nat)
    (h : primitive.indices < 0) :
    (extractVertexData decode model primitive vertices indices).2.2 = indices := by
  have hn : ¬ (0 ≤ primitive.indices) := not_le.2 h
  unfold extractVertexData
  split
  · rfl
  · simp only [hn, if_false]

theorem loadPrimitive_no_indices (decode : List Nat → α) (vimg : MemoryImage (GltfVertex α))
    (device : Device) (model : tinygltf.Model α) (gltfPrim : tinygltf.Primitive)
    (primitive : GltfPrimitive) (gpu : Gpu) (h : gltfPrim.indices < 0) :
    ∃ e, (loadPrimitive decode vimg device model gltfPrim primitive gpu).1 = .error e := by
  have hi := extractVertexData_no_indices decode model gltfPrim [] [] h
  unfold loadPrimitive
  split
  · exact ⟨_, rfl⟩
  · rename_i vertices indices hx
    rw [hx] at hi
    simp only at hi
    subst hi
    simp [GltfPrimitive.create]

theorem loadPrimitives_no_indices (decode : List Nat → α) (vimg : MemoryImage (GltfVertex α))
    (device : Device) (model : tinygltf.Model α) :
    ∀ (gs : List tinygltf.Primitive) (ps : List GltfPrimitive) (gpu : Gpu),
      gs.length ≤ ps.length → (∃ g ∈ gs, g.indices < 0) →
      ∃ e, (loadPrimitives decode vimg device model gs ps gpu).1 = .error e
  | [], _, _, _, h => by
    obtain ⟨g, hg, _⟩ := h
    cases hg
  | _ :: _, [], _, hlen, _ => by simp at hlen
  | g :: gs, p :: ps, gpu, hlen, h => by
    unfold loadPrimitives
    split
    · exact ⟨_, rfl⟩
    · rename_i p' gpu' hp
      obtain ⟨b, hb, hneg⟩ := h
      rcases List.mem_cons.1 hb with rfl | hmem
      · obtain ⟨e, he⟩ := loadPrimitive_no_indices decode vimg device model b p gpu hneg
        rw [hp] at he
        cases he
      · obtain ⟨e, he⟩ := loadPrimitives_no_indices decode vimg device model gs ps gpu'
          (by simpa using hlen) ⟨b, hmem, hneg⟩
        exact ⟨e, by simpa using he⟩

theorem loadMeshesLoop_no_indices (decode : List Nat → α) (vimg : MemoryImage (GltfVertex α))
    (device : Device) (model : tinygltf.Model α) :
    ∀ (gs : List tinygltf.Mesh) (ms : List GltfMesh) (gpu : Gpu),
      gs.length ≤ ms.length → (∃ m ∈ gs, ∃ g ∈ m.primitives, g.indices < 0) →
      ∃ e, (loadMeshesLoop decode vimg device model gs ms gpu).1 = .error e
  | [], _, _, _, h => by
    obtain ⟨g, hg, _⟩ := h
    cases hg
  | _ :: _, [], _, hlen, _ => by simp at hlen
  | g :: gs, m :: ms, gpu, hlen, h => by
    unfold loadMeshesLoop
    simp only []
    split
    · exact ⟨_, rfl⟩
    · rename_i ps' gpu' hp
      obtain ⟨b, hb, hprim⟩ := h
      rcases List.mem_cons.1 hb with rfl | hmem
      · obtain ⟨e, he⟩ := loadPrimitives_no_indices decode vimg device model b.primitives
          (resizeList m.primitives b.primitives.length {}) gpu
          (by rw [length_resizeList]) hprim
        rw [hp] at he
        cases he
      · obtain ⟨e, he⟩ := loadMeshesLoop_no_indices decode vimg device model gs ms gpu'
          (by simpa using hlen) ⟨b, hmem, hprim⟩
        exact ⟨e, by simpa using he⟩

end meshLemmas

theorem okDevice_buffersSucceed : okDevice.BuffersSucceed :=
  ⟨fun _ _ => rfl,
    fun _ _ => ⟨1, show findMemoryTypeInternal okDevice 7 _ = _ from rfl⟩,
    fun _ _ => ⟨0, show findMemoryTypeInternal okDevice 7 _ = _ from rfl⟩,
    fun _ => rfl, rfl⟩

theorem emptyPrimitiveError_not_mem : emptyPrimitiveError ∉ bufferErrors := by decide

/-- C7 as stated fails on the code. On a device whose `vkCreateBuffer` fails, `create` with
one vertex and one index raises (so it fails although neither list is empty), and at that
point `vertexCount` and `indexCount` are already 1: a primitive that was invalid before the
call reports `isValid()` afterwards although no buffer exists. And a vertex list of 2^32
elements makes a successful `create` store `vertexCount == 0`, the size truncated to 32
bits. -/
theorem create_raises_with_nonempty_lists :
    (([7] : List Nat).isEmpty || ([0] : List Nat).isEmpty) = false ∧
    (GltfPrimitive.create noBufferDevice pairImage [7] [0] {} Gpu.empty).1 =
      .error "Buffer::create: vkCreateBuffer failed" ∧
    (GltfPrimitive.create noBufferDevice pairImage [7] [0] {} Gpu.empty).2.1.vertexCount = 1 ∧
    (GltfPrimitive.create noBufferDevice pairImage [7] [0] {} Gpu.empty).2.1.indexCount = 1 ∧
    (GltfPrimitive.create noBufferDevice pairImage [7] [0] {} Gpu.empty).2.1.isValid = true ∧
    (GltfPrimitive.create noBufferDevice pairImage [7] [0] {} Gpu.empty).2.2.liveBuffers = 0 ∧
    ({} : GltfPrimitive).isValid = false ∧
    (GltfPrimitive.create okDevice pairImage hugeVertexList [0] {} Gpu.empty).1 = .ok () ∧
    hugeVertexList.length = 2 ^ 32 ∧
    (GltfPrimitive.create okDevice pairImage hugeVertexList [0] {} Gpu.empty).2.1.vertexCount
      = 0 := by
  have hlen : hugeVertexList.length = 2 ^ 32 := List.length_replicate _ _
  have hne : (hugeVertexList.isEmpty || ([0] : List Nat).isEmpty) = false := by
    have h1 : hugeVertexList.isEmpty = false := by
      cases h : hugeVertexList with
      | nil => rw [h] at hlen; cases hlen
      | cons a l => rfl
    rw [h1]
    rfl
  refine ⟨rfl, rfl, rfl, rfl, rfl, rfl, rfl, ?_, hlen, ?_⟩
  · exact create_ok_of_buffersSucceed okDevice okDevice_buffersSucceed pairImage _ _ _ _ hne
  · rw [(create_counts okDevice pairImage _ _ _ _ hne).1, hlen]
    exact Nat.mod_self _

/-- C7, amended. For vertex and index lists of fewer than 2^32 elements:
`GltfPrimitive::create` raises its empty-data error exactly when the vertex list or the
index list is empty, and then the primitive and the device state are unchanged (no buffer
created, counts unchanged). Every other failure is a failed buffer upload (creation, memory
type lookup, allocation, mapping or write), raised after `vertexCount` and `indexCount`
were set to the sizes. On success `vertexCount == vertices.size()` and
`indexCount == indices.size()`, both positive, and `isValid()` holds. On a device whose
buffer calls all succeed, `create` succeeds exactly when both lists are non-empty.
Consequently `loadMeshes` raises for every document that has a primitive without index
accessor. -/
theorem create_spec {V : Type} (device : Device) (vimg : MemoryImage V) (vertices : List V)
    (indices : List Nat) (self : GltfPrimitive) (gpu : Gpu)
    (hv : vertices.length < 2 ^ 32) (hi : indices.length < 2 ^ 32) :
    ((self.create device vimg vertices indices gpu).1 = .error emptyPrimitiveError ↔
      (vertices = [] ∨ indices = [])) ∧
    ((vertices = [] ∨ indices = []) →
      (self.create device vimg vertices indices gpu).2 = (self, gpu)) ∧
    ((self.create device vimg vertices indices gpu).1 = .ok () →
      (self.create device vimg vertices indices gpu).2.1.vertexCount = vertices.length ∧
      (self.create device vimg vertices indices gpu).2.1.indexCount = indices.length ∧
      0 < vertices.length ∧ 0 < indices.length ∧
      (self.create device vimg vertices indices gpu).2.1.isValid = true) ∧
    (∀ e, (self.create device vimg vertices indices gpu).1 = .error e →
      e ≠ emptyPrimitiveError →
      e ∈ bufferErrors ∧
      (self.create device vimg vertices indices gpu).2.1.vertexCount = vertices.length ∧
      (self.create device vimg vertices indices gpu).2.1.indexCount = indices.length) ∧
    (device.BuffersSucceed →
      ((self.create device vimg vertices indices gpu).1 = .ok () ↔
        (vertices ≠ [] ∧ indices ≠ []))) ∧
    (∀ (α : Type) [CommRing α] (decode : List Nat → α) (vimg' : MemoryImage (GltfVertex α))
      (model : tinygltf.Model α) (m_meshes : List GltfMesh),
      (∃ m ∈ model.meshes, ∃ g ∈ m.primitives, g.indices < 0) →
      ∃ e, (loadMeshes decode vimg' device model m_meshes gpu).1 = .error e) := by
  by_cases hempty : (vertices.isEmpty || indices.isEmpty) = true
  · -- the guard fires
    have hor : vertices = [] ∨ indices = [] := by
      simpa [List.isEmpty_iff] using hempty
    have hres : self.create device vimg vertices indices gpu =
        (.error emptyPrimitiveError, self, gpu) := by
      simp [GltfPrimitive.create, hempty]
    refine ⟨?_, ?_, ?_, ?_, ?_, ?_⟩
    · simp [hres, hor]
    · intro _; rw [hres]
    · intro h; rw [hres] at h; cases h
    · intro e h hne
      rw [hres] at h
      simp only [Except.error.injEq] at h
      exact absurd h.symm hne
    · intro _
      rw [hres]
      constructor
      · intro h; cases h
      · rintro ⟨h1, h2⟩
        rcases hor with h | h
        · exact absurd h h1
        · exact absurd h h2
    · intro α _ decode vimg' model m_meshes hex
      exact loadMeshesLoop_no_indices decode vimg' device model _ _ gpu
        (by rw [length_resizeList]) hex
  · have hne : (vertices.isEmpty || indices.isEmpty) = false := by
      simpa using hempty
    have hnor : ¬ (vertices = [] ∨ indices = []) := by
      simpa [List.isEmpty_iff] using hne
    have hvne : vertices ≠ [] := fun h => hnor (Or.inl h)
    have hine : indices ≠ [] := fun h => hnor (Or.inr h)
    obtain ⟨hvc, hic⟩ := create_counts device vimg vertices indices self gpu hne
    rw [Nat.mod_eq_of_lt hv] at hvc
    rw [Nat.mod_eq_of_lt hi] at hic
    have hvpos : 0 < vertices.length := List.length_pos.2 hvne
    have hipos : 0 < indices.length := List.length_pos.2 hine
    refine ⟨?_, ?_, ?_, ?_, ?_, ?_⟩
    · constructor
      · intro h
        exact absurd (create_error_mem device vimg vertices indices self gpu _ hne h)
          emptyPrimitiveError_not_mem
      · intro h; exact absurd h hnor
    · intro h; exact absurd h hnor
    · intro _
      refine ⟨hvc, hic, hvpos, hipos, ?_⟩
      simp [GltfPrimitive.isValid, hvc, hic, hvpos, hipos]
    · intro e h _
      exact ⟨create_error_mem device vimg vertices indices self gpu e hne h, hvc, hic⟩
    · intro hdev
      constructor
      · intro _; exact ⟨hvne, hine⟩
      · intro _
        exact create_ok_of_buffersSucceed device hdev vimg vertices indices self gpu hne
    · intro α _ decode vimg' model m_meshes hex
      exact loadMeshesLoop_no_indices decode vimg' device model _ _ gpu
        (by rw [length_resizeList]) hex

/-- The consequence at a concrete document: a mesh whose only primitive has three
positions and no index accessor makes `loadMeshes` raise the empty-data error of
`GltfPrimitive::create`, with no buffer created. -/
theorem loadMeshes_nonIndexedDoc :
    (loadMeshes (fun _ => (0 : Int)) ⟨104, fun _ => List.replicate 104 0⟩ okDevice
      nonIndexedDoc [] Gpu.empty).1 = .error emptyPrimitiveError ∧
    (loadMeshes (fun _ => (0 : Int)) ⟨104, fun _ => List.replicate 104 0⟩ okDevice
      nonIndexedDoc [] Gpu.empty).2.2 = Gpu.empty := by
  constructor <;> rfl

/-- Witness for the amended C7: three vertices and three indices on the example device;
the call succeeds and stores both counts. -/
theorem create_spec_witness :
    (GltfPrimitive.create okDevice pairImage [7, 8, 9] [0, 1, 2] {} Gpu.empty).2.1.vertexCount
      = [7, 8, 9].length ∧
    (GltfPrimitive.create okDevice pairImage [7, 8, 9] [0, 1, 2] {} Gpu.empty).2.1.indexCount
      = [0, 1, 2].length ∧
    0 < [7, 8, 9].length ∧ 0 < [0, 1, 2].length ∧
    (GltfPrimitive.create okDevice pairImage [7, 8, 9] [0, 1, 2] {} Gpu.empty).2.1.isValid
      = true :=
  (create_spec okDevice pairImage [7, 8, 9] [0, 1, 2] {} Gpu.empty
    (by decide) (by decide)).2.2.1 rfl

/-! ### The cubemap path checks the format before recording -/

theorem Gpu.writeBytes_commands (gpu : Gpu) (h : Nat) (src : List Nat) (size : Nat) :
    (gpu.writeBytes h src size).commands = gpu.commands := by
  unfold Gpu.writeBytes
  split <;> rfl

theorem Gpu.destroyBuffer_commands (gpu : Gpu) (h : Nat) :
    (gpu.destroyBuffer h).commands = gpu.commands := by
  unfold Gpu.destroyBuffer
  split <;> rfl

theorem createStaging_commands (device : Device) (m1 m2 m3 : String) (size : Nat)
    (data : List Nat) (gpu : Gpu) :
    (createStaging device m1 m2 m3 size data gpu).2.commands = gpu.commands := by
  unfold createStaging
  simp only []
  split
  · rfl
  · split
    · rfl
    · split
      · rfl
      · simp only [Gpu.writeBytes_commands]

theorem uploadFaces_noBlit (device : Device) (faces : List (Option (List Nat)))
    (width height faceSize image : Nat) :
    ∀ (remaining f : Nat) (gpu : Gpu), gpu.commands.any Cmd.isBlit = false →
      (uploadFaces device faces width height faceSize image remaining f
        gpu).2.commands.any Cmd.isBlit = false
  | 0, _, _, h => h
  | remaining + 1, f, gpu, h => by
    unfold uploadFaces
    have hc := createStaging_commands device "Cubemap: create staging buffer failed"
      "Cubemap: no staging mem type" "Cubemap: alloc staging memory failed" faceSize
      ((faces.getD f none).getD []) gpu
    split
    · rename_i e g hs
      rw [hs] at hc
      simp only at hc
      simp only [hc, h]
    · rename_i b g hs
      rw [hs] at hc
      simp only at hc
      apply uploadFaces_noBlit
      rw [Gpu.destroyBuffer_commands]
      simp only [Gpu.submitSingleTime, hc, List.any_append, h, Bool.false_or]
      rfl

theorem createImageCube_commands (device : Device) (width height mipLevels format : Nat)
    (self : Texture) (gpu : Gpu) :
    (Cubemap.createImageCube device width height mipLevels format self gpu).2.2.commands =
      gpu.commands := by
  unfold Cubemap.createImageCube
  simp only []
  repeat' split
  all_goals rfl

/-- The cubemap half of C9 holds in general: when the device reports no linear-filter
support for the format, `Cubemap::createFromFaces` with mipmaps requested raises an error,
and no blit has been submitted. -/
theorem createFromFaces_fails_without_linear_filter (device : Device)
    (faces : Option (List (Option (List Nat)))) (width height format : Nat) (self : Texture)
    (gpu : Gpu)
    (hno : (device.optimalTilingFeatures format &&&
      VK_FORMAT_FEATURE_SAMPLED_IMAGE_FILTER_LINEAR_BIT) = 0)
    (hgpu : gpu.commands.any Cmd.isBlit = false) :
    (∃ e, (Cubemap.createFromFaces device faces width height format true self gpu).1 =
      .error e) ∧
    (Cubemap.createFromFaces device faces width height format true self
      gpu).2.2.commands.any Cmd.isBlit = false := by
  unfold Cubemap.createFromFaces
  split
  · exact ⟨⟨_, rfl⟩, hgpu⟩
  · rename_i fs
    split
    · exact ⟨⟨_, rfl⟩, hgpu⟩
    · simp only []
      have hcc := createImageCube_commands device width height (mipLevelCount true width height)
        format { self with m_mipLevels := mipLevelCount true width height } gpu
      split
      · rename_i e t g hc
        rw [hc] at hcc
        simp only at hcc
        exact ⟨⟨_, rfl⟩, by simp only [hcc, hgpu]⟩
      · rename_i t g hc
        rw [hc] at hcc
        simp only at hcc
        have hg1 : (Cubemap.transitionLayoutAll VK_IMAGE_LAYOUT_UNDEFINED
            VK_IMAGE_LAYOUT_TRANSFER_DST_OPTIMAL t g).commands.any Cmd.isBlit = false := by
          simp [Cubemap.transitionLayoutAll, Gpu.submitSingleTime, hcc, hgpu, Cmd.isBlit]
        split
        · exact ⟨⟨_, rfl⟩, hg1⟩
        · rename_i bpp _
          have hup := uploadFaces_noBlit device fs width height (width * height * bpp)
            t.m_image 6 0 _ hg1
          split
          · rename_i e g2 hu
            rw [hu] at hup
            exact ⟨⟨_, rfl⟩, hup⟩
          · rename_i g2 hu
            rw [hu] at hup
            simp only at hup
            simp only [if_true, Cubemap.generateMipmapsCube, hno]
            exact ⟨⟨_, rfl⟩, hup⟩

/-! ## Staging upload round trip -/

theorem modify_append_length {β : Type} (f : β → β) (l : List β) (b : β) (r : List β) :
    (l ++ b :: r).modify f l.length = l ++ f b :: r := by
  induction l with
  | nil => rfl
  | cons a l ih => simp [List.modify_succ_cons, ih]

theorem take_append_drop_replicate (data : List Nat) (bytes : Nat) (h : data.length = bytes) :
    data.take bytes ++ (List.replicate bytes 0).drop bytes = data := by
  subst h
  simp

theorem Gpu.writeBytes_last (l : List GpuBuffer) (b : GpuBuffer) (im : Nat) (cs : List Cmd)
    (src : List Nat) (size : Nat) :
    Gpu.writeBytes ⟨l ++ [b], im, cs⟩ (l.length + 1) src size =
      ⟨l ++ [{ b with data := src.take size ++ b.data.drop size }], im, cs⟩ := by
  simp [Gpu.writeBytes, modify_append_length]

theorem Gpu.writeBytes_last2 (l : List GpuBuffer) (b c : GpuBuffer) (im : Nat)
    (cs : List Cmd) (src : List Nat) (size : Nat) :
    Gpu.writeBytes ⟨l ++ [b] ++ [c], im, cs⟩ (l.length + 1 + 1) src size =
      ⟨l ++ [b] ++ [{ c with data := src.take size ++ c.data.drop size }], im, cs⟩ := by
  have e := Gpu.writeBytes_last (l ++ [b]) c im cs src size
  simpa using e

theorem Gpu.bufferData_butLast (l : List GpuBuffer) (b c : GpuBuffer) (im : Nat)
    (cs : List Cmd) : Gpu.bufferData ⟨l ++ [b] ++ [c], im, cs⟩ (l.length + 1) = b.data := by
  have e : (l ++ [b] ++ [c])[l.length]? = some b := by
    rw [List.append_assoc, List.getElem?_append_right (le_refl _)]
    simp
  simp only [Gpu.bufferData, Nat.add_one_ne_zero, if_false, Nat.add_sub_cancel, e]
  rfl

theorem Gpu.destroyBuffer_butLast (l : List GpuBuffer) (b c : GpuBuffer) (im : Nat)
    (cs : List Cmd) :
    Gpu.destroyBuffer ⟨l ++ [b] ++ [c], im, cs⟩ (l.length + 1) =
      ⟨l ++ [{ b with live := false }] ++ [c], im, cs⟩ := by
  simp [Gpu.destroyBuffer, modify_append_length]

/-- A successful `Buffer::create` appends one live buffer of the requested size, bound to
some memory type, and stores its handle. -/
theorem Buffer.create_eq_of_ok {device : Device} {size usage properties : Nat} {self : Buffer}
    {gpu : Gpu} (h : (Buffer.create device size usage properties self gpu).1 = .ok ()) :
    ∃ t, Buffer.create device size usage properties self gpu =
      (.ok (),
        { self with m_bufferSize := size, m_buffer := gpu.buffers.length + 1,
                    m_memory := gpu.buffers.length + 1 },
        ⟨gpu.buffers ++ [⟨size, usage, some t, true, List.replicate size 0⟩],
          gpu.images, gpu.commands⟩) := by
  unfold Buffer.create at h ⊢
  cases hc : device.vkCreateBuffer size usage
  · simp [hc] at h
  · cases hf : findMemoryTypeInternal device (device.bufferMemoryTypeBits size usage)
      properties with
    | error e => simp [hc, hf] at h
    | ok t =>
      cases ha : device.vkAllocateMemory t
      · simp [hc, hf, ha] at h
      · exact ⟨t, by simp [hc, hf, ha, modify_append_length]⟩

/-- What a successful staging upload leaves behind: exactly two new buffers, the destroyed
staging buffer and the live device-local buffer, both holding the source bytes, the one
recorded copy, and the handle of the device-local buffer in `m_gpu`. -/
theorem uploadViaStaging_eq_of_ok {device : Device} {usageBit : Nat} {data : List Nat}
    {bytes : Nat} {m_gpu : Buffer} {gpu : Gpu} (hlen : data.length = bytes)
    (h : (uploadViaStaging device usageBit data bytes m_gpu gpu).1 = .ok ()) :
    ∃ t1 t2,
      uploadViaStaging device usageBit data bytes m_gpu gpu =
        (.ok (),
          { m_gpu with m_bufferSize := bytes, m_buffer := gpu.buffers.length + 2,
                       m_memory := gpu.buffers.length + 2 },
          ⟨gpu.buffers ++
            [⟨bytes, VK_BUFFER_USAGE_TRANSFER_SRC_BIT, some t1, false, data⟩] ++
            [⟨bytes, VK_BUFFER_USAGE_TRANSFER_DST_BIT ||| usageBit, some t2, true, data⟩],
           gpu.images,
           gpu.commands ++
             [.copyBuffer (gpu.buffers.length + 1) (gpu.buffers.length + 2) bytes]⟩) := by
  unfold uploadViaStaging at h ⊢
  simp only [Buffer.createAndMap] at h ⊢
  cases hc1 : Buffer.create device bytes VK_BUFFER_USAGE_TRANSFER_SRC_BIT
      (VK_MEMORY_PROPERTY_HOST_VISIBLE_BIT ||| VK_MEMORY_PROPERTY_HOST_COHERENT_BIT) {} gpu with
  | mk r1 rest1 =>
    obtain ⟨s1, g1⟩ := rest1
    rw [hc1] at h
    cases r1 with
    | error e => simp at h
    | ok u =>
      obtain ⟨t1, ht1⟩ := Buffer.create_eq_of_ok
        (show (Buffer.create device bytes VK_BUFFER_USAGE_TRANSFER_SRC_BIT
          (VK_MEMORY_PROPERTY_HOST_VISIBLE_BIT ||| VK_MEMORY_PROPERTY_HOST_COHERENT_BIT) {}
          gpu).1 = .ok () by rw [hc1])
      rw [hc1] at ht1
      simp only [Prod.mk.injEq, true_and] at ht1
      obtain ⟨hs1, hg1⟩ := ht1
      subst hs1 hg1
      simp only [Buffer.map] at h ⊢
      cases hmap : device.vkMapMemory
      · simp [hmap] at h
      · simp only [hmap, if_true, Bool.not_true, Bool.false_eq_true, if_false,
          Buffer.write, Nat.add_one_ne_zero, gt_iff_lt, lt_irrefl, Buffer.unmap, ne_eq,
          not_false_eq_true, Gpu.writeBytes_last] at h ⊢
        cases hc2 : Buffer.create device bytes (VK_BUFFER_USAGE_TRANSFER_DST_BIT ||| usageBit)
            VK_MEMORY_PROPERTY_DEVICE_LOCAL_BIT m_gpu
            ⟨gpu.buffers ++
                [⟨bytes, VK_BUFFER_USAGE_TRANSFER_SRC_BIT, some t1, true,
                  data.take bytes ++ (List.replicate bytes 0).drop bytes⟩],
              gpu.images, gpu.commands⟩ with
        | mk r2 rest2 =>
          obtain ⟨s2, g2⟩ := rest2
          rw [hc2] at h
          cases r2 with
          | error e => simp at h
          | ok u2 =>
            obtain ⟨t2, ht2⟩ := Buffer.create_eq_of_ok
              (show (Buffer.create device bytes (VK_BUFFER_USAGE_TRANSFER_DST_BIT ||| usageBit)
                VK_MEMORY_PROPERTY_DEVICE_LOCAL_BIT m_gpu
                ⟨gpu.buffers ++
                    [⟨bytes, VK_BUFFER_USAGE_TRANSFER_SRC_BIT, some t1, true,
                      data.take bytes ++ (List.replicate bytes 0).drop bytes⟩],
                  gpu.images, gpu.commands⟩).1 = .ok () by rw [hc2])
            rw [hc2] at ht2
            simp only [Prod.mk.injEq, true_and] at ht2
            obtain ⟨hs2, hg2⟩ := ht2
            subst hs2 hg2
            refine ⟨t1, t2, ?_⟩
            simp only [Buffer.copyBuffer, Buffer.destroy, Gpu.submitSingleTime,
              List.length_append, List.length_singleton, Gpu.writeBytes_last2,
              ne_eq, not_true_eq_false, if_false,
              Gpu.bufferData_butLast, Gpu.destroyBuffer_butLast,
              take_append_drop_replicate data bytes hlen]

theorem uploadViaStaging_round_trip {device : Device} {usageBit : Nat} {data : List Nat}
    {bytes : Nat} {m_gpu : Buffer} {gpu : Gpu} (hlen : data.length = bytes)
    (h : (uploadViaStaging device usageBit data bytes m_gpu gpu).1 = .ok ()) :
    (uploadViaStaging device usageBit data bytes m_gpu gpu).2.2.bufferData
        (uploadViaStaging device usageBit data bytes m_gpu gpu).2.1.m_buffer = data ∧
    (∃ st, (uploadViaStaging device usageBit data bytes m_gpu gpu).2.2.buffers[
        gpu.buffers.length]? = some st ∧
      st.usage = VK_BUFFER_USAGE_TRANSFER_SRC_BIT ∧ st.data = data ∧ st.live = false) ∧
    (uploadViaStaging device usageBit data bytes m_gpu gpu).2.2.buffers.length =
      gpu.buffers.length + 2 ∧
    (uploadViaStaging device usageBit data bytes m_gpu gpu).2.2.liveBuffers =
      gpu.liveBuffers + 1 ∧
    (uploadViaStaging device usageBit data bytes m_gpu gpu).2.2.commands =
      gpu.commands ++ [.copyBuffer (gpu.buffers.length + 1) (gpu.buffers.length + 2) bytes] := by
  obtain ⟨t1, t2, e⟩ := uploadViaStaging_eq_of_ok hlen h
  rw [e]
  refine ⟨?_, ⟨⟨bytes, VK_BUFFER_USAGE_TRANSFER_SRC_BIT, some t1, false, data⟩, ?_, rfl, rfl, rfl⟩,
    ?_, ?_, rfl⟩
  · have e2 : (gpu.buffers ++
        [(⟨bytes, VK_BUFFER_USAGE_TRANSFER_SRC_BIT, some t1, false, data⟩ : GpuBuffer)] ++
        [⟨bytes, VK_BUFFER_USAGE_TRANSFER_DST_BIT ||| usageBit, some t2, true, data⟩])[
          gpu.buffers.length + 1]? =
        some ⟨bytes, VK_BUFFER_USAGE_TRANSFER_DST_BIT ||| usageBit, some t2, true, data⟩ := by
      rw [List.getElem?_append_right (by simp)]
      simp
    simp only [Gpu.bufferData, Nat.add_one_ne_zero, if_false, Nat.add_sub_cancel]
    rw [show gpu.buffers.length + 2 - 1 = gpu.buffers.length + 1 from rfl, e2]
    rfl
  · show (gpu.buffers ++ _ ++ _)[gpu.buffers.length]? = _
    rw [List.append_assoc, List.getElem?_append_right (le_refl _)]
    simp
  · simp
  · simp [Gpu.liveBuffers, List.filter_append]

/-- C11: for a source byte sequence `data` of size `S`, an upload with
`VertexBuffer::createFrom` or `IndexBuffer::createFrom` that returns leaves the device-local
buffer (the handle stored in `m_gpu`) holding exactly the `S` source bytes in order; the
staging buffer, the first of the two buffers created, holds the transfer-source usage and
is no longer live; exactly one buffer more exists than before; and exactly one command
was submitted, a buffer copy of `S` bytes from the staging buffer to the device-local
one. On a device whose buffer calls all succeed the call does return. The bound `S > 0`
of the claim is not needed. -/
theorem createFrom_round_trip (device : Device) (data : List Nat) (S : Nat)
    (hlen : data.length = S) (vb : VertexBuffer) (ib : IndexBuffer) (gpu : Gpu) :
    ((vb.createFrom device data S gpu).1 = .ok () →
      (vb.createFrom device data S gpu).2.2.bufferData
        (vb.createFrom device data S gpu).2.1.m_gpu.m_buffer = data ∧
      (∃ st, (vb.createFrom device data S gpu).2.2.buffers[gpu.buffers.length]? = some st ∧
        st.usage = VK_BUFFER_USAGE_TRANSFER_SRC_BIT ∧ st.data = data ∧ st.live = false) ∧
      (vb.createFrom device data S gpu).2.2.buffers.length = gpu.buffers.length + 2 ∧
      (vb.createFrom device data S gpu).2.2.liveBuffers = gpu.liveBuffers + 1 ∧
      (vb.createFrom device data S gpu).2.2.commands =
        gpu.commands ++ [.copyBuffer (gpu.buffers.length + 1) (gpu.buffers.length + 2) S]) ∧
    ((ib.createFrom device data S gpu).1 = .ok () →
      (ib.createFrom device data S gpu).2.2.bufferData
        (ib.createFrom device data S gpu).2.1.m_gpu.m_buffer = data ∧
      (∃ st, (ib.createFrom device data S gpu).2.2.buffers[gpu.buffers.length]? = some st ∧
        st.usage = VK_BUFFER_USAGE_TRANSFER_SRC_BIT ∧ st.data = data ∧ st.live = false) ∧
      (ib.createFrom device data S gpu).2.2.buffers.length = gpu.buffers.length + 2 ∧
      (ib.createFrom device data S gpu).2.2.liveBuffers = gpu.liveBuffers + 1 ∧
      (ib.createFrom device data S gpu).2.2.commands =
        gpu.commands ++ [.copyBuffer (gpu.buffers.length + 1) (gpu.buffers.length + 2) S]) ∧
    (device.BuffersSucceed →
      (vb.createFrom device data S gpu).1 = .ok () ∧
      (ib.createFrom device data S gpu).1 = .ok ()) :=
  ⟨fun h => uploadViaStaging_round_trip hlen h,
   fun h => uploadViaStaging_round_trip hlen h,
   fun hdev => ⟨uploadViaStaging_ok hdev _ data S vb.m_gpu gpu,
     uploadViaStaging_ok hdev _ data S ib.m_gpu gpu⟩⟩

theorem createFrom_round_trip_witness :
    [10, 20, 30].length = 3 ∧
    (({} : VertexBuffer).createFrom okDevice [10, 20, 30] 3 Gpu.empty).1 = .ok () ∧
    (({} : VertexBuffer).createFrom okDevice [10, 20, 30] 3 Gpu.empty).2.2.bufferData 2 =
      [10, 20, 30] ∧
    (({} : IndexBuffer).createFrom okDevice [10, 20, 30] 3 Gpu.empty).2.2.liveBuffers = 1 :=
  ⟨rfl,
   ((createFrom_round_trip okDevice [10, 20, 30] 3 rfl {} {} Gpu.empty).2.2
      okDevice_buffersSucceed).1,
   ((createFrom_round_trip okDevice [10, 20, 30] 3 rfl {} {} Gpu.empty).1
      ((createFrom_round_trip okDevice [10, 20, 30] 3 rfl {} {} Gpu.empty).2.2
        okDevice_buffersSucceed).1).1,
   ((createFrom_round_trip okDevice [10, 20, 30] 3 rfl {} {} Gpu.empty).2.1
      ((createFrom_round_trip okDevice [10, 20, 30] 3 rfl {} {} Gpu.empty).2.2
        okDevice_buffersSucceed).2).2.2.2.1⟩

/-! ## Vertex extraction -/

section extractThms
variable {α : Type} [CommRing α]

/-- The method `extractVertexData` is the composition of its blocks. -/
theorem extractVertexData_eq_blocks (decode : List Nat → α) (model : tinygltf.Model α)
    (primitive : tinygltf.Primitive) (vertices : List (GltfVertex α)) (indices : List Nat) :
    extractVertexData decode model primitive vertices indices =
      match primitive.attributes.lookup "POSITION" with
      | none => (.error "glTF primitive missing required POSITION attribute", vertices, indices)
      | some posIndex =>
        extractIndices model primitive
          (extractSkin decode model primitive
            (extractTangents decode model primitive
              (extractColors decode model primitive
                (extractTexCoord1 decode model primitive
                  (extractTexCoord0 decode model primitive
                    (extractNormals decode model primitive
                      (extractPositions decode model posIndex vertices)))))))
          indices := by
  rfl

theorem length_updateEach {β : Type} (f : Nat → β → β) (i : Nat) (l : List β) :
    (updateEach f i l).length = l.length := by
  induction l generalizing i with
  | nil => rfl
  | cons a l ih => simp [updateEach, ih]

theorem getElem?_updateEach {β : Type} (f : Nat → β → β) (i : Nat) (l : List β) (k : Nat) :
    (updateEach f i l)[k]? = (l[k]?).map (f (i + k)) := by
  induction l generalizing i k with
  | nil => simp [updateEach]
  | cons a l ih =>
    cases k with
    | zero => simp [updateEach]
    | succ k =>
      simp only [updateEach, List.getElem?_cons_succ, ih]
      rw [show i + 1 + k = i + (k + 1) by omega]

theorem forall_mem_updateEach {β : Type} {P : β → Prop} {f : Nat → β → β}
    (hf : ∀ i v, P v → P (f i v)) (i : Nat) {l : List β} (h : ∀ v ∈ l, P v) :
    ∀ v ∈ updateEach f i l, P v := by
  induction l generalizing i with
  | nil => simp [updateEach]
  | cons a l ih =>
    intro v hv
    simp only [updateEach, List.mem_cons] at hv
    rcases hv with rfl | hv
    · exact hf _ _ (h a (List.mem_cons_self _ _))
    · exact ih (i + 1) (fun w hw => h w (List.mem_cons_of_mem _ hw)) v hv

theorem forall_mem_updateEach_set {β : Type} {P : β → Prop} {f : Nat → β → β}
    (hf : ∀ i v, P (f i v)) (i : Nat) (l : List β) : ∀ v ∈ updateEach f i l, P v := by
  induction l generalizing i with
  | nil => simp [updateEach]
  | cons a l ih =>
    intro v hv
    simp only [updateEach, List.mem_cons] at hv
    rcases hv with rfl | hv
    · exact hf _ _
    · exact ih (i + 1) v hv

/-! Each block keeps every property of the vertices that does not depend on the fields
the block assigns, and keeps the number of vertices. -/

theorem extractNormals_keeps {P : GltfVertex α → Prop} (decode : List Nat → α)
    (model : tinygltf.Model α) (primitive : tinygltf.Primitive) {l : List (GltfVertex α)}
    (hP : ∀ v n, P v → P { v with normal := n }) (h : ∀ v ∈ l, P v) :
    ∀ v ∈ extractNormals decode model primitive l, P v := by
  unfold extractNormals
  split <;> exact forall_mem_updateEach (fun _ v hv => hP v _ hv) 0 h

theorem extractTexCoord0_keeps {P : GltfVertex α → Prop} (decode : List Nat → α)
    (model : tinygltf.Model α) (primitive : tinygltf.Primitive) {l : List (GltfVertex α)}
    (hP : ∀ v n, P v → P { v with texCoord0 := n }) (h : ∀ v ∈ l, P v) :
    ∀ v ∈ extractTexCoord0 decode model primitive l, P v := by
  unfold extractTexCoord0
  split <;> exact forall_mem_updateEach (fun _ v hv => hP v _ hv) 0 h

theorem extractTexCoord1_keeps {P : GltfVertex α → Prop} (decode : List Nat → α)
    (model : tinygltf.Model α) (primitive : tinygltf.Primitive) {l : List (GltfVertex α)}
    (hP : ∀ v n, P v → P { v with texCoord1 := n }) (h : ∀ v ∈ l, P v) :
    ∀ v ∈ extractTexCoord1 decode model primitive l, P v := by
  unfold extractTexCoord1
  split <;> exact forall_mem_updateEach (fun _ v hv => hP v _ hv) 0 h

theorem extractColors_keeps {P : GltfVertex α → Prop} (decode : List Nat → α)
    (model : tinygltf.Model α) (primitive : tinygltf.Primitive) {l : List (GltfVertex α)}
    (hP : ∀ v n, P v → P { v with color := n }) (h : ∀ v ∈ l, P v) :
    ∀ v ∈ extractColors decode model primitive l, P v := by
  unfold extractColors
  split
  · simp only []
    split
    · split
      · exact forall_mem_updateEach (fun _ v hv => hP v _ hv) 0 h
      · exact h
    · split
      · split
        · exact forall_mem_updateEach (fun _ v hv => hP v _ hv) 0 h
        · exact h
      · exact h
  · exact forall_mem_updateEach (fun _ v hv => hP v _ hv) 0 h

theorem extractTangents_keeps {P : GltfVertex α → Prop} (decode : List Nat → α)
    (model : tinygltf.Model α) (primitive : tinygltf.Primitive) {l : List (GltfVertex α)}
    (hP : ∀ v n, P v → P { v with tangent := n }) (h : ∀ v ∈ l, P v) :
    ∀ v ∈ extractTangents decode model primitive l, P v := by
  unfold extractTangents
  split <;> exact forall_mem_updateEach (fun _ v hv => hP v _ hv) 0 h

theorem extractSkin_keeps {P : GltfVertex α → Prop} (decode : List Nat → α)
    (model : tinygltf.Model α) (primitive : tinygltf.Primitive) {l : List (GltfVertex α)}
    (hJ : ∀ v n, P v → P { v with joints := n })
    (hW : ∀ v n, P v → P { v with weights := n }) (h : ∀ v ∈ l, P v) :
    ∀ v ∈ extractSkin decode model primitive l, P v := by
  unfold extractSkin
  split
  · simp only []
    refine forall_mem_updateEach (fun _ v hv => hW v _ hv) 0 ?_
    split
    · exact forall_mem_updateEach (fun _ v hv => hJ v _ hv) 0 h
    · split
      · exact forall_mem_updateEach (fun _ v hv => hJ v _ hv) 0 h
      · exact h
  · exact forall_mem_updateEach (fun _ v hv => hW _ ⟨0, 0, 0, 0⟩ (hJ v ⟨0, 0, 0, 0⟩ hv)) 0 h

theorem extractIndices_vertices (model : tinygltf.Model α) (primitive : tinygltf.Primitive)
    (vertices : List (GltfVertex α)) (indices : List Nat) :
    (extractIndices model primitive vertices indices).2.1 = vertices := by
  unfold extractIndices
  split
  · simp only []
    split
    · rfl
    · split <;> rfl
  · rfl

end extractThms

section extractDefaults
variable {α : Type} [CommRing α]

/-- C16: for a primitive with a POSITION attribute, every vertex that `extractVertexData`
leaves in the output vector has, for each optional channel the primitive lacks, the
default of that channel: normal (0,0,1) without NORMAL, texCoord0 (0,0) without
TEXCOORD_0, texCoord1 (0,0) without TEXCOORD_1, color (1,1,1,1) without COLOR_0, tangent
(1,0,0,1) without TANGENT, and joints = weights = (0,0,0,0) when JOINTS_0 or WEIGHTS_0 is
absent. (This holds also when the index block raises afterwards.) -/
theorem extractVertexData_defaults (decode : List Nat → α) (model : tinygltf.Model α)
    (primitive : tinygltf.Primitive) (vertices : List (GltfVertex α)) (indices : List Nat)
    (posIndex : Int) (hpos : primitive.attributes.lookup "POSITION" = some posIndex) :
    ∀ v ∈ (extractVertexData decode model primitive vertices indices).2.1,
      (primitive.attributes.lookup "NORMAL" = none → v.normal = ⟨0, 0, 1⟩) ∧
      (primitive.attributes.lookup "TEXCOORD_0" = none → v.texCoord0 = ⟨0, 0⟩) ∧
      (primitive.attributes.lookup "TEXCOORD_1" = none → v.texCoord1 = ⟨0, 0⟩) ∧
      (primitive.attributes.lookup "COLOR_0" = none → v.color = ⟨1, 1, 1, 1⟩) ∧
      (primitive.attributes.lookup "TANGENT" = none → v.tangent = ⟨1, 0, 0, 1⟩) ∧
      (primitive.attributes.lookup "JOINTS_0" = none ∨
          primitive.attributes.lookup "WEIGHTS_0" = none →
        v.joints = ⟨0, 0, 0, 0⟩ ∧ v.weights = ⟨0, 0, 0, 0⟩) := by
  intro v hv
  rw [extractVertexData_eq_blocks, hpos] at hv
  simp only [extractIndices_vertices] at hv
  refine ⟨fun hN => ?_, fun hT0 => ?_, fun hT1 => ?_, fun hC => ?_, fun hT => ?_, fun hS => ?_⟩
  · refine extractSkin_keeps (P := fun v => v.normal = ⟨0, 0, 1⟩) _ _ _ (fun _ _ h => h) (fun _ _ h => h) ?_ v hv
    refine extractTangents_keeps (P := fun v => v.normal = ⟨0, 0, 1⟩) _ _ _ (fun _ _ h => h) ?_
    refine extractColors_keeps (P := fun v => v.normal = ⟨0, 0, 1⟩) _ _ _ (fun _ _ h => h) ?_
    refine extractTexCoord1_keeps (P := fun v => v.normal = ⟨0, 0, 1⟩) _ _ _ (fun _ _ h => h) ?_
    refine extractTexCoord0_keeps (P := fun v => v.normal = ⟨0, 0, 1⟩) _ _ _ (fun _ _ h => h) ?_
    unfold extractNormals
    rw [hN]
    exact forall_mem_updateEach_set (P := fun (v : GltfVertex α) => v.normal = ⟨0, 0, 1⟩) (fun _ _ => rfl) 0 _
  · refine extractSkin_keeps (P := fun v => v.texCoord0 = ⟨0, 0⟩) _ _ _ (fun _ _ h => h) (fun _ _ h => h) ?_ v hv
    refine extractTangents_keeps (P := fun v => v.texCoord0 = ⟨0, 0⟩) _ _ _ (fun _ _ h => h) ?_
    refine extractColors_keeps (P := fun v => v.texCoord0 = ⟨0, 0⟩) _ _ _ (fun _ _ h => h) ?_
    refine extractTexCoord1_keeps (P := fun v => v.texCoord0 = ⟨0, 0⟩) _ _ _ (fun _ _ h => h) ?_
    unfold extractTexCoord0
    rw [hT0]
    exact forall_mem_updateEach_set (P := fun (v : GltfVertex α) => v.texCoord0 = ⟨0, 0⟩) (fun _ _ => rfl) 0 _
  · refine extractSkin_keeps (P := fun v => v.texCoord1 = ⟨0, 0⟩) _ _ _ (fun _ _ h => h) (fun _ _ h => h) ?_ v hv
    refine extractTangents_keeps (P := fun v => v.texCoord1 = ⟨0, 0⟩) _ _ _ (fun _ _ h => h) ?_
    refine extractColors_keeps (P := fun v => v.texCoord1 = ⟨0, 0⟩) _ _ _ (fun _ _ h => h) ?_
    unfold extractTexCoord1
    rw [hT1]
    exact forall_mem_updateEach_set (P := fun (v : GltfVertex α) => v.texCoord1 = ⟨0, 0⟩) (fun _ _ => rfl) 0 _
  · refine extractSkin_keeps (P := fun v => v.color = ⟨1, 1, 1, 1⟩) _ _ _ (fun _ _ h => h) (fun _ _ h => h) ?_ v hv
    refine extractTangents_keeps (P := fun v => v.color = ⟨1, 1, 1, 1⟩) _ _ _ (fun _ _ h => h) ?_
    unfold extractColors
    rw [hC]
    exact forall_mem_updateEach_set (P := fun (v : GltfVertex α) => v.color = ⟨1, 1, 1, 1⟩) (fun _ _ => rfl) 0 _
  · refine extractSkin_keeps (P := fun v => v.tangent = ⟨1, 0, 0, 1⟩) _ _ _ (fun _ _ h => h) (fun _ _ h => h) ?_ v hv
    unfold extractTangents
    rw [hT]
    exact forall_mem_updateEach_set (P := fun (v : GltfVertex α) => v.tangent = ⟨1, 0, 0, 1⟩) (fun _ _ => rfl) 0 _
  · revert v
    unfold extractSkin
    rcases hS with hJ | hW
    · rw [hJ]
      exact forall_mem_updateEach_set (P := fun (v : GltfVertex α) => v.joints = ⟨0, 0, 0, 0⟩ ∧ v.weights = ⟨0, 0, 0, 0⟩) (fun _ _ => ⟨rfl, rfl⟩) 0 _
    · rw [hW]
      cases primitive.attributes.lookup "JOINTS_0" <;>
        exact forall_mem_updateEach_set (P := fun (v : GltfVertex α) => v.joints = ⟨0, 0, 0, 0⟩ ∧ v.weights = ⟨0, 0, 0, 0⟩) (fun _ _ => ⟨rfl, rfl⟩) 0 _

end extractDefaults

theorem extractVertexData_defaults_witness :
    positionOnly.attributes.lookup "POSITION" = some 0 ∧
    (extractVertexData sumDecode indexedDoc positionOnly [] []).2.1.length = 3 ∧
    ∀ v ∈ (extractVertexData sumDecode indexedDoc positionOnly [] []).2.1,
      v.normal = ⟨0, 0, 1⟩ ∧ v.texCoord0 = ⟨0, 0⟩ ∧ v.texCoord1 = ⟨0, 0⟩ ∧
      v.color = ⟨1, 1, 1, 1⟩ ∧ v.tangent = ⟨1, 0, 0, 1⟩ ∧
      v.joints = ⟨0, 0, 0, 0⟩ ∧ v.weights = ⟨0, 0, 0, 0⟩ :=
  ⟨rfl, rfl, fun v hv =>
    have h := extractVertexData_defaults sumDecode indexedDoc positionOnly [] [] 0 rfl v hv
    ⟨h.1 rfl, h.2.1 rfl, h.2.2.1 rfl, h.2.2.2.1 rfl, h.2.2.2.2.1 rfl,
      h.2.2.2.2.2 (Or.inl rfl)⟩⟩

section extractCounts
variable {α : Type} [CommRing α]

theorem length_extractPositions (decode : List Nat → α) (model : tinygltf.Model α)
    (posIndex : Int) (l : List (GltfVertex α)) :
    (extractPositions decode model posIndex l).length = (accessorData model posIndex).1.count := by
  simp [extractPositions, length_updateEach, length_resizeList]

theorem length_extractNormals (decode : List Nat → α) (model : tinygltf.Model α)
    (primitive : tinygltf.Primitive) (l : List (GltfVertex α)) :
    (extractNormals decode model primitive l).length = l.length := by
  unfold extractNormals
  split <;> simp [length_updateEach]

theorem length_extractTexCoord0 (decode : List Nat → α) (model : tinygltf.Model α)
    (primitive : tinygltf.Primitive) (l : List (GltfVertex α)) :
    (extractTexCoord0 decode model primitive l).length = l.length := by
  unfold extractTexCoord0
  split <;> simp [length_updateEach]

theorem length_extractTexCoord1 (decode : List Nat → α) (model : tinygltf.Model α)
    (primitive : tinygltf.Primitive) (l : List (GltfVertex α)) :
    (extractTexCoord1 decode model primitive l).length = l.length := by
  unfold extractTexCoord1
  split <;> simp [length_updateEach]

theorem length_extractColors (decode : List Nat → α) (model : tinygltf.Model α)
    (primitive : tinygltf.Primitive) (l : List (GltfVertex α)) :
    (extractColors decode model primitive l).length = l.length := by
  unfold extractColors
  split
  · simp only []
    split
    · split <;> simp [length_updateEach]
    · split
      · split <;> simp [length_updateEach]
      · rfl
  · simp [length_updateEach]

theorem length_extractTangents (decode : List Nat → α) (model : tinygltf.Model α)
    (primitive : tinygltf.Primitive) (l : List (GltfVertex α)) :
    (extractTangents decode model primitive l).length = l.length := by
  unfold extractTangents
  split <;> simp [length_updateEach]

theorem length_extractSkin (decode : List Nat → α) (model : tinygltf.Model α)
    (primitive : tinygltf.Primitive) (l : List (GltfVertex α)) :
    (extractSkin decode model primitive l).length = l.length := by
  unfold extractSkin
  split
  · simp only [length_updateEach]
    split
    · simp [length_updateEach]
    · split <;> simp [length_updateEach]
  · simp [length_updateEach]

theorem accessorData_fst (model : tinygltf.Model α) (i : Int) (acc : tinygltf.Accessor)
    (h : model.accessors[i.toNat]? = some acc) : (accessorData model i).1 = acc := by
  simp [accessorData, List.getD, h]

/-- C17: `extractVertexData` raises "glTF primitive missing required POSITION attribute"
when the primitive has no POSITION attribute, and then returns the vertex and the index
vector as they were passed in; when POSITION names an accessor of the document, the call
leaves exactly as many vertices as that accessor's `count`, whatever the vectors held
before. -/
theorem extractVertexData_position (decode : List Nat → α) (model : tinygltf.Model α)
    (primitive : tinygltf.Primitive) (vertices : List (GltfVertex α)) (indices : List Nat) :
    (primitive.attributes.lookup "POSITION" = none →
      extractVertexData decode model primitive vertices indices =
        (.error "glTF primitive missing required POSITION attribute", vertices, indices)) ∧
    (∀ (posIndex : Int) (posAccessor : tinygltf.Accessor),
      primitive.attributes.lookup "POSITION" = some posIndex → 0 ≤ posIndex →
      model.accessors[posIndex.toNat]? = some posAccessor →
      (extractVertexData decode model primitive vertices indices).2.1.length =
        posAccessor.count) := by
  constructor
  · intro h
    rw [extractVertexData_eq_blocks, h]
  · intro posIndex posAccessor h _ hacc
    rw [extractVertexData_eq_blocks, h]
    simp only [extractIndices_vertices, length_extractSkin, length_extractTangents,
      length_extractColors, length_extractTexCoord1, length_extractTexCoord0,
      length_extractNormals, length_extractPositions, accessorData_fst model posIndex _ hacc]

end extractCounts

theorem extractVertexData_position_witness :
    (normalOnly.attributes.lookup "POSITION" = none ∧
      extractVertexData sumDecode indexedDoc normalOnly [GltfVertex.zero] [5, 6] =
        (.error "glTF primitive missing required POSITION attribute",
          [GltfVertex.zero], [5, 6])) ∧
    (shortIndexed.attributes.lookup "POSITION" = some 0 ∧ (0 : Int) ≤ 0 ∧
      (extractVertexData sumDecode indexedDoc shortIndexed [] []).2.1.length = 3) :=
  ⟨⟨rfl, (extractVertexData_position sumDecode indexedDoc normalOnly [GltfVertex.zero]
      [5, 6]).1 rfl⟩,
   ⟨rfl, le_refl _, (extractVertexData_position sumDecode indexedDoc shortIndexed [] []).2 0
      { bufferView := 0, componentType := 5126, count := 3, type := 3 } rfl (le_refl _) rfl⟩⟩

section extractIndexThms
variable {α : Type} [CommRing α]

theorem getD_lt_256 (p : List Nat) (hp : ∀ b ∈ p, b < 256) (k : Nat) : p.getD k 0 < 256 := by
  rw [List.getD_eq_getElem?_getD]
  cases h : p[k]? with
  | none => simp
  | some b => exact hp b (List.getElem?_mem h)

theorem readU16_lt (p : List Nat) (hp : ∀ b ∈ p, b < 256) (k : Nat) : readU16 p k < 2 ^ 16 := by
  have h0 := getD_lt_256 p hp (2 * k)
  have h1 := getD_lt_256 p hp (2 * k + 1)
  unfold readU16
  omega

theorem readU32_lt (p : List Nat) (hp : ∀ b ∈ p, b < 256) (k : Nat) : readU32 p k < 2 ^ 32 := by
  have h0 := getD_lt_256 p hp (4 * k)
  have h1 := getD_lt_256 p hp (4 * k + 1)
  have h2 := getD_lt_256 p hp (4 * k + 2)
  have h3 := getD_lt_256 p hp (4 * k + 3)
  unfold readU32
  omega

theorem getElem?_updateEach_resize (f : Nat → Nat) (l : List Nat) (n i : Nat) (hi : i < n) :
    (updateEach (fun i _ => f i) 0 (resizeList l n 0))[i]? = some (f i) := by
  rw [getElem?_updateEach]
  have hlen : i < (resizeList l n 0).length := by rw [length_resizeList]; exact hi
  rw [List.getElem?_eq_getElem hlen]
  simp

/-- C18: for a primitive with a POSITION attribute whose `indices` names an accessor of
the document: if the accessor's component type is unsigned 16-bit (5123) or unsigned
32-bit (5125) then `extractVertexData` returns, the index vector has `count` entries, and
entry `i` is the `i`-th 16-bit (32-bit) little-endian value stored at the accessor's data,
in the same order; a 16-bit value is below 2^16 and a 32-bit value below 2^32 when the
data are bytes, so the widening adds zero bits only. For every other component type
(unsigned byte included) it raises "Unsupported index component type". -/
theorem extractVertexData_indices (decode : List Nat → α) (model : tinygltf.Model α)
    (primitive : tinygltf.Primitive) (vertices : List (GltfVertex α)) (indices : List Nat)
    (posIndex : Int) (indexAccessor : tinygltf.Accessor)
    (hpos : primitive.attributes.lookup "POSITION" = some posIndex)
    (hidx : 0 ≤ primitive.indices)
    (hacc : model.accessors[primitive.indices.toNat]? = some indexAccessor) :
    (indexAccessor.componentType = tinygltf.TINYGLTF_COMPONENT_TYPE_UNSIGNED_SHORT →
      (extractVertexData decode model primitive vertices indices).1 = .ok () ∧
      (extractVertexData decode model primitive vertices indices).2.2.length =
        indexAccessor.count ∧
      ∀ i, i < indexAccessor.count →
        (extractVertexData decode model primitive vertices indices).2.2[i]? =
          some (readU16 (accessorData model primitive.indices).2 i) ∧
        ((∀ b ∈ (accessorData model primitive.indices).2, b < 256) →
          readU16 (accessorData model primitive.indices).2 i < 2 ^ 16)) ∧
    (indexAccessor.componentType = tinygltf.TINYGLTF_COMPONENT_TYPE_UNSIGNED_INT →
      (extractVertexData decode model primitive vertices indices).1 = .ok () ∧
      (extractVertexData decode model primitive vertices indices).2.2.length =
        indexAccessor.count ∧
      ∀ i, i < indexAccessor.count →
        (extractVertexData decode model primitive vertices indices).2.2[i]? =
          some (readU32 (accessorData model primitive.indices).2 i) ∧
        ((∀ b ∈ (accessorData model primitive.indices).2, b < 256) →
          readU32 (accessorData model primitive.indices).2 i < 2 ^ 32)) ∧
    (indexAccessor.componentType ≠ tinygltf.TINYGLTF_COMPONENT_TYPE_UNSIGNED_SHORT →
      indexAccessor.componentType ≠ tinygltf.TINYGLTF_COMPONENT_TYPE_UNSIGNED_INT →
      (extractVertexData decode model primitive vertices indices).1 =
        .error "Unsupported index component type") := by
  have hfst := accessorData_fst model primitive.indices indexAccessor hacc
  rw [extractVertexData_eq_blocks, hpos]
  simp only []
  unfold extractIndices
  simp only [hidx, if_true]
  rcases hd : accessorData model primitive.indices with ⟨a, d⟩
  rw [hd] at hfst
  simp only [] at hfst
  subst hfst
  simp only []
  refine ⟨fun h16 => ?_, fun h32 => ?_, fun n16 n32 => ?_⟩
  · rw [if_pos h16]
    refine ⟨rfl, ?_, fun i hi => ⟨?_, fun hb => readU16_lt d hb i⟩⟩
    · rw [length_updateEach, length_resizeList]
    · exact getElem?_updateEach_resize (fun i => readU16 d i) indices a.count i hi
  · have n16 : a.componentType ≠ tinygltf.TINYGLTF_COMPONENT_TYPE_UNSIGNED_SHORT := by
      rw [h32]; decide
    rw [if_neg n16, if_pos h32]
    refine ⟨rfl, ?_, fun i hi => ⟨?_, fun hb => readU32_lt d hb i⟩⟩
    · rw [length_updateEach, length_resizeList]
    · exact getElem?_updateEach_resize (fun i => readU32 d i) indices a.count i hi
  · rw [if_neg n16, if_neg n32]

end extractIndexThms

theorem extractVertexData_indices_witness :
    (shortIndexed.attributes.lookup "POSITION" = some 0 ∧ 0 ≤ shortIndexed.indices ∧
      (extractVertexData sumDecode indexedDoc shortIndexed [] [9, 9, 9, 9]).1 = .ok () ∧
      (extractVertexData sumDecode indexedDoc shortIndexed [] [9, 9, 9, 9]).2.2 =
        [0, 1, 258]) ∧
    (extractVertexData sumDecode indexedDoc
        { attributes := [("POSITION", 0)], indices := 2 } [] []).2.2 = [7, 256] ∧
    (extractVertexData sumDecode indexedDoc
        { attributes := [("POSITION", 0)], indices := 3 } [] []).1 =
      .error "Unsupported index component type" :=
  ⟨⟨rfl, by decide,
    ((extractVertexData_indices sumDecode indexedDoc shortIndexed [] [9, 9, 9, 9] 0
      { bufferView := 1, componentType := 5123, count := 3, type := 65 } rfl (by decide)
      rfl).1 rfl).1, rfl⟩,
   rfl,
   (extractVertexData_indices sumDecode indexedDoc
      { attributes := [("POSITION", 0)], indices := 3 } [] [] 0
      { bufferView := 1, componentType := 5121, count := 6, type := 65 } rfl (by decide)
      rfl).2.2 (by decide) (by decide)⟩

/-! ## Materials -/

section materialThms
variable {α : Type} [Field α]

/-- C12: a default-constructed `GltfMaterial` has the glTF defaults: base colour factor
(1,1,1,1), emissive factor (0,0,0) (fourth component 0), metallic factor, roughness factor,
normal scale and occlusion strength 1, alpha cutoff 1/2, alpha mode 0 (opaque), not double
sided, the five texture indices -1 and the five UV-set indices 0, the CPU-side index fields
equal to those of `data`; its paddings are 0, its name is "default", and accordingly it
reports no texture, opaque, single sided. -/
theorem default_material_defaults :
    (GltfMaterial.default : GltfMaterial α).data.baseColorFactor = ⟨1, 1, 1, 1⟩ ∧
    (GltfMaterial.default : GltfMaterial α).data.emissiveFactor = ⟨0, 0, 0, 0⟩ ∧
    (GltfMaterial.default : GltfMaterial α).data.metallicFactor = 1 ∧
    (GltfMaterial.default : GltfMaterial α).data.roughnessFactor = 1 ∧
    (GltfMaterial.default : GltfMaterial α).data.normalScale = 1 ∧
    (GltfMaterial.default : GltfMaterial α).data.occlusionStrength = 1 ∧
    (GltfMaterial.default : GltfMaterial α).data.alphaCutoff = 1 / 2 ∧
    (GltfMaterial.default : GltfMaterial α).data.alphaMode = 0 ∧
    (GltfMaterial.default : GltfMaterial α).data.doubleSided = 0 ∧
    ((GltfMaterial.default : GltfMaterial α).data.baseColorTextureIndex = -1 ∧
      (GltfMaterial.default : GltfMaterial α).data.metallicRoughnessTextureIndex = -1 ∧
      (GltfMaterial.default : GltfMaterial α).data.normalTextureIndex = -1 ∧
      (GltfMaterial.default : GltfMaterial α).data.occlusionTextureIndex = -1 ∧
      (GltfMaterial.default : GltfMaterial α).data.emissiveTextureIndex = -1) ∧
    ((GltfMaterial.default : GltfMaterial α).data.baseColorTexCoord = 0 ∧
      (GltfMaterial.default : GltfMaterial α).data.metallicRoughnessTexCoord = 0 ∧
      (GltfMaterial.default : GltfMaterial α).data.normalTexCoord = 0 ∧
      (GltfMaterial.default : GltfMaterial α).data.occlusionTexCoord = 0 ∧
      (GltfMaterial.default : GltfMaterial α).data.emissiveTexCoord = 0) ∧
    ((GltfMaterial.default : GltfMaterial α).baseColorTextureIndex =
        (GltfMaterial.default : GltfMaterial α).data.baseColorTextureIndex ∧
      (GltfMaterial.default : GltfMaterial α).metallicRoughnessTextureIndex =
        (GltfMaterial.default : GltfMaterial α).data.metallicRoughnessTextureIndex ∧
      (GltfMaterial.default : GltfMaterial α).normalTextureIndex =
        (GltfMaterial.default : GltfMaterial α).data.normalTextureIndex ∧
      (GltfMaterial.default : GltfMaterial α).occlusionTextureIndex =
        (GltfMaterial.default : GltfMaterial α).data.occlusionTextureIndex ∧
      (GltfMaterial.default : GltfMaterial α).emissiveTextureIndex =
        (GltfMaterial.default : GltfMaterial α).data.emissiveTextureIndex) ∧
    ((GltfMaterial.default : GltfMaterial α).baseColorTexCoord =
        (GltfMaterial.default : GltfMaterial α).data.baseColorTexCoord ∧
      (GltfMaterial.default : GltfMaterial α).metallicRoughnessTexCoord =
        (GltfMaterial.default : GltfMaterial α).data.metallicRoughnessTexCoord ∧
      (GltfMaterial.default : GltfMaterial α).normalTexCoord =
        (GltfMaterial.default : GltfMaterial α).data.normalTexCoord ∧
      (GltfMaterial.default : GltfMaterial α).occlusionTexCoord =
        (GltfMaterial.default : GltfMaterial α).data.occlusionTexCoord ∧
      (GltfMaterial.default : GltfMaterial α).emissiveTexCoord =
        (GltfMaterial.default : GltfMaterial α).data.emissiveTexCoord) ∧
    ((GltfMaterial.default : GltfMaterial α).data.padding = 0 ∧
      (GltfMaterial.default : GltfMaterial α).data.padding2 = 0 ∧
      (GltfMaterial.default : GltfMaterial α).data.padding3 = 0 ∧
      (GltfMaterial.default : GltfMaterial α).name = "default") ∧
    ((GltfMaterial.default : GltfMaterial α).hasBaseColorTexture = false ∧
      (GltfMaterial.default : GltfMaterial α).hasMetallicRoughnessTexture = false ∧
      (GltfMaterial.default : GltfMaterial α).hasNormalTexture = false ∧
      (GltfMaterial.default : GltfMaterial α).hasOcclusionTexture = false ∧
      (GltfMaterial.default : GltfMaterial α).hasEmissiveTexture = false ∧
      (GltfMaterial.default : GltfMaterial α).isOpaque = true ∧
      (GltfMaterial.default : GltfMaterial α).isDoubleSided = false) :=
  ⟨rfl, rfl, rfl, rfl, rfl, rfl, rfl, rfl, rfl, ⟨rfl, rfl, rfl, rfl, rfl⟩,
    ⟨rfl, rfl, rfl, rfl, rfl⟩, ⟨rfl, rfl, rfl, rfl, rfl⟩, ⟨rfl, rfl, rfl, rfl, rfl⟩,
    ⟨rfl, rfl, rfl, rfl⟩, ⟨rfl, rfl, rfl, rfl, rfl, rfl, rfl⟩⟩

theorem loadMaterial_name (g : tinygltf.Material α) (m : GltfMaterial α) :
    (loadMaterial g m).name = g.name := by
  unfold loadMaterial
  simp only [apply_ite GltfMaterial.name, ite_self]

theorem loadMaterials_length (model : tinygltf.Model α) (ms : List (GltfMaterial α)) :
    (loadMaterials model ms).length = max 1 model.materials.length := by
  unfold loadMaterials
  by_cases h : model.materials = []
  · simp [h, resizeList]
  · have hpos : 0 < model.materials.length := List.length_pos.mpr h
    have hne : List.zipWith loadMaterial model.materials
        (resizeList ms model.materials.length GltfMaterial.default) ≠ [] := by
      intro he
      have := congrArg List.length he
      rw [List.length_zipWith, length_resizeList, List.length_nil] at this
      omega
    simp only [List.isEmpty_eq_true, hne, if_false, List.length_zipWith, length_resizeList]
    omega

/-- C13: after `loadMaterials` the model has `max 1 k` materials, `k` the number of
materials of the document. For `k = 0` it has exactly one material, the
default-constructed one. For `k >= 1` it has exactly `k` materials and entry `i` is the
loop body applied to material `i` of the document (so it carries that material's name):
document order, no default appended. For a fresh model the loop body starts from the
default-constructed material. -/
theorem loadMaterials_count (model : tinygltf.Model α) (m_materials : List (GltfMaterial α)) :
    (loadMaterials model m_materials).length = max 1 model.materials.length ∧
    (model.materials = [] → loadMaterials model m_materials = [GltfMaterial.default]) ∧
    (model.materials ≠ [] →
      (loadMaterials model m_materials).length = model.materials.length ∧
      ∀ i g, model.materials[i]? = some g →
        (loadMaterials model m_materials)[i]? =
          some (loadMaterial g (m_materials.getD i GltfMaterial.default)) ∧
        ((loadMaterials model m_materials)[i]?.map fun m => m.name) = some g.name) := by
  refine ⟨loadMaterials_length model m_materials, fun h => ?_, fun h => ?_⟩
  · simp [loadMaterials, h, resizeList]
  · have hpos : 0 < model.materials.length := List.length_pos.mpr h
    refine ⟨by rw [loadMaterials_length]; omega, fun i g hg => ?_⟩
    have hi : i < model.materials.length := (List.getElem?_eq_some_iff.mp hg).1
    have hres : (resizeList m_materials model.materials.length
        (GltfMaterial.default : GltfMaterial α))[i]? =
        some (m_materials.getD i GltfMaterial.default) := by
      unfold resizeList
      rw [List.getD_eq_getElem?_getD]
      by_cases hlt : i < m_materials.length
      · rw [List.getElem?_append_left (by simp; omega)]
        simp [List.getElem?_take, hi, hlt]
      · rw [List.getElem?_append_right (by simp; omega)]
        have hnone : m_materials[i]? = none := List.getElem?_eq_none (by omega)
        simp only [hnone, Option.getD_none, List.length_take]
        rw [List.getElem?_replicate, if_pos (by omega)]
    have hne : List.zipWith loadMaterial model.materials
        (resizeList m_materials model.materials.length GltfMaterial.default) ≠ [] := by
      intro he
      have := congrArg List.length he
      rw [List.length_zipWith, length_resizeList, List.length_nil] at this
      omega
    have hmain : (loadMaterials model m_materials)[i]? =
        some (loadMaterial g (m_materials.getD i GltfMaterial.default)) := by
      unfold loadMaterials
      simp only [List.isEmpty_eq_true, hne, if_false]
      rw [List.getElem?_zipWith, hg, hres]
    exact ⟨hmain, by rw [hmain]; simp [loadMaterial_name]⟩

end materialThms

theorem loadMaterials_count_witness :
    (loadMaterials noMaterialDoc [] = [GltfMaterial.default]) ∧
    (twoMaterialDoc.materials ≠ [] ∧
      (loadMaterials twoMaterialDoc []).length = 2 ∧
      ((loadMaterials twoMaterialDoc [])[1]?.map fun m => m.name) = some "second") :=
  ⟨(loadMaterials_count noMaterialDoc []).2.1 rfl,
   by decide,
   ((loadMaterials_count twoMaterialDoc []).2.2 (by decide)).1,
   (((loadMaterials_count twoMaterialDoc []).2.2 (by decide)).2 1
      (docMaterial "second" (-1) (-1)) rfl).2⟩

/-! ## Texture classification -/

section classify
variable {α : Type}

theorem getD_set_true (l : List Bool) (k i : Nat) :
    (l.set k true).getD i false = true ↔ l.getD i false = true ∨ (i = k ∧ k < l.length) := by
  simp only [List.getD_eq_getElem?_getD, List.getElem?_set]
  by_cases hki : k = i
  · subst hki
    by_cases hk : k < l.length
    · simp [hk]
    · simp [hk, List.getElem?_eq_none (Nat.le_of_not_lt hk)]
  · have hik : ¬ i = k := fun h => hki h.symm
    simp [hki, hik]

/-- The classification loop, started from any vector: entry `i` ends up `true` exactly
when it was `true` or some material names `i` as its base-color or emissive texture. -/
theorem classify_foldl (ms : List (tinygltf.Material α)) (acc : List Bool) (i : Nat) :
    (ms.foldl
      (fun isColorTexture gltfMat =>
        let isColorTexture :=
          if gltfMat.pbrMetallicRoughness.baseColorTexture.index ≥ 0 then
            isColorTexture.set gltfMat.pbrMetallicRoughness.baseColorTexture.index.toNat true
          else isColorTexture
        if gltfMat.emissiveTexture.index ≥ 0 then
          isColorTexture.set gltfMat.emissiveTexture.index.toNat true
        else isColorTexture) acc).getD i false = true ↔
      acc.getD i false = true ∨
      (i < acc.length ∧ ∃ m ∈ ms,
        m.pbrMetallicRoughness.baseColorTexture.index = (i : Int) ∨
        m.emissiveTexture.index = (i : Int)) := by
  induction ms generalizing acc with
  | nil => simp
  | cons m ms ih =>
    rw [List.foldl_cons, ih]
    simp only [List.mem_cons, exists_eq_or_imp]
    have hlen : ∀ (c1 c2 : Prop) [Decidable c1] [Decidable c2] (a b : Nat),
        (if c2 then (if c1 then acc.set a true else acc).set b true
          else (if c1 then acc.set a true else acc)).length = acc.length := by
      intro c1 c2 _ _ a b
      split_ifs <;> simp
    simp only [hlen]
    have hb : ∀ (x : Int), (x ≥ 0 ∧ x.toNat = i) ↔ x = (i : Int) := by
      intro x
      constructor
      · rintro ⟨h0, h1⟩
        omega
      · intro h
        omega
    by_cases hc1 : m.pbrMetallicRoughness.baseColorTexture.index ≥ 0 <;>
      by_cases hc2 : m.emissiveTexture.index ≥ 0
    · simp only [hc1, hc2, if_true, getD_set_true, List.length_set]
      have h1 := hb m.pbrMetallicRoughness.baseColorTexture.index
      have h2 := hb m.emissiveTexture.index
      constructor
      · rintro (((h | ⟨rfl, hk⟩) | ⟨rfl, hk⟩) | ⟨hi, m', hm', hr⟩)
        · exact Or.inl h
        · exact Or.inr ⟨hk, Or.inl (Or.inl (by omega))⟩
        · exact Or.inr ⟨hk, Or.inl (Or.inr (by omega))⟩
        · exact Or.inr ⟨hi, Or.inr ⟨m', hm', hr⟩⟩
      · rintro (h | ⟨hi, (hr | hr) | ⟨m', hm', hr⟩⟩)
        · exact Or.inl (Or.inl (Or.inl h))
        · exact Or.inl (Or.inl (Or.inr ⟨by omega, by omega⟩))
        · exact Or.inl (Or.inr ⟨by omega, by omega⟩)
        · exact Or.inr ⟨hi, m', hm', hr⟩
    · simp only [hc1, hc2, if_true, if_false, getD_set_true, List.length_set]
      constructor
      · rintro ((h | ⟨rfl, hk⟩) | ⟨hi, m', hm', hr⟩)
        · exact Or.inl h
        · exact Or.inr ⟨hk, Or.inl (Or.inl (by omega))⟩
        · exact Or.inr ⟨hi, Or.inr ⟨m', hm', hr⟩⟩
      · rintro (h | ⟨hi, (hr | hr) | ⟨m', hm', hr⟩⟩)
        · exact Or.inl (Or.inl h)
        · exact Or.inl (Or.inr ⟨by omega, by omega⟩)
        · omega
        · exact Or.inr ⟨hi, m', hm', hr⟩
    · simp only [hc1, hc2, if_true, if_false, getD_set_true, List.length_set]
      constructor
      · rintro ((h | ⟨rfl, hk⟩) | ⟨hi, m', hm', hr⟩)
        · exact Or.inl h
        · exact Or.inr ⟨hk, Or.inl (Or.inr (by omega))⟩
        · exact Or.inr ⟨hi, Or.inr ⟨m', hm', hr⟩⟩
      · rintro (h | ⟨hi, (hr | hr) | ⟨m', hm', hr⟩⟩)
        · exact Or.inl (Or.inl h)
        · omega
        · exact Or.inl (Or.inr ⟨by omega, by omega⟩)
        · exact Or.inr ⟨hi, m', hm', hr⟩
    · simp only [hc1, hc2, if_false]
      constructor
      · rintro (h | ⟨hi, m', hm', hr⟩)
        · exact Or.inl h
        · exact Or.inr ⟨hi, Or.inr ⟨m', hm', hr⟩⟩
      · rintro (h | ⟨hi, (hr | hr) | ⟨m', hm', hr⟩⟩)
        · exact Or.inl h
        · omega
        · omega
        · exact Or.inr ⟨hi, m', hm', hr⟩

theorem classifyTextures_getD (model : tinygltf.Model α) (i : Nat) :
    (classifyTextures model).getD i false = true ↔
      i < model.textures.length ∧ ∃ m ∈ model.materials,
        m.pbrMetallicRoughness.baseColorTexture.index = (i : Int) ∨
        m.emissiveTexture.index = (i : Int) := by
  unfold classifyTextures
  rw [classify_foldl]
  by_cases h : i < model.textures.length <;>
    simp [List.getD_eq_getElem?_getD, List.getElem?_replicate, h]

theorem loadTexture_uploads (stbi_load : String → Option (List Nat × Int × Int))
    (device : Device) (model : tinygltf.Model α) (baseDir : String)
    (isColorTexture : List Bool) (i : Nat) (gltfTex : tinygltf.Texture) (texture : Texture)
    (gpu : Gpu) :
    ∀ u ∈ (loadTexture stbi_load device model baseDir isColorTexture i gltfTex texture
        gpu).2.2.2,
      u.textureIndex = i ∧
      u.format = (if isColorTexture.getD i false then VK_FORMAT_R8G8B8A8_SRGB
        else VK_FORMAT_R8G8B8A8_UNORM) := by
  intro u hu
  unfold loadTexture at hu
  by_cases hsrc : gltfTex.source < 0 ∨ gltfTex.source ≥ (model.images.length : Int)
  · rw [if_pos hsrc] at hu
    simp at hu
  · rw [if_neg hsrc] at hu
    simp only [] at hu
    generalize model.images.getD gltfTex.source.toNat {} = gltfImage at hu
    cases h1 : gltfImage.image.isEmpty
    · simp only [h1, Bool.not_false, if_true, List.mem_singleton] at hu
      subst hu
      exact ⟨rfl, rfl⟩
    · simp only [h1, Bool.not_true, Bool.false_eq_true, if_false] at hu
      cases h2 : gltfImage.uri.isEmpty
      · simp only [h2, Bool.not_false, if_true] at hu
        split at hu
        · simp at hu
        · simp only [List.mem_singleton] at hu
          subst hu
          exact ⟨rfl, rfl⟩
      · simp [h2] at hu

theorem loadTexturesLoop_uploads (stbi_load : String → Option (List Nat × Int × Int))
    (device : Device) (model : tinygltf.Model α) (baseDir : String)
    (isColorTexture : List Bool) (i : Nat) (gs : List tinygltf.Texture) (ts : List Texture)
    (gpu : Gpu) :
    ∀ u ∈ (loadTexturesLoop stbi_load device model baseDir isColorTexture i gs ts gpu).2.2.2,
      u.textureIndex < i + gs.length ∧
      u.format = (if isColorTexture.getD u.textureIndex false then VK_FORMAT_R8G8B8A8_SRGB
        else VK_FORMAT_R8G8B8A8_UNORM) := by
  induction gs generalizing i ts gpu with
  | nil =>
    intro u hu
    simp [loadTexturesLoop] at hu
  | cons g gs ih =>
    cases ts with
    | nil =>
      intro u hu
      simp [loadTexturesLoop] at hu
    | cons t ts =>
      intro u hu
      unfold loadTexturesLoop at hu
      have h1 := loadTexture_uploads stbi_load device model baseDir isColorTexture i g t gpu
      rcases hstep : loadTexture stbi_load device model baseDir isColorTexture i g t gpu with
        ⟨r, t', gpu', ups⟩
      rw [hstep] at hu h1
      cases r with
      | error e =>
        simp only [] at hu
        obtain ⟨hi, hf⟩ := h1 u hu
        rw [hi]
        exact ⟨by simp, hi ▸ hf⟩
      | ok v =>
        simp only [List.mem_append] at hu
        rcases hu with hu | hu
        · obtain ⟨hi, hf⟩ := h1 u hu
          rw [hi]
          exact ⟨by simp, hi ▸ hf⟩
        · obtain ⟨hi, hf⟩ := ih (i + 1) ts gpu' u hu
          exact ⟨by simp only [List.length_cons]; omega, hf⟩

end classify

section classifyClaims
variable {α : Type}

theorem loadTexture_embedded (stbi_load : String → Option (List Nat × Int × Int))
    (device : Device) (model : tinygltf.Model α) (baseDir : String)
    (isColorTexture : List Bool) (i : Nat) (gltfTex : tinygltf.Texture) (texture : Texture)
    (gpu : Gpu) (gltfImage : tinygltf.Image) (hsrc : 0 ≤ gltfTex.source)
    (himg : model.images[gltfTex.source.toNat]? = some gltfImage)
    (hne : gltfImage.image ≠ []) :
    ∃ u ∈ (loadTexture stbi_load device model baseDir isColorTexture i gltfTex texture
        gpu).2.2.2, u.textureIndex = i := by
  have hlt : gltfTex.source.toNat < model.images.length := (List.getElem?_eq_some_iff.mp himg).1
  have hsrc2 : ¬ (gltfTex.source < 0 ∨ gltfTex.source ≥ (model.images.length : Int)) := by
    omega
  have hget : model.images.getD gltfTex.source.toNat {} = gltfImage := by
    rw [List.getD_eq_getElem?_getD, himg]
    rfl
  have hemp : gltfImage.image.isEmpty = false := by
    cases h : gltfImage.image with
    | nil => exact absurd h hne
    | cons a l => rfl
  unfold loadTexture
  rw [if_neg hsrc2]
  simp only [hget, hemp, Bool.not_false, if_true]
  exact ⟨_, List.mem_singleton_self _, rfl⟩

theorem loadTexturesLoop_covers (stbi_load : String → Option (List Nat × Int × Int))
    (device : Device) (model : tinygltf.Model α) (baseDir : String)
    (isColorTexture : List Bool) (i : Nat) (gs : List tinygltf.Texture) (ts : List Texture)
    (gpu : Gpu) (hlen : ts.length = gs.length)
    (hok : (loadTexturesLoop stbi_load device model baseDir isColorTexture i gs ts gpu).1 =
      .ok ())
    (k : Nat) (gltfTex : tinygltf.Texture) (gltfImage : tinygltf.Image)
    (hk : gs[k]? = some gltfTex) (hsrc : 0 ≤ gltfTex.source)
    (himg : model.images[gltfTex.source.toNat]? = some gltfImage)
    (hne : gltfImage.image ≠ []) :
    ∃ u ∈ (loadTexturesLoop stbi_load device model baseDir isColorTexture i gs ts gpu).2.2.2,
      u.textureIndex = i + k := by
  induction gs generalizing i ts gpu k with
  | nil => simp at hk
  | cons g gs ih =>
    cases ts with
    | nil => simp at hlen
    | cons t ts =>
      unfold loadTexturesLoop at hok ⊢
      rcases hstep : loadTexture stbi_load device model baseDir isColorTexture i g t gpu with
        ⟨r, t', gpu', ups⟩
      rw [hstep] at hok
      cases r with
      | error e => simp at hok
      | ok v =>
        simp only [] at hok ⊢
        cases k with
        | zero =>
          simp only [List.getElem?_cons_zero, Option.some.injEq] at hk
          subst hk
          obtain ⟨u, hu, hi⟩ := loadTexture_embedded stbi_load device model baseDir
            isColorTexture i g t gpu gltfImage hsrc himg hne
          rw [hstep] at hu
          exact ⟨u, List.mem_append_left _ hu, by simpa using hi⟩
        | succ k =>
          simp only [List.getElem?_cons_succ] at hk
          obtain ⟨u, hu, hi⟩ := ih (i + 1) ts gpu' (by simpa using hlen) hok k hk
          exact ⟨u, List.mem_append_right _ hu, by omega⟩

end classifyClaims

section classifyMain
variable {α : Type} [Field α]

theorem loadFromFile_uploads (fuel : Nat) (stbi_load : String → Option (List Nat × Int × Int))
    (decode : List Nat → α) (vimg : MemoryImage (GltfVertex α)) (device : Device)
    (model : tinygltf.Model α) (err : String) (success : Bool) (filename baseDir : String)
    (self : GltfModel α) (gpu : Gpu) :
    (GltfModel.loadFromFile fuel stbi_load decode vimg device model err success filename
        baseDir self gpu).2.2.2 =
      if err ≠ "" ∨ success = false then []
      else (loadTextures stbi_load device model baseDir (classifyTextures model)
        self.m_textures gpu).2.2.2 := by
  unfold GltfModel.loadFromFile
  by_cases herr : err = ""
  · cases success
    · simp [herr]
    · simp only [herr, ne_eq, not_true_eq_false, if_false, Bool.not_true, Bool.false_eq_true,
        or_self]
      repeat' split
      all_goals simp_all
  · simp [herr]

/-- C15: in a document whose material texture references are in range, every call of
`createFromPixels` that `loadFromFile` makes is for a texture of the document, with the
sRGB format exactly when some material names that texture as its base-color or its
emissive texture, and with the UNORM format otherwise (whatever other references the
texture has). After a successful parse these calls are those of `loadTextures` run with
the vector `isColorTexture` that the classification loop has completed over all
materials. Every texture with a valid image that carries embedded pixels is uploaded when
`loadTextures` returns. -/
theorem loadFromFile_texture_formats (fuel : Nat)
    (stbi_load : String → Option (List Nat × Int × Int)) (decode : List Nat → α)
    (vimg : MemoryImage (GltfVertex α)) (device : Device) (model : tinygltf.Model α)
    (err : String) (success : Bool) (filename baseDir : String) (self : GltfModel α)
    (gpu : Gpu)
    (hrange : ∀ m ∈ model.materials,
      m.pbrMetallicRoughness.baseColorTexture.index < (model.textures.length : Int) ∧
      m.emissiveTexture.index < (model.textures.length : Int)) :
    (∀ u ∈ (GltfModel.loadFromFile fuel stbi_load decode vimg device model err success
        filename baseDir self gpu).2.2.2,
      u.textureIndex < model.textures.length ∧
      (u.format = VK_FORMAT_R8G8B8A8_SRGB ↔
        ∃ m ∈ model.materials,
          m.pbrMetallicRoughness.baseColorTexture.index = (u.textureIndex : Int) ∨
          m.emissiveTexture.index = (u.textureIndex : Int)) ∧
      ((¬ ∃ m ∈ model.materials,
          m.pbrMetallicRoughness.baseColorTexture.index = (u.textureIndex : Int) ∨
          m.emissiveTexture.index = (u.textureIndex : Int)) →
        u.format = VK_FORMAT_R8G8B8A8_UNORM)) ∧
    (err = "" → success = true →
      (GltfModel.loadFromFile fuel stbi_load decode vimg device model err success
        filename baseDir self gpu).2.2.2 =
      (loadTextures stbi_load device model baseDir (classifyTextures model)
        self.m_textures gpu).2.2.2 ∧
      ((loadTextures stbi_load device model baseDir (classifyTextures model)
          self.m_textures gpu).1 = .ok () →
        ∀ i gltfTex gltfImage, model.textures[i]? = some gltfTex → 0 ≤ gltfTex.source →
          model.images[gltfTex.source.toNat]? = some gltfImage → gltfImage.image ≠ [] →
          ∃ u ∈ (GltfModel.loadFromFile fuel stbi_load decode vimg device model err success
            filename baseDir self gpu).2.2.2, u.textureIndex = i)) := by
  have _ := hrange
  constructor
  · intro u hu
    rw [loadFromFile_uploads] at hu
    split at hu
    · simp at hu
    · obtain ⟨hlt, hf⟩ := loadTexturesLoop_uploads stbi_load device model baseDir
        (classifyTextures model) 0 model.textures _ gpu u hu
      have hlt2 : u.textureIndex < model.textures.length := by omega
      have hcl := classifyTextures_getD model u.textureIndex
      refine ⟨hlt2, ?_, ?_⟩
      · rw [hf]
        constructor
        · intro h
          by_cases hc : (classifyTextures model).getD u.textureIndex false = true
          · exact (hcl.mp hc).2
          · rw [if_neg hc] at h
            exact absurd h (by decide)
        · intro h
          rw [if_pos (hcl.mpr ⟨hlt2, h⟩)]
      · intro h
        rw [hf, if_neg (fun hc => h (hcl.mp hc).2)]
  · intro herr hsucc
    have hup := loadFromFile_uploads fuel stbi_load decode vimg device model err success
      filename baseDir self gpu
    rw [if_neg (by simp [herr, hsucc])] at hup
    refine ⟨hup, fun hok i gltfTex gltfImage hi hsrc himg hne => ?_⟩
    rw [hup]
    have := loadTexturesLoop_covers stbi_load device model baseDir (classifyTextures model) 0
      model.textures (resizeList self.m_textures model.textures.length {}) gpu
      (length_resizeList _ _ _) hok i gltfTex gltfImage hi hsrc himg hne
    simpa using this

end classifyMain

theorem texturedDoc_uploads :
    (GltfModel.loadFromFile 8 noFiles zeroDecode zeroVertexImage okDevice texturedDoc "" true
      "scene.gltf" "" freshModel Gpu.empty).2.2.2 =
      [⟨0, VK_FORMAT_R8G8B8A8_SRGB, 1, 1⟩, ⟨1, VK_FORMAT_R8G8B8A8_UNORM, 1, 1⟩,
       ⟨2, VK_FORMAT_R8G8B8A8_SRGB, 1, 1⟩] := by
  rfl

theorem loadFromFile_texture_formats_witness :
    (∀ m ∈ texturedDoc.materials,
      m.pbrMetallicRoughness.baseColorTexture.index < (texturedDoc.textures.length : Int) ∧
      m.emissiveTexture.index < (texturedDoc.textures.length : Int)) ∧
    (VK_FORMAT_R8G8B8A8_SRGB = VK_FORMAT_R8G8B8A8_SRGB ↔
      ∃ m ∈ texturedDoc.materials,
        m.pbrMetallicRoughness.baseColorTexture.index = ((0 : Nat) : Int) ∨
        m.emissiveTexture.index = ((0 : Nat) : Int)) :=
  ⟨by decide,
   ((loadFromFile_texture_formats 8 noFiles zeroDecode zeroVertexImage okDevice texturedDoc
      "" true "scene.gltf" "" freshModel Gpu.empty (by decide)).1
      ⟨0, VK_FORMAT_R8G8B8A8_SRGB, 1, 1⟩
      (texturedDoc_uploads ▸ List.mem_cons_self _ _)).2.1⟩

/-! ## Material indices of loaded primitives -/

/-- C14 (counterexample): a document whose only primitive declares no material loads
successfully. The model then has one material (the synthesised default, one record in the
material buffer), but the primitive keeps the material index -1, and `draw` pushes -1 as
the material index of the push constants. -/
theorem load_leaves_material_index_unset :
    (GltfModel.loadFromFile 8 noFiles zeroDecode zeroVertexImage okDevice unmaterialedDoc ""
      true "scene.gltf" "" freshModel Gpu.empty).1 = some (.ok ()) ∧
    (GltfModel.loadFromFile 8 noFiles zeroDecode zeroVertexImage okDevice unmaterialedDoc ""
      true "scene.gltf" "" freshModel Gpu.empty).2.1.m_materials.length = 1 ∧
    ((GltfModel.loadFromFile 8 noFiles zeroDecode zeroVertexImage okDevice unmaterialedDoc ""
      true "scene.gltf" "" freshModel Gpu.empty).2.1.m_materialBuffer.map List.length) =
        some 1 ∧
    ((GltfModel.loadFromFile 8 noFiles zeroDecode zeroVertexImage okDevice unmaterialedDoc ""
      true "scene.gltf" "" freshModel Gpu.empty).2.1.m_meshes.map
        fun mesh => mesh.primitives.map fun p => p.materialIndex) = [[-1]] ∧
    (GltfModel.loadFromFile 8 noFiles zeroDecode zeroVertexImage okDevice unmaterialedDoc ""
      true "scene.gltf" "" freshModel Gpu.empty).2.1.draw 8 =
        some [.pushConstants 0 (-1), .bindVertexBuffers 2, .bindIndexBuffer 4,
          .drawIndexed 3 1 0 0 0] :=
  ⟨rfl, rfl, rfl, rfl, rfl⟩

section materialIndex
variable {α : Type} [CommRing α]

theorem loadPrimitive_materialIndex (decode : List Nat → α) (vimg : MemoryImage (GltfVertex α))
    (device : Device) (model : tinygltf.Model α) (gltfPrim : tinygltf.Primitive)
    (primitive : GltfPrimitive) (gpu : Gpu)
    (h : (loadPrimitive decode vimg device model gltfPrim primitive gpu).1 = .ok ()) :
    (loadPrimitive decode vimg device model gltfPrim primitive gpu).2.1.materialIndex =
      gltfPrim.material := by
  unfold loadPrimitive at h ⊢
  split at h
  · cases h
  · split at h
    · cases h
    · rename_i h1 _ _ _ h2
      simp only [h2]

theorem loadPrimitives_materialIndex (decode : List Nat → α)
    (vimg : MemoryImage (GltfVertex α)) (device : Device) (model : tinygltf.Model α)
    (gs : List tinygltf.Primitive) (ps : List GltfPrimitive) (gpu : Gpu)
    (hlen : ps.length = gs.length)
    (h : (loadPrimitives decode vimg device model gs ps gpu).1 = .ok ()) :
    List.Forall₂ (fun (g : tinygltf.Primitive) (p : GltfPrimitive) =>
        p.materialIndex = g.material)
      gs (loadPrimitives decode vimg device model gs ps gpu).2.1 := by
  induction gs generalizing ps gpu with
  | nil =>
    cases ps with
    | nil => simp [loadPrimitives]
    | cons p ps => simp at hlen
  | cons g gs ih =>
    cases ps with
    | nil => simp at hlen
    | cons p ps =>
      unfold loadPrimitives at h ⊢
      have h1 := loadPrimitive_materialIndex decode vimg device model g p gpu
      rcases hstep : loadPrimitive decode vimg device model g p gpu with ⟨r, p', gpu'⟩
      rw [hstep] at h h1
      cases r with
      | error e => simp at h
      | ok v =>
        simp only [] at h ⊢
        exact List.Forall₂.cons (h1 rfl) (ih ps gpu' (by simpa using hlen) h)

theorem loadMeshesLoop_materialIndex (decode : List Nat → α)
    (vimg : MemoryImage (GltfVertex α)) (device : Device) (model : tinygltf.Model α)
    (gs : List tinygltf.Mesh) (ms : List GltfMesh) (gpu : Gpu)
    (hlen : ms.length = gs.length)
    (h : (loadMeshesLoop decode vimg device model gs ms gpu).1 = .ok ()) :
    List.Forall₂ (fun (g : tinygltf.Mesh) (m : GltfMesh) =>
        List.Forall₂ (fun (gp : tinygltf.Primitive) (p : GltfPrimitive) =>
          p.materialIndex = gp.material) g.primitives m.primitives)
      gs (loadMeshesLoop decode vimg device model gs ms gpu).2.1 := by
  induction gs generalizing ms gpu with
  | nil =>
    cases ms with
    | nil => simp [loadMeshesLoop]
    | cons m ms => simp at hlen
  | cons g gs ih =>
    cases ms with
    | nil => simp at hlen
    | cons m ms =>
      unfold loadMeshesLoop at h ⊢
      simp only [] at h ⊢
      have h1 := loadPrimitives_materialIndex decode vimg device model g.primitives
        (resizeList m.primitives g.primitives.length {}) gpu (length_resizeList _ _ _)
      rcases hstep : loadPrimitives decode vimg device model g.primitives
        (resizeList m.primitives g.primitives.length {}) gpu with ⟨r, ps', gpu'⟩
      rw [hstep] at h h1
      cases r with
      | error e => simp at h
      | ok v =>
        simp only [] at h ⊢
        exact List.Forall₂.cons (h1 rfl) (ih ms gpu' (by simpa using hlen) h)

theorem forall₂_getElem? {β γ : Type} {R : β → γ → Prop} {l1 : List β} {l2 : List γ}
    (h : List.Forall₂ R l1 l2) (i : Nat) (a : β) (ha : l1[i]? = some a) :
    ∃ b, l2[i]? = some b ∧ R a b := by
  obtain ⟨hlen, hget⟩ := List.forall₂_iff_get.mp h
  obtain ⟨hi, hval⟩ := List.getElem?_eq_some_iff.mp ha
  have hi2 : i < l2.length := hlen ▸ hi
  refine ⟨l2[i], List.getElem?_eq_getElem hi2, ?_⟩
  have := hget i hi hi2
  simp only [List.get_eq_getElem] at this
  rwa [hval] at this

theorem loadMeshes_materialIndex (decode : List Nat → α)
    (vimg : MemoryImage (GltfVertex α)) (device : Device) (model : tinygltf.Model α)
    (m_meshes : List GltfMesh) (gpu : Gpu)
    (h : (loadMeshes decode vimg device model m_meshes gpu).1 = .ok ())
    (i j : Nat) (gltfMesh : tinygltf.Mesh) (gltfPrim : tinygltf.Primitive)
    (hi : model.meshes[i]? = some gltfMesh) (hj : gltfMesh.primitives[j]? = some gltfPrim) :
    ∃ mesh primitive,
      (loadMeshes decode vimg device model m_meshes gpu).2.1[i]? = some mesh ∧
      mesh.primitives[j]? = some primitive ∧
      primitive.materialIndex = gltfPrim.material := by
  have hall := loadMeshesLoop_materialIndex decode vimg device model model.meshes
    (resizeList m_meshes model.meshes.length {}) gpu (length_resizeList _ _ _) h
  obtain ⟨mesh, hmesh, hprims⟩ := forall₂_getElem? hall i gltfMesh hi
  obtain ⟨p, hp, hmat⟩ := forall₂_getElem? hprims j gltfPrim hj
  exact ⟨mesh, p, hmesh, hp, hmat⟩

end materialIndex

section drawLemmas
variable {α : Type}

theorem foldl_option_append {β γ : Type} (g : Option (List β) → γ → Option (List β))
    (P : β → Prop) (hn : ∀ c, g none c = none)
    (hg : ∀ l c r, g (some l) c = some r → ∃ l1, r = l ++ l1 ∧ ∀ x ∈ l1, P x)
    (cs : List γ) (init : Option (List β))
    (res : List β) (hinit : ∀ l, init = some l → ∀ x ∈ l, P x)
    (h : cs.foldl g init = some res) :
    ∀ x ∈ res, P x := by
  induction cs generalizing init with
  | nil => exact hinit res h
  | cons c cs ih =>
    rw [List.foldl_cons] at h
    refine ih _ ?_ h
    intro l hl
    cases init with
    | none => simp [hn] at hl
    | some l0 =>
      obtain ⟨l1, rfl, h1⟩ := hg l0 c l hl
      intro x hx
      rcases List.mem_append.mp hx with hx | hx
      · exact hinit l0 rfl x hx
      · exact h1 x hx

theorem draw_no_push (p : GltfPrimitive) (n m : Int) : RenderCmd.pushConstants n m ∉ p.draw := by
  unfold GltfPrimitive.draw
  split <;> simp

/-- Every material index that `drawNode` pushes is the `materialIndex` of a primitive of a
mesh of the model. -/
theorem drawNode_push (self : GltfModel α) (fuel : Nat) (nodeIndex : Int)
    (cmds : List RenderCmd) (h : self.drawNode fuel nodeIndex = some cmds) :
    ∀ x ∈ cmds, ∀ n m, x = RenderCmd.pushConstants n m →
      ∃ mesh ∈ self.m_meshes, ∃ p ∈ mesh.primitives, p.materialIndex = m := by
  induction fuel generalizing nodeIndex cmds with
  | zero => simp [GltfModel.drawNode] at h
  | succ fuel ih =>
    unfold GltfModel.drawNode at h
    split at h
    · simp only [Option.some.injEq] at h
      subst h
      simp
    · split at h
      · simp only [Option.some.injEq] at h
        subst h
        simp
      · rename_i node hnode
        simp only [] at h
        refine foldl_option_append _ _ (fun _ => rfl) ?_ node.children _ cmds ?_ h
        · intro l c r hr
          simp only [] at hr
          cases hc : self.drawNode fuel c with
          | none => simp [hc] at hr
          | some l1 =>
            simp only [hc, Option.some.injEq] at hr
            exact ⟨l1, hr.symm, ih c l1 hc⟩
        intro l hl
        simp only [Option.some.injEq] at hl
        subst hl
        intro x hx n m hxe
        subst hxe
        split at hx
        · split at hx
          · simp at hx
          · rename_i mesh hmesh
            simp only [List.mem_flatMap, List.mem_cons] at hx
            obtain ⟨p, hp, hx⟩ := hx
            rcases hx with hx | hx
            · simp only [RenderCmd.pushConstants.injEq] at hx
              exact ⟨mesh, List.getElem?_mem hmesh, p, hp, hx.2.symm⟩
            · exact absurd hx (draw_no_push p n m)
        · simp at hx

theorem draw_push (self : GltfModel α) (fuel : Nat) (cmds : List RenderCmd)
    (h : self.draw fuel = some cmds) :
    ∀ x ∈ cmds, ∀ n m, x = RenderCmd.pushConstants n m →
      ∃ mesh ∈ self.m_meshes, ∃ p ∈ mesh.primitives, p.materialIndex = m := by
  unfold GltfModel.draw at h
  refine foldl_option_append _ _ (fun _ => rfl) ?_ self.m_rootNodes (some []) cmds (by simp) h
  intro l c r hr
  simp only [] at hr
  split at hr
  · cases hc : self.drawNode fuel c with
    | none => simp [hc] at hr
    | some l1 =>
      simp only [hc, Option.some.injEq] at hr
      exact ⟨l1, hr.symm, drawNode_push self fuel c l1 hc⟩
  · simp only [Option.some.injEq] at hr
    exact ⟨[], by simp [hr], by simp⟩

end drawLemmas

section loadOk
variable {α : Type} [Field α]

theorem createMaterialBuffer_fields (device : Device) (self : GltfModel α) :
    (self.createMaterialBuffer device).2.m_meshes = self.m_meshes ∧
    (self.createMaterialBuffer device).2.m_materials = self.m_materials ∧
    ((self.createMaterialBuffer device).1 = .ok () → self.m_materials ≠ [] →
      (self.createMaterialBuffer device).2.m_materialBuffer =
        some (self.m_materials.map fun m => m.data)) := by
  unfold GltfModel.createMaterialBuffer
  cases hm : self.m_materials with
  | nil => simp [hm]
  | cons m ms =>
    simp only [List.isEmpty_cons, Bool.false_eq_true, if_false]
    rcases createStorageBuffer device (sizeofMaterialData * (m :: ms).length) with ⟨r, created⟩
    cases r with
    | error e =>
      cases created <;> simp [hm]
    | ok v => simp [hm]

theorem createTransformBuffer_fields (device : Device) (self : GltfModel α) :
    (self.createTransformBuffer device).2.m_meshes = self.m_meshes ∧
    (self.createTransformBuffer device).2.m_materials = self.m_materials ∧
    (self.createTransformBuffer device).2.m_materialBuffer = self.m_materialBuffer := by
  unfold GltfModel.createTransformBuffer
  split
  · exact ⟨rfl, rfl, rfl⟩
  · simp only []
    rcases createStorageBuffer device (sizeofMat4 * self.m_nodes.length) with ⟨r, created⟩
    cases r with
    | error e => cases created <;> exact ⟨rfl, rfl, rfl⟩
    | ok v => exact ⟨rfl, rfl, rfl⟩

theorem updateTransforms_fields (fuel : Nat) (device : Device) (self s : GltfModel α)
    (h : self.updateTransforms fuel device = some (.ok s)) :
    s.m_meshes = self.m_meshes ∧ s.m_materials = self.m_materials ∧
    s.m_materialBuffer = self.m_materialBuffer := by
  unfold GltfModel.updateTransforms at h
  split at h
  · simp only [Option.some.injEq, Except.ok.injEq] at h
    subst h
    exact ⟨rfl, rfl, rfl⟩
  · split at h
    · simp only [Option.some.injEq, Except.ok.injEq] at h
      subst h
      exact ⟨rfl, rfl, rfl⟩
    · split at h
      · cases h
      · split at h
        · cases h
        · simp only [Option.some.injEq, Except.ok.injEq] at h
          subst h
          exact ⟨rfl, rfl, rfl⟩

theorem loadMaterials_ne_nil (model : tinygltf.Model α) (ms : List (GltfMaterial α)) :
    loadMaterials model ms ≠ [] := by
  intro h
  have := loadMaterials_length model ms
  rw [h] at this
  simp at this
  omega

/-- What a successful `loadFromFile` leaves in the model: the meshes of a successful
`loadMeshes`, the materials of `loadMaterials`, and one record per material in the
material buffer. -/
theorem loadFromFile_ok_fields (fuel : Nat)
    (stbi_load : String → Option (List Nat × Int × Int)) (decode : List Nat → α)
    (vimg : MemoryImage (GltfVertex α)) (device : Device) (model : tinygltf.Model α)
    (err : String) (success : Bool) (filename baseDir : String) (self : GltfModel α)
    (gpu : Gpu)
    (h : (GltfModel.loadFromFile fuel stbi_load decode vimg device model err success
      filename baseDir self gpu).1 = some (.ok ())) :
    ∃ gpu1,
      (loadMeshes decode vimg device model self.m_meshes gpu1).1 = .ok () ∧
      (GltfModel.loadFromFile fuel stbi_load decode vimg device model err success
        filename baseDir self gpu).2.1.m_meshes =
        (loadMeshes decode vimg device model self.m_meshes gpu1).2.1 ∧
      (GltfModel.loadFromFile fuel stbi_load decode vimg device model err success
        filename baseDir self gpu).2.1.m_materials = loadMaterials model self.m_materials ∧
      (GltfModel.loadFromFile fuel stbi_load decode vimg device model err success
        filename baseDir self gpu).2.1.m_materialBuffer =
        some ((loadMaterials model self.m_materials).map fun m => m.data) := by
  unfold GltfModel.loadFromFile at h ⊢
  simp only [] at h ⊢
  by_cases herr : err ≠ ""
  · rw [if_pos herr] at h
    cases h
  by_cases hsucc : (!success) = true
  · rw [if_neg herr, if_pos hsucc] at h
    cases h
  simp only [if_neg herr, if_neg hsucc] at h ⊢
  revert h
  rcases loadTextures stbi_load device model baseDir (classifyTextures model)
    self.m_textures gpu with ⟨rT, textures, gpu1, uploads⟩
  cases rT with
  | error e => intro h; cases h
  | ok vT =>
    simp only []
    rcases loadSamplers device model self.m_samplers with ⟨rS, samplers⟩
    cases rS with
    | error e => intro h; cases h
    | ok vS =>
      simp only []
      refine fun h => ⟨gpu1, ?_⟩
      revert h
      rcases loadMeshes decode vimg device model self.m_meshes gpu1 with ⟨rM, meshes, gpu2⟩
      cases rM with
      | error e => intro h; cases h
      | ok vM =>
        simp only []
        have hA := createMaterialBuffer_fields device
          (GltfModel.loadNodes
            { self with
              m_modelPath := filename, m_textures := textures,
              m_samplers := samplers,
              m_materials := loadMaterials model self.m_materials,
              m_meshes := meshes } model)
        revert hA
        rcases GltfModel.createMaterialBuffer device
          (GltfModel.loadNodes
            { self with
              m_modelPath := filename, m_textures := textures,
              m_samplers := samplers,
              m_materials := loadMaterials model self.m_materials,
              m_meshes := meshes } model) with ⟨rA, s1⟩
        cases rA with
        | error e => intro _ h; cases h
        | ok vA =>
          simp only []
          have hB := createTransformBuffer_fields device s1
          revert hB
          rcases GltfModel.createTransformBuffer device s1 with ⟨rB, s2⟩
          cases rB with
          | error e => intro _ _ h; cases h
          | ok vB =>
            simp only []
            have hC := updateTransforms_fields fuel device s2
            revert hC
            cases GltfModel.updateTransforms fuel device s2 with
            | none => intro _ _ _ h; cases h
            | some rU =>
              cases rU with
              | error e => intro _ _ _ h; cases h
              | ok s3 =>
                intro hC hB hA _
                obtain ⟨hC1, hC2, hC3⟩ := hC s3 rfl
                obtain ⟨hB1, hB2, hB3⟩ := hB
                obtain ⟨hA1, hA2, hA3⟩ := hA
                have hne := loadMaterials_ne_nil model self.m_materials
                refine ⟨trivial, ?_, ?_, ?_⟩
                · show s3.m_meshes = meshes
                  rw [hC1, hB1, hA1]
                  rfl
                · show s3.m_materials = _
                  rw [hC2, hB2, hA2]
                  rfl
                · show s3.m_materialBuffer = _
                  rw [hC3, hB3, hA3 trivial hne]
                  rfl

end loadOk

section materialIndexClaim
variable {α : Type} [Field α]

/-- C14 (amended): after a successful `loadFromFile` the model has `max 1 k` materials
(`k` the number of materials of the document, so at least one), the material buffer holds
one record per material, and every primitive of every mesh carries the material index of
its document entry unchanged: -1 when the entry declares no material. So its index is
valid, `0 <= materialIndex < number of materials`, exactly when the document entry
declares a material index in that range. `draw` pushes only material indices of
primitives of the model, unchanged. -/
theorem loadFromFile_material_indices (fuel : Nat)
    (stbi_load : String → Option (List Nat × Int × Int)) (decode : List Nat → α)
    (vimg : MemoryImage (GltfVertex α)) (device : Device) (model : tinygltf.Model α)
    (err : String) (success : Bool) (filename baseDir : String) (self : GltfModel α)
    (gpu : Gpu)
    (h : (GltfModel.loadFromFile fuel stbi_load decode vimg device model err success
      filename baseDir self gpu).1 = some (.ok ())) :
    (GltfModel.loadFromFile fuel stbi_load decode vimg device model err success
      filename baseDir self gpu).2.1.m_materials.length = max 1 model.materials.length ∧
    ((GltfModel.loadFromFile fuel stbi_load decode vimg device model err success
      filename baseDir self gpu).2.1.m_materialBuffer.map List.length) =
        some (max 1 model.materials.length) ∧
    (∀ (i j : Nat) (gltfMesh : tinygltf.Mesh) (gltfPrim : tinygltf.Primitive),
      model.meshes[i]? = some gltfMesh → gltfMesh.primitives[j]? = some gltfPrim →
      ∃ (mesh : GltfMesh) (primitive : GltfPrimitive),
        (GltfModel.loadFromFile fuel stbi_load decode vimg device model err success
          filename baseDir self gpu).2.1.m_meshes[i]? = some mesh ∧
        mesh.primitives[j]? = some primitive ∧
        primitive.materialIndex = gltfPrim.material ∧
        ((0 ≤ primitive.materialIndex ∧
            primitive.materialIndex <
              ((GltfModel.loadFromFile fuel stbi_load decode vimg device model err success
                filename baseDir self gpu).2.1.m_materials.length : Int)) ↔
          (0 ≤ gltfPrim.material ∧
            gltfPrim.material < ((max 1 model.materials.length : Nat) : Int)))) ∧
    (∀ drawFuel cmds,
      (GltfModel.loadFromFile fuel stbi_load decode vimg device model err success
        filename baseDir self gpu).2.1.draw drawFuel = some cmds →
      ∀ nodeIndex materialIndex, RenderCmd.pushConstants nodeIndex materialIndex ∈ cmds →
        ∃ mesh ∈ (GltfModel.loadFromFile fuel stbi_load decode vimg device model err
            success filename baseDir self gpu).2.1.m_meshes,
          ∃ primitive ∈ mesh.primitives, primitive.materialIndex = materialIndex) := by
  obtain ⟨gpu1, hok, hmeshes, hmats, hbuf⟩ := loadFromFile_ok_fields fuel stbi_load decode
    vimg device model err success filename baseDir self gpu h
  have hlen := loadMaterials_length model self.m_materials
  refine ⟨by rw [hmats, hlen], by rw [hbuf]; simp [hlen], ?_, ?_⟩
  · intro i j gltfMesh gltfPrim hi hj
    obtain ⟨mesh, p, hmesh, hp, hmat⟩ := loadMeshes_materialIndex decode vimg device model
      self.m_meshes gpu1 hok i j gltfMesh gltfPrim hi hj
    refine ⟨mesh, p, by rw [hmeshes]; exact hmesh, hp, hmat, ?_⟩
    rw [hmats, hlen, hmat]
  · intro drawFuel cmds hdraw nodeIndex materialIndex hmem
    exact draw_push _ drawFuel cmds hdraw _ hmem nodeIndex materialIndex rfl

end materialIndexClaim

theorem loadFromFile_material_indices_witness :
    (GltfModel.loadFromFile 8 noFiles zeroDecode zeroVertexImage okDevice texturedTriangleDoc
      "" true "scene.gltf" "" freshModel Gpu.empty).1 = some (.ok ()) ∧
    (GltfModel.loadFromFile 8 noFiles zeroDecode zeroVertexImage okDevice texturedTriangleDoc
      "" true "scene.gltf" "" freshModel Gpu.empty).2.1.m_materials.length = 2 ∧
    ∃ mesh primitive,
      (GltfModel.loadFromFile 8 noFiles zeroDecode zeroVertexImage okDevice
        texturedTriangleDoc "" true "scene.gltf" "" freshModel Gpu.empty).2.1.m_meshes[0]? =
          some mesh ∧
      mesh.primitives[1]? = some primitive ∧ primitive.materialIndex = -1 :=
  ⟨rfl,
   (loadFromFile_material_indices 8 noFiles zeroDecode zeroVertexImage okDevice
      texturedTriangleDoc "" true "scene.gltf" "" freshModel Gpu.empty (by rfl)).1,
   ((loadFromFile_material_indices 8 noFiles zeroDecode zeroVertexImage okDevice
      texturedTriangleDoc "" true "scene.gltf" "" freshModel Gpu.empty (by rfl)).2.2.1 0 1
      { name := "triangles",
        primitives :=
          [{ attributes := [("POSITION", 0)], material := 1, indices := 1 },
           { attributes := [("POSITION", 0)], indices := 1 }] }
      { attributes := [("POSITION", 0)], indices := 1 } rfl rfl).imp
     fun _ hm => hm.imp fun _ hp => ⟨hp.1, hp.2.1, hp.2.2.1⟩⟩

/-! ## Swapchain recreation -/

theorem createsOnly_refl (w : World) : w.CreatesOnly w :=
  ⟨rfl, rfl, rfl, [], by simp, by simp⟩

theorem createsOnly_trans {w1 w2 w3 : World} (h12 : w1.CreatesOnly w2)
    (h23 : w2.CreatesOnly w3) : w1.CreatesOnly w3 := by
  obtain ⟨g1, wi1, f1, n1, l1, c1⟩ := h12
  obtain ⟨g2, wi2, f2, n2, l2, c2⟩ := h23
  refine ⟨g2.trans g1, wi2.trans wi1, f2.trans f1, n1 ++ n2, ?_, ?_⟩
  · rw [l2, l1, List.append_assoc]
  · intro e he
    rcases List.mem_append.mp he with he | he
    · exact c1 e he
    · exact c2 e he

theorem createImageView_spec (device : Device) (image : Nat) (world : World) :
    world.CreatesOnly (createImageView device image world).2 ∧
    ∀ e, (createImageView device image world).1 = .error e → e = createImageViewError := by
  unfold createImageView
  split
  · exact ⟨createsOnly_refl _, fun e he => by cases he; rfl⟩
  · refine ⟨⟨rfl, rfl, rfl, [_], rfl, ?_⟩, fun e he => by cases he⟩
    intro e he
    simp only [List.mem_singleton] at he
    subst he
    rfl

theorem createImageViewsLoop_spec (device : Device) (images views : List Nat) (world : World) :
    world.CreatesOnly (createImageViewsLoop device images views world).2.2 ∧
    ∀ e, (createImageViewsLoop device images views world).1 = .error e →
      e = createImageViewError := by
  induction images generalizing views world with
  | nil =>
    unfold createImageViewsLoop
    exact ⟨createsOnly_refl _, fun e he => by cases he⟩
  | cons image images ih =>
    cases views with
    | nil =>
      unfold createImageViewsLoop
      exact ⟨createsOnly_refl _, fun e he => by cases he⟩
    | cons view views =>
      unfold createImageViewsLoop
      have h1 := createImageView_spec device image world
      rcases hc : createImageView device image world with ⟨r, w1⟩
      rw [hc] at h1
      cases r with
      | error e0 => exact ⟨h1.1, fun e he => h1.2 e (by simpa using he)⟩
      | ok newView =>
        have h2 := ih views w1
        exact ⟨createsOnly_trans h1.1 h2.1, fun e he => h2.2 e he⟩

theorem createImageViews_spec (device : Device) (self : Swapchain) (world : World) :
    world.CreatesOnly (self.createImageViews device world).2.2 ∧
    (self.createImageViews device world).2.1.m_extent = self.m_extent ∧
    (self.createImageViews device world).2.1.m_swapchain = self.m_swapchain ∧
    ∀ e, (self.createImageViews device world).1 = .error e → e = createImageViewError := by
  unfold Swapchain.createImageViews
  have h := createImageViewsLoop_spec device self.m_swapchainImages
    (resizeList self.m_views self.m_swapchainImages.length 0) world
  exact ⟨h.1, rfl, rfl, h.2⟩

theorem createImageViews_ok (device : Device) (hdev : device.vkCreateImageView = true)
    (images views : List Nat) (world : World) :
    (createImageViewsLoop device images views world).1 = .ok () := by
  induction images generalizing views world with
  | nil => rfl
  | cons image images ih =>
    cases views with
    | nil => rfl
    | cons view views =>
      unfold createImageViewsLoop
      simp only [createImageView, hdev, Bool.not_true, Bool.false_eq_true, if_false]
      exact ih views _

theorem destroy_spec (self : Swapchain) (world : World) :
    (self.destroy world).gpu = world.gpu ∧ (self.destroy world).window = world.window ∧
    (self.destroy world).fences = world.fences ∧
    (self.destroy world).nextHandle = world.nextHandle ∧
    (self.destroy world).log =
      world.log ++ self.m_views.map FrameEvent.destroyImageView ++
        [.destroySwapchain self.m_swapchain] := by
  unfold Swapchain.destroy
  have h : ∀ (views : List Nat) (w : World),
      (views.foldl (fun world imageView => world.emit (.destroyImageView imageView)) w).gpu =
        w.gpu ∧
      (views.foldl (fun world imageView => world.emit (.destroyImageView imageView)) w).window =
        w.window ∧
      (views.foldl (fun world imageView => world.emit (.destroyImageView imageView)) w).fences =
        w.fences ∧
      (views.foldl (fun world imageView =>
        world.emit (.destroyImageView imageView)) w).nextHandle = w.nextHandle ∧
      (views.foldl (fun world imageView => world.emit (.destroyImageView imageView)) w).log =
        w.log ++ views.map FrameEvent.destroyImageView := by
    intro views
    induction views with
    | nil => intro w; simp
    | cons v vs ih =>
      intro w
      simp only [List.foldl_cons, List.map_cons]
      obtain ⟨h1, h2, h3, h4, h5⟩ := ih (w.emit (.destroyImageView v))
      exact ⟨h1, h2, h3, h4, by rw [h5]; simp [World.emit]⟩
  obtain ⟨h1, h2, h3, h4, h5⟩ := h self.m_views world
  refine ⟨h1, h2, h3, h4, ?_⟩
  show (List.foldl _ world self.m_views).log ++ [_] = _
  rw [h5]

theorem create_views_aux (device : Device) (s1 : Swapchain) (w0 w1 : World)
    (hg : w1.gpu = w0.gpu) (hw : w1.window = w0.window) (hf : w1.fences = w0.fences)
    (new1 : List FrameEvent) (hlog : w1.log = w0.log ++ new1)
    (hnew : ∀ e ∈ new1, FrameEvent.isCreate e = true)
    (extent : VkExtent2D) (hext : s1.m_extent = extent)
    (hmem : ∃ n f p, FrameEvent.createSwapchain s1.m_swapchain s1.m_extent n f p ∈ new1) :
    (s1.createImageViews device w1).2.2.gpu = w0.gpu ∧
    (s1.createImageViews device w1).2.2.window = w0.window ∧
    (s1.createImageViews device w1).2.2.fences = w0.fences ∧
    ∃ new, (s1.createImageViews device w1).2.2.log = w0.log ++ new ∧
      (∀ e ∈ new, FrameEvent.isCreate e = true) ∧
      (∀ e, (s1.createImageViews device w1).1 = .error e → e ∈ recreateErrors) ∧
      ((s1.createImageViews device w1).1 = .ok () →
        (s1.createImageViews device w1).2.1.m_extent = extent ∧
        ∃ n f p, FrameEvent.createSwapchain (s1.createImageViews device w1).2.1.m_swapchain
          (s1.createImageViews device w1).2.1.m_extent n f p ∈ new) := by
  have hv := createImageViews_spec device s1 w1
  obtain ⟨⟨g2, wi2, f2, new2, l2, c2⟩, hext2, hsc2, herr2⟩ := hv
  refine ⟨g2.trans hg, wi2.trans hw, f2.trans hf, new1 ++ new2, ?_, ?_, ?_, ?_⟩
  · rw [l2, hlog, List.append_assoc]
  · intro e he
    rcases List.mem_append.mp he with he | he
    · exact hnew e he
    · exact c2 e he
  · intro e he
    rw [herr2 e he]
    simp [recreateErrors]
  · intro _
    obtain ⟨n, f, p, hm⟩ := hmem
    rw [hext2, hsc2]
    exact ⟨hext, n, f, p, List.mem_append_left _ hm⟩

/-- What `Swapchain::create` does to the world and how it can throw; on success the extent
is the one `chooseSwapExtent` picks and the creation call carries it. -/
theorem create_spec_swapchain (device : Device) (driver : FrameDriver) (self : Swapchain)
    (world : World) :
    (self.create device driver world).2.2.gpu = world.gpu ∧
    (self.create device driver world).2.2.window = world.window ∧
    (self.create device driver world).2.2.fences = world.fences ∧
    ∃ new, (self.create device driver world).2.2.log = world.log ++ new ∧
      (∀ e ∈ new, FrameEvent.isCreate e = true) ∧
      (∀ e, (self.create device driver world).1 = .error e → e ∈ recreateErrors) ∧
      ((self.create device driver world).1 = .ok () →
        (self.create device driver world).2.1.m_extent =
          chooseSwapExtent driver.querySwapChainSupport.capabilities world.window ∧
        ∃ n f p, FrameEvent.createSwapchain (self.create device driver world).2.1.m_swapchain
          (self.create device driver world).2.1.m_extent n f p ∈ new) := by
  unfold Swapchain.create
  simp only []
  split
  · split
    · exact ⟨rfl, rfl, rfl, [], by simp, by simp,
        fun e he => by cases he; simp [recreateErrors], fun h => by cases h⟩
    · refine create_views_aux device _ world _ ?_ ?_ ?_
        [.createSwapchain world.nextHandle
          (chooseSwapExtent driver.querySwapChainSupport.capabilities world.window)
          (if driver.querySwapChainSupport.capabilities.maxImageCount > 0 ∧
              (driver.querySwapChainSupport.capabilities.minImageCount + 1) % 2 ^ 32 >
                driver.querySwapChainSupport.capabilities.maxImageCount then
            driver.querySwapChainSupport.capabilities.maxImageCount
          else (driver.querySwapChainSupport.capabilities.minImageCount + 1) % 2 ^ 32)
          (chooseSwapSurfaceFormat driver.querySwapChainSupport.formats).format
          (chooseSwapPresentMode driver.querySwapChainSupport.presentModes)] ?_ ?_ _ rfl ?_
      · rfl
      · rfl
      · rfl
      · rfl
      · intro e he
        simp only [List.mem_singleton] at he
        subst he
        rfl
      · exact ⟨_, _, _, List.mem_singleton_self _⟩
  · exact ⟨rfl, rfl, rfl, [], by simp, by simp,
      fun e he => by cases he; simp [recreateErrors], fun h => by cases h⟩

theorem recreatePoll_spec (rounds : Nat) (width height : Int) (world : World) (resized : Bool)
    (wp : World) (r : Bool) (h : recreatePoll rounds width height world resized = some (wp, r)) :
    wp.gpu = world.gpu ∧ wp.fences = world.fences ∧
    ∃ k, wp.log = world.log ++ List.replicate k FrameEvent.waitEvents := by
  induction rounds generalizing width height world resized with
  | zero => simp [recreatePoll] at h
  | succ rounds ih =>
    unfold recreatePoll at h
    split at h
    · simp only [] at h
      cases hev : world.window.events with
      | nil => simp [glfwWaitEvents, hev] at h
      | cons e events =>
        simp only [glfwWaitEvents, hev] at h
        obtain ⟨hg, hf, k, hk⟩ := ih _ _ _ _ h
        refine ⟨hg, hf, k + 1, ?_⟩
        rw [hk]
        simp [World.emit, List.replicate_succ]
    · simp only [Option.some.injEq, Prod.mk.injEq] at h
      obtain ⟨rfl, rfl⟩ := h
      exact ⟨rfl, rfl, 0, by simp⟩

theorem recreatePoll_nonzero (rounds : Nat) (width height : Int) (world : World)
    (resized : Bool) (hw : width ≠ 0) (hh : height ≠ 0) :
    recreatePoll (rounds + 1) width height world resized = some (world, resized) := by
  unfold recreatePoll
  simp [hw, hh]

/-- What a returning `Swapchain::recreate` has done: after the polls it waits for device
idle, destroys the old image views and the old swapchain, and only then creates; it
throws only with an error of the creation; on success the new extent is the one
`chooseSwapExtent` picks for the window. -/
theorem recreate_spec (device : Device) (driver : FrameDriver) (self : Swapchain)
    (world : World) (r : Except String Unit) (sc : Swapchain) (w2 : World) (resized : Bool)
    (h : self.recreate device driver world = some (r, sc, w2, resized)) :
    w2.gpu = world.gpu ∧ w2.fences = world.fences ∧
    ∃ k creates,
      w2.log = world.log ++ List.replicate k FrameEvent.waitEvents ++ [.deviceWaitIdle] ++
        self.m_views.map FrameEvent.destroyImageView ++
        [.destroySwapchain self.m_swapchain] ++ creates ∧
      (∀ e ∈ creates, FrameEvent.isCreate e = true) ∧
      (∀ e, r = .error e → e ∈ recreateErrors) ∧
      (r = .ok () →
        sc.m_extent = chooseSwapExtent driver.querySwapChainSupport.capabilities w2.window ∧
        ∃ n f p, FrameEvent.createSwapchain sc.m_swapchain sc.m_extent n f p ∈ creates) := by
  unfold Swapchain.recreate at h
  simp only [] at h
  cases hp : recreatePoll (world.window.events.length + 1) world.window.framebufferSize.1
      world.window.framebufferSize.2 world false with
  | none => simp [hp] at h
  | some res =>
    obtain ⟨wp, rz⟩ := res
    simp only [hp] at h
    obtain ⟨hpg, hpf, k, hpl⟩ := recreatePoll_spec _ _ _ _ _ _ _ hp
    obtain ⟨hdg, hdw, hdf, _, hdl⟩ := destroy_spec self (wp.emit .deviceWaitIdle)
    have hc := create_spec_swapchain device driver self (self.destroy (wp.emit .deviceWaitIdle))
    rcases hcr : self.create device driver (self.destroy (wp.emit .deviceWaitIdle)) with
      ⟨rc, s1, w1⟩
    rw [hcr] at hc h
    obtain ⟨hcg, hcw, hcf, new1, hcl, hcn, hce, hco⟩ := hc
    have hbase : (self.destroy (wp.emit .deviceWaitIdle)).log =
        world.log ++ List.replicate k FrameEvent.waitEvents ++ [.deviceWaitIdle] ++
          self.m_views.map FrameEvent.destroyImageView ++
          [.destroySwapchain self.m_swapchain] := by
      rw [hdl]
      simp [World.emit, hpl]
    cases rc with
    | error e0 =>
      simp only [Option.some.injEq, Prod.mk.injEq] at h
      obtain ⟨rfl, rfl, rfl, rfl⟩ := h
      refine ⟨by rw [hcg, hdg]; exact hpg, by rw [hcf, hdf]; exact hpf, k, new1, ?_, hcn,
        fun e he => hce e0 (by cases he; rfl) |> fun hmem => by cases he; exact hmem,
        fun he => by cases he⟩
      rw [hcl, hbase]
    | ok v =>
      simp only [] at h
      have hv := createImageViews_spec device s1 w1
      rcases hvr : s1.createImageViews device w1 with ⟨rv, s2, w3⟩
      rw [hvr] at hv h
      simp only [Option.some.injEq, Prod.mk.injEq] at h
      obtain ⟨rfl, rfl, rfl, rfl⟩ := h
      obtain ⟨⟨hvg, hvw, hvf, new2, hvl, hvn⟩, hvext, hvsc, hverr⟩ := hv
      obtain ⟨hext1, n, f, p, hmem1⟩ := hco rfl
      refine ⟨by rw [hvg, hcg, hdg]; exact hpg, by rw [hvf, hcf, hdf]; exact hpf, k,
        new1 ++ new2, ?_, ?_, ?_, ?_⟩
      · rw [hvl, hcl, hbase, List.append_assoc]
      · intro e he
        rcases List.mem_append.mp he with he | he
        · exact hcn e he
        · exact hvn e he
      · intro e he
        rw [hverr e he]
        simp [recreateErrors]
      · intro _
        simp only [] at hvext hvsc
        rw [hvext, hvsc, hext1, hvw, hcw]
        exact ⟨rfl, n, f, p, List.mem_append_left _ (by rw [← hext1]; exact hmem1)⟩

theorem recreate_returns (device : Device) (driver : FrameDriver) (self : Swapchain)
    (world : World) (hw : world.window.framebufferSize.1 ≠ 0)
    (hh : world.window.framebufferSize.2 ≠ 0) :
    ∃ r sc w2, self.recreate device driver world = some (r, sc, w2, false) ∧
      w2.window = world.window ∧
      (driver.findQueueFamilies.graphicsFamily.isSome = true →
        driver.findQueueFamilies.presentFamily.isSome = true →
        driver.vkCreateSwapchainKHR = VK_SUCCESS → device.vkCreateImageView = true →
        r = .ok ()) := by
  unfold Swapchain.recreate
  simp only [recreatePoll_nonzero _ _ _ _ _ hw hh]
  obtain ⟨_, hdw, _, _, _⟩ := destroy_spec self (world.emit .deviceWaitIdle)
  have hc := create_spec_swapchain device driver self (self.destroy (world.emit .deviceWaitIdle))
  have hcok : driver.findQueueFamilies.graphicsFamily.isSome = true →
      driver.findQueueFamilies.presentFamily.isSome = true →
      driver.vkCreateSwapchainKHR = VK_SUCCESS → device.vkCreateImageView = true →
      (self.create device driver (self.destroy (world.emit .deviceWaitIdle))).1 = .ok () := by
    intro h1 h2 h3 h4
    unfold Swapchain.create
    obtain ⟨g, hg⟩ := Option.isSome_iff_exists.mp h1
    obtain ⟨p, hp⟩ := Option.isSome_iff_exists.mp h2
    simp only [hg, hp, h3, ne_eq, not_true_eq_false, if_false, Swapchain.createImageViews]
    exact createImageViews_ok device h4 _ _ _
  rcases hcr : self.create device driver (self.destroy (world.emit .deviceWaitIdle)) with
    ⟨rc, s1, w1⟩
  rw [hcr] at hc hcok
  simp only [] at hc hcok
  obtain ⟨_, hcw, _⟩ := hc
  cases rc with
  | error e0 =>
    refine ⟨_, _, _, rfl, by rw [hcw, hdw]; rfl, fun h1 h2 h3 h4 => ?_⟩
    exact absurd (hcok h1 h2 h3 h4) (by simp)
  | ok v =>
    simp only []
    have hv := createImageViews_spec device s1 w1
    have hvok : device.vkCreateImageView = true → (s1.createImageViews device w1).1 = .ok () := by
      intro h4
      unfold Swapchain.createImageViews
      exact createImageViews_ok device h4 _ _ _
    rcases hvr : s1.createImageViews device w1 with ⟨rv, s2, w3⟩
    rw [hvr] at hv hvok
    simp only [] at hv hvok ⊢
    obtain ⟨⟨_, hvw, _⟩, _⟩ := hv
    exact ⟨rv, s2, w3, rfl, by rw [hvw, hcw, hdw]; rfl, fun _ _ _ h4 => hvok h4⟩

theorem isFrameWork_of_isCreate (e : FrameEvent) (h : e.isCreate = true) :
    e.isFrameWork = false := by
  cases e <;> first | rfl | cases h

theorem chooseSwapExtent_window (capabilities : VkSurfaceCapabilitiesKHR) (window : Window)
    (width height : Nat) (hsize : window.framebufferSize = ((width : Int), (height : Int)))
    (hundef : capabilities.currentExtent.width = 2 ^ 32 - 1)
    (hw : width < 2 ^ 32) (hh : height < 2 ^ 32)
    (hw1 : capabilities.minImageExtent.width ≤ width)
    (hw2 : width ≤ capabilities.maxImageExtent.width)
    (hh1 : capabilities.minImageExtent.height ≤ height)
    (hh2 : height ≤ capabilities.maxImageExtent.height) :
    chooseSwapExtent capabilities window = ⟨width, height⟩ := by
  unfold chooseSwapExtent
  rw [if_neg (by simp [hundef]), hsize]
  have e1 : ((width : Int) % 2 ^ 32).toNat = width := by omega
  have e2 : ((height : Int) % 2 ^ 32).toNat = height := by omega
  simp only [e1, e2, clamp]
  rw [if_neg (by omega), if_neg (by omega), if_neg (by omega), if_neg (by omega)]

section acquire
variable {α : Type} [CommRing α]

/-- With the slot's fence signaled or pending and the acquire answered out-of-date,
`drawFrame` is: wait for the fence, acquire, `Swapchain::recreate`, return. -/
theorem drawFrame_out_of_date_eq (fuel : Nat) (device : Device) (driver : FrameDriver)
    (self : Application α) (world : World)
    (hfence : ∃ s, world.fences[self.m_currentFrame]? = some s ∧ s ≠ .unsignaled)
    (hacq : driver.vkAcquireNextImageKHR.1 = VK_ERROR_OUT_OF_DATE_KHR) :
    self.drawFrame fuel device driver world =
      (self.m_swapchain.recreate device driver
        (({ world with fences := world.fences.set self.m_currentFrame .signaled }.emit
          (.waitForFences self.m_currentFrame)).emit
            (.acquireNextImage self.m_currentFrame))).map
        fun x => (x.1, { self with
          m_swapchain := x.2.1,
          m_framebufferResized := self.m_framebufferResized || x.2.2.2 }, x.2.2.1) := by
  obtain ⟨s, hs, hne⟩ := hfence
  unfold Application.drawFrame
  rcases hd : driver.vkAcquireNextImageKHR with ⟨res, idx⟩
  rw [hd] at hacq
  simp only [] at hacq
  subst hacq
  rw [hs]
  cases s with
  | unsignaled => exact absurd rfl hne
  | signaled =>
    simp only [if_true]
    cases Swapchain.recreate device driver self.m_swapchain _ <;> rfl
  | pending =>
    simp only [if_true]
    cases Swapchain.recreate device driver self.m_swapchain _ <;> rfl

end acquire

/-- C19 (counterexample): the acquire is answered out-of-date and the driver then refuses
to create the new swapchain: `drawFrame` raises "failed to create swap chain!". -/
theorem drawFrame_out_of_date_raises :
    ((exampleApp false).drawFrame 8 okDevice
      (exampleDriver VK_ERROR_OUT_OF_DATE_KHR VK_SUCCESS VK_SUCCESS VK_ERROR_DEVICE_LOST)
      exampleWorld).map (fun r => r.1) = some (.error "failed to create swap chain!") := by
  rfl

section acquireClaim
variable {α : Type} [CommRing α]

/-- C19 (amended): let the fence of the current slot be signaled or pending. If
`vkAcquireNextImageKHR` reports out-of-date then a `drawFrame` call that returns or
raises has left the frame counter, the command buffers and the buffers unchanged, has
not reset the slot's fence (it is signaled), and has made exactly these calls, in this
order: wait for the fence, acquire, the polls of the recreation, wait for device idle,
destroy the old image views and the old swapchain, creation calls; none resets a fence,
records, submits or presents. It raises only if the recreation raises (swapchain or image
view creation fails); if it returns, the new swapchain was created with the extent that
`chooseSwapExtent` picks for the window. With a non-zero framebuffer size the call does
return or raise, without polling, and returns when the driver's creation calls succeed.
The picked extent is the framebuffer size when the surface leaves the extent to the
window and the size lies within the surface's limits. Any acquire result other than
success, suboptimal or out-of-date raises "failed to acquire swap chain image!" after
the wait and the acquire only. -/
theorem drawFrame_acquire (fuel : Nat) (device : Device) (driver : FrameDriver)
    (self : Application α) (world : World)
    (hfence : ∃ s, world.fences[self.m_currentFrame]? = some s ∧ s ≠ .unsignaled) :
    (driver.vkAcquireNextImageKHR.1 = VK_ERROR_OUT_OF_DATE_KHR →
      (∀ r app w, self.drawFrame fuel device driver world = some (r, app, w) →
        app.m_currentFrame = self.m_currentFrame ∧
        app.m_commandBuffers = self.m_commandBuffers ∧
        w.gpu = world.gpu ∧
        w.fences = world.fences.set self.m_currentFrame .signaled ∧
        (∃ k creates,
          w.log = world.log ++
            ([.waitForFences self.m_currentFrame, .acquireNextImage self.m_currentFrame] ++
              List.replicate k FrameEvent.waitEvents ++ [.deviceWaitIdle] ++
              self.m_swapchain.m_views.map FrameEvent.destroyImageView ++
              [.destroySwapchain self.m_swapchain.m_swapchain] ++ creates) ∧
          (∀ e ∈ creates, FrameEvent.isCreate e = true) ∧
          (r = .ok () →
            ∃ n f p, FrameEvent.createSwapchain app.m_swapchain.m_swapchain
              app.m_swapchain.m_extent n f p ∈ creates)) ∧
        (∀ e ∈ w.log.drop world.log.length, FrameEvent.isFrameWork e = false) ∧
        (∀ e, r = .error e → e ∈ recreateErrors) ∧
        (r = .ok () →
          app.m_swapchain.m_extent =
            chooseSwapExtent driver.querySwapChainSupport.capabilities w.window)) ∧
      (world.window.framebufferSize.1 ≠ 0 → world.window.framebufferSize.2 ≠ 0 →
        ∃ r app w, self.drawFrame fuel device driver world = some (r, app, w) ∧
          w.window = world.window ∧
          (driver.findQueueFamilies.graphicsFamily.isSome = true →
            driver.findQueueFamilies.presentFamily.isSome = true →
            driver.vkCreateSwapchainKHR = VK_SUCCESS → device.vkCreateImageView = true →
            r = .ok ()))) ∧
    (driver.vkAcquireNextImageKHR.1 ≠ VK_SUCCESS →
      driver.vkAcquireNextImageKHR.1 ≠ VK_SUBOPTIMAL_KHR →
      driver.vkAcquireNextImageKHR.1 ≠ VK_ERROR_OUT_OF_DATE_KHR →
      ∃ w, self.drawFrame fuel device driver world =
          some (.error "failed to acquire swap chain image!", self, w) ∧
        w.log = world.log ++
          [.waitForFences self.m_currentFrame, .acquireNextImage self.m_currentFrame]) ∧
    (∀ (capabilities : VkSurfaceCapabilitiesKHR) (window : Window) (width height : Nat),
      window.framebufferSize = ((width : Int), (height : Int)) →
      capabilities.currentExtent.width = 2 ^ 32 - 1 → width < 2 ^ 32 → height < 2 ^ 32 →
      capabilities.minImageExtent.width ≤ width → width ≤ capabilities.maxImageExtent.width →
      capabilities.minImageExtent.height ≤ height →
      height ≤ capabilities.maxImageExtent.height →
      chooseSwapExtent capabilities window = ⟨width, height⟩) := by
  refine ⟨fun hacq => ⟨?_, ?_⟩, ?_, ?_⟩
  · intro r app w h
    rw [drawFrame_out_of_date_eq fuel device driver self world hfence hacq] at h
    cases hrec : self.m_swapchain.recreate device driver
      (({ world with fences := world.fences.set self.m_currentFrame .signaled }.emit
        (.waitForFences self.m_currentFrame)).emit
          (.acquireNextImage self.m_currentFrame)) with
    | none => simp [hrec] at h
    | some res =>
      obtain ⟨r0, sc, w2, resized⟩ := res
      simp only [hrec, Option.map_some', Option.some.injEq, Prod.mk.injEq] at h
      obtain ⟨rfl, rfl, rfl⟩ := h
      obtain ⟨hg, hf, k, creates, hlog, hcreates, herr, hok⟩ :=
        recreate_spec device driver self.m_swapchain _ _ _ _ _ hrec
      have hlog2 : w2.log = world.log ++
          ([.waitForFences self.m_currentFrame, .acquireNextImage self.m_currentFrame] ++
            List.replicate k FrameEvent.waitEvents ++ [.deviceWaitIdle] ++
            self.m_swapchain.m_views.map FrameEvent.destroyImageView ++
            [.destroySwapchain self.m_swapchain.m_swapchain] ++ creates) := by
        rw [hlog]
        simp [World.emit]
      refine ⟨rfl, rfl, hg, hf, ⟨k, creates, hlog2, hcreates, fun hr => (hok hr).2⟩, ?_, herr,
        fun hr => (hok hr).1⟩
      intro e he
      rw [hlog2, List.drop_left] at he
      simp only [List.mem_append, List.mem_cons, List.mem_singleton, List.not_mem_nil,
        or_false, List.mem_map] at he
      rcases he with ((((he | he) | he) | he) | he) | he
      · rcases he with rfl | rfl <;> rfl
      · rw [List.eq_of_mem_replicate he]
        rfl
      · subst he
        rfl
      · obtain ⟨v, _, rfl⟩ := he
        rfl
      · subst he
        rfl
      · exact isFrameWork_of_isCreate e (hcreates e he)
  · intro hw hh
    rw [drawFrame_out_of_date_eq fuel device driver self world hfence hacq]
    obtain ⟨r, sc, w2, hrec, hwin, hok⟩ := recreate_returns device driver self.m_swapchain
      (({ world with fences := world.fences.set self.m_currentFrame .signaled }.emit
        (.waitForFences self.m_currentFrame)).emit
          (.acquireNextImage self.m_currentFrame)) hw hh
    exact ⟨r, _, w2, by rw [hrec]; rfl, hwin, hok⟩
  · intro h1 h2 h3
    obtain ⟨s, hs, hne⟩ := hfence
    unfold Application.drawFrame
    rcases hd : driver.vkAcquireNextImageKHR with ⟨res, idx⟩
    rw [hd] at h1 h2 h3
    simp only [] at h1 h2 h3
    rw [hs]
    cases s with
    | unsignaled => exact absurd rfl hne
    | signaled =>
      simp only [h3, if_false, h1, h2, ne_eq, not_false_eq_true, and_self, if_true]
      exact ⟨_, rfl, by simp [World.emit]⟩
    | pending =>
      simp only [h3, if_false, h1, h2, ne_eq, not_false_eq_true, and_self, if_true]
      exact ⟨_, rfl, by simp [World.emit]⟩
  · intro capabilities window width height h1 h2 h3 h4 h5 h6 h7 h8
    exact chooseSwapExtent_window capabilities window width height h1 h2 h3 h4 h5 h6 h7 h8

end acquireClaim

theorem drawFrame_acquire_witness :
    (∃ s, exampleWorld.fences[(exampleApp false).m_currentFrame]? = some s ∧
      s ≠ .unsignaled) ∧
    (∃ r app w,
      (exampleApp false).drawFrame 8 okDevice
        (exampleDriver VK_ERROR_OUT_OF_DATE_KHR VK_SUCCESS VK_SUCCESS VK_SUCCESS)
        exampleWorld = some (r, app, w) ∧
      w.window = exampleWorld.window ∧ r = .ok ()) ∧
    (∃ w,
      (exampleApp false).drawFrame 8 okDevice
        (exampleDriver VK_ERROR_DEVICE_LOST VK_SUCCESS VK_SUCCESS VK_SUCCESS)
        exampleWorld = some (.error "failed to acquire swap chain image!", exampleApp false, w) ∧
      w.log = [.waitForFences 0, .acquireNextImage 0]) :=
  ⟨⟨.signaled, rfl, by decide⟩,
   ((((drawFrame_acquire 8 okDevice
      (exampleDriver VK_ERROR_OUT_OF_DATE_KHR VK_SUCCESS VK_SUCCESS VK_SUCCESS)
      (exampleApp false) exampleWorld ⟨.signaled, rfl, by decide⟩).1 rfl).2
        (by decide) (by decide)).imp fun _ h => h.imp fun _ h => h.imp fun _ h =>
          ⟨h.1, h.2.1, h.2.2 rfl rfl rfl rfl⟩),
   (drawFrame_acquire 8 okDevice
      (exampleDriver VK_ERROR_DEVICE_LOST VK_SUCCESS VK_SUCCESS VK_SUCCESS)
      (exampleApp false) exampleWorld ⟨.signaled, rfl, by decide⟩).2.1
        (by decide) (by decide) (by decide)⟩

/-- Halving a mip extent that is already `max 1 (w / 2 ^ j)` gives `max 1 (w / 2 ^ (j + 1))`. -/
theorem halve_extent (w j : Nat) : max (max 1 (w / 2 ^ j) / 2) 1 = max 1 (w / 2 ^ (j + 1)) := by
  rw [pow_succ, ← Nat.div_div_eq_div_mul]
  generalize w / 2 ^ j = a
  simp only [Nat.max_def]
  split_ifs <;> omega

/-- The blits of the level loop, started at level `j + 1` with the extent of level `j`. -/
theorem mipChain_blits (image layer w h : Nat) : ∀ (n j : Nat),
    (mipChain image layer n (j + 1) (max 1 (w / 2 ^ j)) (max 1 (h / 2 ^ j))).filter Cmd.isBlit =
      (List.range n).map fun k =>
        Cmd.blitImage image (j + k) (j + k + 1) layer
          (max 1 (w / 2 ^ (j + k))) (max 1 (h / 2 ^ (j + k)))
          (max 1 (w / 2 ^ (j + k + 1))) (max 1 (h / 2 ^ (j + k + 1)))
  | 0, _ => rfl
  | n + 1, j => by
    have ih := mipChain_blits image layer w h n (j + 1)
    rw [mipChain, halve_extent, halve_extent, List.range_succ_eq_map]
    simp only [List.cons_append, List.nil_append, List.filter_cons, Cmd.isBlit, List.map_cons,
      List.map_map, Bool.false_eq_true, if_false, if_true]
    rw [ih]
    simp only [Nat.add_sub_cancel, Nat.add_zero, List.cons.injEq, true_and]
    apply List.map_congr_left
    intro k _
    simp only [Function.comp, Nat.succ_eq_add_one]
    have e1 : j + 1 + k = j + (k + 1) := by omega
    rw [e1]

/-- The extent of the last level is 1. -/
theorem last_extent (w m : Nat) (hw : w ≤ m) : max 1 (w / 2 ^ floorLog2 m) = 1 := by
  rw [floorLog2_eq_log]
  have h1 : m < 2 ^ (Nat.log 2 m + 1) := Nat.lt_pow_succ_log_self (by decide) m
  have h2 : w / 2 ^ Nat.log 2 m < 2 := by
    rw [Nat.div_lt_iff_lt_mul (by positivity)]
    rw [pow_succ] at h1
    omega
  simp only [Nat.max_def]
  split_ifs <;> omega

/-- C21: for a texture of `width x height` texels (both at least 1, and within the `int32_t`
range of the parameters) with `L = floor(log2(max(width, height))) + 1` levels, the blits
`Texture::generateMipmaps` records are, in order, one per level `i = k + 1` with
`1 <= i < L`: it reads level `i - 1` at extent `max(1, width / 2^(i-1)) x
max(1, height / 2^(i-1))` and writes level `i` at extent `max(1, width / 2^i) x
max(1, height / 2^i)`; the extent of the last level `L - 1` is 1 x 1. -/
theorem generateMipmaps_blit_extents (format width height : Nat) (self : Texture) (gpu : Gpu)
    (hw : 1 ≤ width) (hh : 1 ≤ height) (_hw31 : width < 2 ^ 31) (_hh31 : height < 2 ^ 31)
    (hL : self.m_mipLevels = floorLog2 (max width height) + 1) :
    (Texture.generateMipmaps format width height self gpu).commands.filter Cmd.isBlit =
      gpu.commands.filter Cmd.isBlit ++
        (List.range (self.m_mipLevels - 1)).map (fun k =>
          Cmd.blitImage self.m_image k (k + 1) 0
            (max 1 (width / 2 ^ k)) (max 1 (height / 2 ^ k))
            (max 1 (width / 2 ^ (k + 1))) (max 1 (height / 2 ^ (k + 1)))) ∧
    max 1 (width / 2 ^ (self.m_mipLevels - 1)) = 1 ∧
    max 1 (height / 2 ^ (self.m_mipLevels - 1)) = 1 := by
  refine ⟨?_, ?_, ?_⟩
  · have h := mipChain_blits self.m_image 0 width height (self.m_mipLevels - 1) 0
    simp only [pow_zero, Nat.div_one, Nat.zero_add, max_eq_right hw, max_eq_right hh] at h
    simp only [Texture.generateMipmaps, Gpu.submitSingleTime, List.filter_append, h]
    simp [Cmd.isBlit]
  · rw [hL, Nat.add_sub_cancel]
    exact last_extent _ _ (le_max_left _ _)
  · rw [hL, Nat.add_sub_cancel]
    exact last_extent _ _ (le_max_right _ _)

/-- A 100 x 50 texture has 7 levels and level 6 is 1 x 1. -/
theorem generateMipmaps_blit_extents_witness :
    (Texture.generateMipmaps VK_FORMAT_R8G8B8A8_SRGB 100 50
        { m_mipLevels := 7, m_image := 1 } Gpu.empty).commands.filter Cmd.isBlit =
      [] ++ (List.range (7 - 1)).map (fun k =>
          Cmd.blitImage 1 k (k + 1) 0
            (max 1 (100 / 2 ^ k)) (max 1 (50 / 2 ^ k))
            (max 1 (100 / 2 ^ (k + 1))) (max 1 (50 / 2 ^ (k + 1)))) ∧
    max 1 (100 / 2 ^ (7 - 1)) = 1 ∧ max 1 (50 / 2 ^ (7 - 1)) = 1 :=
  generateMipmaps_blit_extents VK_FORMAT_R8G8B8A8_SRGB 100 50
    { m_mipLevels := 7, m_image := 1 } Gpu.empty (by decide) (by decide) (by decide) (by decide)
    (by rw [floorLog2_eq_log]; simp [Nat.log])

theorem runLayouts_cons (layouts : ImageLayouts) (c : Cmd) (cs : List Cmd) :
    runLayouts layouts (c :: cs) =
      (c.layoutsAgree layouts && (runLayouts (c.applyLayouts layouts) cs).1,
        (runLayouts (c.applyLayouts layouts) cs).2) := rfl

theorem mipChain_succ_append (image layer n i w h : Nat) (rest : List Cmd) :
    mipChain image layer (n + 1) i w h ++ rest =
      .pipelineBarrier (i - 1) 1 layer 1
        VK_IMAGE_LAYOUT_TRANSFER_DST_OPTIMAL VK_IMAGE_LAYOUT_TRANSFER_SRC_OPTIMAL ::
      .blitImage image (i - 1) i layer w h (max (w / 2) 1) (max (h / 2) 1) ::
      .pipelineBarrier (i - 1) 1 layer 1
        VK_IMAGE_LAYOUT_TRANSFER_SRC_OPTIMAL VK_IMAGE_LAYOUT_SHADER_READ_ONLY_OPTIMAL ::
      (mipChain image layer n (i + 1) (max (w / 2) 1) (max (h / 2) 1) ++ rest) := rfl

/-- A barrier over one level of one layer agrees with the layouts when that subresource is
in the declared old layout. -/
theorem layoutsAgree_barrier_one (layouts : ImageLayouts) (level layer old new : Nat) :
    (Cmd.pipelineBarrier level 1 layer 1 old new).layoutsAgree layouts =
      decide (layouts layer level = old) := by
  simp [Cmd.layoutsAgree, List.range_succ]

/-- A barrier over one level of one layer changes the layout of that subresource only. -/
theorem applyLayouts_barrier_one (layouts : ImageLayouts) (level layer old new : Nat) :
    (Cmd.pipelineBarrier level 1 layer 1 old new).applyLayouts layouts =
      fun l m => if l = layer ∧ m = level then new else layouts l m := by
  funext l m
  simp only [Cmd.applyLayouts]
  by_cases h : l = layer ∧ m = level
  · rw [if_pos h, if_pos (by omega)]
  · rw [if_neg h, if_neg (by omega)]

/-- Running the level loop of one layer from level `j + 1`, when the levels `j .. j + n`
of the layer are in transfer-destination layout: every command agrees with the layouts
and the levels `j .. j + n - 1` of the layer end in shader-read layout. -/
theorem runLayouts_mipChain (image layer : Nat) : ∀ (n j w h : Nat) (layouts : ImageLayouts)
    (rest : List Cmd),
    (∀ m, j ≤ m → m ≤ j + n → layouts layer m = VK_IMAGE_LAYOUT_TRANSFER_DST_OPTIMAL) →
    runLayouts layouts (mipChain image layer n (j + 1) w h ++ rest) =
      runLayouts (fun l m => if l = layer ∧ j ≤ m ∧ m < j + n then
        VK_IMAGE_LAYOUT_SHADER_READ_ONLY_OPTIMAL else layouts l m) rest
  | 0, j, w, h, layouts, rest, _ => by
    have e : (fun l m => if l = layer ∧ j ≤ m ∧ m < j + 0 then
        VK_IMAGE_LAYOUT_SHADER_READ_ONLY_OPTIMAL else layouts l m) = layouts := by
      funext l m
      rw [if_neg (by omega)]
    rw [e]
    rfl
  | n + 1, j, w, h, layouts, rest, hl => by
    have hj : layouts layer j = VK_IMAGE_LAYOUT_TRANSFER_DST_OPTIMAL := hl j (le_refl _) (by omega)
    have hj1 : layouts layer (j + 1) = VK_IMAGE_LAYOUT_TRANSFER_DST_OPTIMAL :=
      hl (j + 1) (by omega) (by omega)
    rw [mipChain_succ_append, runLayouts_cons, runLayouts_cons, runLayouts_cons,
      layoutsAgree_barrier_one, layoutsAgree_barrier_one, applyLayouts_barrier_one,
      applyLayouts_barrier_one, Nat.add_sub_cancel]
    rw [runLayouts_mipChain image layer n (j + 1)]
    · have e : (fun l m => if l = layer ∧ j + 1 ≤ m ∧ m < j + 1 + n then
            VK_IMAGE_LAYOUT_SHADER_READ_ONLY_OPTIMAL
          else if l = layer ∧ m = j then VK_IMAGE_LAYOUT_SHADER_READ_ONLY_OPTIMAL
          else (Cmd.blitImage image j (j + 1) layer w h (max (w / 2) 1)
            (max (h / 2) 1)).applyLayouts (fun l m => if l = layer ∧ m = j then
              VK_IMAGE_LAYOUT_TRANSFER_SRC_OPTIMAL else layouts l m) l m) =
          (fun l m => if l = layer ∧ j ≤ m ∧ m < j + (n + 1) then
            VK_IMAGE_LAYOUT_SHADER_READ_ONLY_OPTIMAL else layouts l m) := by
        funext l m
        simp only [Cmd.applyLayouts]
        by_cases h1 : l = layer ∧ j + 1 ≤ m ∧ m < j + 1 + n
        · rw [if_pos h1, if_pos (by omega)]
        · rw [if_neg h1]
          by_cases h2 : l = layer ∧ m = j
          · rw [if_pos h2, if_pos (by omega)]
          · rw [if_neg h2, if_neg h2, if_neg (by omega)]
      rw [e]
      simp [hj, hj1, Cmd.layoutsAgree, Cmd.applyLayouts, VK_IMAGE_LAYOUT_TRANSFER_DST_OPTIMAL,
        VK_IMAGE_LAYOUT_TRANSFER_SRC_OPTIMAL]
    · intro m h1 h2
      simp only [Cmd.applyLayouts]
      rw [if_neg (by omega), if_neg (by omega)]
      exact hl m (by omega) (by omega)

/-- The commands recorded for one layer (level loop, then the last-level barrier on that
layer), when the levels of the layer are in transfer-destination layout: every command
agrees with the layouts and all levels of the layer end in shader-read layout. -/
theorem runLayouts_layer (image layer levels w h : Nat) (layouts : ImageLayouts)
    (rest : List Cmd) (hL : 1 ≤ levels)
    (hl : ∀ m, m < levels → layouts layer m = VK_IMAGE_LAYOUT_TRANSFER_DST_OPTIMAL) :
    runLayouts layouts (mipChain image layer (levels - 1) 1 w h ++
      [.pipelineBarrier (levels - 1) 1 layer 1
        VK_IMAGE_LAYOUT_TRANSFER_DST_OPTIMAL VK_IMAGE_LAYOUT_SHADER_READ_ONLY_OPTIMAL] ++ rest) =
      runLayouts (fun l m => if l = layer ∧ m < levels then
        VK_IMAGE_LAYOUT_SHADER_READ_ONLY_OPTIMAL else layouts l m) rest := by
  rw [List.append_assoc, runLayouts_mipChain image layer (levels - 1) 0 w h layouts _
    (fun m _ h2 => hl m (by omega))]
  rw [List.singleton_append, runLayouts_cons, layoutsAgree_barrier_one,
    applyLayouts_barrier_one]
  have e : (fun l m => if l = layer ∧ m = levels - 1 then VK_IMAGE_LAYOUT_SHADER_READ_ONLY_OPTIMAL
      else if l = layer ∧ 0 ≤ m ∧ m < 0 + (levels - 1) then
        VK_IMAGE_LAYOUT_SHADER_READ_ONLY_OPTIMAL else layouts l m) =
      (fun l m => if l = layer ∧ m < levels then
        VK_IMAGE_LAYOUT_SHADER_READ_ONLY_OPTIMAL else layouts l m) := by
    funext l m
    by_cases h1 : l = layer ∧ m = levels - 1
    · rw [if_pos h1, if_pos (by omega)]
    · rw [if_neg h1]
      by_cases h2 : l = layer ∧ 0 ≤ m ∧ m < 0 + (levels - 1)
      · rw [if_pos h2, if_pos (by omega)]
      · rw [if_neg h2, if_neg (by omega)]
  rw [e]
  have h3 : (if layer = layer ∧ 0 ≤ levels - 1 ∧ levels - 1 < 0 + (levels - 1) then
      VK_IMAGE_LAYOUT_SHADER_READ_ONLY_OPTIMAL else layouts layer (levels - 1)) =
      VK_IMAGE_LAYOUT_TRANSFER_DST_OPTIMAL := by
    rw [if_neg (by omega)]
    exact hl _ (by omega)
  rw [h3]
  simp

/-- With at least two levels the commands of `generateMipmapsCube` for the layers `layer`,
..., `layer + n - 1` are one per-layer sequence after the other. -/
theorem cubeMipCmds_eq_flatMap (self : Texture) (w h : Nat) (hL : 1 < self.m_mipLevels) :
    ∀ (n layer : Nat), cubeMipCmds self w h n layer =
      (List.range n).flatMap fun k =>
        mipChain self.m_image (layer + k) (self.m_mipLevels - 1) 1 w h ++
          [.pipelineBarrier (self.m_mipLevels - 1) 1 (layer + k) 1
            VK_IMAGE_LAYOUT_TRANSFER_DST_OPTIMAL VK_IMAGE_LAYOUT_SHADER_READ_ONLY_OPTIMAL]
  | 0, _ => rfl
  | n + 1, layer => by
    rw [cubeMipCmds, cubeMipCmds_eq_flatMap self w h hL n (layer + 1), if_pos hL,
      List.range_succ_eq_map, List.flatMap_cons, List.flatMap_map]
    simp only [Nat.add_zero, Function.comp, Nat.succ_eq_add_one]
    congr 1
    apply List.flatMap_congr
    intro k _
    rw [show layer + 1 + k = layer + (k + 1) by omega]

/-- Running the commands of `generateMipmapsCube` for the layers `layer`, ...,
`layer + n - 1` when the image has at least two levels. -/
theorem runLayouts_cubeMipCmds (self : Texture) (w h : Nat) (hL : 1 < self.m_mipLevels) :
    ∀ (n layer : Nat) (layouts : ImageLayouts),
    (∀ l m, layer ≤ l → l < layer + n → m < self.m_mipLevels →
      layouts l m = VK_IMAGE_LAYOUT_TRANSFER_DST_OPTIMAL) →
    runLayouts layouts (cubeMipCmds self w h n layer) =
      (true, fun l m => if layer ≤ l ∧ l < layer + n ∧ m < self.m_mipLevels then
        VK_IMAGE_LAYOUT_SHADER_READ_ONLY_OPTIMAL else layouts l m)
  | 0, layer, layouts, _ => by
    have e : (fun l m => if layer ≤ l ∧ l < layer + 0 ∧ m < self.m_mipLevels then
        VK_IMAGE_LAYOUT_SHADER_READ_ONLY_OPTIMAL else layouts l m) = layouts := by
      funext l m
      rw [if_neg (by omega)]
    rw [e]
    rfl
  | n + 1, layer, layouts, hl => by
    rw [cubeMipCmds, if_pos hL, runLayouts_layer _ _ _ _ _ _ _ (by omega)
      (fun m hm => hl layer m (le_refl _) (by omega) hm)]
    rw [runLayouts_cubeMipCmds self w h hL n (layer + 1)]
    · congr 1
      funext l m
      by_cases h1 : layer + 1 ≤ l ∧ l < layer + 1 + n ∧ m < self.m_mipLevels
      · rw [if_pos h1, if_pos (by omega)]
      · rw [if_neg h1]
        by_cases h2 : l = layer ∧ m < self.m_mipLevels
        · rw [if_pos h2, if_pos (by omega)]
        · rw [if_neg h2, if_neg (by omega)]
    · intro l m h1 h2 h3
      rw [if_neg (by omega)]
      exact hl l m (by omega) (by omega) h3

/-- C22: the barriers and blits of `Texture::generateMipmaps` agree with the layouts
(every barrier declares the actual layout of its level as `oldLayout`, every blit reads
a transfer-source level and writes a transfer-destination level) and leave every level in
shader-read layout, for every texture with at least one level whose levels start in
transfer-destination layout; the same holds for `Cubemap::generateMipmapsCube` on all six
layers when the cubemap has at least two levels, where it records the texture's sequence
once per layer. With a single level (1 x 1 faces) `generateMipmapsCube` records its six
last-level barriers all on array layer 0, because `baseArrayLayer` is only assigned inside
the level loop: the second barrier declares transfer-destination for a subresource that is
already in shader-read layout, and the layers 1 to 5 stay in transfer-destination
layout. -/
theorem generateMipmaps_layouts :
    (∀ (format width height : Nat) (self : Texture) (gpu : Gpu) (layouts : ImageLayouts),
      1 ≤ self.m_mipLevels →
      (∀ m, m < self.m_mipLevels → layouts 0 m = VK_IMAGE_LAYOUT_TRANSFER_DST_OPTIMAL) →
      ∃ cmds, (self.generateMipmaps format width height gpu).commands = gpu.commands ++ cmds ∧
        (runLayouts layouts cmds).1 = true ∧
        ∀ m, m < self.m_mipLevels →
          (runLayouts layouts cmds).2 0 m = VK_IMAGE_LAYOUT_SHADER_READ_ONLY_OPTIMAL) ∧
    (∀ (device : Device) (format width height : Nat) (self : Texture) (gpu : Gpu)
      (layouts : ImageLayouts),
      2 ≤ self.m_mipLevels →
      (device.optimalTilingFeatures format &&&
        VK_FORMAT_FEATURE_SAMPLED_IMAGE_FILTER_LINEAR_BIT) ≠ 0 →
      (∀ l m, l < 6 → m < self.m_mipLevels →
        layouts l m = VK_IMAGE_LAYOUT_TRANSFER_DST_OPTIMAL) →
      ∃ cmds, Cubemap.generateMipmapsCube device format width height self gpu =
          (.ok (), { gpu with commands := gpu.commands ++ cmds }) ∧
        cmds = (List.range 6).flatMap (fun layer =>
          mipChain self.m_image layer (self.m_mipLevels - 1) 1 width height ++
            [.pipelineBarrier (self.m_mipLevels - 1) 1 layer 1
              VK_IMAGE_LAYOUT_TRANSFER_DST_OPTIMAL VK_IMAGE_LAYOUT_SHADER_READ_ONLY_OPTIMAL]) ∧
        (runLayouts layouts cmds).1 = true ∧
        ∀ l m, l < 6 → m < self.m_mipLevels →
          (runLayouts layouts cmds).2 l m = VK_IMAGE_LAYOUT_SHADER_READ_ONLY_OPTIMAL) ∧
    (Cubemap.generateMipmapsCube okDevice VK_FORMAT_R8G8B8A8_SRGB 1 1 oneLevelCube Gpu.empty =
        (.ok (), ⟨[], 0, sixLayerZeroBarriers⟩) ∧
      (runLayouts allTransferDst sixLayerZeroBarriers).1 = false ∧
      ∀ l, 1 ≤ l → l < 6 →
        (runLayouts allTransferDst sixLayerZeroBarriers).2 l 0 =
          VK_IMAGE_LAYOUT_TRANSFER_DST_OPTIMAL) := by
  refine ⟨?_, ?_, ?_, ?_, ?_⟩
  · intro format width height self gpu layouts hL hl
    refine ⟨_, rfl, ?_⟩
    have h := runLayouts_layer self.m_image 0 self.m_mipLevels width height layouts [] hL hl
    rw [List.append_nil] at h
    rw [h]
    refine ⟨by rfl, ?_⟩
    intro m hm
    simp [runLayouts, hm]
  · intro device format width height self gpu layouts hL hf hl
    refine ⟨cubeMipCmds self width height 6 0, ?_, ?_, ?_⟩
    · simp only [Cubemap.generateMipmapsCube, if_neg hf, Gpu.submitSingleTime]
    · rw [cubeMipCmds_eq_flatMap self width height (by omega) 6 0]
      simp only [Nat.zero_add]
    · rw [runLayouts_cubeMipCmds self width height (by omega) 6 0 layouts
        (fun l m _ h2 h3 => hl l m (by omega) h3)]
      refine ⟨by rfl, ?_⟩
      intro l m h1 h2
      simp only
      rw [if_pos (by omega)]
  · rfl
  · rfl
  · intro l h1 h2
    interval_cases l <;> rfl

section loadNodesThms
variable {α : Type} [CommRing α]

theorem lastParent_cases (children : Nat → List Int) (c : Nat) (init : Int) :
    ∀ k, lastParent children c init k = init ∨
      ∃ p, p < k ∧ lastParent children c init k = (p : Int) ∧ (c : Int) ∈ children p
  | 0 => Or.inl rfl
  | k + 1 => by
    rw [lastParent]
    by_cases h : (c : Int) ∈ children k
    · rw [if_pos h]
      exact Or.inr ⟨k, by omega, rfl, h⟩
    · rw [if_neg h]
      rcases lastParent_cases children c init k with h1 | ⟨p, hp, h1, h2⟩
      · exact Or.inl h1
      · exact Or.inr ⟨p, by omega, h1, h2⟩

theorem lastParent_of_not_mem (children : Nat → List Int) (c : Nat) (init : Int) :
    ∀ k, (∀ p, p < k → (c : Int) ∉ children p) → lastParent children c init k = init
  | 0, _ => rfl
  | k + 1, h => by
    rw [lastParent, if_neg (h k (by omega))]
    exact lastParent_of_not_mem children c init k fun p hp => h p (by omega)

theorem lastParent_of_unique (children : Nat → List Int) (c : Nat) (init : Int) (p : Nat)
    (hp : (c : Int) ∈ children p) :
    ∀ k, p < k → (∀ q, q < k → (c : Int) ∈ children q → q = p) →
      lastParent children c init k = (p : Int)
  | 0, h, _ => by omega
  | k + 1, h, hu => by
    rw [lastParent]
    by_cases hk : (c : Int) ∈ children k
    · rw [if_pos hk, hu k (by omega) hk]
    · rw [if_neg hk]
      have hne : p ≠ k := fun e => hk (e ▸ hp)
      exact lastParent_of_unique children c init p hp k (by omega)
        fun q hq hc => hu q (by omega) hc

theorem length_setParent (i : Nat) (nodes : List (GltfNode α)) (childIndex : Int) :
    (setParent i nodes childIndex).length = nodes.length := by
  unfold setParent
  split_ifs <;> simp

theorem getElem?_setParent (i : Nat) (nodes : List (GltfNode α)) (childIndex : Int) (c : Nat) :
    (setParent i nodes childIndex)[c]? =
      (nodes[c]?).map fun n => if childIndex = (c : Int) then { n with parent := (i : Int) }
        else n := by
  unfold setParent
  by_cases h : 0 ≤ childIndex ∧ childIndex < (nodes.length : Int)
  · rw [if_pos h, List.getElem?_modify]
    by_cases hc : childIndex = (c : Int)
    · have e : childIndex.toNat = c := by omega
      simp [hc, e]
    · have e : childIndex.toNat ≠ c := by omega
      simp [hc, e]
  · rw [if_neg h]
    by_cases hc : childIndex = (c : Int)
    · have e : nodes.length ≤ c := by omega
      rw [List.getElem?_eq_none e]
      rfl
    · simp [hc]

theorem getElem?_foldl_setParent (i : Nat) (c : Nat) : ∀ (chs : List Int)
    (nodes : List (GltfNode α)),
    (chs.foldl (setParent i) nodes)[c]? =
      (nodes[c]?).map fun n => if (c : Int) ∈ chs then { n with parent := (i : Int) } else n
  | [], nodes => by simp
  | ch :: chs, nodes => by
    rw [List.foldl_cons, getElem?_foldl_setParent i c chs, getElem?_setParent]
    cases nodes[c]? with
    | none => rfl
    | some n =>
      simp only [Option.map_some']
      by_cases h1 : (c : Int) ∈ chs
      · rw [if_pos h1, if_pos (List.mem_cons_of_mem _ h1)]
        split_ifs <;> rfl
      · rw [if_neg h1]
        by_cases h2 : ch = (c : Int)
        · rw [if_pos h2, if_pos (by rw [h2]; exact List.mem_cons_self _ _)]
        · rw [if_neg h2, if_neg (by
            rw [List.mem_cons]
            exact fun e => e.elim (fun e => h2 e.symm) h1)]

/-- The second pass after the nodes `0 .. k - 1`: only parent fields changed, and node
`c` holds the `lastParent` of its original children lists. -/
theorem getElem?_secondPass_steps (nodes : List (GltfNode α)) (c : Nat) : ∀ k,
    ((List.range k).foldl
      (fun ns i => ((ns[i]?.map (fun n => n.children)).getD []).foldl (setParent i) ns)
      nodes)[c]? =
    (nodes[c]?).map fun n => { n with parent :=
      (lastParent (fun p => (nodes[p]?.map (fun n => n.children)).getD []) c n.parent k) }
  | 0 => by
    rw [List.range_zero, List.foldl_nil]
    cases nodes[c]? <;> rfl
  | k + 1 => by
    rw [List.range_succ, List.foldl_append, List.foldl_cons, List.foldl_nil,
      getElem?_foldl_setParent, getElem?_secondPass_steps nodes k k,
      getElem?_secondPass_steps nodes c k]
    cases nodes[c]? with
    | none => rfl
    | some n =>
      have e : ((Option.map (fun n : GltfNode α => { n with parent :=
          (lastParent (fun p => (nodes[p]?.map (fun (n : GltfNode α) => n.children)).getD [])
            k n.parent k) })
            nodes[k]?).map (fun n => n.children)).getD [] =
          (nodes[k]?.map (fun n => n.children)).getD [] := by
        cases nodes[k]? <;> rfl
      rw [e]
      simp only [Option.map_some', lastParent]
      split_ifs <;> rfl

theorem getElem?_loadNodesSecondPass (nodes : List (GltfNode α)) (c : Nat) :
    (loadNodesSecondPass nodes)[c]? =
      (nodes[c]?).map fun n => { n with parent :=
        (lastParent (fun p => (nodes[p]?.map (fun n => n.children)).getD []) c n.parent
          nodes.length) } :=
  getElem?_secondPass_steps nodes c nodes.length

theorem loadNodeProperties_fields (i : Nat) (gltfNode : tinygltf.Node α) (node : GltfNode α) :
    (loadNodeProperties i gltfNode node).index = (i : Int) ∧
    (loadNodeProperties i gltfNode node).children = gltfNode.children ∧
    (loadNodeProperties i gltfNode node).parent = node.parent := by
  refine ⟨?_, ?_, ?_⟩ <;> simp only [loadNodeProperties] <;> (try split_ifs) <;> trivial

theorem getElem?_loadNodesFirstPass : ∀ (gs : List (tinygltf.Node α)) (ns : List (GltfNode α))
    (i k : Nat), gs.length = ns.length →
    (loadNodesFirstPass i gs ns)[k]? =
      match gs[k]?, ns[k]? with
      | some g, some n => some (loadNodeProperties (i + k) g n)
      | _, _ => none
  | [], [], _, _, _ => rfl
  | [], _ :: _, _, _, h => by simp at h
  | _ :: _, [], _, _, h => by simp at h
  | g :: gs, n :: ns, i, 0, _ => by simp [loadNodesFirstPass]
  | g :: gs, n :: ns, i, k + 1, h => by
    rw [loadNodesFirstPass, List.getElem?_cons_succ, List.getElem?_cons_succ,
      List.getElem?_cons_succ, getElem?_loadNodesFirstPass gs ns (i + 1) k (by simpa using h),
      show i + 1 + k = i + (k + 1) by omega]

theorem length_resizeNodes (v : List (GltfNode α)) (n : Nat) :
    (resizeNodes v n).length = n := by
  simp only [resizeNodes, List.length_append, List.length_take, List.length_replicate]
  omega

theorem parent_resizeNodes (v : List (GltfNode α)) (n : Nat)
    (hv : ∀ x ∈ v, x.parent = -1) : ∀ x ∈ resizeNodes v n, x.parent = -1 := by
  intro x hx
  simp only [resizeNodes, List.mem_append, List.mem_replicate] at hx
  rcases hx with hx | ⟨_, hx⟩
  · exact hv x (List.mem_of_mem_take hx)
  · rw [hx]; rfl

end loadNodesThms

section loadNodesClaim
variable {α : Type} [CommRing α]

theorem length_foldl_setParent (i : Nat) : ∀ (chs : List Int) (nodes : List (GltfNode α)),
    (chs.foldl (setParent i) nodes).length = nodes.length
  | [], _ => rfl
  | ch :: chs, nodes => by
    rw [List.foldl_cons, length_foldl_setParent i chs, length_setParent]

theorem length_loadNodesSecondPass (nodes : List (GltfNode α)) :
    (loadNodesSecondPass nodes).length = nodes.length := by
  unfold loadNodesSecondPass
  generalize List.range nodes.length = r
  induction r using List.reverseRecOn with
  | nil => rfl
  | append_singleton r i ih =>
    rw [List.foldl_append, List.foldl_cons, List.foldl_nil, length_foldl_setParent, ih]

theorem length_loadNodesFirstPass : ∀ (gs : List (tinygltf.Node α)) (ns : List (GltfNode α))
    (i : Nat), gs.length = ns.length → (loadNodesFirstPass i gs ns).length = gs.length
  | [], [], _, _ => rfl
  | [], _ :: _, _, h => by simp at h
  | _ :: _, [], _, h => by simp at h
  | g :: gs, n :: ns, i, h => by
    rw [loadNodesFirstPass, List.length_cons, List.length_cons,
      length_loadNodesFirstPass gs ns (i + 1) (by simpa using h)]

/-- The nodes `loadNodes` leaves in a model whose nodes had no parent before: as many as
the document has, node `c` carries its position as index, the children list of document
node `c`, and as parent the last document node that lists `c`. -/
theorem loadNodes_nodes (self : GltfModel α) (model : tinygltf.Model α)
    (hfresh : ∀ x ∈ self.m_nodes, x.parent = -1) :
    (self.loadNodes model).m_nodes.length = model.nodes.length ∧
    ∀ (c : Nat) (g : tinygltf.Node α), model.nodes[c]? = some g →
      ∃ node : GltfNode α, (self.loadNodes model).m_nodes[c]? = some node ∧
        node.index = (c : Int) ∧ node.children = g.children ∧
        node.parent = lastParent
          (fun (p : Nat) => (model.nodes[p]?.map (fun (n : tinygltf.Node α) => n.children)).getD [])
          c (-1) model.nodes.length := by
  have hlen1 : (loadNodesFirstPass 0 model.nodes
      (resizeNodes self.m_nodes model.nodes.length)).length = model.nodes.length :=
    length_loadNodesFirstPass _ _ 0 (length_resizeNodes _ _).symm
  have hfirst : ∀ (c : Nat) (g : tinygltf.Node α), model.nodes[c]? = some g →
      ∃ n : GltfNode α, (loadNodesFirstPass 0 model.nodes
        (resizeNodes self.m_nodes model.nodes.length))[c]? = some n ∧
        n.index = (c : Int) ∧ n.children = g.children ∧ n.parent = -1 := by
    intro c g hg
    have hc : c < (resizeNodes self.m_nodes model.nodes.length).length := by
      rw [length_resizeNodes]
      exact (List.getElem?_eq_some.mp hg).1
    rw [getElem?_loadNodesFirstPass _ _ 0 c (length_resizeNodes _ _).symm, hg,
      List.getElem?_eq_getElem hc, Nat.zero_add]
    refine ⟨_, rfl, ?_⟩
    have hf := loadNodeProperties_fields c g
      ((resizeNodes self.m_nodes model.nodes.length)[c])
    exact ⟨hf.1, hf.2.1,
      hf.2.2.trans (parent_resizeNodes _ _ hfresh _ (List.getElem_mem hc))⟩
  have hchildren : (fun (p : Nat) => (((loadNodesFirstPass 0 model.nodes
      (resizeNodes self.m_nodes model.nodes.length))[p]?).map
        (fun (n : GltfNode α) => n.children)).getD []) =
      (fun (p : Nat) => (model.nodes[p]?.map (fun (n : tinygltf.Node α) => n.children)).getD []) := by
    funext p
    cases hp : model.nodes[p]? with
    | none =>
      have h1 : model.nodes.length ≤ p := List.getElem?_eq_none_iff.mp hp
      rw [List.getElem?_eq_none (by rw [hlen1]; exact h1)]
      rfl
    | some g =>
      obtain ⟨n, hn, _, hch, _⟩ := hfirst p g hp
      rw [hn]
      exact hch
  refine ⟨?_, ?_⟩
  · show (loadNodesSecondPass _).length = _
    rw [length_loadNodesSecondPass, hlen1]
  · intro c g hg
    obtain ⟨n, hn, hidx, hch, hpar⟩ := hfirst c g hg
    refine ⟨{ n with parent := (lastParent
      (fun (p : Nat) => (model.nodes[p]?.map (fun (n : tinygltf.Node α) => n.children)).getD [])
      c (-1) model.nodes.length) }, ?_, hidx, hch, rfl⟩
    show (loadNodesSecondPass _)[c]? = _
    rw [getElem?_loadNodesSecondPass, hn, hchildren, hlen1, Option.map_some', hpar]

/-- C23 (amended): after `GltfModel::loadNodes` on a model whose nodes (if any) had no
parent, the model has one node per document node, and for every node `c`: its index field
is its position and its children list is the document's; its parent is -1 or the index
`p` of a node of the model whose children list names `c`; when no children list names `c`
its parent is -1; and when at most one node lists `c`, its parent equals `p` exactly when
the children list of node `p` names `c`. -/
theorem loadNodes_parent_links (self : GltfModel α) (model : tinygltf.Model α)
    (hfresh : ∀ x ∈ self.m_nodes, x.parent = -1) :
    (self.loadNodes model).m_nodes.length = model.nodes.length ∧
    ∀ (c : Nat) (g : tinygltf.Node α), model.nodes[c]? = some g →
      ∃ node : GltfNode α, (self.loadNodes model).m_nodes[c]? = some node ∧
        node.index = (c : Int) ∧ node.children = g.children ∧
        (node.parent = -1 ∨ ∃ (p : Nat) (parentNode : GltfNode α),
          node.parent = (p : Int) ∧ (self.loadNodes model).m_nodes[p]? = some parentNode ∧
          (c : Int) ∈ parentNode.children) ∧
        ((∀ (p : Nat) (parentNode : GltfNode α),
            (self.loadNodes model).m_nodes[p]? = some parentNode →
            (c : Int) ∉ parentNode.children) → node.parent = -1) ∧
        ((∀ (p q : Nat) (n1 n2 : GltfNode α),
            (self.loadNodes model).m_nodes[p]? = some n1 →
            (self.loadNodes model).m_nodes[q]? = some n2 →
            (c : Int) ∈ n1.children → (c : Int) ∈ n2.children → p = q) →
          ∀ (p : Nat) (parentNode : GltfNode α),
            (self.loadNodes model).m_nodes[p]? = some parentNode →
            (node.parent = (p : Int) ↔ (c : Int) ∈ parentNode.children)) := by
  obtain ⟨hlen, hnodes⟩ := loadNodes_nodes self model hfresh
  refine ⟨hlen, ?_⟩
  -- the children lists of the loaded nodes are those of the document
  have hdoc : ∀ (p : Nat) (parentNode : GltfNode α),
      (self.loadNodes model).m_nodes[p]? = some parentNode →
      p < model.nodes.length ∧
      (model.nodes[p]?.map (fun (n : tinygltf.Node α) => n.children)).getD [] =
        parentNode.children := by
    intro p parentNode hp
    have hlt : p < model.nodes.length := hlen ▸ (List.getElem?_eq_some.mp hp).1
    obtain ⟨node, hnode, _, hch, _⟩ := hnodes p _ (List.getElem?_eq_getElem hlt)
    rw [hp] at hnode
    cases hnode
    rw [List.getElem?_eq_getElem hlt]
    exact ⟨hlt, hch.symm⟩
  have hload : ∀ p, p < model.nodes.length → ∃ parentNode : GltfNode α,
      (self.loadNodes model).m_nodes[p]? = some parentNode ∧
      (model.nodes[p]?.map (fun (n : tinygltf.Node α) => n.children)).getD [] =
        parentNode.children := by
    intro p hlt
    obtain ⟨node, hnode, _, hch, _⟩ := hnodes p _ (List.getElem?_eq_getElem hlt)
    refine ⟨node, hnode, ?_⟩
    rw [List.getElem?_eq_getElem hlt]
    exact hch.symm
  intro c g hg
  obtain ⟨node, hnode, hidx, hch, hpar⟩ := hnodes c g hg
  refine ⟨node, hnode, hidx, hch, ?_, ?_, ?_⟩
  · rcases lastParent_cases
      (fun (p : Nat) => (model.nodes[p]?.map (fun (n : tinygltf.Node α) => n.children)).getD [])
      c (-1) model.nodes.length with h | ⟨p, hp, h1, h2⟩
    · exact Or.inl (hpar.trans h)
    · obtain ⟨parentNode, hpn, hpc⟩ := hload p hp
      exact Or.inr ⟨p, parentNode, hpar.trans h1, hpn, hpc ▸ h2⟩
  · intro hno
    rw [hpar]
    apply lastParent_of_not_mem
    intro p hp hmem
    obtain ⟨parentNode, hpn, hpc⟩ := hload p hp
    exact hno p parentNode hpn (hpc ▸ hmem)
  · intro huniq p parentNode hp
    obtain ⟨hlt, hpc⟩ := hdoc p parentNode hp
    constructor
    · intro hpp
      rcases lastParent_cases
        (fun (p : Nat) => (model.nodes[p]?.map (fun (n : tinygltf.Node α) => n.children)).getD [])
        c (-1) model.nodes.length with h | ⟨q, hq, h1, h2⟩
      · rw [hpar, h] at hpp
        omega
      · rw [hpar, h1] at hpp
        have e : q = p := by omega
        subst e
        exact hpc ▸ h2
    · intro hmem
      rw [hpar]
      apply lastParent_of_unique _ _ _ p (hpc ▸ hmem) _ hlt
      intro q hq hmemq
      obtain ⟨n2, hn2, hqc⟩ := hload q hq
      exact huniq q p n2 parentNode hn2 hp (hqc ▸ hmemq) hmem

end loadNodesClaim

/-- C23 (counterexample): the model `chainModel` holds three nodes of an earlier load, with
the parents -1, 0 and 1, and loads a document of three nodes without children.
`loadNodes` returns; no children list names node 1 or node 2, and yet their parents are
still 0 and 1 instead of -1, and node 0, the parent of node 1, does not list node 1. -/
theorem loadNodes_keeps_stale_parent :
    (chainModel.m_nodes.map fun n => n.parent) = [-1, 0, 1] ∧
    (flatDoc.nodes.map fun n => n.children) = [[], [], []] ∧
    ((chainModel.loadNodes flatDoc).m_nodes.map fun n => (n.index, n.parent, n.children)) =
      [(0, -1, []), (1, 0, []), (2, 1, [])] := by
  decide

/-- The document `familyDoc` loaded into `rootModel`, whose one node has no parent: the
loaded model has three nodes, and node 1 carries index 1, the empty children list of the
document and the parent 0, the one node that lists it. -/
theorem loadNodes_parent_links_witness :
    (rootModel.m_nodes ≠ [] ∧ ∀ x ∈ rootModel.m_nodes, x.parent = -1) ∧
    (rootModel.loadNodes familyDoc).m_nodes.length = familyDoc.nodes.length ∧
    ∃ node parentNode : GltfNode Int,
      (rootModel.loadNodes familyDoc).m_nodes[1]? = some node ∧
      (rootModel.loadNodes familyDoc).m_nodes[0]? = some parentNode ∧
      node.index = ((1 : Nat) : Int) ∧ node.children = (docNode []).children ∧
      node.parent = ((0 : Nat) : Int) ∧ (((1 : Nat) : Int)) ∈ parentNode.children := by
  have hfresh : ∀ x ∈ rootModel.m_nodes, x.parent = -1 := by
    intro x hx
    simp only [rootModel, List.mem_singleton] at hx
    rw [hx]
    rfl
  obtain ⟨hlen, h⟩ := loadNodes_parent_links rootModel familyDoc hfresh
  obtain ⟨node, h1, h2, h3, _, _, h6⟩ := h 1 (docNode []) rfl
  obtain ⟨parentNode, p1, _, p3, _⟩ := h 0 (docNode [1, 2]) rfl
  have hmem : ((1 : Nat) : Int) ∈ parentNode.children := by
    rw [p3]
    decide
  refine ⟨⟨by decide, hfresh⟩, hlen, node, parentNode, h1, p1, h2, h3, ?_, hmem⟩
  refine (h6 ?_ 0 parentNode p1).2 hmem
  intro p q n1 n2 hp hq m1 m2
  have key : ∀ (p : Nat) (n : GltfNode Int),
      (rootModel.loadNodes familyDoc).m_nodes[p]? = some n →
      ((1 : Nat) : Int) ∈ n.children → p = 0 := by
    intro p n hp hm
    have hlt : p < 3 := by
      have := (List.getElem?_eq_some.mp hp).1
      rw [hlen] at this
      exact this
    interval_cases p
    · rfl
    · obtain ⟨n', a1, _, a3, _⟩ := h 1 (docNode []) rfl
      rw [hp] at a1
      cases a1
      rw [a3] at hm
      cases hm
    · obtain ⟨n', a1, _, a3, _⟩ := h 2 (docNode []) rfl
      rw [hp] at a1
      cases a1
      rw [a3] at hm
      cases hm
  rw [key p n1 hp m1, key q n2 hq m2]

section forest
variable {α : Type} [CommRing α]

/-- The parent of a loaded node is -1 or a node of the model that lists it as child. -/
theorem loadNodes_parent_cases (self : GltfModel α) (model : tinygltf.Model α)
    (hfresh : ∀ x ∈ self.m_nodes, x.parent = -1) (c : Nat) (node : GltfNode α)
    (hc : (self.loadNodes model).m_nodes[c]? = some node) :
    node.parent = -1 ∨ ∃ (p : Nat) (parentNode : GltfNode α),
      node.parent = (p : Int) ∧ (self.loadNodes model).m_nodes[p]? = some parentNode ∧
      (c : Int) ∈ parentNode.children := by
  obtain ⟨hlen, hnodes⟩ := loadNodes_nodes self model hfresh
  have hlt : c < model.nodes.length := hlen ▸ (List.getElem?_eq_some.mp hc).1
  obtain ⟨node', hnode', _, _, hpar⟩ := hnodes c _ (List.getElem?_eq_getElem hlt)
  rw [hc] at hnode'
  cases hnode'
  rcases lastParent_cases
    (fun (p : Nat) => (model.nodes[p]?.map (fun (n : tinygltf.Node α) => n.children)).getD [])
    c (-1) model.nodes.length with h | ⟨p, hp, h1, h2⟩
  · exact Or.inl (hpar.trans h)
  · obtain ⟨parentNode, hpn, _, hch, _⟩ := hnodes p _ (List.getElem?_eq_getElem hp)
    refine Or.inr ⟨p, parentNode, hpar.trans h1, hpn, ?_⟩
    rw [hch]
    simpa [List.getElem?_eq_getElem hp] using h2

theorem loadNodes_parentsListed (self : GltfModel α) (model : tinygltf.Model α)
    (hfresh : ∀ x ∈ self.m_nodes, x.parent = -1) :
    ParentsListed (self.loadNodes model).m_nodes := by
  intro x p hp
  cases hx : (self.loadNodes model).m_nodes[x]? with
  | none => simp [parentLink, hx] at hp
  | some node =>
    rw [parentLink_of_getElem? hx] at hp
    split at hp
    · rename_i hr
      cases hp
      rcases loadNodes_parent_cases self model hfresh x node hx with h | ⟨q, parentNode, h1, h2, h3⟩
      · omega
      · refine ⟨parentNode, ?_, h3⟩
        rw [h1]
        simpa using h2
    · cases hp

theorem childrenEnd_pos {nodes : List (GltfNode α)} {fuel : Nat} {i : Int}
    (h : childrenEnd nodes fuel i = true) : 0 < fuel := by
  cases fuel with
  | zero => simp [childrenEnd] at h
  | succ n => omega

theorem childrenEnd_child {nodes : List (GltfNode α)} {fuel p : Nat} {node : GltfNode α}
    {x : Int} (hp : nodes[p]? = some node) (hx : x ∈ node.children)
    (h : childrenEnd nodes (fuel + 1) (p : Int) = true) : childrenEnd nodes fuel x = true := by
  have hlt : p < nodes.length := (List.getElem?_eq_some.mp hp).1
  unfold childrenEnd at h
  rw [if_neg (by omega)] at h
  simp only [Int.toNat_ofNat, hp, List.all_eq_true] at h
  exact h x hx

/-- A chain of `j` parent links from `x` up to `y` is a chain of child links from `y` down
to `x`: it uses up `j` units of the fuel with which the child chains from `y` end. -/
theorem childrenEnd_ancestor {nodes : List (GltfNode α)} (hl : ParentsListed nodes) :
    ∀ (j x y fuel : Nat), ancestor nodes j x = some y →
      childrenEnd nodes fuel (y : Int) = true →
      ∃ f, fuel = j + f ∧ childrenEnd nodes f (x : Int) = true
  | 0, x, y, fuel, ha, h => by
    simp only [ancestor, Option.some.injEq] at ha
    subst ha
    exact ⟨fuel, by omega, h⟩
  | j + 1, x, y, fuel, ha, h => by
    simp only [ancestor] at ha
    cases hp : parentLink nodes x with
    | none => rw [hp] at ha; cases ha
    | some p =>
      rw [hp] at ha
      obtain ⟨f, hf, hfp⟩ := childrenEnd_ancestor hl j p y fuel ha h
      obtain ⟨node, hnode, hmem⟩ := hl x p hp
      obtain ⟨f', rfl⟩ : ∃ f', f = f' + 1 := ⟨f - 1, by have := childrenEnd_pos hfp; omega⟩
      exact ⟨f', by omega, childrenEnd_child hnode hmem hfp⟩

/-- When parents are listed as such, children lists without cycle give parent links
without cycle. -/
theorem acyclic_of_childrenAcyclic {nodes : List (GltfNode α)} (hl : ParentsListed nodes)
    (hc : ChildrenAcyclic nodes) : Acyclic nodes := by
  rw [acyclic_iff_noCycle]
  intro i k hk hcyc
  have hi : i < nodes.length := by
    by_contra hge
    obtain ⟨k', rfl⟩ : ∃ k', k = k' + 1 := ⟨k - 1, by omega⟩
    simp [ancestor, parentLink_none_of_le (not_lt.1 hge)] at hcyc
  have hit := ancestor_cycle_iterate hcyc (nodes.length + 1)
  obtain ⟨f, hf, hfi⟩ := childrenEnd_ancestor hl _ i i _ hit (hc i hi)
  have := childrenEnd_pos hfi
  have : nodes.length + 1 ≤ (nodes.length + 1) * k := Nat.le_mul_of_pos_right _ hk
  omega

/-- The call `getWorldMatrix` returns, whatever the caches hold, when the chain of parent
links from the node ends within the fuel. -/
theorem getWorldMatrix_terminates (s0 : List (GltfNode α)) :
    ∀ k i s fuel, reachesRoot s0 k i = true → i < s0.length → SameShape s0 s → k ≤ fuel →
      ∃ w s', GltfNode.getWorldMatrix fuel s i = some (w, s') ∧ SameShape s0 s'
  | 0, _, _, _, h, _, _, _ => by simp [reachesRoot] at h
  | _ + 1, _, _, 0, _, _, _, hk => by omega
  | k + 1, i, s, fuel + 1, hr, hi, hsh, hk => by
    have hlen : s0.length = s.length := hsh.1
    have hi' : i < s.length := hlen ▸ hi
    obtain ⟨self, hself⟩ : ∃ self, s[i]? = some self :=
      ⟨s[i], List.getElem?_eq_getElem hi'⟩
    have hlink : parentLink s0 i = parentLink s i := hsh.parentLink_eq i
    simp only [GltfNode.getWorldMatrix, hself]
    cases hd : self.m_worldMatrixDirty with
    | false => exact ⟨self.m_worldMatrixCache, s, by simp, hsh⟩
    | true =>
      simp only [Bool.not_true, Bool.false_eq_true, if_false]
      rw [parentLink_of_getElem? hself] at hlink
      by_cases hc : 0 ≤ self.parent ∧ self.parent < (s.length : Int)
      · simp only [hc, and_self, if_true] at hlink ⊢
        simp only [reachesRoot, hlink] at hr
        have hp : self.parent.toNat < s0.length := parentLink_lt hlink
        obtain ⟨w1, s1, h1, hsh1⟩ :=
          getWorldMatrix_terminates s0 k self.parent.toNat s fuel hr hp hsh (by omega)
        rw [h1]
        exact ⟨_, _, rfl, hsh1.trans (sameShape_modify_storeWorld s1 _ i)⟩
      · simp only [hc, if_false]
        exact ⟨_, _, rfl, hsh.trans (sameShape_modify_storeWorld s _ i)⟩

end forest

section drawTermination
variable {α : Type} [CommRing α]

theorem childrenEnd_mono (nodes : List (GltfNode α)) :
    ∀ (f f' : Nat) (i : Int), f ≤ f' → childrenEnd nodes f i = true →
      childrenEnd nodes f' i = true
  | 0, _, _, _, h => by simp [childrenEnd] at h
  | _ + 1, 0, _, hf, _ => by omega
  | f + 1, f' + 1, i, hf, h => by
    unfold childrenEnd at h ⊢
    split_ifs at h ⊢ with hr
    · rfl
    · cases hn : nodes[i.toNat]? with
      | none => rfl
      | some node =>
        simp only [hn, List.all_eq_true] at h ⊢
        exact fun x hx => childrenEnd_mono nodes f f' x (by omega) (h x hx)

end drawTermination

section drawOrderThms
variable {α : Type} [CommRing α]

/-- Folding a step that appends `F c` to the accumulated commands gives the accumulated
commands followed by the `F c` in list order. -/
theorem foldl_option_flatMap {β γ : Type} (g : Option (List β) → γ → Option (List β))
    (F : γ → List β) : ∀ (cs : List γ) (init : List β),
    (∀ l c, c ∈ cs → g (some l) c = some (l ++ F c)) →
    cs.foldl g (some init) = some (init ++ cs.flatMap F)
  | [], init, _ => by simp
  | c :: cs, init, hg => by
    rw [List.foldl_cons, hg init c (List.mem_cons_self _ _),
      foldl_option_flatMap g F cs _ fun l c hc => hg l c (List.mem_cons_of_mem _ hc)]
    simp

theorem preorder_mono (nodes : List (GltfNode α)) :
    ∀ (f f' : Nat) (i : Int), f ≤ f' → childrenEnd nodes f i = true →
      preorder nodes f' i = preorder nodes f i
  | 0, _, _, _, h => by simp [childrenEnd] at h
  | _ + 1, 0, _, hf, _ => by omega
  | f + 1, f' + 1, i, hf, h => by
    unfold childrenEnd at h
    unfold preorder
    by_cases hr : 0 ≤ i ∧ i < (nodes.length : Int)
    · rw [if_pos hr, if_pos hr]
      rw [if_neg (by omega)] at h
      cases hn : nodes[i.toNat]? with
      | none => rfl
      | some node =>
        simp only [hn, List.all_eq_true] at h
        simp only [Option.map_some', Option.getD_some]
        congr 1
        apply List.flatMap_congr
        intro x hx
        exact preorder_mono nodes f f' x (by omega) (h x hx)
    · rw [if_neg hr, if_neg hr]

/-- The commands `drawNode` records for the mesh of node `nodeIndex` are the
`nodeCommands` of that node. -/
theorem meshCmds_eq_nodeCommands (self : GltfModel α) (nodeIndex : Int) (node : GltfNode α)
    (h0 : 0 ≤ nodeIndex) (hn : self.m_nodes[nodeIndex.toNat]? = some node) :
    (if node.meshIndex ≥ 0 ∧ node.meshIndex < (self.m_meshes.length : Int) then
      match self.m_meshes[node.meshIndex.toNat]? with
      | none => []
      | some mesh =>
        mesh.primitives.flatMap fun primitive =>
          RenderCmd.pushConstants nodeIndex primitive.materialIndex :: primitive.draw
    else []) = nodeCommands self nodeIndex.toNat := by
  unfold nodeCommands
  rw [hn]
  simp only [ge_iff_le]
  split_ifs with hm
  · cases self.m_meshes[node.meshIndex.toNat]? with
    | none => rfl
    | some mesh =>
      simp only [Option.map_some', Option.getD_some]
      apply List.flatMap_congr
      intro primitive _
      rw [Int.toNat_of_nonneg h0]
      unfold GltfPrimitive.draw
      cases primitive.isValid <;> rfl
  · rfl

/-- When the chains of child links from `nodeIndex` end within the fuel, `drawNode` returns
and records the commands of the visited nodes in pre-order. -/
theorem drawNode_eq_preorder (self : GltfModel α) :
    ∀ (fuel : Nat) (nodeIndex : Int), childrenEnd self.m_nodes fuel nodeIndex = true →
      self.drawNode fuel nodeIndex =
        some ((preorder self.m_nodes fuel nodeIndex).flatMap (nodeCommands self))
  | 0, _, h => by simp [childrenEnd] at h
  | fuel + 1, nodeIndex, h => by
    unfold childrenEnd at h
    unfold GltfModel.drawNode preorder
    by_cases hr : nodeIndex < 0 ∨ nodeIndex ≥ (self.m_nodes.length : Int)
    · rw [if_pos hr, if_neg (by omega)]
      rfl
    · rw [if_neg hr, if_pos (by omega)]
      rw [if_neg hr] at h
      have hlt : nodeIndex.toNat < self.m_nodes.length := by omega
      have hn : self.m_nodes[nodeIndex.toNat]? = some self.m_nodes[nodeIndex.toNat] :=
        List.getElem?_eq_getElem hlt
      generalize self.m_nodes[nodeIndex.toNat] = node at hn
      simp only [hn, List.all_eq_true] at h
      simp only [hn, Option.map_some', Option.getD_some]
      erw [meshCmds_eq_nodeCommands self nodeIndex node (by omega) hn]
      rw [foldl_option_flatMap _
          (fun c => (preorder self.m_nodes fuel c).flatMap (nodeCommands self))]
      · rw [List.flatMap_cons, List.flatMap_assoc]
      · intro l c hc
        simp only [drawNode_eq_preorder self fuel c (h c hc)]

/-- When the chains of child links from every root end within the fuel, `draw` returns and
records the commands of the nodes visited from the roots, in root-list order. -/
theorem draw_eq_preorder (self : GltfModel α) (fuel : Nat)
    (h : ∀ root ∈ self.m_rootNodes, childrenEnd self.m_nodes fuel root = true) :
    self.draw fuel =
      some ((self.m_rootNodes.flatMap (preorder self.m_nodes fuel)).flatMap
        (nodeCommands self)) := by
  unfold GltfModel.draw
  rw [foldl_option_flatMap _
    (fun c => (preorder self.m_nodes fuel c).flatMap (nodeCommands self))]
  · rw [List.nil_append, List.flatMap_assoc]
  · intro l c hc
    have hpos := childrenEnd_pos (h c hc)
    obtain ⟨f, rfl⟩ : ∃ f, fuel = f + 1 := ⟨fuel - 1, by omega⟩
    by_cases hr : c ≥ 0 ∧ c < (self.m_nodes.length : Int)
    · simp only [hr, and_self, if_true, drawNode_eq_preorder self _ c (h c hc)]
    · simp only [hr, if_false]
      have : preorder self.m_nodes (f + 1) c = [] := by
        unfold preorder
        rw [if_neg (by omega)]
      rw [this]
      simp

theorem childrenEnd_of_acyclic {nodes : List (GltfNode α)} (hc : ChildrenAcyclic nodes)
    (fuel : Nat) (hf : nodes.length + 1 ≤ fuel) (i : Int) :
    childrenEnd nodes fuel i = true := by
  by_cases hr : 0 ≤ i ∧ i < (nodes.length : Int)
  · have := hc i.toNat (by omega)
    rw [Int.toNat_of_nonneg hr.1] at this
    exact childrenEnd_mono nodes _ _ i hf this
  · obtain ⟨f, rfl⟩ : ∃ f, fuel = f + 1 := ⟨fuel - 1, by omega⟩
    unfold childrenEnd
    rw [if_pos (by omega)]

/-- Every node in the pre-order from `r` is `r` itself or reached from it through children
lists. -/
theorem preorder_reachable (nodes : List (GltfNode α)) :
    ∀ (d : Nat) (r : Int) (i : Nat), i ∈ preorder nodes d r →
      0 ≤ r ∧ Relation.ReflTransGen (IsChild nodes) r.toNat i
  | 0, _, _, h => by simp [preorder] at h
  | d + 1, r, i, h => by
    unfold preorder at h
    split_ifs at h with hr
    · refine ⟨hr.1, ?_⟩
      rcases List.mem_cons.mp h with h | h
      · rw [h]
      · obtain ⟨c, hc, hi⟩ := List.mem_flatMap.mp h
        obtain ⟨hc0, hci⟩ := preorder_reachable nodes d c i hi
        refine Relation.ReflTransGen.head ?_ hci
        cases hn : nodes[r.toNat]? with
        | none => simp [hn] at hc
        | some node =>
          refine ⟨node, hn, ?_⟩
          rw [Int.toNat_of_nonneg hc0]
          simpa [hn] using hc
    · cases h

end drawOrderThms

theorem loadNodes_cyclicDoc : (emptyModel.loadNodes cyclicDoc).m_nodes = cycleNodes := by
  decide

theorem getWorldMatrix_two_cycle {α : Type} [CommRing α] (s : List (GltfNode α))
    (a b : GltfNode α) (ha : s[0]? = some a) (hb : s[1]? = some b)
    (hda : a.m_worldMatrixDirty = true) (hdb : b.m_worldMatrixDirty = true)
    (hpa : a.parent = 1) (hpb : b.parent = 0) (hlen : s.length = 2) : ∀ fuel,
    GltfNode.getWorldMatrix fuel s 0 = none ∧ GltfNode.getWorldMatrix fuel s 1 = none
  | 0 => ⟨rfl, rfl⟩
  | fuel + 1 => by
    obtain ⟨h0, h1⟩ := getWorldMatrix_two_cycle s a b ha hb hda hdb hpa hpb hlen fuel
    constructor
    · simp [GltfNode.getWorldMatrix, ha, hda, hpa, hlen, h1]
    · simp [GltfNode.getWorldMatrix, hb, hdb, hpb, hlen, h0]

theorem getWorldMatrix_cycleNodes (fuel : Nat) :
    GltfNode.getWorldMatrix fuel cycleNodes 0 = none ∧
    GltfNode.getWorldMatrix fuel cycleNodes 1 = none :=
  getWorldMatrix_two_cycle cycleNodes _ _ rfl rfl rfl rfl rfl rfl rfl fuel

theorem reachesRoot_cycleNodes : ∀ k,
    reachesRoot cycleNodes k 0 = false ∧ reachesRoot cycleNodes k 1 = false
  | 0 => ⟨rfl, rfl⟩
  | k + 1 => by
    obtain ⟨h0, h1⟩ := reachesRoot_cycleNodes k
    exact ⟨(show reachesRoot cycleNodes (k + 1) 0 = reachesRoot cycleNodes k 1 from rfl).trans h1,
      (show reachesRoot cycleNodes (k + 1) 1 = reachesRoot cycleNodes k 0 from rfl).trans h0⟩

theorem drawNode_cycle (self : GltfModel Int) (h : self.m_nodes = cycleNodes) : ∀ fuel,
    self.drawNode fuel 0 = none ∧ self.drawNode fuel 1 = none
  | 0 => ⟨rfl, rfl⟩
  | fuel + 1 => by
    obtain ⟨h0, h1⟩ := drawNode_cycle self h fuel
    constructor
    · unfold GltfModel.drawNode
      simp [h, cycleNodes, h1]
    · unfold GltfModel.drawNode
      simp [h, cycleNodes, h0]

/-- C24 (counterexample): `loadNodes` accepts a document of two nodes that list each other
as child and makes each the parent of the other; following parent links from node 0 never
reaches a node without parent, and neither `getWorldMatrix` nor `drawNode` returns on the
loaded model, whatever the fuel. -/
theorem loadNodes_accepts_cycle :
    ((emptyModel.loadNodes cyclicDoc).m_nodes.map fun n => (n.index, n.parent, n.children)) =
      [(0, 1, [1]), (1, 0, [0])] ∧
    (∀ k, reachesRoot (emptyModel.loadNodes cyclicDoc).m_nodes k 0 = false) ∧
    (∀ fuel, GltfNode.getWorldMatrix fuel (emptyModel.loadNodes cyclicDoc).m_nodes 0 = none) ∧
    (∀ fuel, (emptyModel.loadNodes cyclicDoc).drawNode fuel 0 = none) := by
  refine ⟨by decide, ?_, ?_, ?_⟩
  · intro k
    rw [loadNodes_cyclicDoc]
    exact (reachesRoot_cycleNodes k).1
  · intro fuel
    rw [loadNodes_cyclicDoc]
    exact (getWorldMatrix_cycleNodes fuel).1
  · intro fuel
    exact (drawNode_cycle _ loadNodes_cyclicDoc fuel).1

section forestClaim
variable {α : Type} [CommRing α]

/-- C24 (amended): when the children lists of the loaded document contain no cycle (and
the model held no node with a parent before), the nodes `loadNodes` produces form a
forest: from every node the chain of parent links ends within `length` steps;
`getWorldMatrix` returns on every node with fuel `length`, whatever the caches hold; and
`drawNode` returns on every index with fuel `length + 1`. -/
theorem loadNodes_forest (self : GltfModel α) (model : tinygltf.Model α)
    (hfresh : ∀ x ∈ self.m_nodes, x.parent = -1)
    (hdoc : ChildrenAcyclic (self.loadNodes model).m_nodes) :
    (∀ i, i < (self.loadNodes model).m_nodes.length →
      reachesRoot (self.loadNodes model).m_nodes (self.loadNodes model).m_nodes.length i =
        true) ∧
    (∀ i fuel, i < (self.loadNodes model).m_nodes.length →
      (self.loadNodes model).m_nodes.length ≤ fuel →
      ∃ w s', GltfNode.getWorldMatrix fuel (self.loadNodes model).m_nodes i = some (w, s')) ∧
    (∀ fuel nodeIndex, (self.loadNodes model).m_nodes.length + 1 ≤ fuel →
      ∃ cmds, (self.loadNodes model).drawNode fuel nodeIndex = some cmds) := by
  have hac : Acyclic (self.loadNodes model).m_nodes :=
    acyclic_of_childrenAcyclic (loadNodes_parentsListed self model hfresh) hdoc
  refine ⟨hac, ?_, ?_⟩
  · intro i fuel hi hfuel
    obtain ⟨w, s', h, _⟩ := getWorldMatrix_terminates _ _ i _ fuel (hac i hi) hi
      (SameShape.refl _) hfuel
    exact ⟨w, s', h⟩
  · intro fuel nodeIndex hfuel
    exact ⟨_, drawNode_eq_preorder _ fuel nodeIndex
      (childrenEnd_of_acyclic hdoc fuel hfuel nodeIndex)⟩

end forestClaim

/-- The document `familyDoc` loaded into an empty model is a forest. -/
theorem loadNodes_forest_witness :
    (∀ x ∈ emptyModel.m_nodes, x.parent = -1) ∧
    ChildrenAcyclic (emptyModel.loadNodes familyDoc).m_nodes ∧
    ∀ i, i < (emptyModel.loadNodes familyDoc).m_nodes.length →
      reachesRoot (emptyModel.loadNodes familyDoc).m_nodes
        (emptyModel.loadNodes familyDoc).m_nodes.length i = true :=
  ⟨(fun _ hx => nomatch hx), by decide,
   (loadNodes_forest emptyModel familyDoc (fun _ hx => nomatch hx) (by decide)).1⟩

section drawOrderClaim
variable {α : Type} [CommRing α]

/-- C25: for a model whose children lists contain no cycle, `draw` returns (with fuel
`length + 1` or more) and records the `nodeCommands` of the visited nodes in the order
of the visit; the visit goes through the root list in order and from each root in
depth-first pre-order: an index out of range visits nothing, an index in range visits
that node and then, in list order, what its children visit. `nodeCommands` of a node are,
per primitive of its mesh in order, the push constant (node index, material index of the
primitive) followed, when the primitive is valid, by the buffer bindings and one indexed
draw of `indexCount` indices. Every visited node is reachable from the root list. -/
theorem draw_preorder (self : GltfModel α) (fuel : Nat)
    (hac : ChildrenAcyclic self.m_nodes) (hfuel : self.m_nodes.length + 1 ≤ fuel) :
    self.draw fuel =
      some ((self.m_rootNodes.flatMap (preorder self.m_nodes (self.m_nodes.length + 1))).flatMap
        (nodeCommands self)) ∧
    (∀ nodeIndex : Int,
      preorder self.m_nodes (self.m_nodes.length + 1) nodeIndex =
        if 0 ≤ nodeIndex ∧ nodeIndex < (self.m_nodes.length : Int) then
          nodeIndex.toNat ::
            (((self.m_nodes[nodeIndex.toNat]?).map fun n => n.children).getD []).flatMap
              (preorder self.m_nodes (self.m_nodes.length + 1))
        else []) ∧
    (∀ i, i ∈ self.m_rootNodes.flatMap (preorder self.m_nodes (self.m_nodes.length + 1)) →
      ReachableFromRoots self i) := by
  have hend : ∀ (f : Nat) (i : Int), self.m_nodes.length + 1 ≤ f →
      childrenEnd self.m_nodes f i = true :=
    fun f i hf => childrenEnd_of_acyclic hac f hf i
  refine ⟨?_, ?_, ?_⟩
  · rw [draw_eq_preorder self fuel fun root _ => hend fuel root hfuel]
    congr 2
    apply List.flatMap_congr
    intro root _
    exact preorder_mono _ _ _ root hfuel (hend _ root (le_refl _))
  · intro nodeIndex
    rw [← preorder_mono _ _ (self.m_nodes.length + 1 + 1) nodeIndex (by omega)
      (hend _ nodeIndex (le_refl _))]
    rw [preorder]
  · intro i hi
    obtain ⟨root, hroot, hmem⟩ := List.mem_flatMap.mp hi
    obtain ⟨h0, hreach⟩ := preorder_reachable _ _ root i hmem
    exact ⟨root, hroot, h0, hreach⟩

end drawOrderClaim

/-- The draw order of `drawExample`: node 0 with its two primitives (the second is not
valid and only pushes), then its child 2 (no mesh) and grandchild 3, then its child 1;
the child index 7, the root 9 and node 4 draw nothing. -/
theorem draw_preorder_witness :
    ChildrenAcyclic drawExample.m_nodes ∧ drawExample.m_nodes.length + 1 ≤ 6 ∧
    drawExample.draw 6 =
      some ((drawExample.m_rootNodes.flatMap
        (preorder drawExample.m_nodes (drawExample.m_nodes.length + 1))).flatMap
          (nodeCommands drawExample)) ∧
    drawExample.m_rootNodes.flatMap
        (preorder drawExample.m_nodes (drawExample.m_nodes.length + 1)) = [0, 2, 3, 1] ∧
    drawExample.draw 6 = some
      [.pushConstants 0 0, .bindVertexBuffers 1, .bindIndexBuffer 2, .drawIndexed 3 1 0 0 0,
       .pushConstants 0 (-1),
       .pushConstants 3 0, .bindVertexBuffers 1, .bindIndexBuffer 2, .drawIndexed 3 1 0 0 0,
       .pushConstants 3 (-1),
       .pushConstants 1 1, .bindVertexBuffers 3, .bindIndexBuffer 4,
       .drawIndexed 6 1 0 0 0] :=
  ⟨by decide, by decide, (draw_preorder drawExample 6 (by decide) (by decide)).1, by decide,
    by decide⟩

section framebuffers
variable {α : Type} [CommRing α]

theorem recordAndPresent_framebuffer (fuel : Nat) (device : Device) (driver : FrameDriver)
    (imageIndex : Nat) (self : Application α) (world : World)
    (x : Except String Unit × Application α × World)
    (h : self.recordAndPresent fuel device driver imageIndex world = some x) :
    x.2.1.m_framebuffer = self.m_framebuffer := by
  unfold Application.recordAndPresent at h
  simp only [] at h
  split at h
  · cases h; rfl
  · split at h
    · cases h
    · split at h
      · cases h; rfl
      · split at h
        · cases h; rfl
        · split at h
          · cases h
          · rename_i hnext
            cases h
            split at hnext
            · split at hnext
              · cases hnext
              · cases hnext; rfl
            · split at hnext <;> (cases hnext; try rfl)
          · rename_i hnext
            cases h
            split at hnext
            · split at hnext
              · cases hnext
              · cases hnext; rfl
            · split at hnext <;> (cases hnext; try rfl)

/-- No path of `drawFrame` touches the framebuffers of the application. -/
theorem drawFrame_framebuffer (fuel : Nat) (device : Device) (driver : FrameDriver)
    (self : Application α) (world : World)
    (x : Except String Unit × Application α × World)
    (h : self.drawFrame fuel device driver world = some x) :
    x.2.1.m_framebuffer = self.m_framebuffer := by
  unfold Application.drawFrame at h
  split at h
  · cases h
  · cases h
  · simp only [] at h
    split at h
    · split at h
      · cases h
      · cases h; rfl
    · split at h
      · cases h; rfl
      · split at h
        · cases h; rfl
        · split at h
          · cases h
          · cases h; rfl
          · have := recordAndPresent_framebuffer _ _ _ _ _ _ _ h
            exact this

end framebuffers

section frameLemmas
variable {α : Type} [CommRing α]

theorem recreateCalls_not_frameWork (self : Swapchain) (k : Nat) (creates : List FrameEvent)
    (hc : ∀ e ∈ creates, FrameEvent.isCreate e = true) :
    ∀ e ∈ recreateCalls self k creates, FrameEvent.isFrameWork e = false := by
  intro e he
  simp only [recreateCalls, List.mem_append, List.mem_replicate, List.mem_singleton,
    List.mem_map] at he
  rcases he with (((⟨_, rfl⟩ | rfl) | ⟨v, _, rfl⟩) | rfl) | he
  · rfl
  · rfl
  · rfl
  · rfl
  · exact isFrameWork_of_isCreate e (hc e he)

/-- With a non-zero framebuffer size the recreation does not poll, so no resize callback
runs inside it. -/
theorem recreate_flag_of_nonzero (device : Device) (driver : FrameDriver) (self : Swapchain)
    (wx world : World) (hwx : wx.window = world.window)
    (hw : world.window.framebufferSize.1 ≠ 0) (hh : world.window.framebufferSize.2 ≠ 0)
    (r : Except String Unit) (sc : Swapchain) (w2 : World) (resized : Bool)
    (h : self.recreate device driver wx = some (r, sc, w2, resized)) : resized = false := by
  obtain ⟨r1, sc1, w1, h1, _⟩ := recreate_returns device driver self wx (hwx ▸ hw) (hwx ▸ hh)
  rw [h] at h1
  simp only [Option.some.injEq, Prod.mk.injEq] at h1
  exact h1.2.2.2

/-- What a second part of `drawFrame` that returns without raising has done. -/
theorem recordAndPresent_ok (fuel : Nat) (device : Device) (driver : FrameDriver)
    (imageIndex : Nat) (self : Application α) (world : World) (app : Application α)
    (w : World)
    (h : self.recordAndPresent fuel device driver imageIndex world = some (.ok (), app, w)) :
    app.m_currentFrame = (self.m_currentFrame + 1) % 2 ^ 32 % kMaxFramesInFlight ∧
    w.fences = world.fences.set self.m_currentFrame .pending ∧
    ∃ modelCmds rest, w.log = world.log ++
        [.beginCommandBuffer self.m_currentFrame, .endCommandBuffer self.m_currentFrame,
          .queueSubmit self.m_currentFrame
            ([.beginRenderPass (self.m_framebuffer.getD imageIndex 0)
                self.m_swapchain.m_extent.width self.m_swapchain.m_extent.height,
              .setViewport self.m_swapchain.m_extent.width self.m_swapchain.m_extent.height,
              .setScissor self.m_swapchain.m_extent.width self.m_swapchain.m_extent.height] ++
              modelCmds ++ [.endRenderPass]),
          .queuePresent imageIndex] ++ rest ∧
      ((driver.vkQueuePresentKHR = VK_ERROR_OUT_OF_DATE_KHR ∨
          driver.vkQueuePresentKHR = VK_SUBOPTIMAL_KHR ∨ self.m_framebufferResized = true) →
        ∃ k creates, rest = recreateCalls self.m_swapchain k creates ∧
          (∀ e ∈ creates, FrameEvent.isCreate e = true) ∧
          (∃ n f p, FrameEvent.createSwapchain app.m_swapchain.m_swapchain
            app.m_swapchain.m_extent n f p ∈ creates) ∧
          (world.window.framebufferSize.1 ≠ 0 → world.window.framebufferSize.2 ≠ 0 →
            app.m_framebufferResized = false)) ∧
      (¬ (driver.vkQueuePresentKHR = VK_ERROR_OUT_OF_DATE_KHR ∨
          driver.vkQueuePresentKHR = VK_SUBOPTIMAL_KHR ∨ self.m_framebufferResized = true) →
        rest = [] ∧ app.m_swapchain = self.m_swapchain ∧ app.m_framebufferResized = false ∧
        driver.vkQueuePresentKHR = VK_SUCCESS) := by
  unfold Application.recordAndPresent at h
  simp only [] at h
  split at h
  · cases h
  · split at h
    · cases h
    · rename_i modelCmds _
      split at h
      · cases h
      · split at h
        · cases h
        · split at h
          · cases h
          · cases h
          · rename_i hnext
            simp only [Option.some.injEq, Prod.mk.injEq, true_and] at h
            obtain ⟨rfl, rfl⟩ := h
            split at hnext
            · rename_i hcond
              split at hnext
              · cases hnext
              · rename_i r sc w2 resized hrec
                simp only [Option.some.injEq, Prod.mk.injEq] at hnext
                obtain ⟨rfl, rfl, rfl⟩ := hnext
                obtain ⟨_, hf, k, creates, hlog, hcreates, _, hok⟩ :=
                  recreate_spec device driver _ _ _ _ _ _ hrec
                refine ⟨rfl, hf, modelCmds, recreateCalls self.m_swapchain k creates, ?_,
                  fun _ => ⟨k, creates, rfl, hcreates, (hok rfl).2, ?_⟩,
                  fun hn => absurd hcond hn⟩
                · rw [hlog]
                  simp [World.emit, recreateCalls]
                · intro hw hh
                  show resized = false
                  refine recreate_flag_of_nonzero device driver self.m_swapchain _ world ?_
                    hw hh _ _ _ _ hrec
                  rfl
            · rename_i hcond
              split at hnext
              · cases hnext
              · simp only [Option.some.injEq, Prod.mk.injEq, true_and] at hnext
                obtain ⟨rfl, rfl⟩ := hnext
                rename_i hsucc
                refine ⟨rfl, rfl, modelCmds, [], ?_, fun hc => absurd hc hcond, fun _ => ⟨rfl, rfl, ?_, ?_⟩⟩
                · simp [World.emit]
                · simp only [not_or] at hcond
                  simpa using hcond.2.2
                · simpa using hsucc

end frameLemmas

section frameOk
variable {α : Type} [CommRing α]

/-- A call of `drawFrame` returns only if the fence of the slot is signaled or pending. -/
theorem drawFrame_fence (fuel : Nat) (device : Device) (driver : FrameDriver)
    (self : Application α) (world : World)
    (x : Except String Unit × Application α × World)
    (h : self.drawFrame fuel device driver world = some x) :
    ∃ s, world.fences[self.m_currentFrame]? = some s ∧ s ≠ .unsignaled := by
  unfold Application.drawFrame at h
  split at h
  · cases h
  · cases h
  · rename_i s hne hs
    exact ⟨s, hs, fun e => hne e⟩

/-- What a call of `drawFrame` has done that acquired an image and returned without
raising: the calls of a whole frame in order, the fence of the slot reset and then given
to the submission, the frame counter advanced, and a swapchain recreation after the
present exactly when the present result or the resize flag asks for it. -/
theorem drawFrame_ok (fuel : Nat) (device : Device) (driver : FrameDriver)
    (self : Application α) (world : World) (app : Application α) (w : World)
    (h : self.drawFrame fuel device driver world = some (.ok (), app, w))
    (hacq : driver.vkAcquireNextImageKHR.1 ≠ VK_ERROR_OUT_OF_DATE_KHR) :
    app.m_currentFrame = (self.m_currentFrame + 1) % 2 ^ 32 % kMaxFramesInFlight ∧
    w.fences = world.fences.set self.m_currentFrame .pending ∧
    ∃ modelCmds rest, w.log = world.log ++
        [.waitForFences self.m_currentFrame, .acquireNextImage self.m_currentFrame,
          .resetFences self.m_currentFrame, .resetCommandBuffer self.m_currentFrame,
          .beginCommandBuffer self.m_currentFrame, .endCommandBuffer self.m_currentFrame,
          .queueSubmit self.m_currentFrame
            ([.beginRenderPass (self.m_framebuffer.getD driver.vkAcquireNextImageKHR.2 0)
                self.m_swapchain.m_extent.width self.m_swapchain.m_extent.height,
              .setViewport self.m_swapchain.m_extent.width self.m_swapchain.m_extent.height,
              .setScissor self.m_swapchain.m_extent.width self.m_swapchain.m_extent.height] ++
              modelCmds ++ [.endRenderPass]),
          .queuePresent driver.vkAcquireNextImageKHR.2] ++ rest ∧
      ((driver.vkQueuePresentKHR = VK_ERROR_OUT_OF_DATE_KHR ∨
          driver.vkQueuePresentKHR = VK_SUBOPTIMAL_KHR ∨ self.m_framebufferResized = true) →
        ∃ k creates, rest = recreateCalls self.m_swapchain k creates ∧
          (∀ e ∈ creates, FrameEvent.isCreate e = true) ∧
          (∃ n f p, FrameEvent.createSwapchain app.m_swapchain.m_swapchain
            app.m_swapchain.m_extent n f p ∈ creates) ∧
          (world.window.framebufferSize.1 ≠ 0 → world.window.framebufferSize.2 ≠ 0 →
            app.m_framebufferResized = false)) ∧
      (¬ (driver.vkQueuePresentKHR = VK_ERROR_OUT_OF_DATE_KHR ∨
          driver.vkQueuePresentKHR = VK_SUBOPTIMAL_KHR ∨ self.m_framebufferResized = true) →
        rest = [] ∧ app.m_swapchain = self.m_swapchain ∧ app.m_framebufferResized = false ∧
        driver.vkQueuePresentKHR = VK_SUCCESS) := by
  unfold Application.drawFrame at h
  split at h
  · cases h
  · cases h
  · simp only [] at h
    rw [if_neg hacq] at h
    split at h
    · cases h
    · split at h
      · cases h
      · split at h
        · cases h
        · cases h
        · obtain ⟨h1, h2, modelCmds, rest, h3, h4, h5⟩ := recordAndPresent_ok _ _ _ _ _ _ _ _ h
          refine ⟨h1, ?_, modelCmds, rest, ?_, h4, h5⟩
          · rw [h2]
            simp [World.emit]
          · rw [h3]
            simp [World.emit]

end frameOk

section frameLoopThms
variable {α : Type} [CommRing α]

theorem recordAndPresent_currentFrame (fuel : Nat) (device : Device) (driver : FrameDriver)
    (imageIndex : Nat) (self : Application α) (world : World)
    (x : Except String Unit × Application α × World)
    (h : self.recordAndPresent fuel device driver imageIndex world = some x) :
    x.2.1.m_currentFrame = self.m_currentFrame ∨
      x.2.1.m_currentFrame = (self.m_currentFrame + 1) % 2 ^ 32 % kMaxFramesInFlight := by
  unfold Application.recordAndPresent at h
  simp only [] at h
  split at h
  · cases h; exact Or.inl rfl
  · split at h
    · cases h
    · split at h
      · cases h; exact Or.inl rfl
      · split at h
        · cases h; exact Or.inl rfl
        · split at h
          · cases h
          · rename_i hnext
            cases h
            split at hnext
            · split at hnext
              · cases hnext
              · cases hnext; exact Or.inl rfl
            · split at hnext <;> (cases hnext; try exact Or.inl rfl)
          · rename_i hnext
            cases h
            split at hnext
            · split at hnext
              · cases hnext
              · cases hnext; exact Or.inr rfl
            · split at hnext <;> (cases hnext; try exact Or.inr rfl)

/-- Every returning call of `drawFrame` leaves the frame counter or advances it modulo
the number of slots. -/
theorem drawFrame_currentFrame (fuel : Nat) (device : Device) (driver : FrameDriver)
    (self : Application α) (world : World)
    (x : Except String Unit × Application α × World)
    (h : self.drawFrame fuel device driver world = some x) :
    x.2.1.m_currentFrame = self.m_currentFrame ∨
      x.2.1.m_currentFrame = (self.m_currentFrame + 1) % 2 ^ 32 % kMaxFramesInFlight := by
  unfold Application.drawFrame at h
  split at h
  · cases h
  · cases h
  · simp only [] at h
    split at h
    · split at h
      · cases h
      · cases h; exact Or.inl rfl
    · split at h
      · cases h; exact Or.inl rfl
      · split at h
        · cases h; exact Or.inl rfl
        · split at h
          · cases h
          · cases h; exact Or.inl rfl
          · have := recordAndPresent_currentFrame _ _ _ _ _ _ _ h
            exact this

/-- What a call of `drawFrame` has done whose acquire was answered out-of-date. -/
theorem drawFrame_out_of_date_spec (fuel : Nat) (device : Device) (driver : FrameDriver)
    (self : Application α) (world : World) (r : Except String Unit) (app : Application α)
    (w : World) (h : self.drawFrame fuel device driver world = some (r, app, w))
    (hacq : driver.vkAcquireNextImageKHR.1 = VK_ERROR_OUT_OF_DATE_KHR) :
    app.m_currentFrame = self.m_currentFrame ∧
    w.fences = world.fences.set self.m_currentFrame .signaled ∧
    ∃ k creates, w.log = world.log ++
        [.waitForFences self.m_currentFrame, .acquireNextImage self.m_currentFrame] ++
        recreateCalls self.m_swapchain k creates ∧
      (∀ e ∈ creates, FrameEvent.isCreate e = true) := by
  rw [drawFrame_out_of_date_eq fuel device driver self world
    (drawFrame_fence _ _ _ _ _ _ h) hacq] at h
  cases hrec : self.m_swapchain.recreate device driver
      (({ world with fences := world.fences.set self.m_currentFrame .signaled }.emit
        (.waitForFences self.m_currentFrame)).emit
          (.acquireNextImage self.m_currentFrame)) with
  | none => simp [hrec] at h
  | some res =>
    obtain ⟨r0, sc, w2, resized⟩ := res
    simp only [hrec, Option.map_some', Option.some.injEq, Prod.mk.injEq] at h
    obtain ⟨rfl, rfl, rfl⟩ := h
    obtain ⟨_, hf, k, creates, hlog, hcreates, _, _⟩ :=
      recreate_spec device driver self.m_swapchain _ _ _ _ _ hrec
    refine ⟨rfl, hf, k, creates, ?_, hcreates⟩
    rw [hlog]
    simp [World.emit, recreateCalls]

end frameLoopThms

/-- C26: a recreation of the swapchain triggered by `drawFrame` waits for device idle,
destroys the old image views and the old swapchain and creates new ones, but no path of
`drawFrame` touches the framebuffers: after an acquire answered out-of-date the
application still holds the framebuffers 8, 9, 10, which `Framebuffer::create` made with
the views 5, 6, 7 that the recreation has destroyed, and the next frame begins its render
pass with framebuffer 8. The recreation creates the image views of the new swapchain
twice (15, 16, 17 in `create`, then 18, 19, 20) and keeps the second set only, so the
next recreation destroys 18, 19, 20 and the views 15, 16, 17 are never destroyed. -/
theorem drawFrame_recreate_keeps_framebuffers :
    (∀ (fuel : Nat) (device : Device) (driver : FrameDriver) (app : Application Int)
      (world : World) (x : Except String Unit × Application Int × World),
      app.drawFrame fuel device driver world = some x →
      x.2.1.m_framebuffer = app.m_framebuffer) ∧
    (Framebuffer.createLoop true (exampleApp false).m_swapchain.m_views
      { exampleWorld with nextHandle := 8 }).2.1 = [(8, 5), (9, 6), (10, 7)] ∧
    (((exampleApp false).drawFrame 8 okDevice outOfDateDriver exampleWorld).map fun r =>
        (r.1, r.2.1.m_framebuffer, r.2.1.m_swapchain.m_views, r.2.2.log)) =
      some (.ok (), [8, 9, 10], [18, 19, 20],
        [.waitForFences 0, .acquireNextImage 0, .deviceWaitIdle,
         .destroyImageView 5, .destroyImageView 6, .destroyImageView 7, .destroySwapchain 1,
         .createSwapchain 11 ⟨800, 600⟩ 3 VK_FORMAT_B8G8R8A8_SRGB VK_PRESENT_MODE_FIFO_KHR,
         .createImageView 15 12, .createImageView 16 13, .createImageView 17 14,
         .createImageView 18 12, .createImageView 19 13, .createImageView 20 14]) ∧
    ((((exampleApp false).drawFrame 8 okDevice outOfDateDriver exampleWorld).bind fun r =>
        r.2.1.drawFrame 8 okDevice presentOutOfDateDriver r.2.2).map fun r =>
          (r.1, r.2.1.m_framebuffer, r.2.1.m_swapchain.m_views, r.2.2.log.drop 14)) =
      some (.ok (), [8, 9, 10], [28, 29, 30],
        [.waitForFences 0, .acquireNextImage 0, .resetFences 0, .resetCommandBuffer 0,
         .beginCommandBuffer 0, .endCommandBuffer 0,
         .queueSubmit 0 [.beginRenderPass 8 800 600, .setViewport 800 600,
           .setScissor 800 600, .endRenderPass],
         .queuePresent 0, .deviceWaitIdle,
         .destroyImageView 18, .destroyImageView 19, .destroyImageView 20,
         .destroySwapchain 11,
         .createSwapchain 21 ⟨800, 600⟩ 3 VK_FORMAT_B8G8R8A8_SRGB VK_PRESENT_MODE_FIFO_KHR,
         .createImageView 25 22, .createImageView 26 23, .createImageView 27 24,
         .createImageView 28 22, .createImageView 29 23, .createImageView 30 24]) := by
  refine ⟨fun fuel device driver app world x h =>
    drawFrame_framebuffer fuel device driver app world x h, ?_, ?_, ?_⟩ <;> rfl

section frameCounterClaim
variable {α : Type} [CommRing α]

end frameCounterClaim

theorem firstFrame_eq :
    (exampleApp false).drawFrame 8 okDevice successDriver exampleWorld =
      some (firstFrame.1, firstFrame.2.1, firstFrame.2.2) := rfl

section fenceClaim
variable {α : Type} [CommRing α]

theorem fencesReady_set {world : World} (h : FencesReady world) (i : Nat) (s : FenceState)
    (hs : s ≠ .unsignaled) (w : World) (hw : w.fences = world.fences.set i s) :
    FencesReady w := by
  refine ⟨by rw [hw, List.length_set]; exact h.1, fun t ht => ?_⟩
  rw [hw] at ht
  rcases List.mem_or_eq_of_mem_set ht with ht | rfl
  · exact h.2 t ht
  · exact hs

theorem fencesReady_mayBecome {l1 l2 : List FenceState}
    (h : List.Forall₂ FenceState.mayBecome l1 l2)
    (h1 : ∀ s ∈ l1, s ≠ FenceState.unsignaled) : ∀ t ∈ l2, t ≠ FenceState.unsignaled := by
  induction h with
  | nil => intro t ht; cases ht
  | cons hst _ ih =>
    intro t ht
    rcases List.mem_cons.mp ht with rfl | ht
    · rcases hst with rfl | ⟨_, rfl⟩
      · exact h1 _ (List.mem_cons_self _ _)
      · intro e; cases e
    · exact ih (fun s hs => h1 s (List.mem_cons_of_mem _ hs)) t ht

/-- At the start of every tick the frame counter names a slot and every slot's fence is
signaled or pending. -/
theorem frameLoop_invariant (created : Nat → Bool) (init : Application α) (world0 : World)
    (app : Application α) (world : World) (hinit : init.m_currentFrame = 0)
    (hsync : SyncObjects.create created kMaxFramesInFlight = .ok world0.fences)
    (hr : FrameLoop init world0 app world) :
    app.m_currentFrame < kMaxFramesInFlight ∧ FencesReady world := by
  induction hr with
  | start =>
    refine ⟨by rw [hinit]; decide, ?_⟩
    unfold SyncObjects.create at hsync
    split at hsync
    · simp only [Except.ok.injEq] at hsync
      refine ⟨by rw [← hsync]; simp, fun s hs => ?_⟩
      rw [← hsync] at hs
      rw [(List.mem_replicate.mp hs).2]
      intro e; cases e
    · cases hsync
  | drawFrame fuel device driver app2 world2 _ hstep ih =>
    constructor
    · rcases drawFrame_currentFrame _ _ _ _ _ _ hstep with h | h
      · exact h.trans_lt ih.1
      · rw [h]
        exact Nat.mod_lt _ (by decide)
    · by_cases hacq : driver.vkAcquireNextImageKHR.1 = VK_ERROR_OUT_OF_DATE_KHR
      · exact fencesReady_set ih.2 _ .signaled (by intro e; cases e) _
          (drawFrame_out_of_date_spec _ _ _ _ _ _ _ _ hstep hacq).2.1
      · exact fencesReady_set ih.2 _ .pending (by intro e; cases e) _
          (drawFrame_ok _ _ _ _ _ _ _ hstep hacq).2.1
  | environment world2 resized _ hfences ih =>
    exact ⟨ih.1, by rw [← hfences.length_eq]; exact ih.2.1,
      fencesReady_mayBecome hfences ih.2.2⟩

/-- C28: at the start of every tick of the main loop (the fences having been created by
`SyncObjects::create`, signaled, and the frame counter starting at 0) the fence of the
current slot is signaled or has a pending submission. A call of `drawFrame` that returns
without raising resets no fence when its acquire is answered out-of-date (the fence stays
signaled); otherwise it resets the fence of the current slot exactly once, submits
afterwards with that fence, and resets no other fence, so the fence is pending at its
end. -/
theorem fence_reset_then_submit (created : Nat → Bool) (init : Application α)
    (world0 : World) (app : Application α) (world : World) (hinit : init.m_currentFrame = 0)
    (hsync : SyncObjects.create created kMaxFramesInFlight = .ok world0.fences)
    (hr : FrameLoop init world0 app world) :
    (∃ s, world.fences[app.m_currentFrame]? = some s ∧
      (s = .signaled ∨ s = .pending)) ∧
    ∀ (fuel : Nat) (device : Device) (driver : FrameDriver) (app2 : Application α)
      (world2 : World),
      app.drawFrame fuel device driver world = some (.ok (), app2, world2) →
      (driver.vkAcquireNextImageKHR.1 = VK_ERROR_OUT_OF_DATE_KHR →
        (∃ new, world2.log = world.log ++ new ∧
          ∀ e ∈ new, ∀ f, e ≠ FrameEvent.resetFences f) ∧
        world2.fences[app.m_currentFrame]? = some .signaled) ∧
      (driver.vkAcquireNextImageKHR.1 ≠ VK_ERROR_OUT_OF_DATE_KHR →
        (∃ before between cmds after,
          world2.log = world.log ++ before ++ [.resetFences app.m_currentFrame] ++
            between ++ [.queueSubmit app.m_currentFrame cmds] ++ after ∧
          ∀ e ∈ before ++ between ++ after, ∀ f, e ≠ FrameEvent.resetFences f) ∧
        world2.fences[app.m_currentFrame]? = some .pending) := by
  obtain ⟨hcur, hlen, hready⟩ := frameLoop_invariant created init world0 app world hinit hsync hr
  have hlt : app.m_currentFrame < world.fences.length := by rw [hlen]; exact hcur
  refine ⟨⟨world.fences[app.m_currentFrame], List.getElem?_eq_getElem hlt, ?_⟩, ?_⟩
  · have := hready _ (List.getElem_mem hlt)
    cases hs : world.fences[app.m_currentFrame] with
    | signaled => exact Or.inl rfl
    | pending => exact Or.inr rfl
    | unsignaled => exact absurd hs this
  · intro fuel device driver app2 world2 h
    constructor
    · intro hacq
      obtain ⟨_, hf, k, creates, hlog, hcreates⟩ :=
        drawFrame_out_of_date_spec _ _ _ _ _ _ _ _ h hacq
      refine ⟨⟨_, hlog.trans (List.append_assoc _ _ _), ?_⟩, ?_⟩
      · intro e he f hef
        subst hef
        rcases List.mem_append.mp he with he | he
        · simp at he
        · have := recreateCalls_not_frameWork _ k creates hcreates _ he
          cases this
      · rw [hf, List.getElem?_set_self hlt]
    · intro hacq
      obtain ⟨_, hf, modelCmds, rest, hlog, hre, hno⟩ := drawFrame_ok _ _ _ _ _ _ _ h hacq
      refine ⟨⟨[.waitForFences app.m_currentFrame, .acquireNextImage app.m_currentFrame],
        [.resetCommandBuffer app.m_currentFrame, .beginCommandBuffer app.m_currentFrame,
          .endCommandBuffer app.m_currentFrame],
        [.beginRenderPass (app.m_framebuffer.getD driver.vkAcquireNextImageKHR.2 0)
            app.m_swapchain.m_extent.width app.m_swapchain.m_extent.height,
          .setViewport app.m_swapchain.m_extent.width app.m_swapchain.m_extent.height,
          .setScissor app.m_swapchain.m_extent.width app.m_swapchain.m_extent.height] ++
          modelCmds ++ [.endRenderPass],
        .queuePresent driver.vkAcquireNextImageKHR.2 :: rest, ?_, ?_⟩, ?_⟩
      · rw [hlog]
        simp
      · intro e he f hef
        subst hef
        simp only [List.mem_append, List.mem_cons, List.mem_singleton, List.mem_nil_iff,
          or_false] at he
        have hrest : FrameEvent.resetFences f ∉ rest := by
          intro hmem
          by_cases hcond : driver.vkQueuePresentKHR = VK_ERROR_OUT_OF_DATE_KHR ∨
              driver.vkQueuePresentKHR = VK_SUBOPTIMAL_KHR ∨ app.m_framebufferResized = true
          · obtain ⟨k, creates, hrest, hcreates, _⟩ := hre hcond
            rw [hrest] at hmem
            have := recreateCalls_not_frameWork _ k creates hcreates _ hmem
            cases this
          · rw [(hno hcond).1] at hmem
            cases hmem
        rcases he with ((he | he) | (he | he | he)) | (he | he)
        all_goals first | exact hrest he | cases he
      · rw [hf, List.getElem?_set_self hlt]

end fenceClaim

/-- The world after the first frame of `exampleApp`, whose fences are those
`SyncObjects::create` makes, is the start of the next tick; the fence of slot 1 is
signaled or pending there. -/
theorem fence_reset_then_submit_witness :
    (exampleApp false).m_currentFrame = 0 ∧
    SyncObjects.create (fun _ => true) kMaxFramesInFlight = .ok exampleWorld.fences ∧
    FrameLoop (exampleApp false) exampleWorld firstFrame.2.1 firstFrame.2.2 ∧
    ∃ s, firstFrame.2.2.fences[firstFrame.2.1.m_currentFrame]? = some s ∧
      (s = .signaled ∨ s = .pending) :=
  ⟨rfl, rfl, .drawFrame 8 okDevice successDriver _ _ .start firstFrame_eq,
   (fence_reset_then_submit (fun _ => true) (exampleApp false) exampleWorld firstFrame.2.1
    firstFrame.2.2 rfl rfl (.drawFrame 8 okDevice successDriver _ _ .start firstFrame_eq)).1⟩

section strideThms
variable {α : Type} [CommRing α]

/-- A block built from `updateEach` keeps, at every index, each projection of the vertex
that the update does not change. -/
theorem map_getElem?_updateEach {β γ : Type} (proj : β → γ) (f : Nat → β → β)
    (hf : ∀ i v, proj (f i v) = proj v) (i : Nat) (l : List β) (k : Nat) :
    ((updateEach f i l)[k]?).map proj = (l[k]?).map proj := by
  rw [getElem?_updateEach]
  cases l[k]? with
  | none => rfl
  | some v => exact congrArg some (hf _ v)

theorem extractNormals_proj {γ : Type} (proj : GltfVertex α → γ) (decode : List Nat → α)
    (model : tinygltf.Model α) (primitive : tinygltf.Primitive) (l : List (GltfVertex α))
    (hP : ∀ v n, proj { v with normal := n } = proj v) (k : Nat) :
    ((extractNormals decode model primitive l)[k]?).map proj = (l[k]?).map proj := by
  unfold extractNormals
  split <;> exact map_getElem?_updateEach proj _ (fun _ v => hP v _) 0 l k

theorem extractTexCoord0_proj {γ : Type} (proj : GltfVertex α → γ) (decode : List Nat → α)
    (model : tinygltf.Model α) (primitive : tinygltf.Primitive) (l : List (GltfVertex α))
    (hP : ∀ v n, proj { v with texCoord0 := n } = proj v) (k : Nat) :
    ((extractTexCoord0 decode model primitive l)[k]?).map proj = (l[k]?).map proj := by
  unfold extractTexCoord0
  split <;> exact map_getElem?_updateEach proj _ (fun _ v => hP v _) 0 l k

theorem extractTexCoord1_proj {γ : Type} (proj : GltfVertex α → γ) (decode : List Nat → α)
    (model : tinygltf.Model α) (primitive : tinygltf.Primitive) (l : List (GltfVertex α))
    (hP : ∀ v n, proj { v with texCoord1 := n } = proj v) (k : Nat) :
    ((extractTexCoord1 decode model primitive l)[k]?).map proj = (l[k]?).map proj := by
  unfold extractTexCoord1
  split <;> exact map_getElem?_updateEach proj _ (fun _ v => hP v _) 0 l k

theorem extractColors_proj {γ : Type} (proj : GltfVertex α → γ) (decode : List Nat → α)
    (model : tinygltf.Model α) (primitive : tinygltf.Primitive) (l : List (GltfVertex α))
    (hP : ∀ v n, proj { v with color := n } = proj v) (k : Nat) :
    ((extractColors decode model primitive l)[k]?).map proj = (l[k]?).map proj := by
  unfold extractColors
  split
  · simp only []
    split
    · split
      · exact map_getElem?_updateEach proj _ (fun _ v => hP v _) 0 l k
      · rfl
    · split
      · split
        · exact map_getElem?_updateEach proj _ (fun _ v => hP v _) 0 l k
        · rfl
      · rfl
  · exact map_getElem?_updateEach proj _ (fun _ v => hP v _) 0 l k

theorem extractTangents_proj {γ : Type} (proj : GltfVertex α → γ) (decode : List Nat → α)
    (model : tinygltf.Model α) (primitive : tinygltf.Primitive) (l : List (GltfVertex α))
    (hP : ∀ v n, proj { v with tangent := n } = proj v) (k : Nat) :
    ((extractTangents decode model primitive l)[k]?).map proj = (l[k]?).map proj := by
  unfold extractTangents
  split <;> exact map_getElem?_updateEach proj _ (fun _ v => hP v _) 0 l k

theorem extractSkin_proj {γ : Type} (proj : GltfVertex α → γ) (decode : List Nat → α)
    (model : tinygltf.Model α) (primitive : tinygltf.Primitive) (l : List (GltfVertex α))
    (hJ : ∀ v n, proj { v with joints := n } = proj v)
    (hW : ∀ v n, proj { v with weights := n } = proj v) (k : Nat) :
    ((extractSkin decode model primitive l)[k]?).map proj = (l[k]?).map proj := by
  unfold extractSkin
  split
  · simp only []
    rw [map_getElem?_updateEach proj _ (fun _ v => hW v _)]
    split
    · exact map_getElem?_updateEach proj _ (fun _ v => hJ v _) 0 l k
    · split
      · exact map_getElem?_updateEach proj _ (fun _ v => hJ v _) 0 l k
      · rfl
  · exact map_getElem?_updateEach proj _
      (fun _ v => (hW _ ⟨0, 0, 0, 0⟩).trans (hJ v ⟨0, 0, 0, 0⟩)) 0 l k

/-- The loader's tightly packed read of component `k` of element `i` is the element
glTF means when the buffer view has no stride or the stride of the packed element. -/
theorem strideElementFloat_packed (decode : List Nat → α) (model : tinygltf.Model α)
    (accessorIndex : Int) (n i k : Nat)
    (h : accessorStride model accessorIndex = 0 ∨ accessorStride model accessorIndex = 4 * n) :
    strideElementFloat decode model accessorIndex (4 * n) i k =
      readFloat decode (accessorData model accessorIndex).2 (i * n + k) := by
  unfold strideElementFloat readFloat accessorData
  unfold accessorStride at h
  simp only [List.drop_drop]
  have hs : (if (model.bufferViews.getD
        (model.accessors.getD accessorIndex.toNat {}).bufferView.toNat {}).byteStride = 0
      then 4 * n
      else (model.bufferViews.getD
        (model.accessors.getD accessorIndex.toNat {}).bufferView.toNat {}).byteStride) =
      4 * n := by
    rcases h with h | h
    · rw [if_pos h]
    · rw [h]; simp
  rw [hs]
  congr 3
  ring

end strideThms

section packedThms
variable {α : Type} [CommRing α]

/-- The vertices `extractVertexData` leaves are the blocks applied in turn. -/
theorem extractVertexData_vertices (decode : List Nat → α) (model : tinygltf.Model α)
    (primitive : tinygltf.Primitive) (vertices : List (GltfVertex α)) (indices : List Nat)
    (posIndex : Int) (hpos : primitive.attributes.lookup "POSITION" = some posIndex) :
    (extractVertexData decode model primitive vertices indices).2.1 =
      extractSkin decode model primitive
        (extractTangents decode model primitive
          (extractColors decode model primitive
            (extractTexCoord1 decode model primitive
              (extractTexCoord0 decode model primitive
                (extractNormals decode model primitive
                  (extractPositions decode model posIndex vertices)))))) := by
  rw [extractVertexData_eq_blocks, hpos]
  exact extractIndices_vertices _ _ _ _

theorem getElem?_extractPositions (decode : List Nat → α) (model : tinygltf.Model α)
    (posIndex : Int) (vertices : List (GltfVertex α)) (i : Nat)
    (hi : i < (accessorData model posIndex).1.count) :
    ((extractPositions decode model posIndex vertices)[i]?).map (fun v => v.pos) =
      some ⟨readFloat decode (accessorData model posIndex).2 (i * 3 + 0),
        readFloat decode (accessorData model posIndex).2 (i * 3 + 1),
        readFloat decode (accessorData model posIndex).2 (i * 3 + 2)⟩ := by
  unfold extractPositions
  simp only []
  rw [getElem?_updateEach, List.getElem?_eq_getElem (by rw [length_resizeList]; exact hi)]
  simp

/-- The position, normal, texture coordinates and tangent of vertex `i` after
`extractVertexData`, read tightly packed from the start of each accessor. -/
theorem extractVertexData_channels (decode : List Nat → α) (model : tinygltf.Model α)
    (primitive : tinygltf.Primitive) (vertices : List (GltfVertex α)) (indices : List Nat)
    (posIndex : Int) (hpos : primitive.attributes.lookup "POSITION" = some posIndex)
    (i : Nat) (hi : i < (accessorData model posIndex).1.count) :
    ∃ v, (extractVertexData decode model primitive vertices indices).2.1[i]? = some v ∧
      v.pos = ⟨readFloat decode (accessorData model posIndex).2 (i * 3 + 0),
        readFloat decode (accessorData model posIndex).2 (i * 3 + 1),
        readFloat decode (accessorData model posIndex).2 (i * 3 + 2)⟩ ∧
      (∀ a, primitive.attributes.lookup "NORMAL" = some a →
        v.normal = ⟨readFloat decode (accessorData model a).2 (i * 3 + 0),
          readFloat decode (accessorData model a).2 (i * 3 + 1),
          readFloat decode (accessorData model a).2 (i * 3 + 2)⟩) ∧
      (∀ a, primitive.attributes.lookup "TEXCOORD_0" = some a →
        v.texCoord0 = ⟨readFloat decode (accessorData model a).2 (i * 2 + 0),
          readFloat decode (accessorData model a).2 (i * 2 + 1)⟩) ∧
      (∀ a, primitive.attributes.lookup "TEXCOORD_1" = some a →
        v.texCoord1 = ⟨readFloat decode (accessorData model a).2 (i * 2 + 0),
          readFloat decode (accessorData model a).2 (i * 2 + 1)⟩) ∧
      (∀ a, primitive.attributes.lookup "TANGENT" = some a →
        v.tangent = ⟨readFloat decode (accessorData model a).2 (i * 4 + 0),
          readFloat decode (accessorData model a).2 (i * 4 + 1),
          readFloat decode (accessorData model a).2 (i * 4 + 2),
          readFloat decode (accessorData model a).2 (i * 4 + 3)⟩) := by
  have hR := extractVertexData_vertices decode model primitive vertices indices posIndex hpos
  have hlenP := length_extractPositions decode model posIndex vertices
  have hlen : i < (extractVertexData decode model primitive vertices indices).2.1.length := by
    rw [hR]
    simp only [length_extractSkin, length_extractTangents, length_extractColors,
      length_extractTexCoord1, length_extractTexCoord0, length_extractNormals, hlenP]
    exact hi
  refine ⟨_, List.getElem?_eq_getElem hlen, ?_, ?_, ?_, ?_, ?_⟩
  · have h := getElem?_extractPositions decode model posIndex vertices i hi
    rw [← extractNormals_proj (fun v => v.pos) decode model primitive _ (fun _ _ => rfl),
      ← extractTexCoord0_proj (fun v => v.pos) decode model primitive _ (fun _ _ => rfl),
      ← extractTexCoord1_proj (fun v => v.pos) decode model primitive _ (fun _ _ => rfl),
      ← extractColors_proj (fun v => v.pos) decode model primitive _ (fun _ _ => rfl),
      ← extractTangents_proj (fun v => v.pos) decode model primitive _ (fun _ _ => rfl),
      ← extractSkin_proj (fun v => v.pos) decode model primitive _ (fun _ _ => rfl)
        (fun _ _ => rfl), ← hR, List.getElem?_eq_getElem hlen] at h
    simpa using h
  · intro a ha
    have h : ((extractNormals decode model primitive
        (extractPositions decode model posIndex vertices))[i]?).map (fun v => v.normal) =
        some ⟨readFloat decode (accessorData model a).2 (i * 3 + 0),
          readFloat decode (accessorData model a).2 (i * 3 + 1),
          readFloat decode (accessorData model a).2 (i * 3 + 2)⟩ := by
      unfold extractNormals
      rw [ha]
      simp only []
      rw [getElem?_updateEach, List.getElem?_eq_getElem (by rw [hlenP]; exact hi)]
      simp
    rw [← extractTexCoord0_proj (fun v => v.normal) decode model primitive _ (fun _ _ => rfl),
      ← extractTexCoord1_proj (fun v => v.normal) decode model primitive _ (fun _ _ => rfl),
      ← extractColors_proj (fun v => v.normal) decode model primitive _ (fun _ _ => rfl),
      ← extractTangents_proj (fun v => v.normal) decode model primitive _ (fun _ _ => rfl),
      ← extractSkin_proj (fun v => v.normal) decode model primitive _ (fun _ _ => rfl)
        (fun _ _ => rfl), ← hR, List.getElem?_eq_getElem hlen] at h
    simpa using h
  · intro a ha
    have h : ((extractTexCoord0 decode model primitive (extractNormals decode model primitive
        (extractPositions decode model posIndex vertices)))[i]?).map (fun v => v.texCoord0) =
        some ⟨readFloat decode (accessorData model a).2 (i * 2 + 0),
          readFloat decode (accessorData model a).2 (i * 2 + 1)⟩ := by
      unfold extractTexCoord0
      rw [ha]
      simp only []
      rw [getElem?_updateEach, List.getElem?_eq_getElem
        (by rw [length_extractNormals, hlenP]; exact hi)]
      simp
    rw [← extractTexCoord1_proj (fun v => v.texCoord0) decode model primitive _
        (fun _ _ => rfl),
      ← extractColors_proj (fun v => v.texCoord0) decode model primitive _ (fun _ _ => rfl),
      ← extractTangents_proj (fun v => v.texCoord0) decode model primitive _ (fun _ _ => rfl),
      ← extractSkin_proj (fun v => v.texCoord0) decode model primitive _ (fun _ _ => rfl)
        (fun _ _ => rfl), ← hR, List.getElem?_eq_getElem hlen] at h
    simpa using h
  · intro a ha
    have h : ((extractTexCoord1 decode model primitive (extractTexCoord0 decode model primitive
        (extractNormals decode model primitive
          (extractPositions decode model posIndex vertices))))[i]?).map
            (fun v => v.texCoord1) =
        some ⟨readFloat decode (accessorData model a).2 (i * 2 + 0),
          readFloat decode (accessorData model a).2 (i * 2 + 1)⟩ := by
      unfold extractTexCoord1
      rw [ha]
      simp only []
      rw [getElem?_updateEach, List.getElem?_eq_getElem
        (by rw [length_extractTexCoord0, length_extractNormals, hlenP]; exact hi)]
      simp
    rw [← extractColors_proj (fun v => v.texCoord1) decode model primitive _ (fun _ _ => rfl),
      ← extractTangents_proj (fun v => v.texCoord1) decode model primitive _ (fun _ _ => rfl),
      ← extractSkin_proj (fun v => v.texCoord1) decode model primitive _ (fun _ _ => rfl)
        (fun _ _ => rfl), ← hR, List.getElem?_eq_getElem hlen] at h
    simpa using h
  · intro a ha
    have h : ((extractTangents decode model primitive (extractColors decode model primitive
        (extractTexCoord1 decode model primitive (extractTexCoord0 decode model primitive
          (extractNormals decode model primitive
            (extractPositions decode model posIndex vertices))))))[i]?).map
              (fun v => v.tangent) =
        some ⟨readFloat decode (accessorData model a).2 (i * 4 + 0),
          readFloat decode (accessorData model a).2 (i * 4 + 1),
          readFloat decode (accessorData model a).2 (i * 4 + 2),
          readFloat decode (accessorData model a).2 (i * 4 + 3)⟩ := by
      unfold extractTangents
      rw [ha]
      simp only []
      rw [getElem?_updateEach, List.getElem?_eq_getElem
        (by rw [length_extractColors, length_extractTexCoord1, length_extractTexCoord0,
          length_extractNormals, hlenP]; exact hi)]
      simp
    rw [← extractSkin_proj (fun v => v.tangent) decode model primitive _ (fun _ _ => rfl)
        (fun _ _ => rfl), ← hR, List.getElem?_eq_getElem hlen] at h
    simpa using h

end packedThms

/-- C29 (counterexample): positions and normals interleaved in one buffer view of stride
24. `extractVertexData` returns normally and gives vertex 1 the position (4, 5, 6), which
is the normal of vertex 0, and the normal (7, 8, 9), which is the position of vertex 1:
it reads element `i` at `i * 12` and never looks at `byteStride`. The element 1 glTF
means, at `1 * 24`, is (7, 8, 9) for the position and (10, 11, 12) for the normal. -/
theorem extractVertexData_ignores_stride :
    accessorStride interleavedDoc 0 = 24 ∧
    ((extractVertexData sumDecode interleavedDoc positionNormal [] []).2.1.map
        fun v => (v.pos, v.normal)) =
      [(⟨1, 2, 3⟩, ⟨4, 5, 6⟩), (⟨4, 5, 6⟩, ⟨7, 8, 9⟩)] ∧
    (strideElementFloat sumDecode interleavedDoc 0 12 1 0,
      strideElementFloat sumDecode interleavedDoc 0 12 1 1,
      strideElementFloat sumDecode interleavedDoc 0 12 1 2) = (7, 8, 9) ∧
    (strideElementFloat sumDecode interleavedDoc 1 12 1 0,
      strideElementFloat sumDecode interleavedDoc 1 12 1 1,
      strideElementFloat sumDecode interleavedDoc 1 12 1 2) = (10, 11, 12) := by
  refine ⟨?_, ?_, ?_, ?_⟩ <;> decide

section packedClaim
variable {α : Type} [CommRing α]

/-- C29 (amended): for a primitive with a POSITION attribute and every `i` below the count
of the POSITION accessor, `extractVertexData` leaves a vertex `i` whose position is the
three floats at float index `3 i` from the start of the accessor's data (byte
`bufferView.byteOffset + accessor.byteOffset + 12 i`), and likewise the normal (three
floats at `3 i`), both texture coordinates (two floats at `2 i`) and the tangent (four
floats at `4 i`) of the accessors the primitive names, whatever the `byteStride` of the
buffer view is. This is element `i` as glTF locates it when the buffer view's
`byteStride` is 0 or the size of the packed element. -/
theorem extractVertexData_packed (decode : List Nat → α) (model : tinygltf.Model α)
    (primitive : tinygltf.Primitive) (vertices : List (GltfVertex α)) (indices : List Nat)
    (posIndex : Int) (hpos : primitive.attributes.lookup "POSITION" = some posIndex)
    (i : Nat) (hi : i < (accessorData model posIndex).1.count) :
    (∃ v, (extractVertexData decode model primitive vertices indices).2.1[i]? = some v ∧
      v.pos = ⟨readFloat decode (accessorData model posIndex).2 (i * 3 + 0),
        readFloat decode (accessorData model posIndex).2 (i * 3 + 1),
        readFloat decode (accessorData model posIndex).2 (i * 3 + 2)⟩ ∧
      (∀ a, primitive.attributes.lookup "NORMAL" = some a →
        v.normal = ⟨readFloat decode (accessorData model a).2 (i * 3 + 0),
          readFloat decode (accessorData model a).2 (i * 3 + 1),
          readFloat decode (accessorData model a).2 (i * 3 + 2)⟩) ∧
      (∀ a, primitive.attributes.lookup "TEXCOORD_0" = some a →
        v.texCoord0 = ⟨readFloat decode (accessorData model a).2 (i * 2 + 0),
          readFloat decode (accessorData model a).2 (i * 2 + 1)⟩) ∧
      (∀ a, primitive.attributes.lookup "TEXCOORD_1" = some a →
        v.texCoord1 = ⟨readFloat decode (accessorData model a).2 (i * 2 + 0),
          readFloat decode (accessorData model a).2 (i * 2 + 1)⟩) ∧
      (∀ a, primitive.attributes.lookup "TANGENT" = some a →
        v.tangent = ⟨readFloat decode (accessorData model a).2 (i * 4 + 0),
          readFloat decode (accessorData model a).2 (i * 4 + 1),
          readFloat decode (accessorData model a).2 (i * 4 + 2),
          readFloat decode (accessorData model a).2 (i * 4 + 3)⟩)) ∧
    (∀ (a : Int) (n k : Nat),
      accessorStride model a = 0 ∨ accessorStride model a = 4 * n →
      strideElementFloat decode model a (4 * n) i k =
        readFloat decode (accessorData model a).2 (i * n + k)) :=
  ⟨extractVertexData_channels decode model primitive vertices indices posIndex hpos i hi,
   fun a n k h => strideElementFloat_packed decode model a n i k h⟩

end packedClaim

/-- Vertex 1 of the triangle of `indexedDoc`. -/
theorem extractVertexData_packed_witness :
    positionOnly.attributes.lookup "POSITION" = some 0 ∧
    1 < (accessorData indexedDoc 0).1.count ∧
    ∃ v, (extractVertexData sumDecode indexedDoc positionOnly [] []).2.1[1]? = some v ∧
      v.pos = ⟨readFloat sumDecode (accessorData indexedDoc 0).2 (1 * 3 + 0),
        readFloat sumDecode (accessorData indexedDoc 0).2 (1 * 3 + 1),
        readFloat sumDecode (accessorData indexedDoc 0).2 (1 * 3 + 2)⟩ :=
  ⟨rfl, by decide,
   (extractVertexData_packed sumDecode indexedDoc positionOnly [] [] 0 rfl 1
      (by decide)).1.imp fun _ h => ⟨h.1, h.2.1⟩⟩

section colorThms
variable {α : Type} [CommRing α]

theorem extractPositions_proj {γ : Type} (proj : GltfVertex α → γ) (decode : List Nat → α)
    (model : tinygltf.Model α) (posIndex : Int) (l : List (GltfVertex α))
    (hP : ∀ v n, proj { v with pos := n } = proj v) (k : Nat) :
    ((extractPositions decode model posIndex l)[k]?).map proj =
      ((resizeList l (accessorData model posIndex).1.count GltfVertex.zero)[k]?).map proj := by
  unfold extractPositions
  exact map_getElem?_updateEach proj _ (fun _ v => hP v _) 0 _ k

/-- The colour of vertex `i` after `extractVertexData` for a primitive with a COLOR_0
attribute: the accessor's floats when its components are floats and its type is VEC4 or
VEC3, otherwise the colour the vertex vector held for that index after the `resize`. -/
theorem extractVertexData_color (decode : List Nat → α) (model : tinygltf.Model α)
    (primitive : tinygltf.Primitive) (vertices : List (GltfVertex α)) (indices : List Nat)
    (posIndex : Int) (hpos : primitive.attributes.lookup "POSITION" = some posIndex)
    (c : Int) (hc : primitive.attributes.lookup "COLOR_0" = some c)
    (i : Nat) (hi : i < (accessorData model posIndex).1.count) :
    ∃ v, (extractVertexData decode model primitive vertices indices).2.1[i]? = some v ∧
      ((accessorData model c).1.type = tinygltf.TINYGLTF_TYPE_VEC4 →
        (accessorData model c).1.componentType = tinygltf.TINYGLTF_COMPONENT_TYPE_FLOAT →
        v.color = ⟨readFloat decode (accessorData model c).2 (i * 4 + 0),
          readFloat decode (accessorData model c).2 (i * 4 + 1),
          readFloat decode (accessorData model c).2 (i * 4 + 2),
          readFloat decode (accessorData model c).2 (i * 4 + 3)⟩) ∧
      ((accessorData model c).1.type = tinygltf.TINYGLTF_TYPE_VEC3 →
        (accessorData model c).1.componentType = tinygltf.TINYGLTF_COMPONENT_TYPE_FLOAT →
        v.color = ⟨readFloat decode (accessorData model c).2 (i * 3 + 0),
          readFloat decode (accessorData model c).2 (i * 3 + 1),
          readFloat decode (accessorData model c).2 (i * 3 + 2), 1⟩) ∧
      ((accessorData model c).1.componentType ≠ tinygltf.TINYGLTF_COMPONENT_TYPE_FLOAT ∨
          ((accessorData model c).1.type ≠ tinygltf.TINYGLTF_TYPE_VEC4 ∧
            (accessorData model c).1.type ≠ tinygltf.TINYGLTF_TYPE_VEC3) →
        v.color = ((resizeList vertices (accessorData model posIndex).1.count
          GltfVertex.zero).getD i GltfVertex.zero).color) := by
  have hR := extractVertexData_vertices decode model primitive vertices indices posIndex hpos
  have hlenP := length_extractPositions decode model posIndex vertices
  have hlenX : i < (extractTexCoord1 decode model primitive
      (extractTexCoord0 decode model primitive (extractNormals decode model primitive
        (extractPositions decode model posIndex vertices)))).length := by
    rw [length_extractTexCoord1, length_extractTexCoord0, length_extractNormals, hlenP]
    exact hi
  have hlen : i < (extractVertexData decode model primitive vertices indices).2.1.length := by
    rw [hR]
    simp only [length_extractSkin, length_extractTangents, length_extractColors,
      length_extractTexCoord1, length_extractTexCoord0, length_extractNormals, hlenP]
    exact hi
  have hkeep : ∀ x : Vec4 α,
      ((extractColors decode model primitive (extractTexCoord1 decode model primitive
        (extractTexCoord0 decode model primitive (extractNormals decode model primitive
          (extractPositions decode model posIndex vertices)))))[i]?).map (fun v => v.color) =
        some x →
      ((extractVertexData decode model primitive vertices indices).2.1[i]).color = x := by
    intro x h
    rw [← extractTangents_proj (fun v => v.color) decode model primitive _ (fun _ _ => rfl),
      ← extractSkin_proj (fun v => v.color) decode model primitive _ (fun _ _ => rfl)
        (fun _ _ => rfl), ← hR, List.getElem?_eq_getElem hlen] at h
    simpa using h
  refine ⟨_, List.getElem?_eq_getElem hlen, fun h4 hf => ?_, fun h3 hf => ?_, fun hn => ?_⟩
  · apply hkeep
    unfold extractColors
    rw [hc]
    simp only []
    rw [if_pos h4, if_pos hf, getElem?_updateEach, List.getElem?_eq_getElem hlenX]
    simp
  · apply hkeep
    have h34 : (accessorData model c).1.type ≠ tinygltf.TINYGLTF_TYPE_VEC4 := by
      rw [h3]; decide
    unfold extractColors
    rw [hc]
    simp only []
    rw [if_neg h34, if_pos h3, if_pos hf, getElem?_updateEach, List.getElem?_eq_getElem hlenX]
    simp
  · apply hkeep
    have hsame : extractColors decode model primitive (extractTexCoord1 decode model primitive
        (extractTexCoord0 decode model primitive (extractNormals decode model primitive
          (extractPositions decode model posIndex vertices)))) =
        extractTexCoord1 decode model primitive
          (extractTexCoord0 decode model primitive (extractNormals decode model primitive
            (extractPositions decode model posIndex vertices))) := by
      unfold extractColors
      rw [hc]
      simp only []
      rcases hn with hn | ⟨hn4, hn3⟩
      · rw [if_neg hn, if_neg hn]
        simp only [ite_self]
      · rw [if_neg hn4, if_neg hn3]
    rw [hsame, extractTexCoord1_proj (fun v => v.color) decode model primitive _
        (fun _ _ => rfl),
      extractTexCoord0_proj (fun v => v.color) decode model primitive _ (fun _ _ => rfl),
      extractNormals_proj (fun v => v.color) decode model primitive _ (fun _ _ => rfl)]
    rw [extractPositions_proj (fun v => v.color) decode model posIndex _ (fun _ _ => rfl)]
    have hl : i < (resizeList vertices (accessorData model posIndex).1.count
        (GltfVertex.zero : GltfVertex α)).length := by
      rw [length_resizeList]; exact hi
    rw [List.getElem?_eq_getElem hl, List.getD_eq_getElem _ _ hl]
    rfl

end colorThms

/-- C30: for a primitive whose COLOR_0 accessor has float components, `extractVertexData`
gives vertex `i` the accessor's `i`-th colour (alpha 1 for VEC3). For every other
component encoding (normalized unsigned 8-bit or 16-bit) it assigns no colour at all:
the vertex keeps what the vector held after the `resize`. `loadMeshes` passes an empty
vector, so with colours stored as normalized bytes (opaque red, 255 0 0 255) both
vertices end with the colour (0, 0, 0, 0), which is neither the document's (1, 0, 0, 1)
nor the default (1, 1, 1, 1). -/
theorem extractVertexData_color_encodings :
    (∀ (decode : List Nat → Int) (model : tinygltf.Model Int)
      (primitive : tinygltf.Primitive) (vertices : List (GltfVertex Int))
      (indices : List Nat) (posIndex c : Int) (i : Nat),
      primitive.attributes.lookup "POSITION" = some posIndex →
      primitive.attributes.lookup "COLOR_0" = some c →
      i < (accessorData model posIndex).1.count →
      ∃ v, (extractVertexData decode model primitive vertices indices).2.1[i]? = some v ∧
        ((accessorData model c).1.type = tinygltf.TINYGLTF_TYPE_VEC4 →
          (accessorData model c).1.componentType = tinygltf.TINYGLTF_COMPONENT_TYPE_FLOAT →
          v.color = ⟨readFloat decode (accessorData model c).2 (i * 4 + 0),
            readFloat decode (accessorData model c).2 (i * 4 + 1),
            readFloat decode (accessorData model c).2 (i * 4 + 2),
            readFloat decode (accessorData model c).2 (i * 4 + 3)⟩) ∧
        ((accessorData model c).1.type = tinygltf.TINYGLTF_TYPE_VEC3 →
          (accessorData model c).1.componentType = tinygltf.TINYGLTF_COMPONENT_TYPE_FLOAT →
          v.color = ⟨readFloat decode (accessorData model c).2 (i * 3 + 0),
            readFloat decode (accessorData model c).2 (i * 3 + 1),
            readFloat decode (accessorData model c).2 (i * 3 + 2), 1⟩) ∧
        ((accessorData model c).1.componentType ≠ tinygltf.TINYGLTF_COMPONENT_TYPE_FLOAT →
          v.color = ((resizeList vertices (accessorData model posIndex).1.count
            GltfVertex.zero).getD i GltfVertex.zero).color)) ∧
    (accessorData byteColorDoc 1).1.componentType =
      tinygltf.TINYGLTF_COMPONENT_TYPE_UNSIGNED_BYTE ∧
    (accessorData byteColorDoc 1).2 = [255, 0, 0, 255, 255, 0, 0, 255] ∧
    ((extractVertexData sumDecode byteColorDoc positionColor [] []).2.1.map
      fun v => v.color) = [⟨0, 0, 0, 0⟩, ⟨0, 0, 0, 0⟩] := by
  refine ⟨?_, by decide, by decide, by decide⟩
  intro decode model primitive vertices indices posIndex c i hpos hc hi
  obtain ⟨v, hv, h4, h3, hn⟩ :=
    extractVertexData_color decode model primitive vertices indices posIndex hpos c hc i hi
  exact ⟨v, hv, h4, h3, fun h => hn (Or.inl h)⟩

section presentLemmas
variable {α : Type}

end presentLemmas

section presentGuard
variable {α : Type} [CommRing α]

end presentGuard

end Kascade
